import Mathlib

/-!
# LsiLogic LSI53c1030 SCSI controller emulation

A shallow embedding of `src/VBox/Devices/Storage/DevLsiLogicSCSI.cpp` and a
verification development over it.

Conventions of the embedding.

* Machine integers are natural numbers; a truncation is written where the C code
  can leave the range of its type (`u32`, `% 256`, ...).
* Arrays that live behind a pointer (the three rings, the doorbell message
  buffer, guest physical memory) are total functions from an index to a value.
  An access outside the allocated range is therefore not a crash in the model;
  statements that depend on staying in range carry that as a hypothesis.
* `x % n` with `n = 0` is `x` here, whereas the C code divides by zero.
* `Assert*` macros are no-ops (release build semantics).
* Critical sections are not modelled: every function is one atomic step.
* The ring-3 build (`IN_RING3`) is the one that is embedded.
* The header `DevLsiLogicSCSI.h` is not part of the sources at hand.  The
  message and page structures it declares are modelled as records holding the
  fields the code names; constants, `sizeof` values and the byte layouts it
  fixes are collected in the parameter record `MptDefs`.
-/

namespace LsiLogic

/-! ## Machine integers -/

/-- Truncation to `uint32_t`. -/
def u32 (n : Nat) : Nat := n % 4294967296

/-- Bitwise complement of a `uint32_t`. -/
def not32 (n : Nat) : Nat := 0xFFFFFFFF ^^^ u32 n

/-- The macro `RT_BIT(n)`. -/
def RT_BIT (n : Nat) : Nat := 1 <<< n

/-- Store into an array behind a pointer: `p[i] = v`. -/
def writeSlot (p : Nat → Nat) (i v : Nat) : Nat → Nat :=
  fun j => if j = i then v else p j

/-! ## Constants defined in DevLsiLogicSCSI.cpp -/

/-- IOC status code `LSILOGIC_IOCSTATUS_INVALID_FUNCTION`. -/
def LSILOGIC_IOCSTATUS_INVALID_FUNCTION : Nat := 0x0001

/-- IOC status code `LSILOGIC_IOCSTATUS_INSUFFICIENT_RESOURCES`. -/
def LSILOGIC_IOCSTATUS_INSUFFICIENT_RESOURCES : Nat := 0x0006

def LSILOGIC_REG_DOORBELL : Nat := 0x00
def LSILOGIC_REG_WRITE_SEQUENCE : Nat := 0x04
def LSILOGIC_REG_HOST_DIAGNOSTIC : Nat := 0x08
def LSILOGIC_REG_HOST_DIAGNOSTIC_RESET_ADAPTER : Nat := RT_BIT 2
def LSILOGIC_REG_HOST_DIAGNOSTIC_DRWE : Nat := RT_BIT 7
def LSILOGIC_REG_TEST_BASE_ADDRESS : Nat := 0x0c
def LSILOGIC_REG_DIAG_RW_DATA : Nat := 0x10
def LSILOGIC_REG_DIAG_RW_ADDRESS : Nat := 0x14
def LSILOGIC_REG_HOST_INTR_STATUS : Nat := 0x30
def LSILOGIC_REG_HOST_INTR_STATUS_W_MASK : Nat := RT_BIT 3
def LSILOGIC_REG_HOST_INTR_STATUS_DOORBELL_STS : Nat := RT_BIT 31
def LSILOGIC_REG_HOST_INTR_STATUS_REPLY_INTR : Nat := RT_BIT 3
def LSILOGIC_REG_HOST_INTR_STATUS_SYSTEM_DOORBELL : Nat := RT_BIT 0
def LSILOGIC_REG_HOST_INTR_MASK : Nat := 0x34
def LSILOGIC_REG_HOST_INTR_MASK_W_MASK : Nat := RT_BIT 0 ||| RT_BIT 3 ||| RT_BIT 8 ||| RT_BIT 9
def LSILOGIC_REG_HOST_INTR_MASK_IRQ_ROUTING : Nat := RT_BIT 8 ||| RT_BIT 9
def LSILOGIC_REG_HOST_INTR_MASK_DOORBELL : Nat := RT_BIT 0
def LSILOGIC_REG_HOST_INTR_MASK_REPLY : Nat := RT_BIT 3
def LSILOGIC_REG_REQUEST_QUEUE : Nat := 0x40
def LSILOGIC_REG_REPLY_QUEUE : Nat := 0x44

def LSILOGIC_DOORBELL_FUNCTION_IOC_MSG_UNIT_RESET : Nat := 0x40
def LSILOGIC_DOORBELL_FUNCTION_IO_UNIT_RESET : Nat := 0x41
def LSILOGIC_DOORBELL_FUNCTION_HANDSHAKE : Nat := 0x42
def LSILOGIC_DOORBELL_FUNCTION_REPLY_FRAME_REMOVAL : Nat := 0x43

/-- Key sequence `g_lsilogicDiagnosticAccess`. -/
def g_lsilogicDiagnosticAccess : List Nat := [0x04, 0x0b, 0x02, 0x07, 0x0d]

/-- The enum `LSILOGICSTATE`. -/
inductive LSILOGICSTATE where
  | RESET
  | READY
  | OPERATIONAL
  | FAULT
  deriving DecidableEq

/-- Numeric value of an `LSILOGICSTATE` enumerator. -/
def LSILOGICSTATE.toNat : LSILOGICSTATE → Nat
  | .RESET => 0x00
  | .READY => 0x01
  | .OPERATIONAL => 0x02
  | .FAULT => 0x04

/-- `LSILOGIC_REG_DOORBELL_SET_STATE(enmState)`. -/
def LSILOGIC_REG_DOORBELL_SET_STATE (enmState : LSILOGICSTATE) : Nat :=
  u32 ((enmState.toNat &&& 0x0f) <<< 28)

/-- `LSILOGIC_REG_DOORBELL_SET_USED(fUsed)`. -/
def LSILOGIC_REG_DOORBELL_SET_USED (fUsed : Bool) : Nat :=
  (if fUsed then 1 else 0) <<< 27

/-- `LSILOGIC_REG_DOORBELL_SET_WHOINIT(enmWhoInit)`. -/
def LSILOGIC_REG_DOORBELL_SET_WHOINIT (enmWhoInit : Nat) : Nat :=
  (enmWhoInit &&& 0x07) <<< 24

/-- `LSILOGIC_REG_DOORBELL_GET_FUNCTION(x)`. -/
def LSILOGIC_REG_DOORBELL_GET_FUNCTION (x : Nat) : Nat :=
  (x &&& 0xff000000) >>> 24

/-- `LSILOGIC_REG_DOORBELL_GET_SIZE(x)`. -/
def LSILOGIC_REG_DOORBELL_GET_SIZE (x : Nat) : Nat :=
  (x &&& 0x00ff0000) >>> 16

/-- `LSILOGIC_RTGCPHYS_FROM_U32(Hi, Lo)`, that is `RT_MAKE_U64(Lo, Hi)`. -/
def LSILOGIC_RTGCPHYS_FROM_U32 (Hi Lo : Nat) : Nat :=
  u32 Hi * 4294967296 + u32 Lo

/-! ## Guest physical memory -/

/-- Guest physical memory: one byte per address. -/
abbrev GuestMem := Nat → Nat

/-- The helper `PDMDevHlpPhysRead`: the `cb` bytes at `GCPhys`. -/
def physRead (mem : GuestMem) (GCPhys cb : Nat) : List Nat :=
  (List.range cb).map (fun i => mem (GCPhys + i))

/-- The helper `PDMDevHlpPhysWrite`: store the first `cb` bytes of `buf` at `GCPhys`. -/
def physWrite (mem : GuestMem) (GCPhys : Nat) (buf : Nat → Nat) (cb : Nat) : GuestMem :=
  fun a => if GCPhys ≤ a ∧ a < GCPhys + cb then buf (a - GCPhys) else mem a

/-! ## Message structures (declared in DevLsiLogicSCSI.h) -/

/-- The union `MptReplyUnion`, as the fields the code stores.  Every view starts
with the common reply header, so `u8MessageLength`, `u8Function` and
`u32MessageContext` of a view are the `Header` fields. -/
structure MptReplyUnion where
  u8MessageLength : Nat
  u8Function : Nat
  u32MessageContext : Nat
  SCSITaskManagement_u8TaskType : Nat
  SCSITaskManagement_u32TerminationCount : Nat
  IOCInit_u8WhoInit : Nat
  IOCInit_u8MaxDevices : Nat
  IOCInit_u8MaxBuses : Nat
  IOCFacts_u16MessageVersion : Nat
  IOCFacts_u8IOCNumber : Nat
  IOCFacts_u16IOCExceptions : Nat
  IOCFacts_u8MaxChainDepth : Nat
  IOCFacts_u8WhoInit : Nat
  IOCFacts_u8BlockSize : Nat
  IOCFacts_u8Flags : Nat
  IOCFacts_u16ReplyQueueDepth : Nat
  IOCFacts_u16RequestFrameSize : Nat
  IOCFacts_u16ProductID : Nat
  IOCFacts_u32CurrentHostMFAHighAddr : Nat
  IOCFacts_u16GlobalCredits : Nat
  IOCFacts_u8NumberOfPorts : Nat
  IOCFacts_u8EventState : Nat
  IOCFacts_u32CurrentSenseBufferHighAddr : Nat
  IOCFacts_u16CurReplyFrameSize : Nat
  IOCFacts_u8MaxDevices : Nat
  IOCFacts_u8MaxBuses : Nat
  IOCFacts_u32FwImageSize : Nat
  IOCFacts_u32FWVersion : Nat
  PortFacts_u8PortNumber : Nat
  PortFacts_u8PortType : Nat
  PortFacts_u16MaxDevices : Nat
  PortFacts_u16ProtocolFlags : Nat
  PortFacts_u16PortSCSIID : Nat
  PortFacts_u16MaxPersistentIDs : Nat
  PortFacts_u16MaxPostedCmdBuffers : Nat
  PortFacts_u16MaxLANBuckets : Nat
  PortEnable_u8PortNumber : Nat
  EventNotification_u16EventDataLength : Nat
  EventNotification_u8MessageFlags : Nat
  EventNotification_u8AckRequired : Nat
  EventNotification_u32Event : Nat
  EventNotification_u32EventContext : Nat
  EventNotification_u32EventData : Nat
  Configuration_u8Action : Nat
  Configuration_u8PageType : Nat
  Configuration_u8PageNumber : Nat
  Configuration_u8PageLength : Nat
  Configuration_u8PageVersion : Nat
  SCSIIOError_u8TargetID : Nat
  SCSIIOError_u8Bus : Nat
  SCSIIOError_u8CDBLength : Nat
  SCSIIOError_u8SenseBufferLength : Nat
  SCSIIOError_u8MessageFlags : Nat
  SCSIIOError_u8SCSIStatus : Nat
  SCSIIOError_u8SCSIState : Nat
  SCSIIOError_u16IOCStatus : Nat
  SCSIIOError_u32IOCLogInfo : Nat
  SCSIIOError_u32TransferCount : Nat
  SCSIIOError_u32SenseCount : Nat
  SCSIIOError_u32ResponseInfo : Nat

/-- The result of `memset(pReply, 0, sizeof(MptReplyUnion))`. -/
def MptReplyUnion.zero : MptReplyUnion :=
  ⟨0, 0, 0, 0, 0, 0, 0, 0, 0, 0, 0, 0, 0, 0, 0, 0, 0, 0, 0, 0,
   0, 0, 0, 0, 0, 0, 0, 0, 0, 0, 0, 0, 0, 0, 0, 0, 0, 0, 0, 0,
   0, 0, 0, 0, 0, 0, 0, 0, 0, 0, 0, 0, 0, 0, 0, 0, 0, 0, 0, 0⟩

/-- The simple scatter/gather element `MptSGEntryUnion` through its `Simple32`
view, together with `Simple64.u32DataBufferAddressHigh`. -/
structure MptSGEntryUnion where
  u24Length : Nat
  fEndOfList : Bool
  f64BitAddress : Bool
  fBufferContainsData : Bool
  fLocalAddress : Bool
  u2ElementType : Nat
  fEndOfBuffer : Bool
  fLastElement : Bool
  u32DataBufferAddressLow : Nat
  u32DataBufferAddressHigh : Nat
  deriving DecidableEq

/-- The chain element `MptSGEntryChain`. -/
structure MptSGEntryChain where
  u16Length : Nat
  u8NextChainOffset : Nat
  f64BitAddress : Bool
  fLocalAddress : Bool
  u2ElementType : Nat
  u32SegmentAddressLow : Nat
  u32SegmentAddressHigh : Nat
  deriving DecidableEq

/-- The union `MptRequestUnion`: every view of one request frame, as the fields
the code reads.  `u8Function` and `u32MessageContext` belong to the common
header `MptMessageHdr` and are shared by all views. -/
structure MptRequestUnion where
  u8Function : Nat
  u32MessageContext : Nat
  SCSITaskManagement_u8TaskType : Nat
  IOCInit_u8WhoInit : Nat
  IOCInit_u16ReplyFrameSize : Nat
  IOCInit_u8MaxBuses : Nat
  IOCInit_u8MaxDevices : Nat
  IOCInit_u32HostMfaHighAddr : Nat
  IOCInit_u32SenseBufferHighAddr : Nat
  PortFacts_u8PortNumber : Nat
  PortEnable_u8PortNumber : Nat
  EventNotification_u8Switch : Nat
  Configuration_u8Action : Nat
  Configuration_u8PageType : Nat
  Configuration_u8PageNumber : Nat
  Configuration_u8PageLength : Nat
  Configuration_u8PageVersion : Nat
  Configuration_u8PortNumber : Nat
  Configuration_u8Bus : Nat
  Configuration_u8TargetID : Nat
  Configuration_SimpleSGElement : MptSGEntryUnion
  SCSIIO_u8TargetID : Nat
  SCSIIO_u8Bus : Nat
  SCSIIO_u8ChainOffset : Nat
  SCSIIO_u8CDBLength : Nat
  SCSIIO_u8SenseBufferLength : Nat
  SCSIIO_u8MessageFlags : Nat
  SCSIIO_au8LUN : List Nat
  SCSIIO_u32Control : Nat
  SCSIIO_au8CDB : List Nat
  SCSIIO_u32DataLength : Nat
  SCSIIO_u32SenseBufferLowAddress : Nat

/-! ## Configuration pages (declared in DevLsiLogicSCSI.h) -/

/-- The members of `MptConfigurationPagesSupportedSpi`. -/
inductive ConfigPage where
  | ManufacturingPage0
  | ManufacturingPage1
  | ManufacturingPage2
  | ManufacturingPage3
  | ManufacturingPage4
  | IOUnitPage0
  | IOUnitPage1
  | IOUnitPage2
  | IOUnitPage3
  | IOCPage0
  | IOCPage1
  | IOCPage2
  | IOCPage3
  | IOCPage4
  | IOCPage6
  | SCSISPIPortPage0 (iPort : Nat)
  | SCSISPIPortPage1 (iPort : Nat)
  | SCSISPIPortPage2 (iPort : Nat)
  | SCSISPIDevicePage0 (uBus uDevice : Nat)
  | SCSISPIDevicePage1 (uBus uDevice : Nat)
  | SCSISPIDevicePage2 (uBus uDevice : Nat)
  | SCSISPIDevicePage3 (uBus uDevice : Nat)
  deriving DecidableEq

/-- The page fields, other than the header, that the code names. -/
inductive PageField where
  | abChipName
  | abChipRevision
  | abBoardName
  | abBoardAssembly
  | abBoardTracerNumber
  | u16PCIDeviceID
  | u8PCIRevisionID
  | u64UniqueIdentifier
  | fSingleFunction
  | fAllPathsMapped
  | fIntegratedRAIDDisabled
  | f32BitAccessForced
  | fPauseOnError
  | fVerboseModeEnabled
  | fDisableColorVideo
  | fNotHookInt40h
  | u32BIOSVersion
  | aAdapterOrder0_fAdapterEnabled
  | aAdapterOrder0_fAdapterEmbedded
  | aAdapterOrder0_u8PCIBusNumber
  | aAdapterOrder0_u8PCIDevFn
  | u8GPIOCount
  | u32TotalNVStore
  | u32FreeNVStore
  | u16VendorId
  | u16DeviceId
  | u8RevisionId
  | u32ClassCode
  | u16SubsystemVendorId
  | u16SubsystemId
  | fReplyCoalescingEnabled
  | u32CoalescingTimeout
  | u8CoalescingDepth
  | fInformationUnitTransfersCapable
  | fDTCapable
  | fQASCapable
  | u8MinimumSynchronousTransferPeriod
  | u8MaximumSynchronousOffset
  | fWide
  | fAIPCapable
  | u2SignalingType
  | u8SCSIID
  | u16PortResponseIDsBitmask
  | u32OnBusTimerValue
  | u4HostSCSIID
  | u2InitializeHBA
  | fTerminationDisabled
  | aDeviceSettings_fBootChoice (iDevice : Nat)
  deriving DecidableEq

/-- The fields of `MptConfigurationPageHeader`. -/
inductive HeaderField where
  | u8PageVersion
  | u8PageLength
  | u8PageNumber
  | u8PageType
  deriving DecidableEq

/-! ## What DevLsiLogicSCSI.h and VBox/scsi.h fix -/

/-- Constants, `sizeof` values, macros and byte layouts that the absent
headers fix.  They are parameters of the embedding. -/
structure MptDefs where
  LSILOGIC_DEVICES_MAX : Nat
  LSILOGICSCSI_MAXIMUM_CHAIN_DEPTH : Nat
  LSILOGIC_NR_OF_ALLOWED_BIGGER_LISTS : Nat
  LSILOGICSCSI_PCI_VENDOR_ID : Nat
  LSILOGICSCSI_PCI_SPI_DEVICE_ID : Nat
  LSILOGICSCSI_PCI_SPI_REVISION_ID : Nat
  LSILOGICSCSI_PCI_SPI_CLASS_CODE : Nat
  LSILOGICSCSI_PCI_SPI_SUBSYSTEM_VENDOR_ID : Nat
  LSILOGICSCSI_PCI_SPI_SUBSYSTEM_ID : Nat
  MPT_MESSAGE_HDR_FUNCTION_SCSI_IO_REQUEST : Nat
  MPT_MESSAGE_HDR_FUNCTION_SCSI_TASK_MGMT : Nat
  MPT_MESSAGE_HDR_FUNCTION_IOC_INIT : Nat
  MPT_MESSAGE_HDR_FUNCTION_IOC_FACTS : Nat
  MPT_MESSAGE_HDR_FUNCTION_CONFIG : Nat
  MPT_MESSAGE_HDR_FUNCTION_PORT_FACTS : Nat
  MPT_MESSAGE_HDR_FUNCTION_PORT_ENABLE : Nat
  MPT_MESSAGE_HDR_FUNCTION_EVENT_NOTIFICATION : Nat
  MPT_MESSAGE_HDR_FUNCTION_EVENT_ACK : Nat
  MPT_MESSAGE_HDR_FUNCTION_FW_DOWNLOAD : Nat
  /-- Case labels of one `switch` are pairwise different. -/
  functionsDistinct :
    [MPT_MESSAGE_HDR_FUNCTION_SCSI_IO_REQUEST, MPT_MESSAGE_HDR_FUNCTION_SCSI_TASK_MGMT,
     MPT_MESSAGE_HDR_FUNCTION_IOC_INIT, MPT_MESSAGE_HDR_FUNCTION_IOC_FACTS,
     MPT_MESSAGE_HDR_FUNCTION_CONFIG, MPT_MESSAGE_HDR_FUNCTION_PORT_FACTS,
     MPT_MESSAGE_HDR_FUNCTION_PORT_ENABLE, MPT_MESSAGE_HDR_FUNCTION_EVENT_NOTIFICATION,
     MPT_MESSAGE_HDR_FUNCTION_EVENT_ACK, MPT_MESSAGE_HDR_FUNCTION_FW_DOWNLOAD].Nodup
  MPT_EVENT_EVENT_CHANGE : Nat
  MPT_SCSI_IO_ERROR_IOCSTATUS_INVALID_BUS : Nat
  MPT_SCSI_IO_ERROR_IOCSTATUS_INVALID_TARGETID : Nat
  MPT_SCSI_IO_ERROR_IOCSTATUS_DEVICE_NOT_THERE : Nat
  MPT_SCSI_IO_ERROR_SCSI_STATE_AUTOSENSE_VALID : Nat
  MPT_SCSI_IO_ERROR_SCSI_STATE_TERMINATED : Nat
  SCSI_STATUS_OK : Nat
  MPT_SCSIIO_REQUEST_CONTROL_TXDIR_GET : Nat → Nat
  MPT_SCSIIO_REQUEST_CONTROL_TXDIR_NONE : Nat
  MPT_SCSIIO_REQUEST_CONTROL_TXDIR_WRITE : Nat
  MPT_SCSIIO_REQUEST_CONTROL_TXDIR_READ : Nat
  MPT_CONFIGURATION_PAGE_TYPE_GET : Nat → Nat
  MPT_CONFIGURATION_PAGE_ATTRIBUTE_GET : Nat → Nat
  MPT_CONFIGURATION_PAGE_TYPE_IO_UNIT : Nat
  MPT_CONFIGURATION_PAGE_TYPE_IOC : Nat
  MPT_CONFIGURATION_PAGE_TYPE_MANUFACTURING : Nat
  MPT_CONFIGURATION_PAGE_TYPE_SCSI_SPI_PORT : Nat
  MPT_CONFIGURATION_PAGE_TYPE_SCSI_SPI_DEVICE : Nat
  MPT_CONFIGURATION_PAGE_ATTRIBUTE_READONLY : Nat
  MPT_CONFIGURATION_PAGE_ATTRIBUTE_CHANGEABLE : Nat
  MPT_CONFIGURATION_PAGE_ATTRIBUTE_PERSISTENT : Nat
  MPT_CONFIGURATION_PAGE_ATTRIBUTE_PERSISTENT_READONLY : Nat
  MPT_CONFIGURATION_REQUEST_ACTION_HEADER : Nat
  MPT_CONFIGURATION_REQUEST_ACTION_READ_CURRENT : Nat
  MPT_CONFIGURATION_REQUEST_ACTION_WRITE_CURRENT : Nat
  MPT_CONFIGURATION_REQUEST_ACTION_DEFAULT : Nat
  MPT_CONFIGURATION_REQUEST_ACTION_WRITE_NVRAM : Nat
  MPT_CONFIGURATION_REQUEST_ACTION_READ_DEFAULT : Nat
  MPT_CONFIGURATION_REQUEST_ACTION_READ_NVRAM : Nat
  sizeof_MptReplyUnion : Nat
  sizeof_MptMessageHdr : Nat
  sizeof_MptSCSIIORequest : Nat
  sizeof_MptSCSITaskManagementRequest : Nat
  sizeof_MptIOCInitRequest : Nat
  sizeof_MptIOCFactsRequest : Nat
  sizeof_MptConfigurationRequest : Nat
  sizeof_MptPortFactsRequest : Nat
  sizeof_MptPortEnableRequest : Nat
  sizeof_MptEventNotificationRequest : Nat
  sizeof_MptSCSIIOErrorReply : Nat
  sizeof_MptSGEntryUnion : Nat
  sizeof_MptSGEntrySimple32 : Nat
  sizeof_MptSGEntrySimple64 : Nat
  sizeof_MptSGEntryChain : Nat
  sizeof_PDMDATASEG : Nat
  sizeof_LSILOGICTASKSTATESGENTRY : Nat
  /-- Number of elements of `aPortPages`. -/
  cPortPages : Nat
  /-- Number of elements of `aBuses`. -/
  cBuses : Nat
  /-- Number of elements of `aBuses[..].aDevicePages`. -/
  cDevicePages : Nat
  /-- Number of elements of `SCSISPIPortPage2.u.fields.aDeviceSettings`. -/
  cDeviceSettings : Nat
  /-- The value of `sizeof` of a page structure. -/
  sizeofPage : ConfigPage → Nat
  /-- Byte offset of a page inside `MptConfigurationPagesSupportedSpi`. -/
  offPage : ConfigPage → Nat
  /-- Byte offset, inside its page, of the page header. -/
  offHeader : ConfigPage → Nat
  /-- Byte offset, inside its page, of the data array handed out for the page
  (`u.abPageData`, for manufacturing page 1 `abVPDInfo`). -/
  offPageData : ConfigPage → Nat
  /-- Byte offset of a field inside `MptConfigurationPageHeader`. -/
  offHeaderField : HeaderField → Nat
  /-- Byte offset, inside its page, of the storage unit of a field. -/
  offField : PageField → Nat
  /-- Bit position of a bit-field inside its storage unit (0 for other fields). -/
  bitField : PageField → Nat
  /-- Decoding of the bytes of a request frame into the views of `MptRequestUnion`. -/
  decodeRequest : (Nat → Nat) → MptRequestUnion
  /-- Decoding of the bytes of a simple scatter/gather element. -/
  decodeSGEntry : List Nat → MptSGEntryUnion
  /-- Decoding of the bytes of a chain element. -/
  decodeSGEntryChain : List Nat → MptSGEntryChain
  /-- The bytes of a reply (the object representation of `MptReplyUnion`). -/
  abReply : MptReplyUnion → Nat → Nat

/-- The view `au16Reply` of `MptReplyUnion`: 16-bit words of the reply bytes
(little-endian host). -/
def au16Reply (D : MptDefs) (r : MptReplyUnion) (i : Nat) : Nat :=
  D.abReply r (2 * i) % 256 + 256 * (D.abReply r (2 * i + 1) % 256)

/-! ## Task state -/

/-- The structure `PDMDATASEG`: one segment of the scatter list handed to the
backend.  `pvSeg` is a pointer into the staging buffer `pvBufferUnaligned`,
kept as the byte offset from its start. -/
structure PDMDATASEG where
  pvSeg : Nat
  cbSeg : Nat
  deriving DecidableEq

/-- The structure `LSILOGICTASKSTATESGENTRY`.  `pvBuf` is a pointer into the
staging buffer, kept as the byte offset from its start; of the union `u` only
`GCPhysAddrBufferUnaligned` is ever stored. -/
structure LSILOGICTASKSTATESGENTRY where
  fGuestMemory : Bool
  fBufferContainsData : Bool
  pvBuf : Nat
  cbBuf : Nat
  GCPhysAddrBufferUnaligned : Nat
  deriving DecidableEq

/-- The enum `PDMSCSIREQUESTTXDIR`. -/
inductive PDMSCSIREQUESTTXDIR where
  | UNKNOWN
  | FROM_DEVICE
  | TO_DEVICE
  | NONE
  deriving DecidableEq

/-- The structure `PDMSCSIREQUEST`, without the members that only point back
into the task state (`pbCDB`, `paScatterGatherHead`, `pbSenseBuffer`, `pvUser`). -/
structure PDMSCSIREQUEST where
  uLogicalUnit : Nat
  uDataDirection : PDMSCSIREQUESTTXDIR
  cbCDB : Nat
  cbScatterGather : Nat
  cScatterGatherEntries : Nat
  cbSenseBuffer : Nat
  deriving DecidableEq

/-- The structure `LSILOGICTASKSTATE`.  `GuestRequest` holds the bytes of the
request frame; `pTargetDevice` is the index of the target in `aDeviceStates`. -/
structure LSILOGICTASKSTATE where
  pTargetDevice : Option Nat
  GuestRequest : Nat → Nat
  IOCReply : MptReplyUnion
  PDMScsiRequest : PDMSCSIREQUEST
  GCPhysMessageFrameAddr : Nat
  cSGListEntries : Nat
  cSGListSize : Nat
  cSGListTooBig : Nat
  /-- Whether `pSGListHead` is NULL. -/
  fSGListHeadNull : Bool
  pSGListHead : Nat → PDMDATASEG
  cSGInfoSize : Nat
  cSGInfoEntries : Nat
  cSGInfoTooBig : Nat
  /-- Whether `paSGEntries` is NULL. -/
  fSGEntriesNull : Bool
  paSGEntries : Nat → LSILOGICTASKSTATESGENTRY
  cbBufferUnaligned : Nat
  /-- Whether `pvBufferUnaligned` is NULL. -/
  fBufferUnalignedNull : Bool
  pvBufferUnaligned : Nat → Nat
  abSenseBuffer : Nat → Nat
  fBIOS : Bool

/-- A task state object as the cache creates it: zeroed memory. -/
def LSILOGICTASKSTATE.zero : LSILOGICTASKSTATE :=
  { pTargetDevice := none
    GuestRequest := fun _ => 0
    IOCReply := MptReplyUnion.zero
    PDMScsiRequest :=
      { uLogicalUnit := 0, uDataDirection := PDMSCSIREQUESTTXDIR.UNKNOWN, cbCDB := 0,
        cbScatterGather := 0, cScatterGatherEntries := 0, cbSenseBuffer := 0 }
    GCPhysMessageFrameAddr := 0
    cSGListEntries := 0
    cSGListSize := 0
    cSGListTooBig := 0
    fSGListHeadNull := true
    pSGListHead := fun _ => { pvSeg := 0, cbSeg := 0 }
    cSGInfoSize := 0
    cSGInfoEntries := 0
    cSGInfoTooBig := 0
    fSGEntriesNull := true
    paSGEntries := fun _ =>
      { fGuestMemory := false, fBufferContainsData := false, pvBuf := 0, cbBuf := 0,
        GCPhysAddrBufferUnaligned := 0 }
    cbBufferUnaligned := 0
    fBufferUnalignedNull := true
    pvBufferUnaligned := fun _ => 0
    abSenseBuffer := fun _ => 0
    fBIOS := false }

/-! ## Device state -/

/-- The part of `LSILOGICDEVICE` the controller logic consults. -/
structure LSILOGICDEVICE where
  /-- Whether `pDrvBase` is non-NULL (a driver is attached). -/
  pDrvBase : Bool
  cOutstandingRequests : Nat
  deriving DecidableEq

/-- The structure `LSILOGICSCSI`, followed by the pieces of the environment the
device acts on (interrupt line, notification queue, guest memory). -/
structure LSILOGICSCSI where
  /-- The field `PciDev.devfn`. -/
  PciDev_devfn : Nat
  enmState : LSILOGICSTATE
  enmWhoInit : Nat
  fDoorbellInProgress : Bool
  fDiagnosticEnabled : Bool
  fNotificationSend : Bool
  fEventNotificationEnabled : Bool
  aDeviceStates : Nat → LSILOGICDEVICE
  uInterruptMask : Nat
  uInterruptStatus : Nat
  aMessage : Nat → Nat
  iMessage : Nat
  cMessage : Nat
  ReplyBuffer : MptReplyUnion
  uNextReplyEntryRead : Nat
  cReplySize : Nat
  u16IOCFaultCode : Nat
  u32HostMFAHighAddr : Nat
  u32SenseBufferHighAddr : Nat
  cMaxDevices : Nat
  cMaxBuses : Nat
  cbReplyFrame : Nat
  iDiagnosticAccess : Nat
  cReplyQueueEntries : Nat
  cRequestQueueEntries : Nat
  pReplyFreeQueueBase : Nat → Nat
  pReplyPostQueueBase : Nat → Nat
  pRequestQueueBase : Nat → Nat
  uReplyFreeQueueNextEntryFreeWrite : Nat
  uReplyFreeQueueNextAddressRead : Nat
  uReplyPostQueueNextEntryFreeWrite : Nat
  uReplyPostQueueNextAddressRead : Nat
  uRequestQueueNextEntryFreeWrite : Nat
  uRequestQueueNextAddressRead : Nat
  /-- The bytes of `ConfigurationPages.SpiPages`. -/
  ConfigurationPages : Nat → Nat
  /-- Environment: level last passed to `PDMDevHlpPCISetIrq`. -/
  fIrqLevel : Bool
  /-- Environment: number of items inserted into the notification queue. -/
  cNotificationItems : Nat
  /-- Environment: guest physical memory. -/
  mem : GuestMem
  /-- The free objects of the task cache `pTaskCache`. -/
  pTaskCache : List LSILOGICTASKSTATE
  /-- Environment: the requests handed to `pfnSCSIRequestSend`, newest first,
  each with the index of its target device. -/
  aSubmitted : List (Nat × LSILOGICTASKSTATE)

/-- Updates the status of the interrupt pin of the device. -/
def lsilogicUpdateInterrupt (pThis : LSILOGICSCSI) : LSILOGICSCSI :=
  let uIntSts := pThis.uInterruptStatus &&& not32 LSILOGIC_REG_HOST_INTR_STATUS_DOORBELL_STS
  let uIntSts := uIntSts &&& not32 (pThis.uInterruptMask &&& not32 LSILOGIC_REG_HOST_INTR_MASK_IRQ_ROUTING)
  /- The level handed to `PDMDevHlpPCISetIrq`. -/
  { pThis with fIrqLevel := if uIntSts ≠ 0 then true else false }

/-- Sets a given interrupt status bit and updates the interrupt line. -/
def lsilogicSetInterrupt (pLsiLogic : LSILOGICSCSI) (uStatus : Nat) : LSILOGICSCSI :=
  lsilogicUpdateInterrupt
    { pLsiLogic with uInterruptStatus := pLsiLogic.uInterruptStatus ||| uStatus }

/-- Clears a given interrupt status bit and updates the interrupt line. -/
def lsilogicClearInterrupt (pLsiLogic : LSILOGICSCSI) (uStatus : Nat) : LSILOGICSCSI :=
  lsilogicUpdateInterrupt
    { pLsiLogic with uInterruptStatus := pLsiLogic.uInterruptStatus &&& not32 uStatus }

/-- Sets the I/O controller into fault state and sets the fault code. -/
def lsilogicSetIOCFaultCode (pLsiLogic : LSILOGICSCSI) (uIOCFaultCode : Nat) : LSILOGICSCSI :=
  if pLsiLogic.enmState ≠ LSILOGICSTATE.FAULT then
    { pLsiLogic with enmState := LSILOGICSTATE.FAULT, u16IOCFaultCode := uIOCFaultCode }
  else
    pLsiLogic

/-- Finishes a context reply.  The queue check of the source sits in an
`#if 0` block and is not compiled. -/
def lsilogicFinishContextReply (pLsiLogic : LSILOGICSCSI) (u32MessageContext : Nat) :
    LSILOGICSCSI :=
  /- We have a context reply. -/
  let s := { pLsiLogic with
    pReplyPostQueueBase :=
      writeSlot pLsiLogic.pReplyPostQueueBase pLsiLogic.uReplyPostQueueNextEntryFreeWrite
        u32MessageContext }
  let s := { s with
    uReplyPostQueueNextEntryFreeWrite := u32 (s.uReplyPostQueueNextEntryFreeWrite + 1) }
  let s := { s with
    uReplyPostQueueNextEntryFreeWrite :=
      s.uReplyPostQueueNextEntryFreeWrite % s.cReplyQueueEntries }
  /- Set interrupt. -/
  lsilogicSetInterrupt s LSILOGIC_REG_HOST_INTR_STATUS_REPLY_INTR

/-! ## Configuration pages -/

/-- Store of the `width` low bits of `value` at bit position `start` of a byte
array; bit `8 * a + k` of the array is bit `k` of byte `a`.  This is an
assignment to an integer field (little-endian) or to a bit-field. -/
def storeBits (p : Nat → Nat) (start width value : Nat) : Nat → Nat :=
  fun a => ((List.range 8).map (fun k =>
    (if start ≤ 8 * a + k ∧ 8 * a + k < start + width then
      (value >>> (8 * a + k - start)) % 2
    else
      (p a >>> k) % 2) * 2 ^ k)).sum

/-- The call `strncpy(p + off, src, n)`: the characters of `src`, cut or padded
with zero bytes to `n` bytes. -/
def strncpy (p : Nat → Nat) (off : Nat) (src : List Nat) (n : Nat) : Nat → Nat :=
  fun a => if off ≤ a ∧ a < off + n then src.getD (a - off) 0 else p a

/-- Address (byte offset in the page store) of the header of a page. -/
def pageHeaderAddr (D : MptDefs) (page : ConfigPage) : Nat :=
  D.offPage page + D.offHeader page

/-- Address (byte offset in the page store) of the data array of a page. -/
def pageDataAddr (D : MptDefs) (page : ConfigPage) : Nat :=
  D.offPage page + D.offPageData page

/-- Assignment to a field of the header of a page. -/
def setHeaderField (D : MptDefs) (p : Nat → Nat) (page : ConfigPage) (f : HeaderField)
    (v : Nat) : Nat → Nat :=
  storeBits p (8 * (pageHeaderAddr D page + D.offHeaderField f)) 8 v

/-- Read of a field of the header of a page. -/
def getHeaderField (D : MptDefs) (p : Nat → Nat) (page : ConfigPage) (f : HeaderField) : Nat :=
  p (pageHeaderAddr D page + D.offHeaderField f) % 256

/-- Assignment to a field of `width` bits of a page. -/
def setPageField (D : MptDefs) (p : Nat → Nat) (page : ConfigPage) (f : PageField)
    (width v : Nat) : Nat → Nat :=
  storeBits p (8 * (D.offPage page + D.offField f) + D.bitField f) width v

/-- The three header assignments every page receives in
`lsilogicInitializeConfigurationPages`. -/
def setPageHeader (D : MptDefs) (p : Nat → Nat) (page : ConfigPage)
    (u8PageType u8PageNumber : Nat) : Nat → Nat :=
  let p := setHeaderField D p page HeaderField.u8PageType u8PageType
  let p := setHeaderField D p page HeaderField.u8PageNumber u8PageNumber
  setHeaderField D p page HeaderField.u8PageLength (D.sizeofPage page / 4)

/-- The string "VBox MPT Fusion". -/
def strVBoxMPTFusion : List Nat :=
  [0x56, 0x42, 0x6f, 0x78, 0x20, 0x4d, 0x50, 0x54, 0x20, 0x46, 0x75, 0x73, 0x69, 0x6f, 0x6e]

/-- The string "1.0". -/
def str10 : List Nat := [0x31, 0x2e, 0x30]

/-- The string "SUN". -/
def strSUN : List Nat := [0x53, 0x55, 0x4e]

/-- The string "CAFECAFECAFECAFE". -/
def strCAFE : List Nat :=
  [0x43, 0x41, 0x46, 0x45, 0x43, 0x41, 0x46, 0x45, 0x43, 0x41, 0x46, 0x45, 0x43, 0x41, 0x46, 0x45]

/-- Body of the loop over `aPortPages` in `lsilogicInitializeConfigurationPages`. -/
def initPortPages (D : MptDefs) (p : Nat → Nat) (i : Nat) : Nat → Nat :=
  /- SCSI-SPI port page 0. -/
  let pg := ConfigPage.SCSISPIPortPage0 i
  let p := setPageHeader D p pg
    (D.MPT_CONFIGURATION_PAGE_ATTRIBUTE_READONLY ||| D.MPT_CONFIGURATION_PAGE_TYPE_SCSI_SPI_PORT) 0
  let p := setPageField D p pg PageField.fInformationUnitTransfersCapable 1 1
  let p := setPageField D p pg PageField.fDTCapable 1 1
  let p := setPageField D p pg PageField.fQASCapable 1 1
  let p := setPageField D p pg PageField.u8MinimumSynchronousTransferPeriod 8 0
  let p := setPageField D p pg PageField.u8MaximumSynchronousOffset 8 0xff
  let p := setPageField D p pg PageField.fWide 1 1
  let p := setPageField D p pg PageField.fAIPCapable 1 1
  let p := setPageField D p pg PageField.u2SignalingType 2 0x3
  /- SCSI-SPI port page 1. -/
  let pg := ConfigPage.SCSISPIPortPage1 i
  let p := setPageHeader D p pg
    (D.MPT_CONFIGURATION_PAGE_ATTRIBUTE_CHANGEABLE ||| D.MPT_CONFIGURATION_PAGE_TYPE_SCSI_SPI_PORT) 1
  let p := setPageField D p pg PageField.u8SCSIID 8 7
  let p := setPageField D p pg PageField.u16PortResponseIDsBitmask 16 (1 <<< 7)
  let p := setPageField D p pg PageField.u32OnBusTimerValue 32 0
  /- SCSI-SPI port page 2. -/
  let pg := ConfigPage.SCSISPIPortPage2 i
  let p := setPageHeader D p pg
    (D.MPT_CONFIGURATION_PAGE_ATTRIBUTE_CHANGEABLE ||| D.MPT_CONFIGURATION_PAGE_TYPE_SCSI_SPI_PORT) 2
  let p := setPageField D p pg PageField.u4HostSCSIID 4 7
  let p := setPageField D p pg PageField.u2InitializeHBA 2 0x3
  let p := setPageField D p pg PageField.fTerminationDisabled 1 1
  (List.range D.cDeviceSettings).foldl
    (fun p iDevice => setPageField D p pg (PageField.aDeviceSettings_fBootChoice iDevice) 1 1) p

/-- Body of the inner loop over `aDevicePages` in
`lsilogicInitializeConfigurationPages`. -/
def initDevicePages (D : MptDefs) (uBusCurr : Nat) (p : Nat → Nat) (uDeviceCurr : Nat) :
    Nat → Nat :=
  let p := setPageHeader D p (ConfigPage.SCSISPIDevicePage0 uBusCurr uDeviceCurr)
    (D.MPT_CONFIGURATION_PAGE_ATTRIBUTE_READONLY ||| D.MPT_CONFIGURATION_PAGE_TYPE_SCSI_SPI_DEVICE) 0
  let p := setPageHeader D p (ConfigPage.SCSISPIDevicePage1 uBusCurr uDeviceCurr)
    (D.MPT_CONFIGURATION_PAGE_ATTRIBUTE_CHANGEABLE ||| D.MPT_CONFIGURATION_PAGE_TYPE_SCSI_SPI_DEVICE) 1
  let p := setPageHeader D p (ConfigPage.SCSISPIDevicePage2 uBusCurr uDeviceCurr)
    (D.MPT_CONFIGURATION_PAGE_ATTRIBUTE_CHANGEABLE ||| D.MPT_CONFIGURATION_PAGE_TYPE_SCSI_SPI_DEVICE) 2
  setPageHeader D p (ConfigPage.SCSISPIDevicePage3 uBusCurr uDeviceCurr)
    (D.MPT_CONFIGURATION_PAGE_ATTRIBUTE_READONLY ||| D.MPT_CONFIGURATION_PAGE_TYPE_SCSI_SPI_DEVICE) 3

/-- Initializes the configuration pages.  The `memset` clears the whole page
store; the model keeps no bytes outside `MptConfigurationPagesSupportedSpi`. -/
def lsilogicInitializeConfigurationPages (D : MptDefs) (pLsiLogic : LSILOGICSCSI) :
    LSILOGICSCSI :=
  /- Clear everything first. -/
  let p : Nat → Nat := fun _ => 0
  /- Manufacturing Page 0. -/
  let pg := ConfigPage.ManufacturingPage0
  let p := setPageHeader D p pg
    (D.MPT_CONFIGURATION_PAGE_ATTRIBUTE_PERSISTENT_READONLY
      ||| D.MPT_CONFIGURATION_PAGE_TYPE_MANUFACTURING) 0
  let p := strncpy p (D.offPage pg + D.offField PageField.abChipName) strVBoxMPTFusion 16
  let p := strncpy p (D.offPage pg + D.offField PageField.abChipRevision) str10 8
  let p := strncpy p (D.offPage pg + D.offField PageField.abBoardName) strVBoxMPTFusion 16
  let p := strncpy p (D.offPage pg + D.offField PageField.abBoardAssembly) strSUN 8
  let p := strncpy p (D.offPage pg + D.offField PageField.abBoardTracerNumber) strCAFE 16
  /- Manufacturing Page 1. -/
  let p := setPageHeader D p ConfigPage.ManufacturingPage1
    (D.MPT_CONFIGURATION_PAGE_ATTRIBUTE_PERSISTENT_READONLY
      ||| D.MPT_CONFIGURATION_PAGE_TYPE_MANUFACTURING) 1
  /- Manufacturing Page 2. -/
  let pg := ConfigPage.ManufacturingPage2
  let p := setPageHeader D p pg
    (D.MPT_CONFIGURATION_PAGE_ATTRIBUTE_READONLY ||| D.MPT_CONFIGURATION_PAGE_TYPE_MANUFACTURING) 2
  let p := setPageField D p pg PageField.u16PCIDeviceID 16 D.LSILOGICSCSI_PCI_SPI_DEVICE_ID
  let p := setPageField D p pg PageField.u8PCIRevisionID 8 D.LSILOGICSCSI_PCI_SPI_REVISION_ID
  /- Manufacturing Page 3. -/
  let pg := ConfigPage.ManufacturingPage3
  let p := setPageHeader D p pg
    (D.MPT_CONFIGURATION_PAGE_ATTRIBUTE_READONLY ||| D.MPT_CONFIGURATION_PAGE_TYPE_MANUFACTURING) 3
  let p := setPageField D p pg PageField.u16PCIDeviceID 16 D.LSILOGICSCSI_PCI_SPI_DEVICE_ID
  let p := setPageField D p pg PageField.u8PCIRevisionID 8 D.LSILOGICSCSI_PCI_SPI_REVISION_ID
  /- Manufacturing Page 4. -/
  let p := setPageHeader D p ConfigPage.ManufacturingPage4
    (D.MPT_CONFIGURATION_PAGE_ATTRIBUTE_PERSISTENT_READONLY
      ||| D.MPT_CONFIGURATION_PAGE_TYPE_MANUFACTURING) 4
  /- I/O Unit page 0. -/
  let pg := ConfigPage.IOUnitPage0
  let p := setPageHeader D p pg
    (D.MPT_CONFIGURATION_PAGE_ATTRIBUTE_READONLY ||| D.MPT_CONFIGURATION_PAGE_TYPE_IO_UNIT) 0
  let p := setPageField D p pg PageField.u64UniqueIdentifier 64 0xcafe
  /- I/O Unit page 1. -/
  let pg := ConfigPage.IOUnitPage1
  let p := setPageHeader D p pg
    (D.MPT_CONFIGURATION_PAGE_ATTRIBUTE_READONLY ||| D.MPT_CONFIGURATION_PAGE_TYPE_IO_UNIT) 1
  let p := setPageField D p pg PageField.fSingleFunction 1 1
  let p := setPageField D p pg PageField.fAllPathsMapped 1 0
  let p := setPageField D p pg PageField.fIntegratedRAIDDisabled 1 1
  let p := setPageField D p pg PageField.f32BitAccessForced 1 0
  /- I/O Unit page 2. -/
  let pg := ConfigPage.IOUnitPage2
  let p := setPageHeader D p pg
    (D.MPT_CONFIGURATION_PAGE_ATTRIBUTE_PERSISTENT ||| D.MPT_CONFIGURATION_PAGE_TYPE_IO_UNIT) 2
  let p := setPageField D p pg PageField.fPauseOnError 1 0
  let p := setPageField D p pg PageField.fVerboseModeEnabled 1 0
  let p := setPageField D p pg PageField.fDisableColorVideo 1 0
  let p := setPageField D p pg PageField.fNotHookInt40h 1 0
  let p := setPageField D p pg PageField.u32BIOSVersion 32 0xcafecafe
  let p := setPageField D p pg PageField.aAdapterOrder0_fAdapterEnabled 1 1
  let p := setPageField D p pg PageField.aAdapterOrder0_fAdapterEmbedded 1 1
  let p := setPageField D p pg PageField.aAdapterOrder0_u8PCIBusNumber 8 0
  let p := setPageField D p pg PageField.aAdapterOrder0_u8PCIDevFn 8 pLsiLogic.PciDev_devfn
  /- I/O Unit page 3. -/
  let pg := ConfigPage.IOUnitPage3
  let p := setPageHeader D p pg
    (D.MPT_CONFIGURATION_PAGE_ATTRIBUTE_CHANGEABLE ||| D.MPT_CONFIGURATION_PAGE_TYPE_IO_UNIT) 3
  let p := setPageField D p pg PageField.u8GPIOCount 8 0
  /- IOC page 0. -/
  let pg := ConfigPage.IOCPage0
  let p := setPageHeader D p pg
    (D.MPT_CONFIGURATION_PAGE_ATTRIBUTE_READONLY ||| D.MPT_CONFIGURATION_PAGE_TYPE_IOC) 0
  let p := setPageField D p pg PageField.u32TotalNVStore 32 0
  let p := setPageField D p pg PageField.u32FreeNVStore 32 0
  let p := setPageField D p pg PageField.u16VendorId 16 D.LSILOGICSCSI_PCI_VENDOR_ID
  let p := setPageField D p pg PageField.u16DeviceId 16 D.LSILOGICSCSI_PCI_SPI_DEVICE_ID
  let p := setPageField D p pg PageField.u8RevisionId 8 D.LSILOGICSCSI_PCI_SPI_REVISION_ID
  let p := setPageField D p pg PageField.u32ClassCode 32 D.LSILOGICSCSI_PCI_SPI_CLASS_CODE
  let p := setPageField D p pg PageField.u16SubsystemVendorId 16
    D.LSILOGICSCSI_PCI_SPI_SUBSYSTEM_VENDOR_ID
  let p := setPageField D p pg PageField.u16SubsystemId 16 D.LSILOGICSCSI_PCI_SPI_SUBSYSTEM_ID
  /- IOC page 1. -/
  let pg := ConfigPage.IOCPage1
  let p := setPageHeader D p pg
    (D.MPT_CONFIGURATION_PAGE_ATTRIBUTE_CHANGEABLE ||| D.MPT_CONFIGURATION_PAGE_TYPE_IOC) 1
  let p := setPageField D p pg PageField.fReplyCoalescingEnabled 1 0
  let p := setPageField D p pg PageField.u32CoalescingTimeout 32 0
  let p := setPageField D p pg PageField.u8CoalescingDepth 8 0
  /- IOC page 2, 3, 4 and 6. -/
  let p := setPageHeader D p ConfigPage.IOCPage2
    (D.MPT_CONFIGURATION_PAGE_ATTRIBUTE_READONLY ||| D.MPT_CONFIGURATION_PAGE_TYPE_IOC) 2
  let p := setPageHeader D p ConfigPage.IOCPage3
    (D.MPT_CONFIGURATION_PAGE_ATTRIBUTE_READONLY ||| D.MPT_CONFIGURATION_PAGE_TYPE_IOC) 3
  let p := setPageHeader D p ConfigPage.IOCPage4
    (D.MPT_CONFIGURATION_PAGE_ATTRIBUTE_READONLY ||| D.MPT_CONFIGURATION_PAGE_TYPE_IOC) 4
  let p := setPageHeader D p ConfigPage.IOCPage6
    (D.MPT_CONFIGURATION_PAGE_ATTRIBUTE_READONLY ||| D.MPT_CONFIGURATION_PAGE_TYPE_IOC) 6
  let p := (List.range D.cPortPages).foldl (initPortPages D) p
  let p := (List.range D.cBuses).foldl
    (fun p uBusCurr => (List.range D.cDevicePages).foldl (initDevicePages D uBusCurr) p) p
  { pLsiLogic with ConfigurationPages := p }

/-- Performs a hard reset on the controller. -/
def lsilogicHardReset (D : MptDefs) (pThis : LSILOGICSCSI) : LSILOGICSCSI :=
  let s := { pThis with enmState := LSILOGICSTATE.RESET }
  /- The interrupts are masked out. -/
  let s := { s with
    uInterruptMask := s.uInterruptMask ||| (LSILOGIC_REG_HOST_INTR_MASK_DOORBELL |||
                                            LSILOGIC_REG_HOST_INTR_MASK_REPLY) }
  /- Reset interrupt states. -/
  let s := { s with uInterruptStatus := 0 }
  let s := lsilogicUpdateInterrupt s
  /- Reset the queues. -/
  let s := { s with
    uReplyFreeQueueNextEntryFreeWrite := 0
    uReplyFreeQueueNextAddressRead := 0
    uReplyPostQueueNextEntryFreeWrite := 0
    uReplyPostQueueNextAddressRead := 0
    uRequestQueueNextEntryFreeWrite := 0
    uRequestQueueNextAddressRead := 0 }
  /- Disable diagnostic access. -/
  let s := { s with iDiagnosticAccess := 0 }
  /- Set default values. -/
  let s := { s with
    cMaxDevices := D.LSILOGIC_DEVICES_MAX % 256
    cMaxBuses := 1
    cbReplyFrame := 128 }
  let s := lsilogicInitializeConfigurationPages D s
  /- Mark that we finished performing the reset. -/
  { s with enmState := LSILOGICSTATE.READY }

/-! ## Configuration page lookup

Each lookup function of the source hands out, for a page it finds, a pointer
to the header, a pointer to the data array and the `sizeof` of one and the same
member of the page store.  The model returns that member (`none` stands for
`VERR_NOT_FOUND`); the three outputs are `pageHeaderAddr`, `pageDataAddr` and
`MptDefs.sizeofPage` of it. -/

/-- Lookup of an I/O unit page. -/
def lsilogicConfigurationIOUnitPageGetFromNumber (u8PageNumber : Nat) : Option ConfigPage :=
  if u8PageNumber = 0 then some ConfigPage.IOUnitPage0
  else if u8PageNumber = 1 then some ConfigPage.IOUnitPage1
  else if u8PageNumber = 2 then some ConfigPage.IOUnitPage2
  else if u8PageNumber = 3 then some ConfigPage.IOUnitPage3
  else none

/-- Lookup of an IOC page. -/
def lsilogicConfigurationIOCPageGetFromNumber (u8PageNumber : Nat) : Option ConfigPage :=
  if u8PageNumber = 0 then some ConfigPage.IOCPage0
  else if u8PageNumber = 1 then some ConfigPage.IOCPage1
  else if u8PageNumber = 2 then some ConfigPage.IOCPage2
  else if u8PageNumber = 3 then some ConfigPage.IOCPage3
  else if u8PageNumber = 4 then some ConfigPage.IOCPage4
  else if u8PageNumber = 6 then some ConfigPage.IOCPage6
  else none

/-- Lookup of a manufacturing page. -/
def lsilogicConfigurationManufacturingPageGetFromNumber (u8PageNumber : Nat) :
    Option ConfigPage :=
  if u8PageNumber = 0 then some ConfigPage.ManufacturingPage0
  else if u8PageNumber = 1 then some ConfigPage.ManufacturingPage1
  else if u8PageNumber = 2 then some ConfigPage.ManufacturingPage2
  else if u8PageNumber = 3 then some ConfigPage.ManufacturingPage3
  else if u8PageNumber = 4 then some ConfigPage.ManufacturingPage4
  else none

/-- Lookup of a SCSI-SPI port page. -/
def lsilogicConfigurationSCSISPIPortPageGetFromNumber (D : MptDefs) (u8Port u8PageNumber : Nat) :
    Option ConfigPage :=
  if u8Port ≥ D.cPortPages then none
  else if u8PageNumber = 0 then some (ConfigPage.SCSISPIPortPage0 u8Port)
  else if u8PageNumber = 1 then some (ConfigPage.SCSISPIPortPage1 u8Port)
  else if u8PageNumber = 2 then some (ConfigPage.SCSISPIPortPage2 u8Port)
  else none

/-- Lookup of a SCSI-SPI device page. -/
def lsilogicConfigurationSCSISPIDevicePageGetFromNumber (D : MptDefs)
    (u8Bus u8TargetID u8PageNumber : Nat) : Option ConfigPage :=
  if u8Bus ≥ D.cBuses then none
  else if u8TargetID ≥ D.cDevicePages then none
  else if u8PageNumber = 0 then some (ConfigPage.SCSISPIDevicePage0 u8Bus u8TargetID)
  else if u8PageNumber = 1 then some (ConfigPage.SCSISPIDevicePage1 u8Bus u8TargetID)
  else if u8PageNumber = 2 then some (ConfigPage.SCSISPIDevicePage2 u8Bus u8TargetID)
  else if u8PageNumber = 3 then some (ConfigPage.SCSISPIDevicePage3 u8Bus u8TargetID)
  else none

/-- The status code `VINF_SUCCESS`. -/
def VINF_SUCCESS : Int := 0

/-- The status code `VERR_NO_MEMORY`. -/
def VERR_NO_MEMORY : Int := -8

/-- The status code `VERR_NOT_FOUND`. -/
def VERR_NOT_FOUND : Int := -78

/-- Guest physical address of the buffer of a simple element: the low part, and
the high part when `f64BitAddress` is set. -/
def sgEntryAddress (e : MptSGEntryUnion) : Nat :=
  if e.f64BitAddress then
    u32 e.u32DataBufferAddressLow ||| (u32 e.u32DataBufferAddressHigh <<< 32)
  else
    u32 e.u32DataBufferAddressLow

/-- Processes a Configuration request.  The result is the new device state,
the reply and the status code. -/
def lsilogicProcessConfigurationRequest (D : MptDefs) (pLsiLogic : LSILOGICSCSI)
    (pConfigurationReq : MptRequestUnion) (pReply : MptReplyUnion) :
    LSILOGICSCSI × MptReplyUnion × Int :=
  let u8PageType := D.MPT_CONFIGURATION_PAGE_TYPE_GET pConfigurationReq.Configuration_u8PageType
  /- Copy common bits from the request into the reply. -/
  let pReply := { pReply with
    u8MessageLength := 6
    Configuration_u8Action := pConfigurationReq.Configuration_u8Action
    u8Function := pConfigurationReq.u8Function
    u32MessageContext := pConfigurationReq.u32MessageContext }
  let found : Option ConfigPage :=
    if u8PageType = D.MPT_CONFIGURATION_PAGE_TYPE_IO_UNIT then
      lsilogicConfigurationIOUnitPageGetFromNumber pConfigurationReq.Configuration_u8PageNumber
    else if u8PageType = D.MPT_CONFIGURATION_PAGE_TYPE_IOC then
      lsilogicConfigurationIOCPageGetFromNumber pConfigurationReq.Configuration_u8PageNumber
    else if u8PageType = D.MPT_CONFIGURATION_PAGE_TYPE_MANUFACTURING then
      lsilogicConfigurationManufacturingPageGetFromNumber
        pConfigurationReq.Configuration_u8PageNumber
    else if u8PageType = D.MPT_CONFIGURATION_PAGE_TYPE_SCSI_SPI_PORT then
      lsilogicConfigurationSCSISPIPortPageGetFromNumber D
        pConfigurationReq.Configuration_u8PortNumber pConfigurationReq.Configuration_u8PageNumber
    else if u8PageType = D.MPT_CONFIGURATION_PAGE_TYPE_SCSI_SPI_DEVICE then
      lsilogicConfigurationSCSISPIDevicePageGetFromNumber D
        pConfigurationReq.Configuration_u8Bus pConfigurationReq.Configuration_u8TargetID
        pConfigurationReq.Configuration_u8PageNumber
    else
      none
  match found with
  | none =>
    let pReply := { pReply with
      Configuration_u8PageType := pConfigurationReq.Configuration_u8PageType
      Configuration_u8PageNumber := pConfigurationReq.Configuration_u8PageNumber
      Configuration_u8PageLength := pConfigurationReq.Configuration_u8PageLength
      Configuration_u8PageVersion := pConfigurationReq.Configuration_u8PageVersion }
    (pLsiLogic, pReply, VINF_SUCCESS)
  | some page =>
    let pages := pLsiLogic.ConfigurationPages
    let pbPageData := pageDataAddr D page
    let cbPage := D.sizeofPage page
    let pReply := { pReply with
      Configuration_u8PageType := getHeaderField D pages page HeaderField.u8PageType
      Configuration_u8PageNumber := getHeaderField D pages page HeaderField.u8PageNumber
      Configuration_u8PageLength := getHeaderField D pages page HeaderField.u8PageLength
      Configuration_u8PageVersion := getHeaderField D pages page HeaderField.u8PageVersion }
    let u8Action := pConfigurationReq.Configuration_u8Action
    let cbBuffer := pConfigurationReq.Configuration_SimpleSGElement.u24Length
    let GCPhysAddrPageBuffer := sgEntryAddress pConfigurationReq.Configuration_SimpleSGElement
    let cbCopy := if cbBuffer < cbPage then cbBuffer else cbPage
    if u8Action = D.MPT_CONFIGURATION_REQUEST_ACTION_DEFAULT
        ∨ u8Action = D.MPT_CONFIGURATION_REQUEST_ACTION_HEADER then
      /- Already copied above nothing to do. -/
      (pLsiLogic, pReply, VINF_SUCCESS)
    else if u8Action = D.MPT_CONFIGURATION_REQUEST_ACTION_READ_NVRAM
        ∨ u8Action = D.MPT_CONFIGURATION_REQUEST_ACTION_READ_CURRENT
        ∨ u8Action = D.MPT_CONFIGURATION_REQUEST_ACTION_READ_DEFAULT then
      if cbBuffer ≠ 0 then
        ({ pLsiLogic with
            mem := physWrite pLsiLogic.mem GCPhysAddrPageBuffer
                     (fun i => pages (pbPageData + i)) cbCopy },
         pReply, VINF_SUCCESS)
      else
        (pLsiLogic, pReply, VINF_SUCCESS)
    else if u8Action = D.MPT_CONFIGURATION_REQUEST_ACTION_WRITE_CURRENT
        ∨ u8Action = D.MPT_CONFIGURATION_REQUEST_ACTION_WRITE_NVRAM then
      if cbBuffer ≠ 0 then
        ({ pLsiLogic with
            ConfigurationPages := fun a =>
              if pbPageData ≤ a ∧ a < pbPageData + cbCopy then
                pLsiLogic.mem (GCPhysAddrPageBuffer + (a - pbPageData))
              else
                pages a },
         pReply, VINF_SUCCESS)
      else
        (pLsiLogic, pReply, VINF_SUCCESS)
    else
      (pLsiLogic, pReply, VINF_SUCCESS)

/-! ## Reply delivery and message processing -/

/-- Takes necessary steps to finish a reply frame.  The queue checks of the
source sit in `#if 0` blocks and are not compiled. -/
def lsilogicFinishAddressReply (D : MptDefs) (pLsiLogic : LSILOGICSCSI) (pReply : MptReplyUnion)
    (fForceReplyFifo : Bool) : LSILOGICSCSI :=
  if pLsiLogic.fDoorbellInProgress && !fForceReplyFifo then
    /- Set size of the reply in 16bit words. The size in the reply is in 32bit dwords. -/
    let s := { pLsiLogic with cReplySize := (pReply.u8MessageLength % 256) * 2 }
    let s := { s with uNextReplyEntryRead := 0 }
    lsilogicSetInterrupt s LSILOGIC_REG_HOST_INTR_STATUS_SYSTEM_DOORBELL
  else
    /- Grab a free reply message from the queue. -/
    let u32ReplyFrameAddressLow :=
      pLsiLogic.pReplyFreeQueueBase pLsiLogic.uReplyFreeQueueNextAddressRead
    let s := { pLsiLogic with
      uReplyFreeQueueNextAddressRead := u32 (pLsiLogic.uReplyFreeQueueNextAddressRead + 1) }
    let s := { s with
      uReplyFreeQueueNextAddressRead := s.uReplyFreeQueueNextAddressRead % s.cReplyQueueEntries }
    /- Build 64bit physical address. -/
    let GCPhysReplyMessage :=
      LSILOGIC_RTGCPHYS_FROM_U32 s.u32HostMFAHighAddr u32ReplyFrameAddressLow
    let cbReplyCopied :=
      if s.cbReplyFrame < D.sizeof_MptReplyUnion then s.cbReplyFrame else D.sizeof_MptReplyUnion
    /- Write reply to guest memory. -/
    let s := { s with mem := physWrite s.mem GCPhysReplyMessage (D.abReply pReply) cbReplyCopied }
    /- We have a address reply. Set the 31th bit to indicate that. -/
    let s := { s with
      pReplyPostQueueBase :=
        writeSlot s.pReplyPostQueueBase s.uReplyPostQueueNextEntryFreeWrite
          (RT_BIT 31 ||| (u32ReplyFrameAddressLow >>> 1)) }
    let s := { s with
      uReplyPostQueueNextEntryFreeWrite := u32 (s.uReplyPostQueueNextEntryFreeWrite + 1) }
    let s := { s with
      uReplyPostQueueNextEntryFreeWrite :=
        s.uReplyPostQueueNextEntryFreeWrite % s.cReplyQueueEntries }
    let s :=
      if fForceReplyFifo then
        lsilogicSetInterrupt { s with fDoorbellInProgress := false }
          LSILOGIC_REG_HOST_INTR_STATUS_SYSTEM_DOORBELL
      else
        s
    /- Set interrupt. -/
    lsilogicSetInterrupt s LSILOGIC_REG_HOST_INTR_STATUS_REPLY_INTR

/-- What the `switch` of `lsilogicProcessMessageRequest` leaves behind: the
device state, the reply, `rc` and `fForceReplyPostFifo`. -/
structure MessageSwitch where
  pLsiLogic : LSILOGICSCSI
  pReply : MptReplyUnion
  rc : Int
  fForceReplyPostFifo : Bool

/-- The `switch (pMessageHdr->u8Function)` of `lsilogicProcessMessageRequest`,
entered with the reply cleared by `memset`. -/
def lsilogicProcessMessageSwitch (D : MptDefs) (pLsiLogic : LSILOGICSCSI)
    (pMessageHdr : MptRequestUnion) : MessageSwitch :=
  let pReply := MptReplyUnion.zero
  let fn := pMessageHdr.u8Function
  if fn = D.MPT_MESSAGE_HDR_FUNCTION_SCSI_TASK_MGMT then
    { pLsiLogic := pLsiLogic
      pReply := { pReply with
        u8MessageLength := 6
        SCSITaskManagement_u8TaskType := pMessageHdr.SCSITaskManagement_u8TaskType
        SCSITaskManagement_u32TerminationCount := 0 }
      rc := VINF_SUCCESS
      fForceReplyPostFifo := true }
  else if fn = D.MPT_MESSAGE_HDR_FUNCTION_IOC_INIT then
    /- Update configuration values. -/
    let s := { pLsiLogic with
      enmWhoInit := pMessageHdr.IOCInit_u8WhoInit
      cbReplyFrame := pMessageHdr.IOCInit_u16ReplyFrameSize
      cMaxBuses := pMessageHdr.IOCInit_u8MaxBuses
      cMaxDevices := pMessageHdr.IOCInit_u8MaxDevices
      u32HostMFAHighAddr := pMessageHdr.IOCInit_u32HostMfaHighAddr
      u32SenseBufferHighAddr := pMessageHdr.IOCInit_u32SenseBufferHighAddr }
    let s :=
      if s.enmState = LSILOGICSTATE.READY then
        { s with enmState := LSILOGICSTATE.OPERATIONAL }
      else
        s
    /- Return reply. -/
    { pLsiLogic := s
      pReply := { pReply with
        u8MessageLength := 5
        IOCInit_u8WhoInit := s.enmWhoInit % 256
        IOCInit_u8MaxDevices := s.cMaxDevices
        IOCInit_u8MaxBuses := s.cMaxBuses }
      rc := VINF_SUCCESS
      fForceReplyPostFifo := false }
  else if fn = D.MPT_MESSAGE_HDR_FUNCTION_IOC_FACTS then
    { pLsiLogic := pLsiLogic
      pReply := { pReply with
        u8MessageLength := 15
        IOCFacts_u16MessageVersion := 0x0102
        IOCFacts_u8IOCNumber := 0
        IOCFacts_u16IOCExceptions := 0
        IOCFacts_u8MaxChainDepth := D.LSILOGICSCSI_MAXIMUM_CHAIN_DEPTH % 256
        IOCFacts_u8WhoInit := pLsiLogic.enmWhoInit % 256
        IOCFacts_u8BlockSize := 12
        IOCFacts_u8Flags := 0
        IOCFacts_u16ReplyQueueDepth := u32 (pLsiLogic.cReplyQueueEntries + 4294967295) % 65536
        IOCFacts_u16RequestFrameSize := 128
        IOCFacts_u16ProductID := 0xcafe
        IOCFacts_u32CurrentHostMFAHighAddr := pLsiLogic.u32HostMFAHighAddr
        IOCFacts_u16GlobalCredits := u32 (pLsiLogic.cRequestQueueEntries + 4294967295) % 65536
        IOCFacts_u8NumberOfPorts := 1
        IOCFacts_u8EventState := 0
        IOCFacts_u32CurrentSenseBufferHighAddr := pLsiLogic.u32SenseBufferHighAddr
        IOCFacts_u16CurReplyFrameSize := pLsiLogic.cbReplyFrame
        IOCFacts_u8MaxDevices := pLsiLogic.cMaxDevices
        IOCFacts_u8MaxBuses := pLsiLogic.cMaxBuses
        IOCFacts_u32FwImageSize := 0
        IOCFacts_u32FWVersion := 0 }
      rc := VINF_SUCCESS
      fForceReplyPostFifo := false }
  else if fn = D.MPT_MESSAGE_HDR_FUNCTION_PORT_FACTS then
    let pReply := { pReply with
      u8MessageLength := 10
      PortFacts_u8PortNumber := pMessageHdr.PortFacts_u8PortNumber }
    /- This controller only supports one bus with bus number 0. -/
    if pMessageHdr.PortFacts_u8PortNumber ≠ 0 then
      { pLsiLogic := pLsiLogic, pReply := { pReply with PortFacts_u8PortType := 0 },
        rc := VINF_SUCCESS, fForceReplyPostFifo := false }
    else
      { pLsiLogic := pLsiLogic
        pReply := { pReply with
          PortFacts_u8PortType := 0x01
          PortFacts_u16MaxDevices := D.LSILOGIC_DEVICES_MAX % 65536
          PortFacts_u16ProtocolFlags := RT_BIT 3 ||| RT_BIT 0
          PortFacts_u16PortSCSIID := 7
          PortFacts_u16MaxPersistentIDs := 0
          PortFacts_u16MaxPostedCmdBuffers := 0
          PortFacts_u16MaxLANBuckets := 0 }
        rc := VINF_SUCCESS
        fForceReplyPostFifo := false }
  else if fn = D.MPT_MESSAGE_HDR_FUNCTION_PORT_ENABLE then
    { pLsiLogic := pLsiLogic
      pReply := { pReply with
        u8MessageLength := 5
        PortEnable_u8PortNumber := pMessageHdr.PortEnable_u8PortNumber }
      rc := VINF_SUCCESS
      fForceReplyPostFifo := false }
  else if fn = D.MPT_MESSAGE_HDR_FUNCTION_EVENT_NOTIFICATION then
    let s := { pLsiLogic with
      fEventNotificationEnabled := decide (pMessageHdr.EventNotification_u8Switch ≠ 0) }
    { pLsiLogic := s
      pReply := { pReply with
        EventNotification_u16EventDataLength := 1
        u8MessageLength := 8
        EventNotification_u8MessageFlags := 1 <<< 7
        EventNotification_u8AckRequired := 0
        EventNotification_u32Event := D.MPT_EVENT_EVENT_CHANGE
        EventNotification_u32EventContext := 0
        EventNotification_u32EventData := if s.fEventNotificationEnabled then 1 else 0 }
      rc := VINF_SUCCESS
      fForceReplyPostFifo := false }
  else if fn = D.MPT_MESSAGE_HDR_FUNCTION_EVENT_ACK then
    { pLsiLogic := pLsiLogic, pReply := pReply, rc := VINF_SUCCESS, fForceReplyPostFifo := false }
  else if fn = D.MPT_MESSAGE_HDR_FUNCTION_CONFIG then
    let c := lsilogicProcessConfigurationRequest D pLsiLogic pMessageHdr pReply
    { pLsiLogic := c.1, pReply := c.2.1, rc := c.2.2, fForceReplyPostFifo := false }
  else
    /- MPT_MESSAGE_HDR_FUNCTION_SCSI_IO_REQUEST and default: the assertion only. -/
    { pLsiLogic := pLsiLogic, pReply := pReply, rc := VINF_SUCCESS, fForceReplyPostFifo := false }

/-- Processes a given request from the guest.  The result is the new device
state, the reply as it stands in `*pReply` on return, and the status code.  A
caller that passes `&pThis->ReplyBuffer` stores the reply there. -/
def lsilogicProcessMessageRequest (D : MptDefs) (pLsiLogic : LSILOGICSCSI)
    (pMessageHdr : MptRequestUnion) : LSILOGICSCSI × MptReplyUnion × Int :=
  let r := lsilogicProcessMessageSwitch D pLsiLogic pMessageHdr
  /- Copy common bits from request message frame to reply. -/
  let pReply := { r.pReply with
    u8Function := pMessageHdr.u8Function
    u32MessageContext := pMessageHdr.u32MessageContext }
  (lsilogicFinishAddressReply D r.pLsiLogic pReply r.fForceReplyPostFifo, pReply, r.rc)

/-- The bytes of the doorbell message buffer `aMessage`, an array of
`uint32_t` (little-endian host). -/
def aMessageBytes (aMessage : Nat → Nat) : Nat → Nat :=
  fun i => (aMessage (i / 4) >>> (8 * (i % 4))) % 256

/-- Writes a value to a register at a given offset. -/
def lsilogicRegisterWrite (D : MptDefs) (pThis : LSILOGICSCSI) (uOffset v : Nat) :
    LSILOGICSCSI :=
  let v := u32 v
  if uOffset = LSILOGIC_REG_REPLY_QUEUE then
    /- Add the entry to the reply free queue. -/
    let s := { pThis with
      pReplyFreeQueueBase :=
        writeSlot pThis.pReplyFreeQueueBase pThis.uReplyFreeQueueNextEntryFreeWrite v }
    let s := { s with
      uReplyFreeQueueNextEntryFreeWrite := u32 (s.uReplyFreeQueueNextEntryFreeWrite + 1) }
    { s with
      uReplyFreeQueueNextEntryFreeWrite :=
        s.uReplyFreeQueueNextEntryFreeWrite % s.cReplyQueueEntries }
  else if uOffset = LSILOGIC_REG_REQUEST_QUEUE then
    let s := { pThis with
      pRequestQueueBase :=
        writeSlot pThis.pRequestQueueBase pThis.uRequestQueueNextEntryFreeWrite v }
    let s := { s with
      uRequestQueueNextEntryFreeWrite := u32 (s.uRequestQueueNextEntryFreeWrite + 1) }
    let s := { s with
      uRequestQueueNextEntryFreeWrite :=
        s.uRequestQueueNextEntryFreeWrite % s.cRequestQueueEntries }
    /- Send notification to R3 if there is not one send already. -/
    if !s.fNotificationSend then
      { s with fNotificationSend := true, cNotificationItems := s.cNotificationItems + 1 }
    else
      { s with fNotificationSend := true }
  else if uOffset = LSILOGIC_REG_DOORBELL then
    if !pThis.fDoorbellInProgress then
      let uFunction := LSILOGIC_REG_DOORBELL_GET_FUNCTION v
      if uFunction = LSILOGIC_DOORBELL_FUNCTION_IOC_MSG_UNIT_RESET then
        let s := { pThis with enmState := LSILOGICSTATE.RESET }
        /- Reset interrupt states. -/
        let s := { s with uInterruptMask := 0, uInterruptStatus := 0 }
        let s := lsilogicUpdateInterrupt s
        /- Reset the queues. -/
        { s with
          uReplyFreeQueueNextEntryFreeWrite := 0
          uReplyFreeQueueNextAddressRead := 0
          uReplyPostQueueNextEntryFreeWrite := 0
          uReplyPostQueueNextAddressRead := 0
          uRequestQueueNextEntryFreeWrite := 0
          uRequestQueueNextAddressRead := 0
          enmState := LSILOGICSTATE.READY }
      else if uFunction = LSILOGIC_DOORBELL_FUNCTION_IO_UNIT_RESET then
        pThis
      else if uFunction = LSILOGIC_DOORBELL_FUNCTION_HANDSHAKE then
        let s := { pThis with cMessage := LSILOGIC_REG_DOORBELL_GET_SIZE v, iMessage := 0 }
        let s := { s with fDoorbellInProgress := true }
        /- Update the interrupt status to notify the guest that a doorbell function was started. -/
        lsilogicSetInterrupt s LSILOGIC_REG_HOST_INTR_STATUS_SYSTEM_DOORBELL
      else if uFunction = LSILOGIC_DOORBELL_FUNCTION_REPLY_FRAME_REMOVAL then
        pThis
      else
        pThis
    else
      /- We are already performing a doorbell function. Get the remaining parameters. -/
      let s := { pThis with
        aMessage := writeSlot pThis.aMessage pThis.iMessage v
        iMessage := u32 (pThis.iMessage + 1) }
      if s.iMessage = s.cMessage then
        let r := lsilogicProcessMessageRequest D s (D.decodeRequest (aMessageBytes s.aMessage))
        { r.1 with ReplyBuffer := r.2.1 }
      else
        s
  else if uOffset = LSILOGIC_REG_HOST_INTR_STATUS then
    /- Clear the bits the guest wants except the system doorbell interrupt and the
       IO controller status bit. -/
    let s := { pThis with
      uInterruptStatus :=
        pThis.uInterruptStatus &&& not32 LSILOGIC_REG_HOST_INTR_STATUS_SYSTEM_DOORBELL }
    /- Check if there is still a doorbell function in progress. -/
    let s :=
      if s.fDoorbellInProgress && decide (s.cMessage = s.iMessage) then
        let s :=
          if s.uNextReplyEntryRead = s.cReplySize then
            /- Reply finished. Reset doorbell in progress status. -/
            { s with fDoorbellInProgress := false }
          else
            s
        { s with
          uInterruptStatus :=
            s.uInterruptStatus ||| LSILOGIC_REG_HOST_INTR_STATUS_SYSTEM_DOORBELL }
      else
        s
    lsilogicUpdateInterrupt s
  else if uOffset = LSILOGIC_REG_HOST_INTR_MASK then
    lsilogicUpdateInterrupt
      { pThis with uInterruptMask := v &&& LSILOGIC_REG_HOST_INTR_MASK_W_MASK }
  else if uOffset = LSILOGIC_REG_WRITE_SEQUENCE then
    if pThis.fDiagnosticEnabled then
      /- Any value will cause a reset and disabling access. -/
      { pThis with fDiagnosticEnabled := false, iDiagnosticAccess := 0 }
    else if (v &&& 0xf) = g_lsilogicDiagnosticAccess.getD pThis.iDiagnosticAccess 0 then
      let s := { pThis with iDiagnosticAccess := u32 (pThis.iDiagnosticAccess + 1) }
      if s.iDiagnosticAccess = g_lsilogicDiagnosticAccess.length then
        /- Key sequence successfully written. -/
        { s with fDiagnosticEnabled := true }
      else
        s
    else
      /- Wrong value written - reset to beginning. -/
      { pThis with iDiagnosticAccess := 0 }
  else if uOffset = LSILOGIC_REG_HOST_DIAGNOSTIC then
    if (v &&& LSILOGIC_REG_HOST_DIAGNOSTIC_RESET_ADAPTER) ≠ 0 then
      lsilogicHardReset D pThis
    else
      pThis
  else
    /- Ignore. -/
    pThis

/-- The tail of `lsilogicRegisterRead`: clip the register value `v` according
to the read size.  The result is the value stored through `pv`; `none` when
the access size is none of 4, 2, 1 (nothing is stored).  Shift counts of 32 or
more, which C leaves undefined, shift all bits out. -/
def lsilogicRegisterReadClip (uOffset cb v : Nat) : Option Nat :=
  if cb = 4 then
    some v
  else if cb = 2 then
    let uBitsOff := (u32 (uOffset - (uOffset &&& 3)) * 8) % 256
    let v := v &&& u32 (0xffff <<< uBitsOff)
    some ((v >>> uBitsOff) % 65536)
  else if cb = 1 then
    let uBitsOff := (u32 (uOffset - (uOffset &&& 3)) * 8) % 256
    let v := v &&& u32 (0xff <<< uBitsOff)
    some ((v >>> uBitsOff) % 256)
  else
    none

/-- Reads the content of a register at a given offset.  The result is the new
device state and the value stored through `pv` (see `lsilogicRegisterReadClip`). -/
def lsilogicRegisterRead (D : MptDefs) (pThis : LSILOGICSCSI) (uOffset cb : Nat) :
    LSILOGICSCSI × Option Nat :=
  /- Align to a 4 byte offset. -/
  let uSlot := uOffset &&& not32 3
  if uSlot = LSILOGIC_REG_REPLY_QUEUE then
    if pThis.uReplyPostQueueNextEntryFreeWrite ≠ pThis.uReplyPostQueueNextAddressRead then
      let v := pThis.pReplyPostQueueBase pThis.uReplyPostQueueNextAddressRead
      let s := { pThis with
        uReplyPostQueueNextAddressRead := u32 (pThis.uReplyPostQueueNextAddressRead + 1) }
      let s := { s with
        uReplyPostQueueNextAddressRead :=
          s.uReplyPostQueueNextAddressRead % s.cReplyQueueEntries }
      (s, lsilogicRegisterReadClip uOffset cb v)
    else
      /- The reply post queue is empty. Reset interrupt. -/
      (lsilogicClearInterrupt pThis LSILOGIC_REG_HOST_INTR_STATUS_REPLY_INTR,
       lsilogicRegisterReadClip uOffset cb 0xffffffff)
  else if uSlot = LSILOGIC_REG_DOORBELL then
    let v := LSILOGIC_REG_DOORBELL_SET_STATE pThis.enmState
    let v := v ||| LSILOGIC_REG_DOORBELL_SET_USED pThis.fDoorbellInProgress
    let v := v ||| LSILOGIC_REG_DOORBELL_SET_WHOINIT pThis.enmWhoInit
    if pThis.fDoorbellInProgress then
      /- Return next 16bit value. -/
      let v := v ||| au16Reply D pThis.ReplyBuffer pThis.uNextReplyEntryRead
      ({ pThis with uNextReplyEntryRead := u32 (pThis.uNextReplyEntryRead + 1) },
       lsilogicRegisterReadClip uOffset cb v)
    else
      /- We return the status code of the I/O controller. -/
      (pThis, lsilogicRegisterReadClip uOffset cb (v ||| pThis.u16IOCFaultCode))
  else if uSlot = LSILOGIC_REG_HOST_INTR_STATUS then
    (pThis, lsilogicRegisterReadClip uOffset cb pThis.uInterruptStatus)
  else if uSlot = LSILOGIC_REG_HOST_INTR_MASK then
    (pThis, lsilogicRegisterReadClip uOffset cb pThis.uInterruptMask)
  else if uSlot = LSILOGIC_REG_HOST_DIAGNOSTIC then
    if pThis.fDiagnosticEnabled then
      (pThis, lsilogicRegisterReadClip uOffset cb LSILOGIC_REG_HOST_DIAGNOSTIC_DRWE)
    else
      (pThis, lsilogicRegisterReadClip uOffset cb 0)
  else
    /- Ignore. -/
    (pThis, lsilogicRegisterReadClip uOffset cb 0)

/-! ## Scatter/gather lists -/

/-- Copy a temporary buffer into the part of the guest memory described by the
given descriptor entry (`lsilogicCopyFromBufferIntoSGList`). -/
def lsilogicCopyFromBufferIntoSGList (mem : GuestMem) (pvBufferUnaligned : Nat → Nat)
    (pSGInfo : LSILOGICTASKSTATESGENTRY) : GuestMem :=
  physWrite mem pSGInfo.GCPhysAddrBufferUnaligned
    (fun i => pvBufferUnaligned (pSGInfo.pvBuf + i)) pSGInfo.cbBuf

/-- Copy a part of the guest memory into the temporary buffer
(`lsilogicCopyFromSGListIntoBuffer`); the result is the temporary buffer. -/
def lsilogicCopyFromSGListIntoBuffer (mem : GuestMem) (pvBufferUnaligned : Nat → Nat)
    (pSGInfo : LSILOGICTASKSTATESGENTRY) : Nat → Nat :=
  fun a =>
    if pSGInfo.pvBuf ≤ a ∧ a < pSGInfo.pvBuf + pSGInfo.cbBuf then
      mem (pSGInfo.GCPhysAddrBufferUnaligned + (a - pSGInfo.pvBuf))
    else
      pvBufferUnaligned a

/-- The function `lsilogicScatterGatherListAllocate`.  `alloc cb` tells whether
`RTMemAllocZ(cb)` succeeds; a fresh allocation is zero-filled. -/
def lsilogicScatterGatherListAllocate (D : MptDefs) (alloc : Nat → Bool)
    (pTaskState : LSILOGICTASKSTATE) (cSGList cSGInfo cbUnaligned : Nat) :
    LSILOGICTASKSTATE × Int :=
  let r1 : LSILOGICTASKSTATE × Bool :=
    if pTaskState.cSGListSize < cSGList then
      /- The entries are not allocated yet or the number is too small. -/
      if alloc (cSGList * D.sizeof_PDMDATASEG) then
        ({ pTaskState with
            fSGListHeadNull := false
            pSGListHead := fun _ => { pvSeg := 0, cbSeg := 0 }
            cSGListSize := cSGList
            cSGListEntries := cSGList
            cSGListTooBig := 0 }, true)
      else
        ({ pTaskState with
            fSGListHeadNull := true
            pSGListHead := fun _ => { pvSeg := 0, cbSeg := 0 } }, false)
    else if pTaskState.cSGListSize > cSGList then
      /- The list is too big. Increment counter. -/
      ({ pTaskState with
          cSGListEntries := cSGList
          cSGListTooBig := u32 (pTaskState.cSGListTooBig + 1) }, true)
    else
      /- Needed entries matches current size. Reset counter. -/
      ({ pTaskState with cSGListEntries := cSGList, cSGListTooBig := 0 }, true)
  if !r1.2 then (r1.1, VERR_NO_MEMORY) else
  let ts := r1.1
  let r2 : LSILOGICTASKSTATE × Bool :=
    if ts.cSGInfoSize < cSGInfo then
      /- The entries are not allocated yet or the number is too small. -/
      if alloc (cSGInfo * D.sizeof_LSILOGICTASKSTATESGENTRY) then
        ({ ts with
            fSGEntriesNull := false
            paSGEntries := LSILOGICTASKSTATE.zero.paSGEntries
            cSGInfoSize := cSGInfo
            cSGInfoEntries := cSGInfo
            cSGInfoTooBig := 0 }, true)
      else
        ({ ts with
            fSGEntriesNull := true
            paSGEntries := LSILOGICTASKSTATE.zero.paSGEntries }, false)
    else if ts.cSGInfoSize > cSGInfo then
      ({ ts with cSGInfoEntries := cSGInfo, cSGInfoTooBig := u32 (ts.cSGInfoTooBig + 1) }, true)
    else
      ({ ts with cSGInfoEntries := cSGInfo, cSGInfoTooBig := 0 }, true)
  if !r2.2 then (r2.1, VERR_NO_MEMORY) else
  let ts := r2.1
  if ts.cbBufferUnaligned < cbUnaligned then
    if alloc cbUnaligned then
      ({ ts with
          fBufferUnalignedNull := false
          pvBufferUnaligned := fun _ => 0
          cbBufferUnaligned := cbUnaligned }, VINF_SUCCESS)
    else
      ({ ts with fBufferUnalignedNull := true, pvBufferUnaligned := fun _ => 0 }, VERR_NO_MEMORY)
  else
    (ts, VINF_SUCCESS)

/-- Destroy a scatter gather list: the loop over the descriptor entries, from
entry `i` on, `n` entries. -/
def lsilogicScatterGatherListDestroyLoop (pTaskState : LSILOGICTASKSTATE) :
    Nat → Nat → GuestMem → GuestMem
  | 0, _, mem => mem
  | n + 1, i, mem =>
    let pSGInfoCurr := pTaskState.paSGEntries i
    let mem :=
      if pSGInfoCurr.fGuestMemory then
        /- Release the lock. -/
        mem
      else if !pSGInfoCurr.fBufferContainsData then
        /- Copy the data into the guest segments now. -/
        lsilogicCopyFromBufferIntoSGList mem pTaskState.pvBufferUnaligned pSGInfoCurr
      else
        mem
    lsilogicScatterGatherListDestroyLoop pTaskState n (i + 1) mem

/-- Destroy a scatter gather list. -/
def lsilogicScatterGatherListDestroy (D : MptDefs) (pLsiLogic : LSILOGICSCSI)
    (pTaskState : LSILOGICTASKSTATE) : LSILOGICSCSI × LSILOGICTASKSTATE :=
  let s := { pLsiLogic with
    mem := lsilogicScatterGatherListDestroyLoop pTaskState pTaskState.cSGInfoEntries 0
             pLsiLogic.mem }
  /- Free allocated memory if the list was too big too many times. -/
  if pTaskState.cSGListTooBig ≥ D.LSILOGIC_NR_OF_ALLOWED_BIGGER_LISTS then
    (s, { pTaskState with
            cSGListSize := 0
            cSGInfoSize := 0
            cSGInfoEntries := 0
            cSGListTooBig := 0
            fSGListHeadNull := true
            pSGListHead := LSILOGICTASKSTATE.zero.pSGListHead
            fSGEntriesNull := true
            paSGEntries := LSILOGICTASKSTATE.zero.paSGEntries
            fBufferUnalignedNull := true
            pvBufferUnaligned := fun _ => 0
            cbBufferUnaligned := 0 })
  else
    (s, pTaskState)

/-- The local variables of `lsilogicScatterGatherListCreate` that live across
its loops, together with the task state being filled. -/
structure SGWalk where
  pTaskState : LSILOGICTASKSTATE
  cSGInfo : Nat
  cbUnalignedComplete : Nat
  /-- The pointer `pSGInfoCurr`, as an index into `paSGEntries`. -/
  pSGInfoCurr : Nat
  /-- The pointer `pbBufferUnalignedSGInfoPos`, as an offset into the staging buffer. -/
  pbBufferUnalignedSGInfoPos : Nat
  fEndOfList : Bool
  GCPhysSGEntryNext : Nat
  GCPhysSegmentStart : Nat
  uChainOffsetNext : Nat

/-- How a loop of `lsilogicScatterGatherListCreate` ends. -/
inductive SGLoop where
  /-- The model ran out of fuel. -/
  | outOfFuel
  /-- The function returned `VINF_SUCCESS` from inside the loop (zero element). -/
  | returned (pTaskState : LSILOGICTASKSTATE)
  /-- The loop condition became false. -/
  | done (w : SGWalk)

/-- The part of the body of the inner loop of `lsilogicScatterGatherListCreate`
that handles one simple element which is no zero element: in the mapping pass
fill the descriptor entry and stage the data, in the counting pass count. -/
def lsilogicSGProcessEntry (mem : GuestMem) (fDoMapping : Bool) (w : SGWalk)
    (SGEntry : MptSGEntryUnion) : SGWalk :=
  let cbDataToTransfer := SGEntry.u24Length
  let fBufferContainsData := SGEntry.fBufferContainsData
  let GCPhysAddrDataBuffer := sgEntryAddress SGEntry
  if fDoMapping then
    let pSGInfo : LSILOGICTASKSTATESGENTRY :=
      { fGuestMemory := false
        fBufferContainsData := fBufferContainsData
        cbBuf := cbDataToTransfer
        pvBuf := w.pbBufferUnalignedSGInfoPos
        GCPhysAddrBufferUnaligned := GCPhysAddrDataBuffer }
    let ts := { w.pTaskState with
      paSGEntries := fun j => if j = w.pSGInfoCurr then pSGInfo else w.pTaskState.paSGEntries j }
    let ts :=
      if fBufferContainsData then
        { ts with
          pvBufferUnaligned := lsilogicCopyFromSGListIntoBuffer mem ts.pvBufferUnaligned pSGInfo }
      else
        ts
    { w with
      pTaskState := ts
      pbBufferUnalignedSGInfoPos := w.pbBufferUnalignedSGInfoPos + cbDataToTransfer
      pSGInfoCurr := w.pSGInfoCurr + 1 }
  else
    { w with
      cbUnalignedComplete := u32 (w.cbUnalignedComplete + cbDataToTransfer)
      cSGInfo := u32 (w.cSGInfo + 1) }

/-- The inner loop `while (!fEndOfSegment)` of `lsilogicScatterGatherListCreate`. -/
def lsilogicSGSegmentLoop (D : MptDefs) (mem : GuestMem) (fDoMapping : Bool) :
    Nat → SGWalk → SGLoop
  | 0, _ => SGLoop.outOfFuel
  | fuel + 1, w =>
    /- Read the entry. -/
    let SGEntry := D.decodeSGEntry (physRead mem w.GCPhysSGEntryNext D.sizeof_MptSGEntryUnion)
    /- Check if this is a zero element. -/
    if SGEntry.u24Length = 0 ∧ SGEntry.fEndOfList = true ∧ SGEntry.fEndOfBuffer = true then
      SGLoop.returned { w.pTaskState with cSGListEntries := 0, cSGInfoEntries := 0 }
    else
      let w := { w with
        GCPhysSGEntryNext :=
          if SGEntry.f64BitAddress then w.GCPhysSGEntryNext + D.sizeof_MptSGEntrySimple64
          else w.GCPhysSGEntryNext + D.sizeof_MptSGEntrySimple32 }
      let w := lsilogicSGProcessEntry mem fDoMapping w SGEntry
      /- Check if we reached the end of the list. -/
      if SGEntry.fEndOfList then
        SGLoop.done { w with fEndOfList := true }
      else if SGEntry.fLastElement then
        SGLoop.done w
      else
        lsilogicSGSegmentLoop D mem fDoMapping fuel w

/-- The statement `if (uChainOffsetNext)` after the inner loop: get the next
chain element. -/
def lsilogicSGNextChain (D : MptDefs) (mem : GuestMem) (w : SGWalk) : SGWalk :=
  if w.uChainOffsetNext ≠ 0 then
    let SGEntryChain := D.decodeSGEntryChain
      (physRead mem (w.GCPhysSegmentStart + w.uChainOffsetNext) D.sizeof_MptSGEntryChain)
    /- Set the next address now. -/
    let GCPhysSGEntryNext :=
      if SGEntryChain.f64BitAddress then
        u32 SGEntryChain.u32SegmentAddressLow ||| (u32 SGEntryChain.u32SegmentAddressHigh <<< 32)
      else
        u32 SGEntryChain.u32SegmentAddressLow
    { w with
      GCPhysSGEntryNext := GCPhysSGEntryNext
      GCPhysSegmentStart := GCPhysSGEntryNext
      uChainOffsetNext := u32 ((SGEntryChain.u8NextChainOffset % 256) * 4) }
  else
    w

/-- The outer loop `while (!fEndOfList)` of `lsilogicScatterGatherListCreate`. -/
def lsilogicSGListLoop (D : MptDefs) (mem : GuestMem) (fDoMapping : Bool) :
    Nat → SGWalk → SGLoop
  | 0, _ => SGLoop.outOfFuel
  | fuel + 1, w =>
    if w.fEndOfList then
      SGLoop.done w
    else
      match lsilogicSGSegmentLoop D mem fDoMapping fuel w with
      | SGLoop.outOfFuel => SGLoop.outOfFuel
      | SGLoop.returned ts => SGLoop.returned ts
      | SGLoop.done w => lsilogicSGListLoop D mem fDoMapping fuel (lsilogicSGNextChain D mem w)

/-- The loop "construct the scatter gather list" at the end of
`lsilogicScatterGatherListCreate`: `n` iterations; `iSeg` is `pSGEntryCurr`
and `iInfo` is `pSGInfoCurr`, as indices.  The member `cbSeg` is a `size_t`;
its sums are not truncated. -/
def lsilogicSGCoalesce (paSGEntries : Nat → LSILOGICTASKSTATESGENTRY) :
    Nat → (Nat → PDMDATASEG) → Nat → Nat → Nat → (Nat → PDMDATASEG) × Nat
  | 0, pSGListHead, _, _, cSGEntries => (pSGListHead, cSGEntries)
  | n + 1, pSGListHead, iSeg, iInfo, cSGEntries =>
    let cur := pSGListHead iSeg
    let info := paSGEntries iInfo
    if cur.cbSeg % 512 ≠ 0 then
      lsilogicSGCoalesce paSGEntries n
        (fun j => if j = iSeg then { cur with cbSeg := cur.cbSeg + info.cbBuf }
                  else pSGListHead j)
        iSeg (iInfo + 1) cSGEntries
    else if cur.pvSeg + cur.cbSeg = info.pvBuf then
      lsilogicSGCoalesce paSGEntries n
        (fun j => if j = iSeg then { cur with cbSeg := cur.cbSeg + info.cbBuf }
                  else pSGListHead j)
        iSeg (iInfo + 1) cSGEntries
    else
      lsilogicSGCoalesce paSGEntries n
        (fun j => if j = iSeg + 1 then { pvSeg := info.pvBuf, cbSeg := info.cbBuf }
                  else pSGListHead j)
        (iSeg + 1) (iInfo + 1) (u32 (cSGEntries + 1))

/-- Create scatter gather list descriptors.  `none` means that the model ran
out of fuel; otherwise the result is the task state and the status code.  The
function only reads guest memory. -/
def lsilogicScatterGatherListCreate (D : MptDefs) (alloc : Nat → Bool) (fuel : Nat)
    (mem : GuestMem) (pTaskState : LSILOGICTASKSTATE) (GCPhysSGLStart uChainOffset : Nat) :
    Option (LSILOGICTASKSTATE × Int) :=
  /- First pass: count. -/
  let w0 : SGWalk :=
    { pTaskState := pTaskState
      cSGInfo := 0
      cbUnalignedComplete := 0
      pSGInfoCurr := 0
      pbBufferUnalignedSGInfoPos := 0
      fEndOfList := false
      GCPhysSGEntryNext := GCPhysSGLStart
      GCPhysSegmentStart := GCPhysSGLStart
      uChainOffsetNext := uChainOffset }
  match lsilogicSGListLoop D mem false fuel w0 with
  | SGLoop.outOfFuel => none
  | SGLoop.returned ts => some (ts, VINF_SUCCESS)
  | SGLoop.done w1 =>
    /- Second pass: the number of needed entries is known. Allocate needed memory. -/
    let a := lsilogicScatterGatherListAllocate D alloc w1.pTaskState
      w1.cSGInfo w1.cSGInfo w1.cbUnalignedComplete
    let ts := a.1
    let rc := a.2
    /- Initialize first segment. -/
    let ts := { ts with
      paSGEntries := fun j =>
        if j = 0 then { ts.paSGEntries 0 with fGuestMemory := false } else ts.paSGEntries j }
    let w2 : SGWalk :=
      { w1 with
        pTaskState := ts
        pSGInfoCurr := 0
        pbBufferUnalignedSGInfoPos := 0
        fEndOfList := false
        GCPhysSGEntryNext := GCPhysSGLStart
        GCPhysSegmentStart := GCPhysSGLStart
        uChainOffsetNext := uChainOffset }
    match lsilogicSGListLoop D mem true fuel w2 with
    | SGLoop.outOfFuel => none
    | SGLoop.returned ts => some (ts, VINF_SUCCESS)
    | SGLoop.done w3 =>
      let ts := w3.pTaskState
      /- Initialize first entry. -/
      let pSGListHead : Nat → PDMDATASEG := fun j =>
        if j = 0 then { pvSeg := (ts.paSGEntries 0).pvBuf, cbSeg := (ts.paSGEntries 0).cbBuf }
        else ts.pSGListHead j
      /- Construct the scatter gather list. -/
      let r := lsilogicSGCoalesce ts.paSGEntries (u32 (ts.cSGInfoEntries + 4294967295))
        pSGListHead 0 1 1
      some ({ ts with pSGListHead := r.1, cSGListEntries := r.2 }, rc)

/-! ## SCSI I/O -/

/-- The call `RTCacheRequest`: an object of the task cache, a new (zeroed) one
when the cache holds none. -/
def RTCacheRequest (pLsiLogic : LSILOGICSCSI) : LSILOGICSCSI × LSILOGICTASKSTATE :=
  match pLsiLogic.pTaskCache with
  | [] => (pLsiLogic, LSILOGICTASKSTATE.zero)
  | ts :: rest => ({ pLsiLogic with pTaskCache := rest }, ts)

/-- The call `RTCacheInsert`: hand an object back to the task cache. -/
def RTCacheInsert (pLsiLogic : LSILOGICSCSI) (pTaskState : LSILOGICTASKSTATE) : LSILOGICSCSI :=
  { pLsiLogic with pTaskCache := pTaskState :: pLsiLogic.pTaskCache }

/-- Processes a SCSI I/O request.  `none` means that the model ran out of fuel
while walking the scatter/gather list. -/
def lsilogicProcessSCSIIORequest (D : MptDefs) (alloc : Nat → Bool) (fuel : Nat)
    (pLsiLogic : LSILOGICSCSI) (pTaskState : LSILOGICTASKSTATE) : Option (LSILOGICSCSI × Int) :=
  let req := D.decodeRequest pTaskState.GuestRequest
  let ts := { pTaskState with fBIOS := false }
  let uChainOffset := req.SCSIIO_u8ChainOffset
  let uChainOffset :=
    if uChainOffset ≠ 0 then
      u32 (uChainOffset * 4 + (4294967296 - D.sizeof_MptSCSIIORequest % 4294967296))
    else
      uChainOffset
  /- Create Scatter gather list. -/
  match lsilogicScatterGatherListCreate D alloc fuel pLsiLogic.mem ts
      (ts.GCPhysMessageFrameAddr + D.sizeof_MptSCSIIORequest) uChainOffset with
  | none => none
  | some created =>
    let ts := created.1
    let rc := created.2
    let fInRange : Bool :=
      decide (req.SCSIIO_u8TargetID < D.LSILOGIC_DEVICES_MAX) && decide (req.SCSIIO_u8Bus = 0)
    let fSend : Bool :=
      if fInRange then (pLsiLogic.aDeviceStates req.SCSIIO_u8TargetID).pDrvBase else false
    if fSend then
      /- Setup the SCSI request. -/
      let uDataDirection := D.MPT_SCSIIO_REQUEST_CONTROL_TXDIR_GET req.SCSIIO_u32Control % 256
      let ts := { ts with
        pTargetDevice := some req.SCSIIO_u8TargetID
        PDMScsiRequest :=
          { uLogicalUnit := req.SCSIIO_au8LUN.getD 1 0
            uDataDirection :=
              if uDataDirection = D.MPT_SCSIIO_REQUEST_CONTROL_TXDIR_NONE then
                PDMSCSIREQUESTTXDIR.NONE
              else if uDataDirection = D.MPT_SCSIIO_REQUEST_CONTROL_TXDIR_WRITE then
                PDMSCSIREQUESTTXDIR.TO_DEVICE
              else if uDataDirection = D.MPT_SCSIIO_REQUEST_CONTROL_TXDIR_READ then
                PDMSCSIREQUESTTXDIR.FROM_DEVICE
              else
                ts.PDMScsiRequest.uDataDirection
            cbCDB := req.SCSIIO_u8CDBLength
            cbScatterGather := req.SCSIIO_u32DataLength
            cScatterGatherEntries := ts.cSGListEntries
            cbSenseBuffer := 18 }
        abSenseBuffer := fun i => if i < 18 then 0 else ts.abSenseBuffer i }
      let dev := pLsiLogic.aDeviceStates req.SCSIIO_u8TargetID
      let s := { pLsiLogic with
        aDeviceStates := fun i =>
          if i = req.SCSIIO_u8TargetID then
            { dev with cOutstandingRequests := u32 (dev.cOutstandingRequests + 1) }
          else
            pLsiLogic.aDeviceStates i
        aSubmitted := (req.SCSIIO_u8TargetID, ts) :: pLsiLogic.aSubmitted }
      some (s, VINF_SUCCESS)
    else
      let u16IOCStatus :=
        if fInRange then
          /- Device is not present report SCSI selection timeout. -/
          D.MPT_SCSI_IO_ERROR_IOCSTATUS_DEVICE_NOT_THERE
        else if req.SCSIIO_u8Bus ≠ 0 then
          /- Report out of bounds target ID or bus. -/
          D.MPT_SCSI_IO_ERROR_IOCSTATUS_INVALID_BUS
        else
          D.MPT_SCSI_IO_ERROR_IOCSTATUS_INVALID_TARGETID
      /- The rest is equal to both errors. -/
      let ts := { ts with
        IOCReply := { ts.IOCReply with
          SCSIIOError_u16IOCStatus := u16IOCStatus
          SCSIIOError_u8TargetID := req.SCSIIO_u8TargetID
          SCSIIOError_u8Bus := req.SCSIIO_u8Bus
          u8MessageLength := (D.sizeof_MptSCSIIOErrorReply / 4) % 256
          u8Function := req.u8Function
          SCSIIOError_u8CDBLength := req.SCSIIO_u8CDBLength
          SCSIIOError_u8SenseBufferLength := req.SCSIIO_u8SenseBufferLength
          u32MessageContext := req.u32MessageContext
          SCSIIOError_u8SCSIStatus := D.SCSI_STATUS_OK
          SCSIIOError_u8SCSIState := D.MPT_SCSI_IO_ERROR_SCSI_STATE_TERMINATED
          SCSIIOError_u32IOCLogInfo := 0
          SCSIIOError_u32TransferCount := 0
          SCSIIOError_u32SenseCount := 0
          SCSIIOError_u32ResponseInfo := 0 } }
      let s := lsilogicFinishAddressReply D pLsiLogic ts.IOCReply false
      some (RTCacheInsert s ts, rc)

/-- Called upon completion of the request from the SCSI driver below.
`pTaskState` is the task state of the request as the backend left it (staging
buffer and sense buffer filled in).  Requests issued from the BIOS are finished
by `vboxscsiRequestFinished`, which is outside this file and not modelled. -/
def lsilogicDeviceSCSIRequestCompleted (D : MptDefs) (pLsiLogic : LSILOGICSCSI)
    (pTaskState : LSILOGICTASKSTATE) (rcCompletion : Nat) : LSILOGICSCSI :=
  let req := D.decodeRequest pTaskState.GuestRequest
  let s :=
    match pTaskState.pTargetDevice with
    | none => pLsiLogic
    | some iDev =>
      let dev := pLsiLogic.aDeviceStates iDev
      { pLsiLogic with
        aDeviceStates := fun i =>
          if i = iDev then
            { dev with cOutstandingRequests := u32 (dev.cOutstandingRequests + 4294967295) }
          else
            pLsiLogic.aDeviceStates i }
  if pTaskState.fBIOS then
    RTCacheInsert s pTaskState
  else
    let GCPhysAddrSenseBuffer :=
      u32 req.SCSIIO_u32SenseBufferLowAddress ||| (u32 s.u32SenseBufferHighAddr <<< 32)
    /- Copy the sense buffer over. -/
    let s := { s with
      mem := physWrite s.mem GCPhysAddrSenseBuffer pTaskState.abSenseBuffer
        (if req.SCSIIO_u8SenseBufferLength < pTaskState.PDMScsiRequest.cbSenseBuffer then
           req.SCSIIO_u8SenseBufferLength
         else
           pTaskState.PDMScsiRequest.cbSenseBuffer) }
    let d := lsilogicScatterGatherListDestroy D s pTaskState
    let s := d.1
    let ts := d.2
    if rcCompletion = D.SCSI_STATUS_OK then
      RTCacheInsert (lsilogicFinishContextReply s req.u32MessageContext) ts
    else
      /- The SCSI target encountered an error during processing post a reply. -/
      let ts := { ts with
        IOCReply := { MptReplyUnion.zero with
          SCSIIOError_u8TargetID := req.SCSIIO_u8TargetID
          SCSIIOError_u8Bus := req.SCSIIO_u8Bus
          u8MessageLength := 8
          u8Function := req.u8Function
          SCSIIOError_u8CDBLength := req.SCSIIO_u8CDBLength
          SCSIIOError_u8SenseBufferLength := req.SCSIIO_u8SenseBufferLength
          SCSIIOError_u8MessageFlags := req.SCSIIO_u8MessageFlags
          u32MessageContext := req.u32MessageContext
          SCSIIOError_u8SCSIStatus := rcCompletion % 256
          SCSIIOError_u8SCSIState := D.MPT_SCSI_IO_ERROR_SCSI_STATE_AUTOSENSE_VALID
          SCSIIOError_u16IOCStatus := 0
          SCSIIOError_u32IOCLogInfo := 0
          SCSIIOError_u32TransferCount := 0
          SCSIIOError_u32SenseCount := 18
          SCSIIOError_u32ResponseInfo := 0 } }
      RTCacheInsert (lsilogicFinishAddressReply D s ts.IOCReply true) ts

/-! ## The request queue consumer -/

/-- The `switch` of `lsilogicNotifyQueueConsumer` that determines the size of
the request: the size, and whether the default branch was taken. -/
def lsilogicRequestSize (D : MptDefs) (u8Function : Nat) : Nat × Bool :=
  if u8Function = D.MPT_MESSAGE_HDR_FUNCTION_SCSI_IO_REQUEST then
    (D.sizeof_MptSCSIIORequest, false)
  else if u8Function = D.MPT_MESSAGE_HDR_FUNCTION_SCSI_TASK_MGMT then
    (D.sizeof_MptSCSITaskManagementRequest, false)
  else if u8Function = D.MPT_MESSAGE_HDR_FUNCTION_IOC_INIT then
    (D.sizeof_MptIOCInitRequest, false)
  else if u8Function = D.MPT_MESSAGE_HDR_FUNCTION_IOC_FACTS then
    (D.sizeof_MptIOCFactsRequest, false)
  else if u8Function = D.MPT_MESSAGE_HDR_FUNCTION_CONFIG then
    (D.sizeof_MptConfigurationRequest, false)
  else if u8Function = D.MPT_MESSAGE_HDR_FUNCTION_PORT_FACTS then
    (D.sizeof_MptPortFactsRequest, false)
  else if u8Function = D.MPT_MESSAGE_HDR_FUNCTION_PORT_ENABLE then
    (D.sizeof_MptPortEnableRequest, false)
  else if u8Function = D.MPT_MESSAGE_HDR_FUNCTION_EVENT_NOTIFICATION then
    (D.sizeof_MptEventNotificationRequest, false)
  else if u8Function = D.MPT_MESSAGE_HDR_FUNCTION_EVENT_ACK then
    (0, false)
  else if u8Function = D.MPT_MESSAGE_HDR_FUNCTION_FW_DOWNLOAD then
    (0, false)
  else
    (0, true)

/-- The call `PDMDevHlpPhysRead(pDevIns, GCPhys, &pTaskState->GuestRequest, cb)`. -/
def readGuestRequest (mem : GuestMem) (GCPhys cb : Nat) (GuestRequest : Nat → Nat) : Nat → Nat :=
  fun i => if i < cb then mem (GCPhys + i) else GuestRequest i

/-- The loop of `lsilogicNotifyQueueConsumer`.  `none` means that the model ran
out of fuel. -/
def lsilogicNotifyQueueConsumerLoop (D : MptDefs) (alloc : Nat → Bool)
    (uRequestQueueNextEntryWrite : Nat) : Nat → LSILOGICSCSI → Option LSILOGICSCSI
  | 0, _ => none
  | fuel + 1, pLsiLogic =>
    if pLsiLogic.enmState = LSILOGICSTATE.OPERATIONAL
        ∧ pLsiLogic.uRequestQueueNextAddressRead ≠ uRequestQueueNextEntryWrite then
      let u32RequestMessageFrameDesc :=
        pLsiLogic.pRequestQueueBase pLsiLogic.uRequestQueueNextAddressRead
      let GCPhysMessageFrameAddr :=
        LSILOGIC_RTGCPHYS_FROM_U32 pLsiLogic.u32HostMFAHighAddr
          (u32RequestMessageFrameDesc &&& not32 0x07)
      /- Get new task state. -/
      let c := RTCacheRequest pLsiLogic
      let s := c.1
      let ts := { c.2 with GCPhysMessageFrameAddr := GCPhysMessageFrameAddr }
      /- Read the message header from the guest first. -/
      let ts := { ts with
        GuestRequest :=
          readGuestRequest s.mem GCPhysMessageFrameAddr D.sizeof_MptMessageHdr ts.GuestRequest }
      /- Determine the size of the request. -/
      let u8Function := (D.decodeRequest ts.GuestRequest).u8Function
      let cbRequest := (lsilogicRequestSize D u8Function).1
      let s :=
        if (lsilogicRequestSize D u8Function).2 then
          lsilogicSetIOCFaultCode s LSILOGIC_IOCSTATUS_INVALID_FUNCTION
        else
          s
      if cbRequest ≠ 0 then
        /- Read the complete message frame from guest memory now. -/
        let ts := { ts with
          GuestRequest := readGuestRequest s.mem GCPhysMessageFrameAddr cbRequest ts.GuestRequest }
        let req := D.decodeRequest ts.GuestRequest
        /- Handle SCSI I/O requests now. -/
        let r : Option LSILOGICSCSI :=
          if req.u8Function = D.MPT_MESSAGE_HDR_FUNCTION_SCSI_IO_REQUEST then
            (lsilogicProcessSCSIIORequest D alloc fuel s ts).map (fun r => r.1)
          else
            some (RTCacheInsert (lsilogicProcessMessageRequest D s req).1 ts)
        match r with
        | none => none
        | some s =>
          let s := { s with
            uRequestQueueNextAddressRead := u32 (s.uRequestQueueNextAddressRead + 1) }
          let s := { s with
            uRequestQueueNextAddressRead :=
              s.uRequestQueueNextAddressRead % s.cRequestQueueEntries }
          lsilogicNotifyQueueConsumerLoop D alloc uRequestQueueNextEntryWrite fuel s
      else
        lsilogicNotifyQueueConsumerLoop D alloc uRequestQueueNextEntryWrite fuel s
    else
      some pLsiLogic

/-- Transmit queue consumer (`lsilogicNotifyQueueConsumer`).  `none` means that
the model ran out of fuel. -/
def lsilogicNotifyQueueConsumer (D : MptDefs) (alloc : Nat → Bool) (fuel : Nat)
    (pLsiLogic : LSILOGICSCSI) : Option LSILOGICSCSI :=
  /- Only process request which arrived before we received the notification. -/
  let uRequestQueueNextEntryWrite := pLsiLogic.uRequestQueueNextEntryFreeWrite
  /- Reset notification event. -/
  let s := { pLsiLogic with fNotificationSend := false }
  lsilogicNotifyQueueConsumerLoop D alloc uRequestQueueNextEntryWrite fuel s

/-! ## Scatter/gather chains in guest memory

A description, independent of the loops above, of the list of simple elements
a scatter/gather chain in guest memory consists of. -/

/-- The simple element stored at a guest address. -/
def sgEntryAt (D : MptDefs) (mem : GuestMem) (GCPhys : Nat) : MptSGEntryUnion :=
  D.decodeSGEntry (physRead mem GCPhys D.sizeof_MptSGEntryUnion)

/-- The chain element stored at a guest address. -/
def sgChainAt (D : MptDefs) (mem : GuestMem) (GCPhys : Nat) : MptSGEntryChain :=
  D.decodeSGEntryChain (physRead mem GCPhys D.sizeof_MptSGEntryChain)

/-- A zero element: length 0 with end-of-list and end-of-buffer set. -/
def isZeroElement (e : MptSGEntryUnion) : Prop :=
  e.u24Length = 0 ∧ e.fEndOfList = true ∧ e.fEndOfBuffer = true

instance (e : MptSGEntryUnion) : Decidable (isZeroElement e) :=
  inferInstanceAs (Decidable (e.u24Length = 0 ∧ e.fEndOfList = true ∧ e.fEndOfBuffer = true))

/-- Size in guest memory of a simple element. -/
def sgEntrySize (D : MptDefs) (e : MptSGEntryUnion) : Nat :=
  if e.f64BitAddress then D.sizeof_MptSGEntrySimple64 else D.sizeof_MptSGEntrySimple32

/-- Guest address of the segment a chain element points to. -/
def sgChainAddress (c : MptSGEntryChain) : Nat :=
  if c.f64BitAddress then
    u32 c.u32SegmentAddressLow ||| (u32 c.u32SegmentAddressHigh <<< 32)
  else
    u32 c.u32SegmentAddressLow

/-- `SGChain D mem next seg off es`: starting with the simple element at guest
address `next`, inside the segment that starts at `seg` and whose chain element
sits `off` bytes after `seg` (none when `off = 0`), the chain consists of the
simple elements `es`, none of them a zero element, the last one marked
end-of-list.  After an element marked last-of-segment the chain goes on in the
segment the chain element points to, or right behind the element when the
segment has no chain element. -/
inductive SGChain (D : MptDefs) (mem : GuestMem) :
    Nat → Nat → Nat → List MptSGEntryUnion → Prop where
  | last (next seg off : Nat) :
      ¬ isZeroElement (sgEntryAt D mem next) →
      (sgEntryAt D mem next).fEndOfList = true →
      SGChain D mem next seg off [sgEntryAt D mem next]
  | inSegment (next seg off : Nat) (es : List MptSGEntryUnion) :
      ¬ isZeroElement (sgEntryAt D mem next) →
      (sgEntryAt D mem next).fEndOfList = false →
      (sgEntryAt D mem next).fLastElement = false →
      SGChain D mem (next + sgEntrySize D (sgEntryAt D mem next)) seg off es →
      SGChain D mem next seg off (sgEntryAt D mem next :: es)
  | noChain (next seg : Nat) (es : List MptSGEntryUnion) :
      ¬ isZeroElement (sgEntryAt D mem next) →
      (sgEntryAt D mem next).fEndOfList = false →
      (sgEntryAt D mem next).fLastElement = true →
      SGChain D mem (next + sgEntrySize D (sgEntryAt D mem next)) seg 0 es →
      SGChain D mem next seg 0 (sgEntryAt D mem next :: es)
  | nextSegment (next seg off : Nat) (es : List MptSGEntryUnion) :
      ¬ isZeroElement (sgEntryAt D mem next) →
      (sgEntryAt D mem next).fEndOfList = false →
      (sgEntryAt D mem next).fLastElement = true →
      off ≠ 0 →
      SGChain D mem (sgChainAddress (sgChainAt D mem (seg + off)))
        (sgChainAddress (sgChainAt D mem (seg + off)))
        (u32 (((sgChainAt D mem (seg + off)).u8NextChainOffset % 256) * 4)) es →
      SGChain D mem next seg off (sgEntryAt D mem next :: es)

/-- `SGChainZ D mem next seg off es`: as `SGChain`, for a walk that meets a
zero element: starting with the simple element at guest address `next`, the
walk passes the simple elements `es`, none of them a zero element or marked
end-of-list, and then reads a zero element. -/
inductive SGChainZ (D : MptDefs) (mem : GuestMem) :
    Nat → Nat → Nat → List MptSGEntryUnion → Prop where
  | zero (next seg off : Nat) :
      isZeroElement (sgEntryAt D mem next) →
      SGChainZ D mem next seg off []
  | inSegment (next seg off : Nat) (es : List MptSGEntryUnion) :
      ¬ isZeroElement (sgEntryAt D mem next) →
      (sgEntryAt D mem next).fEndOfList = false →
      (sgEntryAt D mem next).fLastElement = false →
      SGChainZ D mem (next + sgEntrySize D (sgEntryAt D mem next)) seg off es →
      SGChainZ D mem next seg off (sgEntryAt D mem next :: es)
  | noChain (next seg : Nat) (es : List MptSGEntryUnion) :
      ¬ isZeroElement (sgEntryAt D mem next) →
      (sgEntryAt D mem next).fEndOfList = false →
      (sgEntryAt D mem next).fLastElement = true →
      SGChainZ D mem (next + sgEntrySize D (sgEntryAt D mem next)) seg 0 es →
      SGChainZ D mem next seg 0 (sgEntryAt D mem next :: es)
  | nextSegment (next seg off : Nat) (es : List MptSGEntryUnion) :
      ¬ isZeroElement (sgEntryAt D mem next) →
      (sgEntryAt D mem next).fEndOfList = false →
      (sgEntryAt D mem next).fLastElement = true →
      off ≠ 0 →
      SGChainZ D mem (sgChainAddress (sgChainAt D mem (seg + off)))
        (sgChainAddress (sgChainAt D mem (seg + off)))
        (u32 (((sgChainAt D mem (seg + off)).u8NextChainOffset % 256) * 4)) es →
      SGChainZ D mem next seg off (sgEntryAt D mem next :: es)

/-- What a loop of `lsilogicScatterGatherListCreate` that ran to its end
counted: `cSGInfo`, `cbUnalignedComplete`, the number of descriptor entries
filled and the staging position reached; `none` for a loop that returned or ran
out of fuel. -/
def SGLoop.counters : SGLoop → Option (Nat × Nat × Nat × Nat)
  | SGLoop.done w =>
    some (w.cSGInfo, w.cbUnalignedComplete, w.pSGInfoCurr, w.pbBufferUnalignedSGInfoPos)
  | _ => none

/-- The guest memory fragment a simple element describes: address and length. -/
def sgFragment (e : MptSGEntryUnion) : Nat × Nat :=
  (sgEntryAddress e, e.u24Length)

/-- The descriptor entries the mapping pass stores for the elements `es`, the
first one staged at offset `pos`. -/
def sgInfosOf : Nat → List MptSGEntryUnion → List LSILOGICTASKSTATESGENTRY
  | _, [] => []
  | pos, e :: es =>
    { fGuestMemory := false
      fBufferContainsData := e.fBufferContainsData
      pvBuf := pos
      cbBuf := e.u24Length
      GCPhysAddrBufferUnaligned := sgEntryAddress e } :: sgInfosOf (pos + e.u24Length) es

/-- The bytes of a list of fragments of guest memory, one fragment after the
other. -/
def fragmentBytes (mem : GuestMem) (fs : List (Nat × Nat)) : List Nat :=
  fs.flatMap (fun f => physRead mem f.1 f.2)

/-- Total length of a list of fragments. -/
def fragmentsLength (fs : List (Nat × Nat)) : Nat :=
  (fs.map (fun f => f.2)).sum

/-- Whether a guest address lies in one of the fragments. -/
def inFragments (fs : List (Nat × Nat)) (a : Nat) : Prop :=
  ∃ f ∈ fs, f.1 ≤ a ∧ a < f.1 + f.2

/-- No two fragments of the list share an address. -/
def fragmentsDisjoint : List (Nat × Nat) → Prop
  | [] => True
  | f :: fs =>
    (∀ g ∈ fs, ∀ a, ¬ (f.1 ≤ a ∧ a < f.1 + f.2 ∧ g.1 ≤ a ∧ a < g.1 + g.2))
      ∧ fragmentsDisjoint fs

/-- Two walk states agree on what the loops of `lsilogicScatterGatherListCreate`
accumulate: the task state, the counters and the staging position. -/
def SGWalk.sameAcc (w1 w2 : SGWalk) : Prop :=
  w1.pTaskState = w2.pTaskState ∧ w1.cSGInfo = w2.cSGInfo
    ∧ w1.cbUnalignedComplete = w2.cbUnalignedComplete ∧ w1.pSGInfoCurr = w2.pSGInfoCurr
    ∧ w1.pbBufferUnalignedSGInfoPos = w2.pbBufferUnalignedSGInfoPos

/-- The inner loop of `lsilogicScatterGatherListCreate`, run with fuel `f1`,
followed by the rest of one iteration of the outer loop and by the outer loop
with fuel `f2`. -/
def sgContinue (D : MptDefs) (mem : GuestMem) (fDoMapping : Bool) (f1 f2 : Nat) (w : SGWalk) :
    SGLoop :=
  match lsilogicSGSegmentLoop D mem fDoMapping f1 w with
  | SGLoop.outOfFuel => SGLoop.outOfFuel
  | SGLoop.returned ts => SGLoop.returned ts
  | SGLoop.done w => lsilogicSGListLoop D mem fDoMapping f2 (lsilogicSGNextChain D mem w)

/-- The store loop of `lsilogicScatterGatherListDestroy` over a list of
descriptor entries, with staging buffer `buf`. -/
def sgCopyOut (buf : Nat → Nat) (mem : GuestMem) (infos : List LSILOGICTASKSTATESGENTRY) :
    GuestMem :=
  infos.foldl (fun m info =>
    if info.fGuestMemory then m
    else if !info.fBufferContainsData then lsilogicCopyFromBufferIntoSGList m buf info
    else m) mem

/-! ## The three statements of `lsilogicScatterGatherListAllocate` -/

/-- The first statement of `lsilogicScatterGatherListAllocate`, on the list
array: the task state, and whether the function goes on. -/
def sgAllocateList (D : MptDefs) (alloc : Nat → Bool) (pTaskState : LSILOGICTASKSTATE)
    (cSGList : Nat) : LSILOGICTASKSTATE × Bool :=
  if pTaskState.cSGListSize < cSGList then
    if alloc (cSGList * D.sizeof_PDMDATASEG) then
      ({ pTaskState with
          fSGListHeadNull := false
          pSGListHead := fun _ => { pvSeg := 0, cbSeg := 0 }
          cSGListSize := cSGList
          cSGListEntries := cSGList
          cSGListTooBig := 0 }, true)
    else
      ({ pTaskState with
          fSGListHeadNull := true
          pSGListHead := fun _ => { pvSeg := 0, cbSeg := 0 } }, false)
  else if pTaskState.cSGListSize > cSGList then
    ({ pTaskState with
        cSGListEntries := cSGList
        cSGListTooBig := u32 (pTaskState.cSGListTooBig + 1) }, true)
  else
    ({ pTaskState with cSGListEntries := cSGList, cSGListTooBig := 0 }, true)

/-- The second statement of `lsilogicScatterGatherListAllocate`, on the info
array. -/
def sgAllocateInfo (D : MptDefs) (alloc : Nat → Bool) (ts : LSILOGICTASKSTATE)
    (cSGInfo : Nat) : LSILOGICTASKSTATE × Bool :=
  if ts.cSGInfoSize < cSGInfo then
    if alloc (cSGInfo * D.sizeof_LSILOGICTASKSTATESGENTRY) then
      ({ ts with
          fSGEntriesNull := false
          paSGEntries := LSILOGICTASKSTATE.zero.paSGEntries
          cSGInfoSize := cSGInfo
          cSGInfoEntries := cSGInfo
          cSGInfoTooBig := 0 }, true)
    else
      ({ ts with
          fSGEntriesNull := true
          paSGEntries := LSILOGICTASKSTATE.zero.paSGEntries }, false)
  else if ts.cSGInfoSize > cSGInfo then
    ({ ts with cSGInfoEntries := cSGInfo, cSGInfoTooBig := u32 (ts.cSGInfoTooBig + 1) }, true)
  else
    ({ ts with cSGInfoEntries := cSGInfo, cSGInfoTooBig := 0 }, true)

/-- The third statement of `lsilogicScatterGatherListAllocate`, on the staging
buffer, and the return. -/
def sgAllocateBuffer (alloc : Nat → Bool) (ts : LSILOGICTASKSTATE) (cbUnaligned : Nat) :
    LSILOGICTASKSTATE × Int :=
  if ts.cbBufferUnaligned < cbUnaligned then
    if alloc cbUnaligned then
      ({ ts with
          fBufferUnalignedNull := false
          pvBufferUnaligned := fun _ => 0
          cbBufferUnaligned := cbUnaligned }, VINF_SUCCESS)
    else
      ({ ts with fBufferUnalignedNull := true, pvBufferUnaligned := fun _ => 0 }, VERR_NO_MEMORY)
  else
    (ts, VINF_SUCCESS)

/-! ## Runs of allocations -/

/-- Successive calls of `lsilogicScatterGatherListAllocate` on one task state,
one for each request `(cSGList, cSGInfo, cbUnaligned)`: the task state after
the last call. -/
def allocateRun (D : MptDefs) (alloc : Nat → Bool) (pTaskState : LSILOGICTASKSTATE)
    (reqs : List (Nat × Nat × Nat)) : LSILOGICTASKSTATE :=
  reqs.foldl
    (fun ts r => (lsilogicScatterGatherListAllocate D alloc ts r.1 r.2.1 r.2.2).1) pTaskState

/-! ## SCSI I/O requests: the steps of `lsilogicProcessSCSIIORequest` -/

/-- The call of `lsilogicScatterGatherListCreate` that `lsilogicProcessSCSIIORequest`
makes for a task state; `none` when the walk of the guest's list runs out of
fuel. -/
def scsiIOCreateSGList (D : MptDefs) (alloc : Nat → Bool) (fuel : Nat) (pLsiLogic : LSILOGICSCSI)
    (pTaskState : LSILOGICTASKSTATE) : Option (LSILOGICTASKSTATE × Int) :=
  lsilogicScatterGatherListCreate D alloc fuel pLsiLogic.mem { pTaskState with fBIOS := false }
    (pTaskState.GCPhysMessageFrameAddr + D.sizeof_MptSCSIIORequest)
    (if (D.decodeRequest pTaskState.GuestRequest).SCSIIO_u8ChainOffset ≠ 0 then
      u32 ((D.decodeRequest pTaskState.GuestRequest).SCSIIO_u8ChainOffset * 4
        + (4294967296 - D.sizeof_MptSCSIIORequest % 4294967296))
    else
      (D.decodeRequest pTaskState.GuestRequest).SCSIIO_u8ChainOffset)

/-- The guest address at which `lsilogicProcessSCSIIORequest` starts the walk
of the scatter/gather list: right behind the request in its message frame. -/
def scsiIOSGLStart (D : MptDefs) (pTaskState : LSILOGICTASKSTATE) : Nat :=
  pTaskState.GCPhysMessageFrameAddr + D.sizeof_MptSCSIIORequest

/-- The chain offset `lsilogicProcessSCSIIORequest` computes from the member
`u8ChainOffset` of the request. -/
def scsiIOChainOffset (D : MptDefs) (pTaskState : LSILOGICTASKSTATE) : Nat :=
  if (D.decodeRequest pTaskState.GuestRequest).SCSIIO_u8ChainOffset ≠ 0 then
    u32 ((D.decodeRequest pTaskState.GuestRequest).SCSIIO_u8ChainOffset * 4
      + (4294967296 - D.sizeof_MptSCSIIORequest % 4294967296))
  else
    (D.decodeRequest pTaskState.GuestRequest).SCSIIO_u8ChainOffset

/-- The scatter/gather chain of a SCSI I/O request ends: followed from the
first element behind the request, through the chain elements, it reaches an
element marked end-of-list or a zero element. -/
def scsiIOChainEnds (D : MptDefs) (pLsiLogic : LSILOGICSCSI) (pTaskState : LSILOGICTASKSTATE) :
    Prop :=
  (∃ es, SGChain D pLsiLogic.mem (scsiIOSGLStart D pTaskState) (scsiIOSGLStart D pTaskState)
      (scsiIOChainOffset D pTaskState) es)
    ∨ (∃ es, SGChainZ D pLsiLogic.mem (scsiIOSGLStart D pTaskState)
        (scsiIOSGLStart D pTaskState) (scsiIOChainOffset D pTaskState) es)

/-- The error reply that `lsilogicProcessSCSIIORequest` builds in
`pTaskState->IOCReply` for a request it does not send to a driver; `old` is the
previous content of `IOCReply`. -/
def scsiIOErrorReply (D : MptDefs) (req : MptRequestUnion) (old : MptReplyUnion)
    (u16IOCStatus : Nat) : MptReplyUnion :=
  { old with
    SCSIIOError_u16IOCStatus := u16IOCStatus
    SCSIIOError_u8TargetID := req.SCSIIO_u8TargetID
    SCSIIOError_u8Bus := req.SCSIIO_u8Bus
    u8MessageLength := (D.sizeof_MptSCSIIOErrorReply / 4) % 256
    u8Function := req.u8Function
    SCSIIOError_u8CDBLength := req.SCSIIO_u8CDBLength
    SCSIIOError_u8SenseBufferLength := req.SCSIIO_u8SenseBufferLength
    u32MessageContext := req.u32MessageContext
    SCSIIOError_u8SCSIStatus := D.SCSI_STATUS_OK
    SCSIIOError_u8SCSIState := D.MPT_SCSI_IO_ERROR_SCSI_STATE_TERMINATED
    SCSIIOError_u32IOCLogInfo := 0
    SCSIIOError_u32TransferCount := 0
    SCSIIOError_u32SenseCount := 0
    SCSIIOError_u32ResponseInfo := 0 }

/-- The first steps of `lsilogicDeviceSCSIRequestCompleted` for a request that
is not a BIOS request: the count of outstanding requests is decremented, the
sense buffer is copied to the guest and the scatter/gather list is destroyed. -/
def scsiRequestReleased (D : MptDefs) (pLsiLogic : LSILOGICSCSI)
    (pTaskState : LSILOGICTASKSTATE) : LSILOGICSCSI × LSILOGICTASKSTATE :=
  let req := D.decodeRequest pTaskState.GuestRequest
  let s :=
    match pTaskState.pTargetDevice with
    | none => pLsiLogic
    | some iDev =>
      { pLsiLogic with
        aDeviceStates := fun i =>
          if i = iDev then
            { pLsiLogic.aDeviceStates iDev with
              cOutstandingRequests :=
                u32 ((pLsiLogic.aDeviceStates iDev).cOutstandingRequests + 4294967295) }
          else
            pLsiLogic.aDeviceStates i }
  lsilogicScatterGatherListDestroy D
    { s with
      mem := physWrite s.mem
        (u32 req.SCSIIO_u32SenseBufferLowAddress ||| (u32 s.u32SenseBufferHighAddr <<< 32))
        pTaskState.abSenseBuffer
        (if req.SCSIIO_u8SenseBufferLength < pTaskState.PDMScsiRequest.cbSenseBuffer then
           req.SCSIIO_u8SenseBufferLength
         else
           pTaskState.PDMScsiRequest.cbSenseBuffer) }
    pTaskState

/-- The error reply that `lsilogicDeviceSCSIRequestCompleted` builds when the
SCSI target reports an error. -/
def scsiCompletionErrorReply (D : MptDefs) (req : MptRequestUnion) (rcCompletion : Nat) :
    MptReplyUnion :=
  { MptReplyUnion.zero with
    SCSIIOError_u8TargetID := req.SCSIIO_u8TargetID
    SCSIIOError_u8Bus := req.SCSIIO_u8Bus
    u8MessageLength := 8
    u8Function := req.u8Function
    SCSIIOError_u8CDBLength := req.SCSIIO_u8CDBLength
    SCSIIOError_u8SenseBufferLength := req.SCSIIO_u8SenseBufferLength
    SCSIIOError_u8MessageFlags := req.SCSIIO_u8MessageFlags
    u32MessageContext := req.u32MessageContext
    SCSIIOError_u8SCSIStatus := rcCompletion % 256
    SCSIIOError_u8SCSIState := D.MPT_SCSI_IO_ERROR_SCSI_STATE_AUTOSENSE_VALID
    SCSIIOError_u16IOCStatus := 0
    SCSIIOError_u32IOCLogInfo := 0
    SCSIIOError_u32TransferCount := 0
    SCSIIOError_u32SenseCount := 18
    SCSIIOError_u32ResponseInfo := 0 }

/-! ## The assignments of `lsilogicInitializeConfigurationPages` as a list

The same assignments, in the same order, as data: it is the list that the
layout condition `headersKept` speaks about.  That running the list gives the
page store of `lsilogicInitializeConfigurationPages` is proved, not assumed. -/

/-- One assignment to the page store. -/
inductive PageWrite where
  /-- Assignment to a field of the header of a page. -/
  | header (page : ConfigPage) (f : HeaderField) (v : Nat)
  /-- Assignment to a field of `width` bits of a page. -/
  | field (page : ConfigPage) (f : PageField) (width v : Nat)
  /-- A call of `strncpy` to a character array of a page. -/
  | chars (page : ConfigPage) (f : PageField) (src : List Nat) (n : Nat)

/-- The effect of one assignment. -/
def PageWrite.apply (D : MptDefs) (p : Nat → Nat) : PageWrite → Nat → Nat
  | .header page f v => setHeaderField D p page f v
  | .field page f width v => setPageField D p page f width v
  | .chars page f src n => strncpy p (D.offPage page + D.offField f) src n

/-- Whether an assignment stores to a bit of the byte at address `a`. -/
def PageWrite.touches (D : MptDefs) : PageWrite → Nat → Bool
  | .header page f _, a => a == pageHeaderAddr D page + D.offHeaderField f
  | .field page f width _, a =>
    decide (8 * (D.offPage page + D.offField f) + D.bitField f < 8 * a + 8)
      && decide (8 * a < 8 * (D.offPage page + D.offField f) + D.bitField f + width)
  | .chars page f _ n, a =>
    decide (D.offPage page + D.offField f ≤ a) && decide (a < D.offPage page + D.offField f + n)

/-- The layout condition on a run of assignments: the byte of a header field,
once assigned, is not stored to by any later assignment of the run. -/
def headersKept (D : MptDefs) : List PageWrite → Bool
  | [] => true
  | .header page f _ :: ws =>
    ws.all (fun w => !w.touches D (pageHeaderAddr D page + D.offHeaderField f))
      && headersKept D ws
  | _ :: ws => headersKept D ws

/-- The assignments of `setPageHeader`. -/
def setPageHeaderWrites (D : MptDefs) (page : ConfigPage) (u8PageType u8PageNumber : Nat) :
    List PageWrite :=
  [.header page HeaderField.u8PageType u8PageType,
   .header page HeaderField.u8PageNumber u8PageNumber,
   .header page HeaderField.u8PageLength (D.sizeofPage page / 4)]

/-- The assignments of `initPortPages`. -/
def initPortPagesWrites (D : MptDefs) (i : Nat) : List PageWrite :=
  setPageHeaderWrites D (ConfigPage.SCSISPIPortPage0 i)
    (D.MPT_CONFIGURATION_PAGE_ATTRIBUTE_READONLY ||| D.MPT_CONFIGURATION_PAGE_TYPE_SCSI_SPI_PORT) 0
  ++ [.field (ConfigPage.SCSISPIPortPage0 i) PageField.fInformationUnitTransfersCapable 1 1,
      .field (ConfigPage.SCSISPIPortPage0 i) PageField.fDTCapable 1 1,
      .field (ConfigPage.SCSISPIPortPage0 i) PageField.fQASCapable 1 1,
      .field (ConfigPage.SCSISPIPortPage0 i) PageField.u8MinimumSynchronousTransferPeriod 8 0,
      .field (ConfigPage.SCSISPIPortPage0 i) PageField.u8MaximumSynchronousOffset 8 0xff,
      .field (ConfigPage.SCSISPIPortPage0 i) PageField.fWide 1 1,
      .field (ConfigPage.SCSISPIPortPage0 i) PageField.fAIPCapable 1 1,
      .field (ConfigPage.SCSISPIPortPage0 i) PageField.u2SignalingType 2 0x3]
  ++ setPageHeaderWrites D (ConfigPage.SCSISPIPortPage1 i)
    (D.MPT_CONFIGURATION_PAGE_ATTRIBUTE_CHANGEABLE ||| D.MPT_CONFIGURATION_PAGE_TYPE_SCSI_SPI_PORT) 1
  ++ [.field (ConfigPage.SCSISPIPortPage1 i) PageField.u8SCSIID 8 7,
      .field (ConfigPage.SCSISPIPortPage1 i) PageField.u16PortResponseIDsBitmask 16 (1 <<< 7),
      .field (ConfigPage.SCSISPIPortPage1 i) PageField.u32OnBusTimerValue 32 0]
  ++ setPageHeaderWrites D (ConfigPage.SCSISPIPortPage2 i)
    (D.MPT_CONFIGURATION_PAGE_ATTRIBUTE_CHANGEABLE ||| D.MPT_CONFIGURATION_PAGE_TYPE_SCSI_SPI_PORT) 2
  ++ [.field (ConfigPage.SCSISPIPortPage2 i) PageField.u4HostSCSIID 4 7,
      .field (ConfigPage.SCSISPIPortPage2 i) PageField.u2InitializeHBA 2 0x3,
      .field (ConfigPage.SCSISPIPortPage2 i) PageField.fTerminationDisabled 1 1]
  ++ (List.range D.cDeviceSettings).map (fun iDevice =>
      PageWrite.field (ConfigPage.SCSISPIPortPage2 i)
        (PageField.aDeviceSettings_fBootChoice iDevice) 1 1)

/-- The assignments of `initDevicePages`. -/
def initDevicePagesWrites (D : MptDefs) (uBusCurr uDeviceCurr : Nat) : List PageWrite :=
  setPageHeaderWrites D (ConfigPage.SCSISPIDevicePage0 uBusCurr uDeviceCurr)
    (D.MPT_CONFIGURATION_PAGE_ATTRIBUTE_READONLY ||| D.MPT_CONFIGURATION_PAGE_TYPE_SCSI_SPI_DEVICE) 0
  ++ setPageHeaderWrites D (ConfigPage.SCSISPIDevicePage1 uBusCurr uDeviceCurr)
    (D.MPT_CONFIGURATION_PAGE_ATTRIBUTE_CHANGEABLE ||| D.MPT_CONFIGURATION_PAGE_TYPE_SCSI_SPI_DEVICE) 1
  ++ setPageHeaderWrites D (ConfigPage.SCSISPIDevicePage2 uBusCurr uDeviceCurr)
    (D.MPT_CONFIGURATION_PAGE_ATTRIBUTE_CHANGEABLE ||| D.MPT_CONFIGURATION_PAGE_TYPE_SCSI_SPI_DEVICE) 2
  ++ setPageHeaderWrites D (ConfigPage.SCSISPIDevicePage3 uBusCurr uDeviceCurr)
    (D.MPT_CONFIGURATION_PAGE_ATTRIBUTE_READONLY ||| D.MPT_CONFIGURATION_PAGE_TYPE_SCSI_SPI_DEVICE) 3

/-- The assignments of `lsilogicInitializeConfigurationPages` that stand before
its two loops; `devfn` is `PciDev.devfn`. -/
def initFixedPagesWrites (D : MptDefs) (devfn : Nat) : List PageWrite :=
  setPageHeaderWrites D ConfigPage.ManufacturingPage0
    (D.MPT_CONFIGURATION_PAGE_ATTRIBUTE_PERSISTENT_READONLY
      ||| D.MPT_CONFIGURATION_PAGE_TYPE_MANUFACTURING) 0
  ++ [.chars ConfigPage.ManufacturingPage0 PageField.abChipName strVBoxMPTFusion 16,
      .chars ConfigPage.ManufacturingPage0 PageField.abChipRevision str10 8,
      .chars ConfigPage.ManufacturingPage0 PageField.abBoardName strVBoxMPTFusion 16,
      .chars ConfigPage.ManufacturingPage0 PageField.abBoardAssembly strSUN 8,
      .chars ConfigPage.ManufacturingPage0 PageField.abBoardTracerNumber strCAFE 16]
  ++ setPageHeaderWrites D ConfigPage.ManufacturingPage1
    (D.MPT_CONFIGURATION_PAGE_ATTRIBUTE_PERSISTENT_READONLY
      ||| D.MPT_CONFIGURATION_PAGE_TYPE_MANUFACTURING) 1
  ++ setPageHeaderWrites D ConfigPage.ManufacturingPage2
    (D.MPT_CONFIGURATION_PAGE_ATTRIBUTE_READONLY ||| D.MPT_CONFIGURATION_PAGE_TYPE_MANUFACTURING) 2
  ++ [.field ConfigPage.ManufacturingPage2 PageField.u16PCIDeviceID 16
        D.LSILOGICSCSI_PCI_SPI_DEVICE_ID,
      .field ConfigPage.ManufacturingPage2 PageField.u8PCIRevisionID 8
        D.LSILOGICSCSI_PCI_SPI_REVISION_ID]
  ++ setPageHeaderWrites D ConfigPage.ManufacturingPage3
    (D.MPT_CONFIGURATION_PAGE_ATTRIBUTE_READONLY ||| D.MPT_CONFIGURATION_PAGE_TYPE_MANUFACTURING) 3
  ++ [.field ConfigPage.ManufacturingPage3 PageField.u16PCIDeviceID 16
        D.LSILOGICSCSI_PCI_SPI_DEVICE_ID,
      .field ConfigPage.ManufacturingPage3 PageField.u8PCIRevisionID 8
        D.LSILOGICSCSI_PCI_SPI_REVISION_ID]
  ++ setPageHeaderWrites D ConfigPage.ManufacturingPage4
    (D.MPT_CONFIGURATION_PAGE_ATTRIBUTE_PERSISTENT_READONLY
      ||| D.MPT_CONFIGURATION_PAGE_TYPE_MANUFACTURING) 4
  ++ setPageHeaderWrites D ConfigPage.IOUnitPage0
    (D.MPT_CONFIGURATION_PAGE_ATTRIBUTE_READONLY ||| D.MPT_CONFIGURATION_PAGE_TYPE_IO_UNIT) 0
  ++ [.field ConfigPage.IOUnitPage0 PageField.u64UniqueIdentifier 64 0xcafe]
  ++ setPageHeaderWrites D ConfigPage.IOUnitPage1
    (D.MPT_CONFIGURATION_PAGE_ATTRIBUTE_READONLY ||| D.MPT_CONFIGURATION_PAGE_TYPE_IO_UNIT) 1
  ++ [.field ConfigPage.IOUnitPage1 PageField.fSingleFunction 1 1,
      .field ConfigPage.IOUnitPage1 PageField.fAllPathsMapped 1 0,
      .field ConfigPage.IOUnitPage1 PageField.fIntegratedRAIDDisabled 1 1,
      .field ConfigPage.IOUnitPage1 PageField.f32BitAccessForced 1 0]
  ++ setPageHeaderWrites D ConfigPage.IOUnitPage2
    (D.MPT_CONFIGURATION_PAGE_ATTRIBUTE_PERSISTENT ||| D.MPT_CONFIGURATION_PAGE_TYPE_IO_UNIT) 2
  ++ [.field ConfigPage.IOUnitPage2 PageField.fPauseOnError 1 0,
      .field ConfigPage.IOUnitPage2 PageField.fVerboseModeEnabled 1 0,
      .field ConfigPage.IOUnitPage2 PageField.fDisableColorVideo 1 0,
      .field ConfigPage.IOUnitPage2 PageField.fNotHookInt40h 1 0,
      .field ConfigPage.IOUnitPage2 PageField.u32BIOSVersion 32 0xcafecafe,
      .field ConfigPage.IOUnitPage2 PageField.aAdapterOrder0_fAdapterEnabled 1 1,
      .field ConfigPage.IOUnitPage2 PageField.aAdapterOrder0_fAdapterEmbedded 1 1,
      .field ConfigPage.IOUnitPage2 PageField.aAdapterOrder0_u8PCIBusNumber 8 0,
      .field ConfigPage.IOUnitPage2 PageField.aAdapterOrder0_u8PCIDevFn 8 devfn]
  ++ setPageHeaderWrites D ConfigPage.IOUnitPage3
    (D.MPT_CONFIGURATION_PAGE_ATTRIBUTE_CHANGEABLE ||| D.MPT_CONFIGURATION_PAGE_TYPE_IO_UNIT) 3
  ++ [.field ConfigPage.IOUnitPage3 PageField.u8GPIOCount 8 0]
  ++ setPageHeaderWrites D ConfigPage.IOCPage0
    (D.MPT_CONFIGURATION_PAGE_ATTRIBUTE_READONLY ||| D.MPT_CONFIGURATION_PAGE_TYPE_IOC) 0
  ++ [.field ConfigPage.IOCPage0 PageField.u32TotalNVStore 32 0,
      .field ConfigPage.IOCPage0 PageField.u32FreeNVStore 32 0,
      .field ConfigPage.IOCPage0 PageField.u16VendorId 16 D.LSILOGICSCSI_PCI_VENDOR_ID,
      .field ConfigPage.IOCPage0 PageField.u16DeviceId 16 D.LSILOGICSCSI_PCI_SPI_DEVICE_ID,
      .field ConfigPage.IOCPage0 PageField.u8RevisionId 8 D.LSILOGICSCSI_PCI_SPI_REVISION_ID,
      .field ConfigPage.IOCPage0 PageField.u32ClassCode 32 D.LSILOGICSCSI_PCI_SPI_CLASS_CODE,
      .field ConfigPage.IOCPage0 PageField.u16SubsystemVendorId 16
        D.LSILOGICSCSI_PCI_SPI_SUBSYSTEM_VENDOR_ID,
      .field ConfigPage.IOCPage0 PageField.u16SubsystemId 16 D.LSILOGICSCSI_PCI_SPI_SUBSYSTEM_ID]
  ++ setPageHeaderWrites D ConfigPage.IOCPage1
    (D.MPT_CONFIGURATION_PAGE_ATTRIBUTE_CHANGEABLE ||| D.MPT_CONFIGURATION_PAGE_TYPE_IOC) 1
  ++ [.field ConfigPage.IOCPage1 PageField.fReplyCoalescingEnabled 1 0,
      .field ConfigPage.IOCPage1 PageField.u32CoalescingTimeout 32 0,
      .field ConfigPage.IOCPage1 PageField.u8CoalescingDepth 8 0]
  ++ setPageHeaderWrites D ConfigPage.IOCPage2
    (D.MPT_CONFIGURATION_PAGE_ATTRIBUTE_READONLY ||| D.MPT_CONFIGURATION_PAGE_TYPE_IOC) 2
  ++ setPageHeaderWrites D ConfigPage.IOCPage3
    (D.MPT_CONFIGURATION_PAGE_ATTRIBUTE_READONLY ||| D.MPT_CONFIGURATION_PAGE_TYPE_IOC) 3
  ++ setPageHeaderWrites D ConfigPage.IOCPage4
    (D.MPT_CONFIGURATION_PAGE_ATTRIBUTE_READONLY ||| D.MPT_CONFIGURATION_PAGE_TYPE_IOC) 4
  ++ setPageHeaderWrites D ConfigPage.IOCPage6
    (D.MPT_CONFIGURATION_PAGE_ATTRIBUTE_READONLY ||| D.MPT_CONFIGURATION_PAGE_TYPE_IOC) 6

/-- The assignments of `lsilogicInitializeConfigurationPages`, in order. -/
def initializeConfigurationPagesWrites (D : MptDefs) (devfn : Nat) : List PageWrite :=
  initFixedPagesWrites D devfn
  ++ (List.range D.cPortPages).flatMap (initPortPagesWrites D)
  ++ (List.range D.cBuses).flatMap (fun uBusCurr =>
      (List.range D.cDevicePages).flatMap (initDevicePagesWrites D uBusCurr))

/-- The keys the specification calls registered: I/O unit pages 0..3, IOC
pages 0..4 and 6, manufacturing pages 0..4, SCSI-SPI port pages 0..2 of a valid
port index, SCSI-SPI device pages 0..3 of a valid bus and target. -/
def specRegisteredKey (D : MptDefs) (u8PageType u8PageNumber u8Port u8Bus u8TargetID : Nat) :
    Prop :=
  (u8PageType = D.MPT_CONFIGURATION_PAGE_TYPE_IO_UNIT ∧ u8PageNumber ≤ 3)
    ∨ (u8PageType = D.MPT_CONFIGURATION_PAGE_TYPE_IOC ∧ (u8PageNumber ≤ 4 ∨ u8PageNumber = 6))
    ∨ (u8PageType = D.MPT_CONFIGURATION_PAGE_TYPE_MANUFACTURING ∧ u8PageNumber ≤ 4)
    ∨ (u8PageType = D.MPT_CONFIGURATION_PAGE_TYPE_SCSI_SPI_PORT ∧ u8PageNumber ≤ 2
        ∧ u8Port < D.cPortPages)
    ∨ (u8PageType = D.MPT_CONFIGURATION_PAGE_TYPE_SCSI_SPI_DEVICE ∧ u8PageNumber ≤ 3
        ∧ u8Bus < D.cBuses ∧ u8TargetID < D.cDevicePages)

instance (D : MptDefs) (u8PageType u8PageNumber u8Port u8Bus u8TargetID : Nat) :
    Decidable (specRegisteredKey D u8PageType u8PageNumber u8Port u8Bus u8TargetID) := by
  unfold specRegisteredKey
  infer_instance

/-- The case labels of the first `switch` of
`lsilogicProcessConfigurationRequest`. -/
def configurationPageTypes (D : MptDefs) : List Nat :=
  [D.MPT_CONFIGURATION_PAGE_TYPE_IO_UNIT, D.MPT_CONFIGURATION_PAGE_TYPE_IOC,
   D.MPT_CONFIGURATION_PAGE_TYPE_MANUFACTURING, D.MPT_CONFIGURATION_PAGE_TYPE_SCSI_SPI_PORT,
   D.MPT_CONFIGURATION_PAGE_TYPE_SCSI_SPI_DEVICE]

/-- The attribute constants that `lsilogicInitializeConfigurationPages` uses. -/
def configurationPageAttributes (D : MptDefs) : List Nat :=
  [D.MPT_CONFIGURATION_PAGE_ATTRIBUTE_READONLY, D.MPT_CONFIGURATION_PAGE_ATTRIBUTE_CHANGEABLE,
   D.MPT_CONFIGURATION_PAGE_ATTRIBUTE_PERSISTENT,
   D.MPT_CONFIGURATION_PAGE_ATTRIBUTE_PERSISTENT_READONLY]

/-! ## Configuration requests: the steps of `lsilogicProcessConfigurationRequest` -/

/-- The first `switch` of `lsilogicProcessConfigurationRequest`: the lookup
function the page type of the request selects, called with the page number and
the index fields of the request.  The result `none` stands for the status
`VERR_NOT_FOUND`, also of the `default` label. -/
def configurationRequestPage (D : MptDefs) (pConfigurationReq : MptRequestUnion) :
    Option ConfigPage :=
  let u8PageType := D.MPT_CONFIGURATION_PAGE_TYPE_GET pConfigurationReq.Configuration_u8PageType
  if u8PageType = D.MPT_CONFIGURATION_PAGE_TYPE_IO_UNIT then
    lsilogicConfigurationIOUnitPageGetFromNumber pConfigurationReq.Configuration_u8PageNumber
  else if u8PageType = D.MPT_CONFIGURATION_PAGE_TYPE_IOC then
    lsilogicConfigurationIOCPageGetFromNumber pConfigurationReq.Configuration_u8PageNumber
  else if u8PageType = D.MPT_CONFIGURATION_PAGE_TYPE_MANUFACTURING then
    lsilogicConfigurationManufacturingPageGetFromNumber
      pConfigurationReq.Configuration_u8PageNumber
  else if u8PageType = D.MPT_CONFIGURATION_PAGE_TYPE_SCSI_SPI_PORT then
    lsilogicConfigurationSCSISPIPortPageGetFromNumber D
      pConfigurationReq.Configuration_u8PortNumber pConfigurationReq.Configuration_u8PageNumber
  else if u8PageType = D.MPT_CONFIGURATION_PAGE_TYPE_SCSI_SPI_DEVICE then
    lsilogicConfigurationSCSISPIDevicePageGetFromNumber D
      pConfigurationReq.Configuration_u8Bus pConfigurationReq.Configuration_u8TargetID
      pConfigurationReq.Configuration_u8PageNumber
  else
    none

/-- The number of bytes a configuration request transfers for a page:
`cbBuffer < cbPage ? cbBuffer : cbPage`. -/
def configurationRequestCopySize (D : MptDefs) (pConfigurationReq : MptRequestUnion)
    (page : ConfigPage) : Nat :=
  if pConfigurationReq.Configuration_SimpleSGElement.u24Length < D.sizeofPage page then
    pConfigurationReq.Configuration_SimpleSGElement.u24Length
  else
    D.sizeofPage page

/-- The case labels of the second `switch` of
`lsilogicProcessConfigurationRequest`. -/
def configurationRequestActions (D : MptDefs) : List Nat :=
  [D.MPT_CONFIGURATION_REQUEST_ACTION_DEFAULT, D.MPT_CONFIGURATION_REQUEST_ACTION_HEADER,
   D.MPT_CONFIGURATION_REQUEST_ACTION_READ_NVRAM, D.MPT_CONFIGURATION_REQUEST_ACTION_READ_CURRENT,
   D.MPT_CONFIGURATION_REQUEST_ACTION_READ_DEFAULT,
   D.MPT_CONFIGURATION_REQUEST_ACTION_WRITE_CURRENT,
   D.MPT_CONFIGURATION_REQUEST_ACTION_WRITE_NVRAM]

/-- The case labels of the `switch` of `lsilogicProcessMessageRequest` that
stand before the `default` label and carry a body. -/
def handledFunctions (D : MptDefs) : List Nat :=
  [D.MPT_MESSAGE_HDR_FUNCTION_SCSI_TASK_MGMT, D.MPT_MESSAGE_HDR_FUNCTION_IOC_INIT,
   D.MPT_MESSAGE_HDR_FUNCTION_IOC_FACTS, D.MPT_MESSAGE_HDR_FUNCTION_PORT_FACTS,
   D.MPT_MESSAGE_HDR_FUNCTION_PORT_ENABLE, D.MPT_MESSAGE_HDR_FUNCTION_EVENT_NOTIFICATION,
   D.MPT_MESSAGE_HDR_FUNCTION_EVENT_ACK, D.MPT_MESSAGE_HDR_FUNCTION_CONFIG]

/-! ## The request queue consumer: what one turn of its loop reads -/

/-- Guest address of the message frame the loop of `lsilogicNotifyQueueConsumer`
takes from the request ring at the read cursor. -/
def drainFrameAddr (pLsiLogic : LSILOGICSCSI) : Nat :=
  LSILOGIC_RTGCPHYS_FROM_U32 pLsiLogic.u32HostMFAHighAddr
    (pLsiLogic.pRequestQueueBase pLsiLogic.uRequestQueueNextAddressRead &&& not32 0x07)

/-- The function code the loop finds after it read the message header of that
frame into a task state whose request buffer held `g`. -/
def drainFrameFunction (D : MptDefs) (pLsiLogic : LSILOGICSCSI) (g : Nat → Nat) : Nat :=
  (D.decodeRequest (readGuestRequest pLsiLogic.mem (drainFrameAddr pLsiLogic)
    D.sizeof_MptMessageHdr g)).u8Function

/-- The case labels of the `switch` of `lsilogicNotifyQueueConsumer`. -/
def drainFunctions (D : MptDefs) : List Nat :=
  [D.MPT_MESSAGE_HDR_FUNCTION_SCSI_IO_REQUEST, D.MPT_MESSAGE_HDR_FUNCTION_SCSI_TASK_MGMT,
   D.MPT_MESSAGE_HDR_FUNCTION_IOC_INIT, D.MPT_MESSAGE_HDR_FUNCTION_IOC_FACTS,
   D.MPT_MESSAGE_HDR_FUNCTION_CONFIG, D.MPT_MESSAGE_HDR_FUNCTION_PORT_FACTS,
   D.MPT_MESSAGE_HDR_FUNCTION_PORT_ENABLE, D.MPT_MESSAGE_HDR_FUNCTION_EVENT_NOTIFICATION,
   D.MPT_MESSAGE_HDR_FUNCTION_EVENT_ACK, D.MPT_MESSAGE_HDR_FUNCTION_FW_DOWNLOAD]

/-! ## The interrupt line -/

/-- The value the specification tests: `(uInterruptStatus & ~bit31) &
~(uInterruptMask & ~(bit8|bit9))`, in 32-bit arithmetic. -/
def specInterruptPending (uInterruptStatus uInterruptMask : Nat) : Nat :=
  (uInterruptStatus &&& 0x7FFFFFFF) &&& (0xFFFFFFFF ^^^ (uInterruptMask &&& 0xFFFFFCFF))

/-- The PCI interrupt line is asserted if and only if the value
`specInterruptPending` is non-zero. -/
def irqLineOK (pThis : LSILOGICSCSI) : Prop :=
  pThis.fIrqLevel = true ↔ specInterruptPending pThis.uInterruptStatus pThis.uInterruptMask ≠ 0

/-- What an operation from state `s` to state `t` keeps of the interrupt line:
if it changed the interrupt status or the interrupt mask the line is as the
specification says, and if the line was so before it is so after. -/
def interruptLineKept (s t : LSILOGICSCSI) : Prop :=
  ((t.uInterruptStatus ≠ s.uInterruptStatus ∨ t.uInterruptMask ≠ s.uInterruptMask) →
      irqLineOK t)
    ∧ (irqLineOK s → irqLineOK t)

/-! ## Writes to the Write-Sequence register -/

/-- A run of writes to the Write-Sequence register. -/
def writeSequence (D : MptDefs) (s : LSILOGICSCSI) (vs : List Nat) : LSILOGICSCSI :=
  vs.foldl (fun s v => lsilogicRegisterWrite D s LSILOGIC_REG_WRITE_SEQUENCE v) s

/-! ## The ring cursors -/

/-- Every ring has at least one slot and each of the six cursors is below the
capacity of its ring. -/
def ringsInRange (s : LSILOGICSCSI) : Prop :=
  1 ≤ s.cReplyQueueEntries ∧ 1 ≤ s.cRequestQueueEntries
    ∧ s.uReplyFreeQueueNextEntryFreeWrite < s.cReplyQueueEntries
    ∧ s.uReplyFreeQueueNextAddressRead < s.cReplyQueueEntries
    ∧ s.uReplyPostQueueNextEntryFreeWrite < s.cReplyQueueEntries
    ∧ s.uReplyPostQueueNextAddressRead < s.cReplyQueueEntries
    ∧ s.uRequestQueueNextEntryFreeWrite < s.cRequestQueueEntries
    ∧ s.uRequestQueueNextAddressRead < s.cRequestQueueEntries

instance (s : LSILOGICSCSI) : Decidable (ringsInRange s) := by
  unfold ringsInRange
  infer_instance

/-- From `s` to `t` the capacities of the rings are the same and no slot at or
beyond the capacity of its ring was written. -/
def ringsKept (s t : LSILOGICSCSI) : Prop :=
  t.cReplyQueueEntries = s.cReplyQueueEntries
    ∧ t.cRequestQueueEntries = s.cRequestQueueEntries
    ∧ (∀ i, s.cReplyQueueEntries ≤ i → t.pReplyFreeQueueBase i = s.pReplyFreeQueueBase i)
    ∧ (∀ i, s.cReplyQueueEntries ≤ i → t.pReplyPostQueueBase i = s.pReplyPostQueueBase i)
    ∧ (∀ i, s.cRequestQueueEntries ≤ i → t.pRequestQueueBase i = s.pRequestQueueBase i)

/-- The step from `s` to `t` leaves the cursors in range and the rings kept. -/
def ringsSafe (s t : LSILOGICSCSI) : Prop :=
  ringsInRange t ∧ ringsKept s t

/-- The capacities, the slots and the cursors of the three rings. -/
def ringState (s : LSILOGICSCSI) :
    (Nat × Nat) × ((Nat → Nat) × (Nat → Nat) × (Nat → Nat)) × (Nat × Nat × Nat × Nat × Nat × Nat) :=
  ((s.cReplyQueueEntries, s.cRequestQueueEntries),
   (s.pReplyFreeQueueBase, s.pReplyPostQueueBase, s.pRequestQueueBase),
   (s.uReplyFreeQueueNextEntryFreeWrite, s.uReplyFreeQueueNextAddressRead,
    s.uReplyPostQueueNextEntryFreeWrite, s.uReplyPostQueueNextAddressRead,
    s.uRequestQueueNextEntryFreeWrite, s.uRequestQueueNextAddressRead))

/-- One turn of the loop of `lsilogicNotifyQueueConsumer`, entered with the
loop condition true: the state at the end of the loop body.  `none` means that
the model of the scatter/gather walk ran out of fuel. -/
def lsilogicNotifyQueueConsumerTurn (D : MptDefs) (alloc : Nat → Bool) (fuel : Nat)
    (pLsiLogic : LSILOGICSCSI) : Option LSILOGICSCSI :=
  let u32RequestMessageFrameDesc :=
    pLsiLogic.pRequestQueueBase pLsiLogic.uRequestQueueNextAddressRead
  let GCPhysMessageFrameAddr :=
    LSILOGIC_RTGCPHYS_FROM_U32 pLsiLogic.u32HostMFAHighAddr
      (u32RequestMessageFrameDesc &&& not32 0x07)
  /- Get new task state. -/
  let c := RTCacheRequest pLsiLogic
  let s := c.1
  let ts := { c.2 with GCPhysMessageFrameAddr := GCPhysMessageFrameAddr }
  /- Read the message header from the guest first. -/
  let ts := { ts with
    GuestRequest :=
      readGuestRequest s.mem GCPhysMessageFrameAddr D.sizeof_MptMessageHdr ts.GuestRequest }
  /- Determine the size of the request. -/
  let u8Function := (D.decodeRequest ts.GuestRequest).u8Function
  let cbRequest := (lsilogicRequestSize D u8Function).1
  let s :=
    if (lsilogicRequestSize D u8Function).2 then
      lsilogicSetIOCFaultCode s LSILOGIC_IOCSTATUS_INVALID_FUNCTION
    else
      s
  if cbRequest ≠ 0 then
    /- Read the complete message frame from guest memory now. -/
    let ts := { ts with
      GuestRequest := readGuestRequest s.mem GCPhysMessageFrameAddr cbRequest ts.GuestRequest }
    let req := D.decodeRequest ts.GuestRequest
    /- Handle SCSI I/O requests now. -/
    let r : Option LSILOGICSCSI :=
      if req.u8Function = D.MPT_MESSAGE_HDR_FUNCTION_SCSI_IO_REQUEST then
        (lsilogicProcessSCSIIORequest D alloc fuel s ts).map (fun r => r.1)
      else
        some (RTCacheInsert (lsilogicProcessMessageRequest D s req).1 ts)
    match r with
    | none => none
    | some s =>
      let s := { s with
        uRequestQueueNextAddressRead := u32 (s.uRequestQueueNextAddressRead + 1) }
      some { s with
        uRequestQueueNextAddressRead :=
          s.uRequestQueueNextAddressRead % s.cRequestQueueEntries }
  else
    some s

/-! ## Single operations -/

/-- One operation on the controller: a register access by the guest, or a call
of one of the functions that process messages, post replies, set the fault
code, reset the controller, or process and complete requests. -/
inductive ControllerOp where
  | registerWrite (uOffset u32Value : Nat)
  | registerRead (uOffset cb : Nat)
  | processMessageRequest (pMessageHdr : MptRequestUnion)
  | finishContextReply (u32MessageContext : Nat)
  | finishAddressReply (pReply : MptReplyUnion) (fForceReplyFifo : Bool)
  | setIOCFaultCode (uIOCFaultCode : Nat)
  | hardReset
  | processSCSIIORequest (alloc : Nat → Bool) (fuel : Nat) (pTaskState : LSILOGICTASKSTATE)
  | deviceSCSIRequestCompleted (pTaskState : LSILOGICTASKSTATE) (rcCompletion : Nat)
  | notifyQueueConsumer (alloc : Nat → Bool) (fuel : Nat)

/-- The controller state after an operation; `none` when the model ran out of
fuel. -/
def applyOp (D : MptDefs) (s : LSILOGICSCSI) : ControllerOp → Option LSILOGICSCSI
  | ControllerOp.registerWrite uOffset u32Value => some (lsilogicRegisterWrite D s uOffset u32Value)
  | ControllerOp.registerRead uOffset cb => some (lsilogicRegisterRead D s uOffset cb).1
  | ControllerOp.processMessageRequest pMessageHdr =>
    some (lsilogicProcessMessageRequest D s pMessageHdr).1
  | ControllerOp.finishContextReply u32MessageContext =>
    some (lsilogicFinishContextReply s u32MessageContext)
  | ControllerOp.finishAddressReply pReply fForceReplyFifo =>
    some (lsilogicFinishAddressReply D s pReply fForceReplyFifo)
  | ControllerOp.setIOCFaultCode uIOCFaultCode => some (lsilogicSetIOCFaultCode s uIOCFaultCode)
  | ControllerOp.hardReset => some (lsilogicHardReset D s)
  | ControllerOp.processSCSIIORequest alloc fuel pTaskState =>
    (lsilogicProcessSCSIIORequest D alloc fuel s pTaskState).map (fun r => r.1)
  | ControllerOp.deviceSCSIRequestCompleted pTaskState rcCompletion =>
    some (lsilogicDeviceSCSIRequestCompleted D s pTaskState rcCompletion)
  | ControllerOp.notifyQueueConsumer alloc fuel => lsilogicNotifyQueueConsumer D alloc fuel s

/-- The explicit resets: a call of `lsilogicHardReset`, a write to the
Host-Diagnostic register with the reset-adapter bit, and a write to the
Doorbell register, no handshake being in progress, with the function
IOC-message-unit-reset.  The value written is a `uint32_t`. -/
def isExplicitReset (s : LSILOGICSCSI) : ControllerOp → Prop
  | ControllerOp.hardReset => True
  | ControllerOp.registerWrite uOffset u32Value =>
    (uOffset = LSILOGIC_REG_HOST_DIAGNOSTIC
        ∧ (u32 u32Value &&& LSILOGIC_REG_HOST_DIAGNOSTIC_RESET_ADAPTER) ≠ 0)
      ∨ (uOffset = LSILOGIC_REG_DOORBELL ∧ s.fDoorbellInProgress = false
        ∧ LSILOGIC_REG_DOORBELL_GET_FUNCTION (u32 u32Value)
            = LSILOGIC_DOORBELL_FUNCTION_IOC_MSG_UNIT_RESET)
  | _ => False

/-- The operations whose model takes fuel and can run out of it: the walk of a
guest scatter/gather list, and the request queue consumer without fuel. -/
def opNeedsFuel : ControllerOp → Prop
  | ControllerOp.processSCSIIORequest _ _ _ => True
  | ControllerOp.notifyQueueConsumer _ fuel => fuel = 0
  | _ => False

/-! ## Sequences of operations -/

/-- Context replies posted one after the other, in list order. -/
def postContextReplies (s : LSILOGICSCSI) (cs : List Nat) : LSILOGICSCSI :=
  cs.foldl lsilogicFinishContextReply s

/-- Successive reads of one register: the final state and the values read,
oldest first. -/
def readRegisterTimes (D : MptDefs) (s : LSILOGICSCSI) (uOffset cb : Nat) :
    Nat → LSILOGICSCSI × List (Option Nat)
  | 0 => (s, [])
  | n + 1 =>
    let r := lsilogicRegisterRead D s uOffset cb
    let rest := readRegisterTimes D r.1 uOffset cb n
    (rest.1, r.2 :: rest.2)

/-! ## An instance of the parameters

The values below follow the Fusion-MPT message formats.  They serve the
concrete evaluations of this development; the general statements hold for
every `MptDefs`. -/

/-- Little-endian value of the `n` bytes at offset `off`. -/
def leBytes (b : Nat → Nat) (off : Nat) : Nat → Nat
  | 0 => 0
  | n + 1 => b off % 256 + 256 * leBytes b (off + 1) n

/-- Byte `i` of the little-endian representation of `v`. -/
def byteOf (v i : Nat) : Nat := (v >>> (8 * i)) % 256

/-- Decoding of a simple element: a flags/length dword and the address. -/
def exDecodeSGEntry (b : Nat → Nat) : MptSGEntryUnion :=
  { u24Length := leBytes b 0 3
    fEndOfList := (b 3 % 256).testBit 0
    f64BitAddress := (b 3 % 256).testBit 1
    fBufferContainsData := (b 3 % 256).testBit 2
    fLocalAddress := (b 3 % 256).testBit 3
    u2ElementType := (b 3 % 256 / 16) % 4
    fEndOfBuffer := (b 3 % 256).testBit 6
    fLastElement := (b 3 % 256).testBit 7
    u32DataBufferAddressLow := leBytes b 4 4
    u32DataBufferAddressHigh := leBytes b 8 4 }

/-- Decoding of a chain element. -/
def exDecodeSGEntryChain (b : Nat → Nat) : MptSGEntryChain :=
  { u16Length := leBytes b 0 2
    u8NextChainOffset := b 2 % 256
    f64BitAddress := (b 3 % 256).testBit 1
    fLocalAddress := (b 3 % 256).testBit 3
    u2ElementType := (b 3 % 256 / 16) % 4
    u32SegmentAddressLow := leBytes b 4 4
    u32SegmentAddressHigh := leBytes b 8 4 }

/-- Decoding of a request frame. -/
def exDecodeRequest (b : Nat → Nat) : MptRequestUnion :=
  { u8Function := b 3 % 256
    u32MessageContext := leBytes b 8 4
    SCSITaskManagement_u8TaskType := b 5 % 256
    IOCInit_u8WhoInit := b 0 % 256
    IOCInit_u16ReplyFrameSize := leBytes b 12 2
    IOCInit_u8MaxBuses := b 6 % 256
    IOCInit_u8MaxDevices := b 5 % 256
    IOCInit_u32HostMfaHighAddr := leBytes b 16 4
    IOCInit_u32SenseBufferHighAddr := leBytes b 20 4
    PortFacts_u8PortNumber := b 6 % 256
    PortEnable_u8PortNumber := b 6 % 256
    EventNotification_u8Switch := b 0 % 256
    Configuration_u8Action := b 0 % 256
    Configuration_u8PageType := b 23 % 256
    Configuration_u8PageNumber := b 22 % 256
    Configuration_u8PageLength := b 21 % 256
    Configuration_u8PageVersion := b 20 % 256
    Configuration_u8PortNumber := b 24 % 256
    Configuration_u8Bus := b 25 % 256
    Configuration_u8TargetID := b 24 % 256
    Configuration_SimpleSGElement := exDecodeSGEntry (fun i => b (28 + i))
    SCSIIO_u8TargetID := b 0 % 256
    SCSIIO_u8Bus := b 1 % 256
    SCSIIO_u8ChainOffset := b 2 % 256
    SCSIIO_u8CDBLength := b 4 % 256
    SCSIIO_u8SenseBufferLength := b 5 % 256
    SCSIIO_u8MessageFlags := b 7 % 256
    SCSIIO_au8LUN := (List.range 8).map (fun i => b (12 + i) % 256)
    SCSIIO_u32Control := leBytes b 20 4
    SCSIIO_au8CDB := (List.range 16).map (fun i => b (24 + i) % 256)
    SCSIIO_u32DataLength := leBytes b 40 4
    SCSIIO_u32SenseBufferLowAddress := leBytes b 44 4 }

/-- Bytes of a reply: the common header, and the fields of the IOC-Init,
configuration and SCSI error views. -/
def exAbReply (r : MptReplyUnion) (i : Nat) : Nat :=
  if i = 0 then (r.IOCInit_u8WhoInit + r.Configuration_u8Action + r.SCSIIOError_u8TargetID) % 256
  else if i = 1 then r.SCSIIOError_u8Bus % 256
  else if i = 2 then r.u8MessageLength % 256
  else if i = 3 then r.u8Function % 256
  else if i = 4 then r.SCSIIOError_u8CDBLength % 256
  else if i = 5 then (r.IOCInit_u8MaxDevices + r.SCSIIOError_u8SenseBufferLength) % 256
  else if i = 6 then r.IOCInit_u8MaxBuses % 256
  else if i = 7 then r.SCSIIOError_u8MessageFlags % 256
  else if 8 ≤ i ∧ i < 12 then byteOf r.u32MessageContext (i - 8)
  else if i = 12 then r.SCSIIOError_u8SCSIStatus % 256
  else if i = 13 then r.SCSIIOError_u8SCSIState % 256
  else if 14 ≤ i ∧ i < 16 then byteOf r.SCSIIOError_u16IOCStatus (i - 14)
  else if i = 20 then r.Configuration_u8PageVersion % 256
  else if i = 21 then r.Configuration_u8PageLength % 256
  else if i = 22 then r.Configuration_u8PageNumber % 256
  else if i = 23 then r.Configuration_u8PageType % 256
  else 0

/-- Sizes of the page structures. -/
def exSizeofPage : ConfigPage → Nat
  | .ManufacturingPage0 => 76
  | .ManufacturingPage1 => 260
  | .ManufacturingPage2 => 8
  | .ManufacturingPage3 => 8
  | .ManufacturingPage4 => 84
  | .IOUnitPage0 => 12
  | .IOUnitPage1 => 8
  | .IOUnitPage2 => 28
  | .IOUnitPage3 => 8
  | .IOCPage0 => 28
  | .IOCPage1 => 16
  | .IOCPage2 => 12
  | .IOCPage3 => 8
  | .IOCPage4 => 12
  | .IOCPage6 => 60
  | .SCSISPIPortPage0 _ => 12
  | .SCSISPIPortPage1 _ => 12
  | .SCSISPIPortPage2 _ => 76
  | .SCSISPIDevicePage0 _ _ => 12
  | .SCSISPIDevicePage1 _ _ => 16
  | .SCSISPIDevicePage2 _ _ => 16
  | .SCSISPIDevicePage3 _ _ => 12

/-- Offsets of the pages: the members in declaration order, without padding. -/
def exOffPage : ConfigPage → Nat
  | .ManufacturingPage0 => 0
  | .ManufacturingPage1 => 76
  | .ManufacturingPage2 => 336
  | .ManufacturingPage3 => 344
  | .ManufacturingPage4 => 352
  | .IOUnitPage0 => 436
  | .IOUnitPage1 => 448
  | .IOUnitPage2 => 456
  | .IOUnitPage3 => 484
  | .IOCPage0 => 492
  | .IOCPage1 => 520
  | .IOCPage2 => 536
  | .IOCPage3 => 548
  | .IOCPage4 => 556
  | .IOCPage6 => 568
  | .SCSISPIPortPage0 i => 628 + 100 * i
  | .SCSISPIPortPage1 i => 640 + 100 * i
  | .SCSISPIPortPage2 i => 652 + 100 * i
  | .SCSISPIDevicePage0 b d => 728 + 896 * b + 56 * d
  | .SCSISPIDevicePage1 b d => 740 + 896 * b + 56 * d
  | .SCSISPIDevicePage2 b d => 756 + 896 * b + 56 * d
  | .SCSISPIDevicePage3 b d => 772 + 896 * b + 56 * d

/-- Byte offsets of the page fields inside their page. -/
def exOffField : PageField → Nat
  | .abChipName => 4
  | .abChipRevision => 20
  | .abBoardName => 28
  | .abBoardAssembly => 44
  | .abBoardTracerNumber => 60
  | .u16PCIDeviceID => 4
  | .u8PCIRevisionID => 6
  | .u64UniqueIdentifier => 4
  | .u32BIOSVersion => 8
  | .aAdapterOrder0_fAdapterEnabled => 12
  | .aAdapterOrder0_fAdapterEmbedded => 12
  | .aAdapterOrder0_u8PCIBusNumber => 14
  | .aAdapterOrder0_u8PCIDevFn => 15
  | .u32FreeNVStore => 8
  | .u16VendorId => 12
  | .u16DeviceId => 14
  | .u8RevisionId => 16
  | .u32ClassCode => 20
  | .u16SubsystemVendorId => 24
  | .u16SubsystemId => 26
  | .u32CoalescingTimeout => 8
  | .u8CoalescingDepth => 12
  | .u8MinimumSynchronousTransferPeriod => 5
  | .u8MaximumSynchronousOffset => 6
  | .fWide => 7
  | .fAIPCapable => 7
  | .u2SignalingType => 8
  | .u8SCSIID => 4
  | .u16PortResponseIDsBitmask => 6
  | .u32OnBusTimerValue => 8
  | .aDeviceSettings_fBootChoice i => 12 + 4 * i
  | _ => 4

/-- Bit positions of the bit-fields inside their storage unit. -/
def exBitField : PageField → Nat
  | .fAllPathsMapped => 1
  | .fIntegratedRAIDDisabled => 6
  | .f32BitAccessForced => 7
  | .fVerboseModeEnabled => 4
  | .fDisableColorVideo => 5
  | .fNotHookInt40h => 6
  | .fPauseOnError => 3
  | .aAdapterOrder0_fAdapterEmbedded => 1
  | .fDTCapable => 1
  | .fQASCapable => 2
  | .fWide => 5
  | .fAIPCapable => 7
  | .u2InitializeHBA => 4
  | .fTerminationDisabled => 6
  | .aDeviceSettings_fBootChoice _ => 7
  | _ => 0

/-- An instance of the parameters. -/
def mptDefs : MptDefs :=
  { LSILOGIC_DEVICES_MAX := 16
    LSILOGICSCSI_MAXIMUM_CHAIN_DEPTH := 32
    LSILOGIC_NR_OF_ALLOWED_BIGGER_LISTS := 100
    LSILOGICSCSI_PCI_VENDOR_ID := 0x1000
    LSILOGICSCSI_PCI_SPI_DEVICE_ID := 0x0030
    LSILOGICSCSI_PCI_SPI_REVISION_ID := 0x00
    LSILOGICSCSI_PCI_SPI_CLASS_CODE := 0x01
    LSILOGICSCSI_PCI_SPI_SUBSYSTEM_VENDOR_ID := 0x1000
    LSILOGICSCSI_PCI_SPI_SUBSYSTEM_ID := 0x8000
    MPT_MESSAGE_HDR_FUNCTION_SCSI_IO_REQUEST := 0x00
    MPT_MESSAGE_HDR_FUNCTION_SCSI_TASK_MGMT := 0x01
    MPT_MESSAGE_HDR_FUNCTION_IOC_INIT := 0x02
    MPT_MESSAGE_HDR_FUNCTION_IOC_FACTS := 0x03
    MPT_MESSAGE_HDR_FUNCTION_CONFIG := 0x04
    MPT_MESSAGE_HDR_FUNCTION_PORT_FACTS := 0x05
    MPT_MESSAGE_HDR_FUNCTION_PORT_ENABLE := 0x06
    MPT_MESSAGE_HDR_FUNCTION_EVENT_NOTIFICATION := 0x07
    MPT_MESSAGE_HDR_FUNCTION_EVENT_ACK := 0x08
    MPT_MESSAGE_HDR_FUNCTION_FW_DOWNLOAD := 0x09
    functionsDistinct := by decide
    MPT_EVENT_EVENT_CHANGE := 0x0a
    MPT_SCSI_IO_ERROR_IOCSTATUS_INVALID_BUS := 0x0041
    MPT_SCSI_IO_ERROR_IOCSTATUS_INVALID_TARGETID := 0x0042
    MPT_SCSI_IO_ERROR_IOCSTATUS_DEVICE_NOT_THERE := 0x0043
    MPT_SCSI_IO_ERROR_SCSI_STATE_AUTOSENSE_VALID := 0x01
    MPT_SCSI_IO_ERROR_SCSI_STATE_TERMINATED := 0x08
    SCSI_STATUS_OK := 0x00
    MPT_SCSIIO_REQUEST_CONTROL_TXDIR_GET := fun x => (x >>> 24) &&& 0x3
    MPT_SCSIIO_REQUEST_CONTROL_TXDIR_NONE := 0x0
    MPT_SCSIIO_REQUEST_CONTROL_TXDIR_WRITE := 0x1
    MPT_SCSIIO_REQUEST_CONTROL_TXDIR_READ := 0x2
    MPT_CONFIGURATION_PAGE_TYPE_GET := fun x => x &&& 0x0f
    MPT_CONFIGURATION_PAGE_ATTRIBUTE_GET := fun x => x &&& 0xf0
    MPT_CONFIGURATION_PAGE_TYPE_IO_UNIT := 0x00
    MPT_CONFIGURATION_PAGE_TYPE_IOC := 0x01
    MPT_CONFIGURATION_PAGE_TYPE_MANUFACTURING := 0x09
    MPT_CONFIGURATION_PAGE_TYPE_SCSI_SPI_PORT := 0x03
    MPT_CONFIGURATION_PAGE_TYPE_SCSI_SPI_DEVICE := 0x04
    MPT_CONFIGURATION_PAGE_ATTRIBUTE_READONLY := 0x00
    MPT_CONFIGURATION_PAGE_ATTRIBUTE_CHANGEABLE := 0x10
    MPT_CONFIGURATION_PAGE_ATTRIBUTE_PERSISTENT := 0x20
    MPT_CONFIGURATION_PAGE_ATTRIBUTE_PERSISTENT_READONLY := 0x30
    MPT_CONFIGURATION_REQUEST_ACTION_HEADER := 0x00
    MPT_CONFIGURATION_REQUEST_ACTION_READ_CURRENT := 0x01
    MPT_CONFIGURATION_REQUEST_ACTION_WRITE_CURRENT := 0x02
    MPT_CONFIGURATION_REQUEST_ACTION_DEFAULT := 0x03
    MPT_CONFIGURATION_REQUEST_ACTION_WRITE_NVRAM := 0x04
    MPT_CONFIGURATION_REQUEST_ACTION_READ_DEFAULT := 0x05
    MPT_CONFIGURATION_REQUEST_ACTION_READ_NVRAM := 0x06
    sizeof_MptReplyUnion := 60
    sizeof_MptMessageHdr := 12
    sizeof_MptSCSIIORequest := 48
    sizeof_MptSCSITaskManagementRequest := 52
    sizeof_MptIOCInitRequest := 24
    sizeof_MptIOCFactsRequest := 12
    sizeof_MptConfigurationRequest := 40
    sizeof_MptPortFactsRequest := 12
    sizeof_MptPortEnableRequest := 12
    sizeof_MptEventNotificationRequest := 12
    sizeof_MptSCSIIOErrorReply := 32
    sizeof_MptSGEntryUnion := 12
    sizeof_MptSGEntrySimple32 := 8
    sizeof_MptSGEntrySimple64 := 12
    sizeof_MptSGEntryChain := 12
    sizeof_PDMDATASEG := 16
    sizeof_LSILOGICTASKSTATESGENTRY := 32
    cPortPages := 1
    cBuses := 1
    cDevicePages := 16
    cDeviceSettings := 16
    sizeofPage := exSizeofPage
    offPage := exOffPage
    offHeader := fun _ => 0
    offPageData := fun pg => if pg = ConfigPage.ManufacturingPage1 then 4 else 0
    offHeaderField := fun f =>
      match f with
      | .u8PageVersion => 0
      | .u8PageLength => 1
      | .u8PageNumber => 2
      | .u8PageType => 3
    offField := exOffField
    bitField := exBitField
    decodeRequest := exDecodeRequest
    decodeSGEntry := fun l => exDecodeSGEntry (fun i => l.getD i 0)
    decodeSGEntryChain := fun l => exDecodeSGEntryChain (fun i => l.getD i 0)
    abReply := exAbReply }

/-- The device instance as constructed: zeroed instance data, the queue depths
incremented by one, no driver attached, guest memory `mem`. -/
def constructedDevice (cReplyQueueDepth cRequestQueueDepth : Nat) (mem : GuestMem) :
    LSILOGICSCSI :=
  { PciDev_devfn := 0
    enmState := LSILOGICSTATE.RESET
    enmWhoInit := 0
    fDoorbellInProgress := false
    fDiagnosticEnabled := false
    fNotificationSend := false
    fEventNotificationEnabled := false
    aDeviceStates := fun _ => { pDrvBase := false, cOutstandingRequests := 0 }
    uInterruptMask := 0
    uInterruptStatus := 0
    aMessage := fun _ => 0
    iMessage := 0
    cMessage := 0
    ReplyBuffer := MptReplyUnion.zero
    uNextReplyEntryRead := 0
    cReplySize := 0
    u16IOCFaultCode := 0
    u32HostMFAHighAddr := 0
    u32SenseBufferHighAddr := 0
    cMaxDevices := 0
    cMaxBuses := 0
    cbReplyFrame := 0
    iDiagnosticAccess := 0
    cReplyQueueEntries := cReplyQueueDepth + 1
    cRequestQueueEntries := cRequestQueueDepth + 1
    pReplyFreeQueueBase := fun _ => 0
    pReplyPostQueueBase := fun _ => 0
    pRequestQueueBase := fun _ => 0
    uReplyFreeQueueNextEntryFreeWrite := 0
    uReplyFreeQueueNextAddressRead := 0
    uReplyPostQueueNextEntryFreeWrite := 0
    uReplyPostQueueNextAddressRead := 0
    uRequestQueueNextEntryFreeWrite := 0
    uRequestQueueNextAddressRead := 0
    ConfigurationPages := fun _ => 0
    fIrqLevel := false
    cNotificationItems := 0
    mem := mem
    pTaskCache := []
    aSubmitted := [] }

/-- A device with reply queue depth 3 after its first hard reset. -/
def exReady : LSILOGICSCSI :=
  lsilogicHardReset mptDefs (constructedDevice 3 3 (fun _ => 0))

/-- The device `exReady` with three unread context replies on its reply-post
ring of four slots. -/
def exFull : LSILOGICSCSI :=
  postContextReplies exReady [1, 2, 3]

/-- An IOC-Init request frame: WhoInit 4, MaxDevices 16, MaxBuses 1, message
context 0x11223344, reply frame size 128. -/
def exIOCInitFrame : List Nat :=
  [4, 0, 0, 2, 0, 16, 1, 0, 0x44, 0x33, 0x22, 0x11, 0x80, 0, 0, 0, 0, 0, 0, 0, 0, 0, 0, 0]

/-- The request of `exIOCInitFrame`. -/
def exIOCInitReq : MptRequestUnion :=
  exDecodeRequest (fun i => exIOCInitFrame.getD i 0)

/-- Doorbell writes of a handshake that carries `exIOCInitFrame`: the
handshake function with size 6, then the six dwords of the frame. -/
def exHandshakeWrites : List Nat :=
  [0x42060000, 0x02000004, 0x00011000, 0x11223344, 0x00000080, 0, 0]

/-- A run of writes to the Doorbell register. -/
def writeDoorbell (D : MptDefs) (s : LSILOGICSCSI) (vs : List Nat) : LSILOGICSCSI :=
  vs.foldl (fun s v => lsilogicRegisterWrite D s LSILOGIC_REG_DOORBELL v) s

/-- The device `exReady` in a handshake, before the last dword of the IOC-Init
message is written. -/
def exHandshake : LSILOGICSCSI :=
  writeDoorbell mptDefs exReady (exHandshakeWrites.take 6)

/-- The device `exReady` after the whole handshake message: the IOC-Init reply
is staged. -/
def exStaged : LSILOGICSCSI :=
  writeDoorbell mptDefs exReady exHandshakeWrites

/-- Guest memory that holds the given blocks of bytes, each at its address, and
zero elsewhere. -/
def memOfBlocks : List (Nat × List Nat) → GuestMem
  | [], _ => 0
  | (base, bytes) :: rest, a =>
    if base ≤ a ∧ a < base + bytes.length then bytes.getD (a - base) 0
    else memOfBlocks rest a

/-- A device after its first hard reset whose guest memory holds the IOC-Init
request frame `exIOCInitFrame` at address 0x1000. -/
def exReadyFrame : LSILOGICSCSI :=
  lsilogicHardReset mptDefs (constructedDevice 3 3 (memOfBlocks [(0x1000, exIOCInitFrame)]))

/-- The device `exReady`, no driver attached to any target, with the guest
memory `mem`. -/
def exDeviceWithMem (mem : GuestMem) : LSILOGICSCSI :=
  { exReady with mem := mem }

/-- A SCSI I/O request frame: target `u8TargetID` on bus `u8Bus`, chain offset
14 dwords (8 bytes behind the 48 bytes of the request), function 0, message
context 0x12345678, CDB length 6, sense buffer length 18 at 0x7000. -/
def exScsiFrame (u8TargetID u8Bus : Nat) : List Nat :=
  [u8TargetID, u8Bus, 14, 0, 6, 18, 0, 0, 0x78, 0x56, 0x34, 0x12,
   0, 0, 0, 0, 0, 0, 0, 0, 0, 0, 0, 0,
   0, 0, 0, 0, 0, 0, 0, 0, 0, 0, 0, 0, 0, 0, 0, 0,
   8, 0, 0, 0, 0x00, 0x70, 0, 0]

/-- A task state that holds the request `exScsiFrame`, read from the guest
address 0x2FD0, so that its scatter/gather list starts at 0x3000. -/
def exScsiTask (u8TargetID u8Bus : Nat) : LSILOGICTASKSTATE :=
  { LSILOGICTASKSTATE.zero with
    GuestRequest := fun i => (exScsiFrame u8TargetID u8Bus).getD i 0
    GCPhysMessageFrameAddr := 0x2FD0 }

/-- A device in the Fault state: `exReady` after the fault code 5 was set. -/
def exFault : LSILOGICSCSI :=
  lsilogicSetIOCFaultCode exReady 5

/-- Guest memory with a data-bearing chain of two segments.  The segment at
0x3000 holds one simple element (5 bytes at 0x5000, last of its segment) and,
8 bytes in, a chain element that points to the segment at 0x4000; that one
holds one simple element (3 bytes at 0x6000, end of list). -/
def exSGMemA : GuestMem :=
  memOfBlocks
    [ (0x3000, [5, 0, 0, 0x84, 0x00, 0x50, 0, 0, 0, 0, 0, 0x30, 0x00, 0x40, 0, 0, 0, 0, 0, 0]),
      (0x4000, [3, 0, 0, 0xC5, 0x00, 0x60, 0, 0]),
      (0x5000, [0x11, 0x22, 0x33, 0x44, 0x55]),
      (0x6000, [0xAA, 0xBB, 0xCC]) ]

/-- Guest memory with the chain of `exSGMemA` marked non-data-bearing, and
other bytes in the buffers. -/
def exSGMemB : GuestMem :=
  memOfBlocks
    [ (0x3000, [5, 0, 0, 0x80, 0x00, 0x50, 0, 0, 0, 0, 0, 0x30, 0x00, 0x40, 0, 0, 0, 0, 0, 0]),
      (0x4000, [3, 0, 0, 0xC1, 0x00, 0x60, 0, 0]),
      (0x5000, [1, 2, 3, 4, 5, 6, 7]),
      (0x6000, [8, 9, 10, 11]) ]

/-- The simple elements of the chain in `exSGMemA`. -/
def exSGChainA : List MptSGEntryUnion :=
  [sgEntryAt mptDefs exSGMemA 0x3000, sgEntryAt mptDefs exSGMemA 0x4000]

/-- The simple elements of the chain in `exSGMemB`. -/
def exSGChainB : List MptSGEntryUnion :=
  [sgEntryAt mptDefs exSGMemB 0x3000, sgEntryAt mptDefs exSGMemB 0x4000]

/-- A staging buffer that holds the bytes of the two buffers of `exSGMemA`. -/
def exSGStaging : Nat → Nat :=
  fun i => [0x11, 0x22, 0x33, 0x44, 0x55, 0xAA, 0xBB, 0xCC].getD i 0

/-- Guest memory whose scatter/gather list at 0x3000 starts with a zero
element; the bytes at 0x5000 are those of `exSGMemZ`. -/
def exSGMemEmpty : GuestMem :=
  memOfBlocks
    [ (0x3000, [0, 0, 0, 0x41, 0x00, 0x50, 0, 0]),
      (0x5000, [0x11, 0x22, 0x33, 0x44, 0x55]) ]

/-- The device `exReady` after the guest handed the reply frame address 0x2000
to the reply-free ring. -/
def exReplyFree : LSILOGICSCSI :=
  lsilogicRegisterWrite mptDefs exReady LSILOGIC_REG_REPLY_QUEUE 0x2000

/-- A reply of eight dwords with function 0 and message context 0x55667788. -/
def exReply : MptReplyUnion :=
  { MptReplyUnion.zero with u8MessageLength := 8, u32MessageContext := 0x55667788 }

/-- An Operational device whose reply-free ring holds the frame address 0x2100:
`exReplyFree` after the IOC-Init request `exIOCInitReq`, whose reply took the
frame 0x2000, and after the guest handed over the frame 0x2100. -/
def exOperational : LSILOGICSCSI :=
  lsilogicRegisterWrite mptDefs (lsilogicProcessMessageRequest mptDefs exReplyFree exIOCInitReq).1
    LSILOGIC_REG_REPLY_QUEUE 0x2100

/-- The task state of a request for target 3 as a driver hands it back, no
scatter/gather entries in use. -/
def exCompletedTask : LSILOGICTASKSTATE :=
  { exScsiTask 3 0 with pTargetDevice := some 3 }

/-- Guest memory with a data-bearing chain of one segment at 0x3000: a simple
element (5 bytes at 0x5000) followed by a zero element. -/
def exSGMemZ : GuestMem :=
  memOfBlocks
    [ (0x3000, [5, 0, 0, 0x04, 0x00, 0x50, 0, 0, 0, 0, 0, 0xC5, 0, 0, 0, 0]),
      (0x5000, [0x11, 0x22, 0x33, 0x44, 0x55]) ]

/-- Doorbell writes of a handshake that carries a message of three dwords with
the function code 0x7F and the message context 0xAABBCCDD. -/
def exUnknownWrites : List Nat :=
  [0x42030000, 0x7F000000, 0, 0xAABBCCDD]

/-- The device `exReady` in a handshake, before the last dword of the message
with function code 0x7F is written. -/
def exUnknownHandshake : LSILOGICSCSI :=
  writeDoorbell mptDefs exReady (exUnknownWrites.take 3)

/-- A configuration request frame: the action, function 4, message context
0xCAFE0001, page version 2 and page length 3, the page number and the page
type, port number (target) 0 and bus 0, and one simple element of `cb` bytes at
the 32-bit address `addr`. -/
def exConfigFrame (u8Action u8PageType u8PageNumber cb addr : Nat) : List Nat :=
  [u8Action, 0, 0, 4, 0, 0, 0, 0, 0x01, 0x00, 0xFE, 0xCA,
   0, 0, 0, 0, 0, 0, 0, 0, 2, 3, u8PageNumber, u8PageType, 0, 0, 0, 0,
   byteOf cb 0, byteOf cb 1, byteOf cb 2, 0xD1,
   byteOf addr 0, byteOf addr 1, byteOf addr 2, byteOf addr 3]

/-- The request of `exConfigFrame`. -/
def exConfigReq (u8Action u8PageType u8PageNumber cb addr : Nat) : MptRequestUnion :=
  exDecodeRequest (fun i => (exConfigFrame u8Action u8PageType u8PageNumber cb addr).getD i 0)

/-- The device `exReady` with sixteen bytes at the guest address 0x6000. -/
def exConfigDevice : LSILOGICSCSI :=
  exDeviceWithMem (memOfBlocks [(0x6000,
    [0xA0, 0xA1, 0xA2, 0xA3, 0xA4, 0xA5, 0xA6, 0xA7, 0xA8, 0xA9, 0xAA, 0xAB, 0xAC, 0xAD,
     0xAE, 0xAF])])

/-- An Operational device with one free task state in its task cache, whose
request ring holds one entry: the address 0x1000 of a message frame with the
function code `u8Function` and the message context 0x12345678. -/
def exDrainDevice (u8Function : Nat) : LSILOGICSCSI :=
  lsilogicRegisterWrite mptDefs
    { exOperational with
      mem := memOfBlocks [(0x1000, [0, 0, 0, u8Function, 0, 0, 0, 0, 0x78, 0x56, 0x34, 0x12])]
      pTaskCache := [LSILOGICTASKSTATE.zero] }
    LSILOGIC_REG_REQUEST_QUEUE 0x1000

/-- The device `exReady` after the five keys of the diagnostic write sequence:
diagnostic access is enabled. -/
def exUnlocked : LSILOGICSCSI :=
  writeSequence mptDefs exReady g_lsilogicDiagnosticAccess

/-- Doorbell writes: the handshake function announcing a message of size 0,
then 41 dwords. -/
def exOverlongWrites : List Nat :=
  0x42000000 :: List.replicate 41 0xDEADBEEF

/-- Guest memory with a chain of one segment at 0x3000: 257 simple elements of
8 bytes, each of length 0xFFFFFF at the buffer address 0, not data-bearing, the
last one marked end-of-list. -/
def exSGMemLong : GuestMem :=
  fun a =>
    if 0x3000 ≤ a ∧ a < 0x3000 + 8 * 257 then
      if (a - 0x3000) % 8 < 3 then 0xFF
      else if (a - 0x3000) % 8 = 3 then (if a < 0x3000 + 8 * 256 then 0 else 1)
      else 0
    else 0

/-- A task state whose list array was grown to two elements. -/
def exGrownTask : LSILOGICTASKSTATE :=
  (lsilogicScatterGatherListAllocate mptDefs (fun _ => true) LSILOGICTASKSTATE.zero 2 2 8).1

/-- Guest memory with a chain that runs in a circle.  The segment at 0x3000
holds one simple element (5 bytes at 0x5000, last of its segment) and, 8 bytes
in, a chain element that points back to the segment at 0x3000, with the next
chain element again 8 bytes (2 dwords) in. -/
def exSGMemCyclic : GuestMem :=
  memOfBlocks
    [ (0x3000, [5, 0, 0, 0x84, 0x00, 0x50, 0, 0, 0, 0, 2, 0x30, 0x00, 0x30, 0, 0, 0, 0, 0, 0]),
      (0x5000, [0x11, 0x22, 0x33, 0x44, 0x55]) ]

end LsiLogic


namespace LsiLogic

/-! ## The reply-post ring -/

theorem u32_of_lt {n : Nat} (h : n < 4294967296) : u32 n = n :=
  Nat.mod_eq_of_lt h

theorem finishContextReply_write (s : LSILOGICSCSI) (c : Nat) :
    (lsilogicFinishContextReply s c).uReplyPostQueueNextEntryFreeWrite
      = u32 (s.uReplyPostQueueNextEntryFreeWrite + 1) % s.cReplyQueueEntries := rfl

theorem finishContextReply_read (s : LSILOGICSCSI) (c : Nat) :
    (lsilogicFinishContextReply s c).uReplyPostQueueNextAddressRead
      = s.uReplyPostQueueNextAddressRead := rfl

theorem finishContextReply_cap (s : LSILOGICSCSI) (c : Nat) :
    (lsilogicFinishContextReply s c).cReplyQueueEntries = s.cReplyQueueEntries := rfl

theorem finishContextReply_base (s : LSILOGICSCSI) (c : Nat) :
    (lsilogicFinishContextReply s c).pReplyPostQueueBase
      = writeSlot s.pReplyPostQueueBase s.uReplyPostQueueNextEntryFreeWrite c := rfl

theorem finishContextReply_state (s : LSILOGICSCSI) (c : Nat) :
    (lsilogicFinishContextReply s c).enmState = s.enmState := rfl

theorem finishContextReply_fault (s : LSILOGICSCSI) (c : Nat) :
    (lsilogicFinishContextReply s c).u16IOCFaultCode = s.u16IOCFaultCode := rfl

/-- The write cursor after one post, for a cursor in range. -/
theorem finishContextReply_write_of_lt (s : LSILOGICSCSI) (c : Nat)
    (hcap : s.cReplyQueueEntries < 4294967296)
    (hw : s.uReplyPostQueueNextEntryFreeWrite < s.cReplyQueueEntries) :
    (lsilogicFinishContextReply s c).uReplyPostQueueNextEntryFreeWrite
      = (s.uReplyPostQueueNextEntryFreeWrite + 1) % s.cReplyQueueEntries := by
  rw [finishContextReply_write, u32_of_lt (by omega)]

theorem postContextReplies_read (cs : List Nat) (s : LSILOGICSCSI) :
    (postContextReplies s cs).uReplyPostQueueNextAddressRead
      = s.uReplyPostQueueNextAddressRead := by
  induction cs generalizing s with
  | nil => rfl
  | cons c cs ih =>
    show (postContextReplies (lsilogicFinishContextReply s c) cs).uReplyPostQueueNextAddressRead = _
    rw [ih, finishContextReply_read]

theorem postContextReplies_cap (cs : List Nat) (s : LSILOGICSCSI) :
    (postContextReplies s cs).cReplyQueueEntries = s.cReplyQueueEntries := by
  induction cs generalizing s with
  | nil => rfl
  | cons c cs ih =>
    show (postContextReplies (lsilogicFinishContextReply s c) cs).cReplyQueueEntries = _
    rw [ih, finishContextReply_cap]

theorem postContextReplies_state (cs : List Nat) (s : LSILOGICSCSI) :
    (postContextReplies s cs).enmState = s.enmState := by
  induction cs generalizing s with
  | nil => rfl
  | cons c cs ih =>
    show (postContextReplies (lsilogicFinishContextReply s c) cs).enmState = _
    rw [ih, finishContextReply_state]

theorem postContextReplies_fault (cs : List Nat) (s : LSILOGICSCSI) :
    (postContextReplies s cs).u16IOCFaultCode = s.u16IOCFaultCode := by
  induction cs generalizing s with
  | nil => rfl
  | cons c cs ih =>
    show (postContextReplies (lsilogicFinishContextReply s c) cs).u16IOCFaultCode = _
    rw [ih, finishContextReply_fault]

/-- The write cursor after a run of posts. -/
theorem postContextReplies_write (cs : List Nat) (s : LSILOGICSCSI)
    (hcap : s.cReplyQueueEntries < 4294967296)
    (hw : s.uReplyPostQueueNextEntryFreeWrite < s.cReplyQueueEntries) :
    (postContextReplies s cs).uReplyPostQueueNextEntryFreeWrite
      = (s.uReplyPostQueueNextEntryFreeWrite + cs.length) % s.cReplyQueueEntries := by
  induction cs generalizing s with
  | nil => simp [postContextReplies, Nat.mod_eq_of_lt hw]
  | cons c cs ih =>
    show (postContextReplies (lsilogicFinishContextReply s c) cs).uReplyPostQueueNextEntryFreeWrite = _
    have hpos : 0 < s.cReplyQueueEntries := by omega
    rw [ih _ (by rw [finishContextReply_cap]; exact hcap)
          (by rw [finishContextReply_cap, finishContextReply_write_of_lt s c hcap hw]
              exact Nat.mod_lt _ hpos),
        finishContextReply_cap, finishContextReply_write_of_lt s c hcap hw,
        List.length_cons, Nat.mod_add_mod]
    congr 1
    omega

/-- Two ring positions `i` and `j` steps after `x` differ when `i < j < capacity`. -/
theorem ring_pos_ne {x i j cap : Nat} (hij : i < j) (hj : j < cap) :
    (x + i) % cap ≠ (x + j) % cap := by
  intro h
  have h1 : (x + j) % cap = ((x + i) % cap + (j - i) % cap) % cap := by
    rw [← Nat.add_mod]; congr 1; omega
  rw [Nat.mod_eq_of_lt (show j - i < cap by omega)] at h1
  have hlt : (x + i) % cap < cap := Nat.mod_lt _ (by omega)
  rw [← h] at h1
  by_cases hc : (x + i) % cap + (j - i) < cap
  · rw [Nat.mod_eq_of_lt hc] at h1; omega
  · have h2 : ((x + i) % cap + (j - i)) % cap = (x + i) % cap + (j - i) - cap := by
      rw [Nat.mod_eq_sub_mod (by omega), Nat.mod_eq_of_lt (by omega)]
    rw [h2] at h1; omega

/-- A run of posts leaves alone every slot it does not pass. -/
theorem postContextReplies_base_frame (cs : List Nat) (s : LSILOGICSCSI) (x : Nat)
    (hcap : s.cReplyQueueEntries < 4294967296)
    (hw : s.uReplyPostQueueNextEntryFreeWrite < s.cReplyQueueEntries)
    (hx : ∀ i, i < cs.length →
      x ≠ (s.uReplyPostQueueNextEntryFreeWrite + i) % s.cReplyQueueEntries) :
    (postContextReplies s cs).pReplyPostQueueBase x = s.pReplyPostQueueBase x := by
  induction cs generalizing s with
  | nil => rfl
  | cons c cs ih =>
    show (postContextReplies (lsilogicFinishContextReply s c) cs).pReplyPostQueueBase x = _
    have hpos : 0 < s.cReplyQueueEntries := by omega
    rw [ih _ (by rw [finishContextReply_cap]; exact hcap)
          (by rw [finishContextReply_cap, finishContextReply_write_of_lt s c hcap hw]
              exact Nat.mod_lt _ hpos)]
    · rw [finishContextReply_base]
      have h0 := hx 0 (by simp)
      rw [Nat.add_zero, Nat.mod_eq_of_lt hw] at h0
      simp [writeSlot, h0]
    · intro i hi
      rw [finishContextReply_cap, finishContextReply_write_of_lt s c hcap hw, Nat.mod_add_mod]
      have := hx (i + 1) (by simp; omega)
      rw [show s.uReplyPostQueueNextEntryFreeWrite + 1 + i
            = s.uReplyPostQueueNextEntryFreeWrite + (i + 1) by omega]
      exact this

/-- The slots a run of posts has filled, when the run is shorter than the ring. -/
theorem postContextReplies_base (cs : List Nat) (s : LSILOGICSCSI)
    (hcap : s.cReplyQueueEntries < 4294967296)
    (hw : s.uReplyPostQueueNextEntryFreeWrite < s.cReplyQueueEntries)
    (hlen : cs.length ≤ s.cReplyQueueEntries) (i : Nat) (hi : i < cs.length) :
    (postContextReplies s cs).pReplyPostQueueBase
        ((s.uReplyPostQueueNextEntryFreeWrite + i) % s.cReplyQueueEntries)
      = cs.getD i 0 := by
  induction cs generalizing s i with
  | nil => simp at hi
  | cons c cs ih =>
    show (postContextReplies (lsilogicFinishContextReply s c) cs).pReplyPostQueueBase _ = _
    have hpos : 0 < s.cReplyQueueEntries := by omega
    have hcap1 : (lsilogicFinishContextReply s c).cReplyQueueEntries < 4294967296 := by
      rw [finishContextReply_cap]; exact hcap
    have hw1 : (lsilogicFinishContextReply s c).uReplyPostQueueNextEntryFreeWrite
        < (lsilogicFinishContextReply s c).cReplyQueueEntries := by
      rw [finishContextReply_cap, finishContextReply_write_of_lt s c hcap hw]
      exact Nat.mod_lt _ hpos
    simp only [List.length_cons] at hlen hi
    cases i with
    | zero =>
      rw [postContextReplies_base_frame cs _ _ hcap1 hw1]
      · rw [finishContextReply_base, Nat.add_zero, Nat.mod_eq_of_lt hw]
        simp [writeSlot]
      · intro j hj
        rw [finishContextReply_cap, finishContextReply_write_of_lt s c hcap hw, Nat.mod_add_mod,
          show s.uReplyPostQueueNextEntryFreeWrite + 1 + j
            = s.uReplyPostQueueNextEntryFreeWrite + (j + 1) by omega]
        exact ring_pos_ne (by omega) (by omega)
    | succ i =>
      have := ih _ hcap1 hw1 (by rw [finishContextReply_cap]; omega) i (by omega)
      rw [finishContextReply_cap, finishContextReply_write_of_lt s c hcap hw, Nat.mod_add_mod,
        show s.uReplyPostQueueNextEntryFreeWrite + 1 + i
            = s.uReplyPostQueueNextEntryFreeWrite + (i + 1) by omega] at this
      rw [this]; simp

end LsiLogic


namespace LsiLogic

/-- One read of the Reply-Queue register while the ring holds an entry. -/
theorem registerRead_replyQueue_nonempty (D : MptDefs) (s : LSILOGICSCSI) (uOffset cb : Nat)
    (hslot : uOffset &&& not32 3 = LSILOGIC_REG_REPLY_QUEUE)
    (hne : s.uReplyPostQueueNextEntryFreeWrite ≠ s.uReplyPostQueueNextAddressRead) :
    lsilogicRegisterRead D s uOffset cb
      = ({ s with
            uReplyPostQueueNextAddressRead :=
              u32 (s.uReplyPostQueueNextAddressRead + 1) % s.cReplyQueueEntries },
         lsilogicRegisterReadClip uOffset cb
           (s.pReplyPostQueueBase s.uReplyPostQueueNextAddressRead)) := by
  simp [lsilogicRegisterRead, hslot, hne]

/-- One read of the Reply-Queue register while the ring is empty. -/
theorem registerRead_replyQueue_empty (D : MptDefs) (s : LSILOGICSCSI) (uOffset cb : Nat)
    (hslot : uOffset &&& not32 3 = LSILOGIC_REG_REPLY_QUEUE)
    (he : s.uReplyPostQueueNextEntryFreeWrite = s.uReplyPostQueueNextAddressRead) :
    lsilogicRegisterRead D s uOffset cb
      = (lsilogicClearInterrupt s LSILOGIC_REG_HOST_INTR_STATUS_REPLY_INTR,
         lsilogicRegisterReadClip uOffset cb 0xffffffff) := by
  simp [lsilogicRegisterRead, hslot, he]

/-- A run of `M` reads of the Reply-Queue register from a ring holding `k ≥ M`
entries: the read cursor moves `M` steps, nothing else of the ring changes, and
the values read are the slots passed, in order. -/
theorem readReplyQueue_run (D : MptDefs) (uOffset cb : Nat)
    (hslot : uOffset &&& not32 3 = LSILOGIC_REG_REPLY_QUEUE)
    (M : Nat) (s : LSILOGICSCSI) (k : Nat)
    (hcap : s.cReplyQueueEntries < 4294967296)
    (hr : s.uReplyPostQueueNextAddressRead < s.cReplyQueueEntries)
    (hw : s.uReplyPostQueueNextEntryFreeWrite
            = (s.uReplyPostQueueNextAddressRead + k) % s.cReplyQueueEntries)
    (hk : k < s.cReplyQueueEntries) (hM : M ≤ k) :
    let res := readRegisterTimes D s uOffset cb M
    res.1.uReplyPostQueueNextAddressRead
        = (s.uReplyPostQueueNextAddressRead + M) % s.cReplyQueueEntries
      ∧ res.1.uReplyPostQueueNextEntryFreeWrite = s.uReplyPostQueueNextEntryFreeWrite
      ∧ res.1.cReplyQueueEntries = s.cReplyQueueEntries
      ∧ res.1.pReplyPostQueueBase = s.pReplyPostQueueBase
      ∧ res.1.enmState = s.enmState
      ∧ res.1.u16IOCFaultCode = s.u16IOCFaultCode
      ∧ res.1.uInterruptStatus = s.uInterruptStatus
      ∧ res.2 = (List.range M).map (fun j =>
          lsilogicRegisterReadClip uOffset cb
            (s.pReplyPostQueueBase
              ((s.uReplyPostQueueNextAddressRead + j) % s.cReplyQueueEntries))) := by
  induction M generalizing s k with
  | zero =>
    simp [readRegisterTimes, Nat.mod_eq_of_lt hr]
  | succ M ih =>
    have hne : s.uReplyPostQueueNextEntryFreeWrite ≠ s.uReplyPostQueueNextAddressRead := by
      rw [hw]
      have := @ring_pos_ne s.uReplyPostQueueNextAddressRead 0 k s.cReplyQueueEntries
        (by omega) hk
      rw [Nat.add_zero, Nat.mod_eq_of_lt hr] at this
      exact fun h => this h.symm
    have hstep := registerRead_replyQueue_nonempty D s uOffset cb hslot hne
    have hpos : 0 < s.cReplyQueueEntries := by omega
    have hu : u32 (s.uReplyPostQueueNextAddressRead + 1)
        = s.uReplyPostQueueNextAddressRead + 1 := u32_of_lt (by omega)
    simp only [readRegisterTimes, hstep, hu]
    have := ih { s with
        uReplyPostQueueNextAddressRead :=
          (s.uReplyPostQueueNextAddressRead + 1) % s.cReplyQueueEntries } (k - 1)
      hcap (Nat.mod_lt _ hpos)
      (by
        show s.uReplyPostQueueNextEntryFreeWrite = _
        rw [hw, Nat.mod_add_mod]; congr 1; omega)
      (by show k - 1 < s.cReplyQueueEntries; omega) (by omega)
    obtain ⟨h1, h2, h3, h4, h5, h6, h7, h8⟩ := this
    refine ⟨?_, h2, h3, h4, h5, h6, h7, ?_⟩
    · rw [h1]
      show ((s.uReplyPostQueueNextAddressRead + 1) % s.cReplyQueueEntries + M)
          % s.cReplyQueueEntries = _
      rw [Nat.mod_add_mod]; congr 1; omega
    · rw [h8, List.range_succ_eq_map]
      simp only [List.map_cons, List.map_map, Nat.add_zero, Nat.mod_eq_of_lt hr]
      congr 1
      apply List.map_congr_left
      intro j _
      show lsilogicRegisterReadClip uOffset cb (s.pReplyPostQueueBase
          (((s.uReplyPostQueueNextAddressRead + 1) % s.cReplyQueueEntries + j)
            % s.cReplyQueueEntries)) = _
      rw [Nat.mod_add_mod]
      simp only [Function.comp, Nat.succ_eq_add_one]
      congr 3
      omega

end LsiLogic


namespace LsiLogic

/-- C1 (reply-post ring cursor invariant): starting from an empty reply-post
ring whose cursors are in range, after `N ≤ cReplyQueueEntries - 1` context
replies posted with `lsilogicFinishContextReply` and then `M ≤ N` guest reads of
the Reply-Queue register (any access size, any offset inside the register
slot), the write cursor minus the read cursor is `N - M` modulo
`cReplyQueueEntries`. -/
theorem C1_reply_post_cursor_invariant (D : MptDefs) (s : LSILOGICSCSI) (cs : List Nat)
    (M uOffset cb : Nat)
    (hslot : uOffset &&& not32 3 = LSILOGIC_REG_REPLY_QUEUE)
    (hcap : s.cReplyQueueEntries < 4294967296)
    (hempty : s.uReplyPostQueueNextEntryFreeWrite = s.uReplyPostQueueNextAddressRead)
    (hr : s.uReplyPostQueueNextAddressRead < s.cReplyQueueEntries)
    (hN : cs.length ≤ s.cReplyQueueEntries - 1)
    (hM : M ≤ cs.length) :
    ((((readRegisterTimes D (postContextReplies s cs) uOffset cb M).1
          ).uReplyPostQueueNextEntryFreeWrite : Int)
      - (((readRegisterTimes D (postContextReplies s cs) uOffset cb M).1
          ).uReplyPostQueueNextAddressRead : Int))
        % (s.cReplyQueueEntries : Int)
      = (cs.length : Int) - (M : Int) := by
  have hw0 : s.uReplyPostQueueNextEntryFreeWrite < s.cReplyQueueEntries := by
    rw [hempty]; exact hr
  have hrun := readReplyQueue_run D uOffset cb hslot M (postContextReplies s cs) cs.length
    (by rw [postContextReplies_cap]; exact hcap)
    (by rw [postContextReplies_cap, postContextReplies_read]; exact hr)
    (by rw [postContextReplies_cap, postContextReplies_read,
          postContextReplies_write cs s hcap hw0, hempty])
    (by rw [postContextReplies_cap]; omega) hM
  obtain ⟨h1, h2, -⟩ := hrun
  rw [h1, h2, postContextReplies_cap, postContextReplies_read,
    postContextReplies_write cs s hcap hw0, hempty]
  push_cast
  rw [Int.sub_emod, Int.emod_emod_of_dvd _ (dvd_refl _), Int.emod_emod_of_dvd _ (dvd_refl _),
    ← Int.sub_emod]
  have : ((s.uReplyPostQueueNextAddressRead : Int) + cs.length
      - (s.uReplyPostQueueNextAddressRead + M)) = (cs.length : Int) - M := by ring
  rw [this]
  apply Int.emod_eq_of_lt <;> omega

/-- C1, evaluated: three posts and two reads on a ring of four slots. -/
theorem C1_reply_post_cursor_invariant_witness :
    (0x44 &&& not32 3 = LSILOGIC_REG_REPLY_QUEUE
      ∧ exReady.cReplyQueueEntries < 4294967296
      ∧ exReady.uReplyPostQueueNextEntryFreeWrite = exReady.uReplyPostQueueNextAddressRead
      ∧ exReady.uReplyPostQueueNextAddressRead < exReady.cReplyQueueEntries
      ∧ [11, 22, 33].length ≤ exReady.cReplyQueueEntries - 1
      ∧ 2 ≤ [11, 22, 33].length)
    ∧ ((((readRegisterTimes mptDefs (postContextReplies exReady [11, 22, 33]) 0x44 4 2).1
            ).uReplyPostQueueNextEntryFreeWrite : Int)
        - (((readRegisterTimes mptDefs (postContextReplies exReady [11, 22, 33]) 0x44 4 2).1
            ).uReplyPostQueueNextAddressRead : Int))
          % (exReady.cReplyQueueEntries : Int)
        = (([11, 22, 33] : List Nat).length : Int) - ((2 : Nat) : Int) :=
  ⟨by decide,
   C1_reply_post_cursor_invariant mptDefs exReady [11, 22, 33] 2 0x44 4
    (by decide) (by decide) (by decide) (by decide) (by decide) (by decide)⟩

/-- C2 (FIFO order of the reply-post ring): starting from an empty ring with
cursors in range, after context replies `c1..cN` (`N ≤ cReplyQueueEntries - 1`)
are posted in that order, `N` successive 4-byte reads of the Reply-Queue
register (offset 0x44) return `c1..cN` in the same order, and the next read
returns 0xFFFFFFFF and leaves the reply-interrupt status bit (bit 3) clear. -/
theorem C2_reply_post_ring_fifo (D : MptDefs) (s : LSILOGICSCSI) (cs : List Nat)
    (hcap : s.cReplyQueueEntries < 4294967296)
    (hempty : s.uReplyPostQueueNextEntryFreeWrite = s.uReplyPostQueueNextAddressRead)
    (hr : s.uReplyPostQueueNextAddressRead < s.cReplyQueueEntries)
    (hN : cs.length ≤ s.cReplyQueueEntries - 1) :
    (readRegisterTimes D (postContextReplies s cs) LSILOGIC_REG_REPLY_QUEUE 4 cs.length).2
        = cs.map some
      ∧ (lsilogicRegisterRead D
          (readRegisterTimes D (postContextReplies s cs) LSILOGIC_REG_REPLY_QUEUE 4 cs.length).1
          LSILOGIC_REG_REPLY_QUEUE 4).2 = some 0xFFFFFFFF
      ∧ (lsilogicRegisterRead D
          (readRegisterTimes D (postContextReplies s cs) LSILOGIC_REG_REPLY_QUEUE 4 cs.length).1
          LSILOGIC_REG_REPLY_QUEUE 4).1.uInterruptStatus.testBit 3 = false := by
  have hslot : LSILOGIC_REG_REPLY_QUEUE &&& not32 3 = LSILOGIC_REG_REPLY_QUEUE := by decide
  have hw0 : s.uReplyPostQueueNextEntryFreeWrite < s.cReplyQueueEntries := by
    rw [hempty]; exact hr
  have hrun := readReplyQueue_run D LSILOGIC_REG_REPLY_QUEUE 4 hslot cs.length
    (postContextReplies s cs) cs.length
    (by rw [postContextReplies_cap]; exact hcap)
    (by rw [postContextReplies_cap, postContextReplies_read]; exact hr)
    (by rw [postContextReplies_cap, postContextReplies_read,
          postContextReplies_write cs s hcap hw0, hempty])
    (by rw [postContextReplies_cap]; omega) le_rfl
  obtain ⟨h1, h2, -, -, -, -, -, h8⟩ := hrun
  have hemp : (readRegisterTimes D (postContextReplies s cs) LSILOGIC_REG_REPLY_QUEUE 4
        cs.length).1.uReplyPostQueueNextEntryFreeWrite
      = (readRegisterTimes D (postContextReplies s cs) LSILOGIC_REG_REPLY_QUEUE 4
        cs.length).1.uReplyPostQueueNextAddressRead := by
    rw [h1, h2, postContextReplies_cap, postContextReplies_read,
      postContextReplies_write cs s hcap hw0, hempty]
  refine ⟨?_, ?_, ?_⟩
  · rw [h8]
    apply List.ext_getElem
    · simp
    · intro i hi1 hi2
      simp only [List.length_map, List.length_range] at hi1
      simp only [List.getElem_map, List.getElem_range, lsilogicRegisterReadClip, if_true]
      rw [postContextReplies_cap, postContextReplies_read, ← hempty,
        postContextReplies_base cs s hcap hw0 (by omega) i hi1]
      simp [List.getD_eq_getElem?_getD, List.getElem?_eq_getElem hi1]
  · rw [registerRead_replyQueue_empty D _ _ _ hslot hemp]
    rfl
  · rw [registerRead_replyQueue_empty D _ _ _ hslot hemp]
    show (_ &&& not32 LSILOGIC_REG_HOST_INTR_STATUS_REPLY_INTR).testBit 3 = false
    rw [Nat.testBit_land]
    have : (not32 LSILOGIC_REG_HOST_INTR_STATUS_REPLY_INTR).testBit 3 = false := by decide
    rw [this, Bool.and_false]

/-- C2, evaluated: three posts on a ring of four slots. -/
theorem C2_reply_post_ring_fifo_witness :
    (exReady.cReplyQueueEntries < 4294967296
      ∧ exReady.uReplyPostQueueNextEntryFreeWrite = exReady.uReplyPostQueueNextAddressRead
      ∧ exReady.uReplyPostQueueNextAddressRead < exReady.cReplyQueueEntries
      ∧ [11, 22, 33].length ≤ exReady.cReplyQueueEntries - 1)
    ∧ ((readRegisterTimes mptDefs (postContextReplies exReady [11, 22, 33])
          LSILOGIC_REG_REPLY_QUEUE 4 [11, 22, 33].length).2 = [11, 22, 33].map some
      ∧ (lsilogicRegisterRead mptDefs
          (readRegisterTimes mptDefs (postContextReplies exReady [11, 22, 33])
            LSILOGIC_REG_REPLY_QUEUE 4 [11, 22, 33].length).1
          LSILOGIC_REG_REPLY_QUEUE 4).2 = some 0xFFFFFFFF
      ∧ (lsilogicRegisterRead mptDefs
          (readRegisterTimes mptDefs (postContextReplies exReady [11, 22, 33])
            LSILOGIC_REG_REPLY_QUEUE 4 [11, 22, 33].length).1
          LSILOGIC_REG_REPLY_QUEUE 4).1.uInterruptStatus.testBit 3 = false) :=
  ⟨by decide,
   C2_reply_post_ring_fifo mptDefs exReady [11, 22, 33]
    (by decide) (by decide) (by decide) (by decide)⟩

end LsiLogic


namespace LsiLogic

/-- C3, refuted as stated: on a reply-post ring of four slots that holds three
unread entries, one more context reply raises no fault and advances the write
cursor. -/
theorem C3_queue_full_counterexample :
    exFull.cReplyQueueEntries = 4
      ∧ exFull.uReplyPostQueueNextAddressRead = 0
      ∧ exFull.uReplyPostQueueNextEntryFreeWrite = 3
      ∧ ¬ ((lsilogicFinishContextReply exFull 4).u16IOCFaultCode
              = LSILOGIC_IOCSTATUS_INSUFFICIENT_RESOURCES
            ∧ (lsilogicFinishContextReply exFull 4).enmState = LSILOGICSTATE.FAULT
            ∧ (lsilogicFinishContextReply exFull 4).uReplyPostQueueNextEntryFreeWrite
                = exFull.uReplyPostQueueNextEntryFreeWrite) := by
  decide

/-- C3 as amended (no queue-full check): when the reply-post ring holds
`cReplyQueueEntries - 1` unread entries, one more reply posted with
`lsilogicFinishContextReply`, or through the reply-FIFO branch of
`lsilogicFinishAddressReply`, leaves `enmState` and `u16IOCFaultCode` unchanged,
stores the reply value in the slot at the write cursor and advances the write
cursor by one modulo `cReplyQueueEntries`, so that it equals the read cursor. -/
theorem C3_reply_post_no_full_check (D : MptDefs) (s : LSILOGICSCSI) (c : Nat)
    (pReply : MptReplyUnion) (fForceReplyFifo : Bool)
    (hcap : s.cReplyQueueEntries < 4294967296)
    (hr : s.uReplyPostQueueNextAddressRead < s.cReplyQueueEntries)
    (hfull : s.uReplyPostQueueNextEntryFreeWrite
      = (s.uReplyPostQueueNextAddressRead + (s.cReplyQueueEntries - 1)) % s.cReplyQueueEntries)
    (hfifo : (s.fDoorbellInProgress && !fForceReplyFifo) = false) :
    ((lsilogicFinishContextReply s c).enmState = s.enmState
      ∧ (lsilogicFinishContextReply s c).u16IOCFaultCode = s.u16IOCFaultCode
      ∧ (lsilogicFinishContextReply s c).pReplyPostQueueBase
          = writeSlot s.pReplyPostQueueBase s.uReplyPostQueueNextEntryFreeWrite c
      ∧ (lsilogicFinishContextReply s c).uReplyPostQueueNextEntryFreeWrite
          = s.uReplyPostQueueNextAddressRead
      ∧ (lsilogicFinishContextReply s c).uReplyPostQueueNextAddressRead
          = s.uReplyPostQueueNextAddressRead)
    ∧ ((lsilogicFinishAddressReply D s pReply fForceReplyFifo).enmState = s.enmState
      ∧ (lsilogicFinishAddressReply D s pReply fForceReplyFifo).u16IOCFaultCode
          = s.u16IOCFaultCode
      ∧ (lsilogicFinishAddressReply D s pReply fForceReplyFifo).pReplyPostQueueBase
          = writeSlot s.pReplyPostQueueBase s.uReplyPostQueueNextEntryFreeWrite
              (RT_BIT 31 |||
                (s.pReplyFreeQueueBase s.uReplyFreeQueueNextAddressRead >>> 1))
      ∧ (lsilogicFinishAddressReply D s pReply fForceReplyFifo).uReplyPostQueueNextEntryFreeWrite
          = s.uReplyPostQueueNextAddressRead
      ∧ (lsilogicFinishAddressReply D s pReply fForceReplyFifo).uReplyPostQueueNextAddressRead
          = s.uReplyPostQueueNextAddressRead) := by
  have hpos : 0 < s.cReplyQueueEntries := by omega
  have hwlt : s.uReplyPostQueueNextEntryFreeWrite < s.cReplyQueueEntries := by
    rw [hfull]; exact Nat.mod_lt _ hpos
  have hnext : u32 (s.uReplyPostQueueNextEntryFreeWrite + 1) % s.cReplyQueueEntries
      = s.uReplyPostQueueNextAddressRead := by
    rw [u32_of_lt (by omega), hfull, Nat.mod_add_mod,
      show s.uReplyPostQueueNextAddressRead + (s.cReplyQueueEntries - 1) + 1
        = s.uReplyPostQueueNextAddressRead + s.cReplyQueueEntries by omega,
      Nat.add_mod_right, Nat.mod_eq_of_lt hr]
  refine ⟨⟨rfl, rfl, rfl, hnext, rfl⟩, ?_⟩
  cases fForceReplyFifo <;>
    simp only [lsilogicFinishAddressReply, hfifo, lsilogicSetInterrupt, lsilogicUpdateInterrupt] <;>
    exact ⟨rfl, rfl, rfl, hnext, rfl⟩

/-- C3 as amended, evaluated on the full ring `exFull`. -/
theorem C3_reply_post_no_full_check_witness :
    (exFull.cReplyQueueEntries < 4294967296
      ∧ exFull.uReplyPostQueueNextAddressRead < exFull.cReplyQueueEntries
      ∧ exFull.uReplyPostQueueNextEntryFreeWrite
          = (exFull.uReplyPostQueueNextAddressRead + (exFull.cReplyQueueEntries - 1))
              % exFull.cReplyQueueEntries
      ∧ (exFull.fDoorbellInProgress && !false) = false)
    ∧ (lsilogicFinishContextReply exFull 4).enmState = exFull.enmState
    ∧ (lsilogicFinishContextReply exFull 4).uReplyPostQueueNextEntryFreeWrite
        = exFull.uReplyPostQueueNextAddressRead
    ∧ (lsilogicFinishAddressReply mptDefs exFull MptReplyUnion.zero false
        ).uReplyPostQueueNextEntryFreeWrite = exFull.uReplyPostQueueNextAddressRead :=
  have h := C3_reply_post_no_full_check mptDefs exFull 4 MptReplyUnion.zero false
    (by decide) (by decide) (by decide) (by decide)
  ⟨by decide, h.1.1, h.1.2.2.2.1, h.2.2.2.2.1⟩

end LsiLogic


namespace LsiLogic

/-- The page store written by `lsilogicInitializeConfigurationPages` depends on
the prior device state through `PciDev.devfn` only. -/
theorem initializeConfigurationPages_pages (D : MptDefs) (s t : LSILOGICSCSI)
    (h : t.PciDev_devfn = s.PciDev_devfn) :
    (lsilogicInitializeConfigurationPages D t).ConfigurationPages
      = (lsilogicInitializeConfigurationPages D s).ConfigurationPages := by
  simp only [lsilogicInitializeConfigurationPages, h]

theorem hardReset_pages (D : MptDefs) (s : LSILOGICSCSI) :
    (lsilogicHardReset D s).ConfigurationPages
      = (lsilogicInitializeConfigurationPages D s).ConfigurationPages := by
  simp only [lsilogicHardReset, lsilogicInitializeConfigurationPages, lsilogicUpdateInterrupt]

theorem hardReset_devfn (D : MptDefs) (s : LSILOGICSCSI) :
    (lsilogicHardReset D s).PciDev_devfn = s.PciDev_devfn := rfl

/-- C4 (hard reset postcondition): for every prior controller state,
`lsilogicHardReset` leaves `enmState = Ready`, `cMaxDevices =
LSILOGIC_DEVICES_MAX`, `cMaxBuses = 1`, `cbReplyFrame = 128`, all six ring
cursors zero, `uInterruptStatus = 0`, and the configuration-page store equal to
the defaults written by `lsilogicInitializeConfigurationPages`, which depend on
no prior page content; a second hard reset changes nothing. -/
theorem C4_hard_reset_postcondition (D : MptDefs) (s : LSILOGICSCSI)
    (hmax : D.LSILOGIC_DEVICES_MAX < 256) :
    (lsilogicHardReset D s).enmState = LSILOGICSTATE.READY
      ∧ (lsilogicHardReset D s).cMaxDevices = D.LSILOGIC_DEVICES_MAX
      ∧ (lsilogicHardReset D s).cMaxBuses = 1
      ∧ (lsilogicHardReset D s).cbReplyFrame = 128
      ∧ (lsilogicHardReset D s).uRequestQueueNextEntryFreeWrite = 0
      ∧ (lsilogicHardReset D s).uRequestQueueNextAddressRead = 0
      ∧ (lsilogicHardReset D s).uReplyFreeQueueNextEntryFreeWrite = 0
      ∧ (lsilogicHardReset D s).uReplyFreeQueueNextAddressRead = 0
      ∧ (lsilogicHardReset D s).uReplyPostQueueNextEntryFreeWrite = 0
      ∧ (lsilogicHardReset D s).uReplyPostQueueNextAddressRead = 0
      ∧ (lsilogicHardReset D s).uInterruptStatus = 0
      ∧ (∀ t : LSILOGICSCSI, t.PciDev_devfn = s.PciDev_devfn →
          (lsilogicHardReset D s).ConfigurationPages
            = (lsilogicInitializeConfigurationPages D t).ConfigurationPages)
      ∧ lsilogicHardReset D (lsilogicHardReset D s) = lsilogicHardReset D s := by
  refine ⟨rfl, ?_, rfl, rfl, rfl, rfl, rfl, rfl, rfl, rfl, rfl, ?_, ?_⟩
  · show D.LSILOGIC_DEVICES_MAX % 256 = _
    exact Nat.mod_eq_of_lt hmax
  · intro t ht
    rw [hardReset_pages, initializeConfigurationPages_pages D s t ht]
  · simp only [lsilogicHardReset, lsilogicInitializeConfigurationPages, lsilogicUpdateInterrupt,
      Nat.lor_assoc, Nat.or_self]

/-- C4, evaluated: hard reset of a device that went through an IOC-Init
handshake and is in the Operational state. -/
theorem C4_hard_reset_postcondition_witness :
    (mptDefs.LSILOGIC_DEVICES_MAX < 256 ∧ exStaged.enmState = LSILOGICSTATE.OPERATIONAL)
      ∧ ((lsilogicHardReset mptDefs exStaged).enmState = LSILOGICSTATE.READY
        ∧ (lsilogicHardReset mptDefs exStaged).cMaxDevices = mptDefs.LSILOGIC_DEVICES_MAX
        ∧ (lsilogicHardReset mptDefs exStaged).cMaxBuses = 1
        ∧ (lsilogicHardReset mptDefs exStaged).cbReplyFrame = 128
        ∧ (lsilogicHardReset mptDefs exStaged).uRequestQueueNextEntryFreeWrite = 0
        ∧ (lsilogicHardReset mptDefs exStaged).uRequestQueueNextAddressRead = 0
        ∧ (lsilogicHardReset mptDefs exStaged).uReplyFreeQueueNextEntryFreeWrite = 0
        ∧ (lsilogicHardReset mptDefs exStaged).uReplyFreeQueueNextAddressRead = 0
        ∧ (lsilogicHardReset mptDefs exStaged).uReplyPostQueueNextEntryFreeWrite = 0
        ∧ (lsilogicHardReset mptDefs exStaged).uReplyPostQueueNextAddressRead = 0
        ∧ (lsilogicHardReset mptDefs exStaged).uInterruptStatus = 0
        ∧ (∀ t : LSILOGICSCSI, t.PciDev_devfn = exStaged.PciDev_devfn →
            (lsilogicHardReset mptDefs exStaged).ConfigurationPages
              = (lsilogicInitializeConfigurationPages mptDefs t).ConfigurationPages)
        ∧ lsilogicHardReset mptDefs (lsilogicHardReset mptDefs exStaged)
            = lsilogicHardReset mptDefs exStaged) :=
  ⟨by decide, C4_hard_reset_postcondition mptDefs exStaged (by decide)⟩

end LsiLogic


namespace LsiLogic

/-! ## Message processing -/

/-- The function codes are pairwise different. -/
theorem functions_ne (D : MptDefs) :
    D.MPT_MESSAGE_HDR_FUNCTION_IOC_INIT ≠ D.MPT_MESSAGE_HDR_FUNCTION_SCSI_TASK_MGMT
      ∧ D.MPT_MESSAGE_HDR_FUNCTION_IOC_INIT ≠ D.MPT_MESSAGE_HDR_FUNCTION_SCSI_IO_REQUEST := by
  have h := D.functionsDistinct
  simp only [List.nodup_cons, List.mem_cons, List.mem_singleton, not_or] at h
  obtain ⟨⟨-, h02, -⟩, ⟨h12, -⟩, -⟩ := h
  exact ⟨fun e => h12 e.symm, fun e => h02 e.symm⟩

/-- Fields that `lsilogicFinishAddressReply` never touches. -/
theorem finishAddressReply_frame (D : MptDefs) (s : LSILOGICSCSI) (pReply : MptReplyUnion)
    (f : Bool) :
    (lsilogicFinishAddressReply D s pReply f).enmState = s.enmState
      ∧ (lsilogicFinishAddressReply D s pReply f).u16IOCFaultCode = s.u16IOCFaultCode
      ∧ (lsilogicFinishAddressReply D s pReply f).enmWhoInit = s.enmWhoInit
      ∧ (lsilogicFinishAddressReply D s pReply f).cbReplyFrame = s.cbReplyFrame
      ∧ (lsilogicFinishAddressReply D s pReply f).cMaxBuses = s.cMaxBuses
      ∧ (lsilogicFinishAddressReply D s pReply f).cMaxDevices = s.cMaxDevices
      ∧ (lsilogicFinishAddressReply D s pReply f).u32HostMFAHighAddr = s.u32HostMFAHighAddr
      ∧ (lsilogicFinishAddressReply D s pReply f).u32SenseBufferHighAddr
          = s.u32SenseBufferHighAddr
      ∧ (lsilogicFinishAddressReply D s pReply f).cRequestQueueEntries = s.cRequestQueueEntries
      ∧ (lsilogicFinishAddressReply D s pReply f).uRequestQueueNextAddressRead
          = s.uRequestQueueNextAddressRead
      ∧ (lsilogicFinishAddressReply D s pReply f).uRequestQueueNextEntryFreeWrite
          = s.uRequestQueueNextEntryFreeWrite := by
  unfold lsilogicFinishAddressReply
  split
  · exact ⟨rfl, rfl, rfl, rfl, rfl, rfl, rfl, rfl, rfl, rfl, rfl⟩
  · cases f <;> exact ⟨rfl, rfl, rfl, rfl, rfl, rfl, rfl, rfl, rfl, rfl, rfl⟩

/-- The `switch` on an IOC-Init message. -/
theorem processMessageSwitch_iocInit (D : MptDefs) (s : LSILOGICSCSI) (req : MptRequestUnion)
    (hfn : req.u8Function = D.MPT_MESSAGE_HDR_FUNCTION_IOC_INIT) :
    (lsilogicProcessMessageSwitch D s req).pLsiLogic.enmState
        = (if s.enmState = LSILOGICSTATE.READY then LSILOGICSTATE.OPERATIONAL else s.enmState)
      ∧ (lsilogicProcessMessageSwitch D s req).pLsiLogic.enmWhoInit = req.IOCInit_u8WhoInit
      ∧ (lsilogicProcessMessageSwitch D s req).pLsiLogic.cbReplyFrame
          = req.IOCInit_u16ReplyFrameSize
      ∧ (lsilogicProcessMessageSwitch D s req).pLsiLogic.cMaxBuses = req.IOCInit_u8MaxBuses
      ∧ (lsilogicProcessMessageSwitch D s req).pLsiLogic.cMaxDevices = req.IOCInit_u8MaxDevices
      ∧ (lsilogicProcessMessageSwitch D s req).pLsiLogic.u32HostMFAHighAddr
          = req.IOCInit_u32HostMfaHighAddr
      ∧ (lsilogicProcessMessageSwitch D s req).pLsiLogic.u32SenseBufferHighAddr
          = req.IOCInit_u32SenseBufferHighAddr
      ∧ (lsilogicProcessMessageSwitch D s req).pReply.u8MessageLength = 5
      ∧ (lsilogicProcessMessageSwitch D s req).pReply.IOCInit_u8WhoInit
          = req.IOCInit_u8WhoInit % 256
      ∧ (lsilogicProcessMessageSwitch D s req).pReply.IOCInit_u8MaxDevices
          = req.IOCInit_u8MaxDevices
      ∧ (lsilogicProcessMessageSwitch D s req).pReply.IOCInit_u8MaxBuses = req.IOCInit_u8MaxBuses
      ∧ (lsilogicProcessMessageSwitch D s req).pLsiLogic.cRequestQueueEntries
          = s.cRequestQueueEntries
      ∧ (lsilogicProcessMessageSwitch D s req).pLsiLogic.uRequestQueueNextAddressRead
          = s.uRequestQueueNextAddressRead
      ∧ (lsilogicProcessMessageSwitch D s req).pLsiLogic.uRequestQueueNextEntryFreeWrite
          = s.uRequestQueueNextEntryFreeWrite := by
  obtain ⟨hne, -⟩ := functions_ne D
  by_cases hs : s.enmState = LSILOGICSTATE.READY
  · simp [lsilogicProcessMessageSwitch, hfn, hne, hs]
  · simp [lsilogicProcessMessageSwitch, hfn, hne, hs]

/-- C6 (IOC-Init state transition): `lsilogicProcessMessageRequest` on an
IOC-Init message moves `enmState` from Ready to Operational and leaves every
other state (Reset, Operational, Fault) as it was; in every state it copies the
request's WhoInit, reply frame size, MaxBuses, MaxDevices, host-MFA high
address and sense-buffer high address into the controller state, and the reply
reports message length 5 together with the stored WhoInit, MaxDevices and
MaxBuses. -/
theorem C6_ioc_init_transition (D : MptDefs) (s : LSILOGICSCSI) (req : MptRequestUnion)
    (hfn : req.u8Function = D.MPT_MESSAGE_HDR_FUNCTION_IOC_INIT)
    (hwho : req.IOCInit_u8WhoInit < 256) :
    (s.enmState = LSILOGICSTATE.READY →
        (lsilogicProcessMessageRequest D s req).1.enmState = LSILOGICSTATE.OPERATIONAL)
      ∧ (s.enmState ≠ LSILOGICSTATE.READY →
        (lsilogicProcessMessageRequest D s req).1.enmState = s.enmState)
      ∧ (lsilogicProcessMessageRequest D s req).1.enmWhoInit = req.IOCInit_u8WhoInit
      ∧ (lsilogicProcessMessageRequest D s req).1.cbReplyFrame = req.IOCInit_u16ReplyFrameSize
      ∧ (lsilogicProcessMessageRequest D s req).1.cMaxBuses = req.IOCInit_u8MaxBuses
      ∧ (lsilogicProcessMessageRequest D s req).1.cMaxDevices = req.IOCInit_u8MaxDevices
      ∧ (lsilogicProcessMessageRequest D s req).1.u32HostMFAHighAddr
          = req.IOCInit_u32HostMfaHighAddr
      ∧ (lsilogicProcessMessageRequest D s req).1.u32SenseBufferHighAddr
          = req.IOCInit_u32SenseBufferHighAddr
      ∧ (lsilogicProcessMessageRequest D s req).2.1.u8MessageLength = 5
      ∧ (lsilogicProcessMessageRequest D s req).2.1.IOCInit_u8WhoInit
          = (lsilogicProcessMessageRequest D s req).1.enmWhoInit
      ∧ (lsilogicProcessMessageRequest D s req).2.1.IOCInit_u8MaxDevices
          = (lsilogicProcessMessageRequest D s req).1.cMaxDevices
      ∧ (lsilogicProcessMessageRequest D s req).2.1.IOCInit_u8MaxBuses
          = (lsilogicProcessMessageRequest D s req).1.cMaxBuses := by
  obtain ⟨w1, w2, w3, w4, w5, w6, w7, w8, w9, w10, w11, -⟩ :=
    processMessageSwitch_iocInit D s req hfn
  have hmod : req.IOCInit_u8WhoInit % 256 = req.IOCInit_u8WhoInit := Nat.mod_eq_of_lt hwho
  obtain ⟨f1, -, f3, f4, f5, f6, f7, f8, -⟩ := finishAddressReply_frame D
    (lsilogicProcessMessageSwitch D s req).pLsiLogic
    { (lsilogicProcessMessageSwitch D s req).pReply with
      u8Function := req.u8Function
      u32MessageContext := req.u32MessageContext }
    (lsilogicProcessMessageSwitch D s req).fForceReplyPostFifo
  refine ⟨fun h => ?_, fun h => ?_, f3.trans w2, f4.trans w3, f5.trans w4, f6.trans w5,
    f7.trans w6, f8.trans w7, w8, ?_, ?_, ?_⟩
  · exact f1.trans (w1.trans (if_pos h))
  · exact f1.trans (w1.trans (if_neg h))
  · exact (w9.trans hmod).trans (f3.trans w2).symm
  · exact w10.trans (f6.trans w5).symm
  · exact w11.trans (f5.trans w4).symm

/-- C6, evaluated: the IOC-Init request `exIOCInitReq` processed in the Ready
state. -/
theorem C6_ioc_init_transition_witness :
    (exIOCInitReq.u8Function = mptDefs.MPT_MESSAGE_HDR_FUNCTION_IOC_INIT
      ∧ exIOCInitReq.IOCInit_u8WhoInit < 256
      ∧ exReady.enmState = LSILOGICSTATE.READY)
    ∧ ((exReady.enmState = LSILOGICSTATE.READY →
          (lsilogicProcessMessageRequest mptDefs exReady exIOCInitReq).1.enmState
            = LSILOGICSTATE.OPERATIONAL)
      ∧ (exReady.enmState ≠ LSILOGICSTATE.READY →
          (lsilogicProcessMessageRequest mptDefs exReady exIOCInitReq).1.enmState
            = exReady.enmState)
      ∧ (lsilogicProcessMessageRequest mptDefs exReady exIOCInitReq).1.enmWhoInit
          = exIOCInitReq.IOCInit_u8WhoInit
      ∧ (lsilogicProcessMessageRequest mptDefs exReady exIOCInitReq).1.cbReplyFrame
          = exIOCInitReq.IOCInit_u16ReplyFrameSize
      ∧ (lsilogicProcessMessageRequest mptDefs exReady exIOCInitReq).1.cMaxBuses
          = exIOCInitReq.IOCInit_u8MaxBuses
      ∧ (lsilogicProcessMessageRequest mptDefs exReady exIOCInitReq).1.cMaxDevices
          = exIOCInitReq.IOCInit_u8MaxDevices
      ∧ (lsilogicProcessMessageRequest mptDefs exReady exIOCInitReq).1.u32HostMFAHighAddr
          = exIOCInitReq.IOCInit_u32HostMfaHighAddr
      ∧ (lsilogicProcessMessageRequest mptDefs exReady exIOCInitReq).1.u32SenseBufferHighAddr
          = exIOCInitReq.IOCInit_u32SenseBufferHighAddr
      ∧ (lsilogicProcessMessageRequest mptDefs exReady exIOCInitReq).2.1.u8MessageLength = 5
      ∧ (lsilogicProcessMessageRequest mptDefs exReady exIOCInitReq).2.1.IOCInit_u8WhoInit
          = (lsilogicProcessMessageRequest mptDefs exReady exIOCInitReq).1.enmWhoInit
      ∧ (lsilogicProcessMessageRequest mptDefs exReady exIOCInitReq).2.1.IOCInit_u8MaxDevices
          = (lsilogicProcessMessageRequest mptDefs exReady exIOCInitReq).1.cMaxDevices
      ∧ (lsilogicProcessMessageRequest mptDefs exReady exIOCInitReq).2.1.IOCInit_u8MaxBuses
          = (lsilogicProcessMessageRequest mptDefs exReady exIOCInitReq).1.cMaxBuses) :=
  ⟨by decide, C6_ioc_init_transition mptDefs exReady exIOCInitReq (by decide) (by decide)⟩

end LsiLogic


namespace LsiLogic

/-! ## The doorbell handshake -/

theorem or_mod_two_pow (a b n : Nat) : (a ||| b) % 2 ^ n = a % 2 ^ n ||| b % 2 ^ n := by
  apply Nat.eq_of_testBit_eq
  intro i
  simp only [Nat.testBit_mod_two_pow, Nat.testBit_lor]
  cases decide (i < n) <;> simp

theorem au16Reply_lt (D : MptDefs) (r : MptReplyUnion) (i : Nat) : au16Reply D r i < 65536 := by
  unfold au16Reply
  omega

/-- The status part of the Doorbell register value has its low 16 bits clear. -/
theorem doorbell_status_low (st : LSILOGICSTATE) (f : Bool) (who w : Nat) (hw : w < 65536) :
    (LSILOGIC_REG_DOORBELL_SET_STATE st ||| LSILOGIC_REG_DOORBELL_SET_USED f
        ||| LSILOGIC_REG_DOORBELL_SET_WHOINIT who ||| w) % 65536 = w := by
  have e : (65536 : Nat) = 2 ^ 16 := by norm_num
  rw [e, or_mod_two_pow, or_mod_two_pow, or_mod_two_pow]
  have h1 : LSILOGIC_REG_DOORBELL_SET_STATE st % 2 ^ 16 = 0 := by
    unfold LSILOGIC_REG_DOORBELL_SET_STATE u32
    rw [Nat.shiftLeft_eq]
    generalize st.toNat &&& 0x0f = x
    omega
  have h2 : LSILOGIC_REG_DOORBELL_SET_USED f % 2 ^ 16 = 0 := by
    cases f <;> decide
  have h3 : LSILOGIC_REG_DOORBELL_SET_WHOINIT who % 2 ^ 16 = 0 := by
    unfold LSILOGIC_REG_DOORBELL_SET_WHOINIT
    rw [Nat.shiftLeft_eq]
    generalize who &&& 0x07 = x
    omega
  rw [h1, h2, h3]
  simp only [Nat.zero_or]
  exact Nat.mod_eq_of_lt (by omega)

/-- One read of the Doorbell register during a handshake. -/
theorem registerRead_doorbell_inProgress (D : MptDefs) (t : LSILOGICSCSI)
    (hf : t.fDoorbellInProgress = true) :
    lsilogicRegisterRead D t LSILOGIC_REG_DOORBELL 4
      = ({ t with uNextReplyEntryRead := u32 (t.uNextReplyEntryRead + 1) },
         some (LSILOGIC_REG_DOORBELL_SET_STATE t.enmState
                ||| LSILOGIC_REG_DOORBELL_SET_USED t.fDoorbellInProgress
                ||| LSILOGIC_REG_DOORBELL_SET_WHOINIT t.enmWhoInit
                ||| au16Reply D t.ReplyBuffer t.uNextReplyEntryRead)) := by
  have h1 : LSILOGIC_REG_DOORBELL &&& not32 3 = LSILOGIC_REG_DOORBELL := by decide
  have h2 : LSILOGIC_REG_DOORBELL ≠ LSILOGIC_REG_REPLY_QUEUE := by decide
  simp [lsilogicRegisterRead, h1, h2, hf, lsilogicRegisterReadClip]

/-- A run of `k` reads of the Doorbell register during a handshake. -/
theorem readDoorbell_run (D : MptDefs) (k : Nat) (t : LSILOGICSCSI)
    (hf : t.fDoorbellInProgress = true) (hk : t.uNextReplyEntryRead + k < 4294967296) :
    (readRegisterTimes D t LSILOGIC_REG_DOORBELL 4 k).1.fDoorbellInProgress = true
      ∧ (readRegisterTimes D t LSILOGIC_REG_DOORBELL 4 k).1.uNextReplyEntryRead
          = t.uNextReplyEntryRead + k
      ∧ (readRegisterTimes D t LSILOGIC_REG_DOORBELL 4 k).1.cReplySize = t.cReplySize
      ∧ (readRegisterTimes D t LSILOGIC_REG_DOORBELL 4 k).1.cMessage = t.cMessage
      ∧ (readRegisterTimes D t LSILOGIC_REG_DOORBELL 4 k).1.iMessage = t.iMessage
      ∧ (readRegisterTimes D t LSILOGIC_REG_DOORBELL 4 k).1.ReplyBuffer = t.ReplyBuffer
      ∧ (readRegisterTimes D t LSILOGIC_REG_DOORBELL 4 k).2
          = (List.range k).map (fun j =>
              some (LSILOGIC_REG_DOORBELL_SET_STATE t.enmState
                ||| LSILOGIC_REG_DOORBELL_SET_USED t.fDoorbellInProgress
                ||| LSILOGIC_REG_DOORBELL_SET_WHOINIT t.enmWhoInit
                ||| au16Reply D t.ReplyBuffer (t.uNextReplyEntryRead + j))) := by
  induction k generalizing t with
  | zero => simp [readRegisterTimes, hf]
  | succ k ih =>
    have hu : u32 (t.uNextReplyEntryRead + 1) = t.uNextReplyEntryRead + 1 :=
      u32_of_lt (by omega)
    simp only [readRegisterTimes, registerRead_doorbell_inProgress D t hf, hu]
    obtain ⟨h1, h2, h3, h4, h5, h6, h7⟩ :=
      ih { t with uNextReplyEntryRead := t.uNextReplyEntryRead + 1 } hf
        (by show t.uNextReplyEntryRead + 1 + k < 4294967296; omega)
    refine ⟨h1, ?_, h3, h4, h5, h6, ?_⟩
    · rw [h2]; show t.uNextReplyEntryRead + 1 + k = _; omega
    · rw [h7, List.range_succ_eq_map]
      simp only [List.map_cons, List.map_map, Nat.add_zero]
      congr 1
      apply List.map_congr_left
      intro j _
      simp only [Function.comp, Nat.succ_eq_add_one]
      show some (_ ||| au16Reply D t.ReplyBuffer (t.uNextReplyEntryRead + 1 + j)) = _
      rw [show t.uNextReplyEntryRead + 1 + j = t.uNextReplyEntryRead + (j + 1) by omega]

theorem processConfigurationRequest_frame (D : MptDefs) (s : LSILOGICSCSI)
    (req : MptRequestUnion) (r : MptReplyUnion) :
    (lsilogicProcessConfigurationRequest D s req r).1.fDoorbellInProgress = s.fDoorbellInProgress
      ∧ (lsilogicProcessConfigurationRequest D s req r).1.uInterruptStatus = s.uInterruptStatus
      ∧ (lsilogicProcessConfigurationRequest D s req r).1.enmState = s.enmState
      ∧ (lsilogicProcessConfigurationRequest D s req r).1.u16IOCFaultCode = s.u16IOCFaultCode
      ∧ (lsilogicProcessConfigurationRequest D s req r).1.cMessage = s.cMessage
      ∧ (lsilogicProcessConfigurationRequest D s req r).1.iMessage = s.iMessage
      ∧ (lsilogicProcessConfigurationRequest D s req r).2.1.u8MessageLength = 6 := by
  unfold lsilogicProcessConfigurationRequest
  dsimp only
  split
  · exact ⟨rfl, rfl, rfl, rfl, rfl, rfl, rfl⟩
  · split_ifs <;> exact ⟨rfl, rfl, rfl, rfl, rfl, rfl, rfl⟩

/-- What the `switch` of `lsilogicProcessMessageRequest` never does: it leaves
the handshake flags and counters, the interrupt status and the fault code
alone, it never leaves the Fault state, it produces a message length below 256,
and it forces the reply FIFO for task management requests only. -/
theorem processMessageSwitch_frame (D : MptDefs) (s : LSILOGICSCSI) (req : MptRequestUnion) :
    (lsilogicProcessMessageSwitch D s req).pLsiLogic.fDoorbellInProgress = s.fDoorbellInProgress
      ∧ (lsilogicProcessMessageSwitch D s req).pLsiLogic.cMessage = s.cMessage
      ∧ (lsilogicProcessMessageSwitch D s req).pLsiLogic.iMessage = s.iMessage
      ∧ (lsilogicProcessMessageSwitch D s req).pLsiLogic.uInterruptStatus = s.uInterruptStatus
      ∧ (lsilogicProcessMessageSwitch D s req).pLsiLogic.u16IOCFaultCode = s.u16IOCFaultCode
      ∧ (s.enmState = LSILOGICSTATE.FAULT →
          (lsilogicProcessMessageSwitch D s req).pLsiLogic.enmState = LSILOGICSTATE.FAULT)
      ∧ (lsilogicProcessMessageSwitch D s req).pReply.u8MessageLength < 256
      ∧ (req.u8Function ≠ D.MPT_MESSAGE_HDR_FUNCTION_SCSI_TASK_MGMT →
          (lsilogicProcessMessageSwitch D s req).fForceReplyPostFifo = false) := by
  obtain ⟨c1, c2, c3, c4, c5, c6, c7⟩ :=
    processConfigurationRequest_frame D s req MptReplyUnion.zero
  unfold lsilogicProcessMessageSwitch
  dsimp only
  split_ifs with h1 h2 h3 h4 h5 h6 h7 h8 h9 h10
  all_goals first
    | exact ⟨c1, c5, c6, c2, c4, fun h => c3.trans h, by rw [c7]; omega, fun _ => rfl⟩
    | (refine ⟨rfl, rfl, rfl, rfl, rfl, ?_, ?_, ?_⟩
       · first
          | exact fun h => h
          | (intro h; simp_all)
       · dsimp only [MptReplyUnion.zero]; omega
       · first
          | exact fun _ => rfl
          | exact fun h => absurd h1 h)

/-- What the doorbell path of `lsilogicFinishAddressReply` leaves behind. -/
theorem finishAddressReply_doorbell (D : MptDefs) (s : LSILOGICSCSI) (r : MptReplyUnion)
    (hf : s.fDoorbellInProgress = true) :
    (lsilogicFinishAddressReply D s r false).cReplySize = (r.u8MessageLength % 256) * 2
      ∧ (lsilogicFinishAddressReply D s r false).uNextReplyEntryRead = 0
      ∧ (lsilogicFinishAddressReply D s r false).uInterruptStatus
          = s.uInterruptStatus ||| LSILOGIC_REG_HOST_INTR_STATUS_SYSTEM_DOORBELL
      ∧ (lsilogicFinishAddressReply D s r false).fDoorbellInProgress = true
      ∧ (lsilogicFinishAddressReply D s r false).cMessage = s.cMessage
      ∧ (lsilogicFinishAddressReply D s r false).iMessage = s.iMessage := by
  simp only [lsilogicFinishAddressReply, hf, Bool.not_false, Bool.and_self, if_true]
  exact ⟨rfl, rfl, rfl, rfl, rfl, rfl⟩

/-- A message that is not a task management request, processed during a
handshake, stages its reply for the Doorbell register. -/
theorem processMessageRequest_doorbell (D : MptDefs) (s : LSILOGICSCSI) (req : MptRequestUnion)
    (hf : s.fDoorbellInProgress = true)
    (hfn : req.u8Function ≠ D.MPT_MESSAGE_HDR_FUNCTION_SCSI_TASK_MGMT) :
    (lsilogicProcessMessageRequest D s req).1.cReplySize
        = 2 * (lsilogicProcessMessageRequest D s req).2.1.u8MessageLength
      ∧ (lsilogicProcessMessageRequest D s req).1.uNextReplyEntryRead = 0
      ∧ (lsilogicProcessMessageRequest D s req).1.uInterruptStatus.testBit 0 = true
      ∧ (lsilogicProcessMessageRequest D s req).1.fDoorbellInProgress = true
      ∧ (lsilogicProcessMessageRequest D s req).1.cMessage = s.cMessage
      ∧ (lsilogicProcessMessageRequest D s req).1.iMessage = s.iMessage := by
  obtain ⟨w1, w2, w3, -, -, -, w7, w8⟩ := processMessageSwitch_frame D s req
  have hforce := w8 hfn
  unfold lsilogicProcessMessageRequest
  dsimp only
  rw [hforce]
  obtain ⟨h1, h2, h3, h4, h5, h6⟩ := finishAddressReply_doorbell D
    (lsilogicProcessMessageSwitch D s req).pLsiLogic
    { (lsilogicProcessMessageSwitch D s req).pReply with
      u8Function := req.u8Function
      u32MessageContext := req.u32MessageContext } (w1.trans hf)
  refine ⟨?_, h2, ?_, h4, h5.trans w2, h6.trans w3⟩
  · rw [h1]
    show (lsilogicProcessMessageSwitch D s req).pReply.u8MessageLength % 256 * 2
      = 2 * (lsilogicProcessMessageSwitch D s req).pReply.u8MessageLength
    rw [Nat.mod_eq_of_lt w7]; omega
  · rw [h3, Nat.testBit_lor]
    have : LSILOGIC_REG_HOST_INTR_STATUS_SYSTEM_DOORBELL.testBit 0 = true := by decide
    rw [this, Bool.or_true]

end LsiLogic


namespace LsiLogic

/-! ## The request ring -/

/-- A write to the Request-Queue register leaves the state and the read cursor
alone, stores the value at the write cursor and advances the write cursor. -/
theorem registerWrite_requestQueue (D : MptDefs) (s : LSILOGICSCSI) (v : Nat) :
    (lsilogicRegisterWrite D s LSILOGIC_REG_REQUEST_QUEUE v).enmState = s.enmState
      ∧ (lsilogicRegisterWrite D s LSILOGIC_REG_REQUEST_QUEUE v).uRequestQueueNextAddressRead
          = s.uRequestQueueNextAddressRead
      ∧ (lsilogicRegisterWrite D s LSILOGIC_REG_REQUEST_QUEUE v).pRequestQueueBase
          = writeSlot s.pRequestQueueBase s.uRequestQueueNextEntryFreeWrite (u32 v)
      ∧ (lsilogicRegisterWrite D s LSILOGIC_REG_REQUEST_QUEUE v).uRequestQueueNextEntryFreeWrite
          = u32 (s.uRequestQueueNextEntryFreeWrite + 1) % s.cRequestQueueEntries := by
  have h1 : LSILOGIC_REG_REQUEST_QUEUE ≠ LSILOGIC_REG_REPLY_QUEUE := by decide
  unfold lsilogicRegisterWrite
  dsimp only
  rw [if_neg h1, if_pos rfl]
  split <;> exact ⟨rfl, rfl, rfl, rfl⟩

/-- Outside the Operational state the request queue consumer processes
nothing: it only resets the notification flag. -/
theorem notifyQueueConsumer_not_operational (D : MptDefs) (alloc : Nat → Bool) (fuel : Nat)
    (s : LSILOGICSCSI) (hstate : s.enmState ≠ LSILOGICSTATE.OPERATIONAL) :
    lsilogicNotifyQueueConsumer D alloc (fuel + 1) s
      = some { s with fNotificationSend := false } := by
  unfold lsilogicNotifyQueueConsumer
  dsimp only
  rw [lsilogicNotifyQueueConsumerLoop, if_neg]
  exact fun h => hstate h.1

/-- C7, where the claim fails: the device after hard reset (Ready), the address
0x1000 of a frame holding an IOC-Init message written to the Request-Queue
register, then the request queue consumer.  The controller is still in the
Ready state and the read cursor of the request ring is still 0, behind the
write cursor 1. -/
theorem C7_request_ring_ioc_init_counterexample :
    (exDecodeRequest (fun i => exReadyFrame.mem (0x1000 + i))).u8Function
        = mptDefs.MPT_MESSAGE_HDR_FUNCTION_IOC_INIT
      ∧ exReadyFrame.enmState = LSILOGICSTATE.READY
      ∧ (lsilogicNotifyQueueConsumer mptDefs (fun _ => true) 8
            (lsilogicRegisterWrite mptDefs exReadyFrame LSILOGIC_REG_REQUEST_QUEUE 0x1000)).map
          (fun s => (s.enmState, s.pRequestQueueBase 0, s.uRequestQueueNextAddressRead,
            s.uRequestQueueNextEntryFreeWrite))
          = some (LSILOGICSTATE.READY, 0x1000, 0, 1) := by
  decide

/-- C7 (amended): IOC-Init through the request ring.  From the Ready state,
when the guest writes the address of a frame to the Request-Queue register and
the request queue consumer (`lsilogicNotifyQueueConsumer`) then runs, the
consumer returns without processing the entry, because its loop runs in the
Operational state only: the controller is still in the Ready state, the entry
is stored at the write cursor, the write cursor has advanced and the read
cursor of the request ring has not. -/
theorem C7_request_ring_ioc_init (D : MptDefs) (alloc : Nat → Bool) (s : LSILOGICSCSI)
    (v fuel : Nat) (hready : s.enmState = LSILOGICSTATE.READY) (hfuel : 0 < fuel) :
    ∃ s', lsilogicNotifyQueueConsumer D alloc fuel
          (lsilogicRegisterWrite D s LSILOGIC_REG_REQUEST_QUEUE v) = some s'
      ∧ s'.enmState = LSILOGICSTATE.READY
      ∧ s'.uRequestQueueNextAddressRead = s.uRequestQueueNextAddressRead
      ∧ s'.pRequestQueueBase s.uRequestQueueNextEntryFreeWrite = u32 v
      ∧ s'.uRequestQueueNextEntryFreeWrite
          = u32 (s.uRequestQueueNextEntryFreeWrite + 1) % s.cRequestQueueEntries := by
  obtain ⟨g, rfl⟩ : ∃ g, fuel = g + 1 := ⟨fuel - 1, by omega⟩
  obtain ⟨h1, h2, h3, h4⟩ := registerWrite_requestQueue D s v
  have hne : (lsilogicRegisterWrite D s LSILOGIC_REG_REQUEST_QUEUE v).enmState
      ≠ LSILOGICSTATE.OPERATIONAL := by
    rw [h1, hready]; decide
  refine ⟨_, notifyQueueConsumer_not_operational D alloc g _ hne, ?_, h2, ?_, h4⟩
  · exact h1.trans hready
  · show (lsilogicRegisterWrite D s LSILOGIC_REG_REQUEST_QUEUE v).pRequestQueueBase _ = u32 v
    rw [h3]
    simp [writeSlot]

/-- C7, evaluated: the device after hard reset with an IOC-Init frame at
0x1000. -/
theorem C7_request_ring_ioc_init_witness :
    (exReadyFrame.enmState = LSILOGICSTATE.READY ∧ 0 < 8)
      ∧ ∃ s', lsilogicNotifyQueueConsumer mptDefs (fun _ => true) 8
            (lsilogicRegisterWrite mptDefs exReadyFrame LSILOGIC_REG_REQUEST_QUEUE 0x1000)
            = some s'
        ∧ s'.enmState = LSILOGICSTATE.READY
        ∧ s'.uRequestQueueNextAddressRead = exReadyFrame.uRequestQueueNextAddressRead
        ∧ s'.pRequestQueueBase exReadyFrame.uRequestQueueNextEntryFreeWrite = u32 0x1000
        ∧ s'.uRequestQueueNextEntryFreeWrite
            = u32 (exReadyFrame.uRequestQueueNextEntryFreeWrite + 1)
                % exReadyFrame.cRequestQueueEntries :=
  ⟨by decide,
   C7_request_ring_ioc_init mptDefs (fun _ => true) exReadyFrame 0x1000 8 (by decide)
     (by decide)⟩

end LsiLogic


namespace LsiLogic

/-! ## The Fault state -/

/-- In the Fault state `lsilogicSetIOCFaultCode` changes nothing. -/
theorem setIOCFaultCode_of_fault (s : LSILOGICSCSI) (c : Nat)
    (hfault : s.enmState = LSILOGICSTATE.FAULT) : lsilogicSetIOCFaultCode s c = s := by
  unfold lsilogicSetIOCFaultCode
  rw [if_neg (fun h => h hfault)]

theorem updateInterrupt_state (s : LSILOGICSCSI) :
    (lsilogicUpdateInterrupt s).enmState = s.enmState
      ∧ (lsilogicUpdateInterrupt s).u16IOCFaultCode = s.u16IOCFaultCode :=
  ⟨rfl, rfl⟩

/-- Processing a message neither leaves the Fault state nor changes the fault
code. -/
theorem processMessageRequest_fault (D : MptDefs) (s : LSILOGICSCSI) (req : MptRequestUnion)
    (hfault : s.enmState = LSILOGICSTATE.FAULT) :
    (lsilogicProcessMessageRequest D s req).1.enmState = LSILOGICSTATE.FAULT
      ∧ (lsilogicProcessMessageRequest D s req).1.u16IOCFaultCode = s.u16IOCFaultCode := by
  obtain ⟨-, -, -, -, w5, w6, -, -⟩ := processMessageSwitch_frame D s req
  unfold lsilogicProcessMessageRequest
  dsimp only
  obtain ⟨f1, f2, -⟩ := finishAddressReply_frame D
    (lsilogicProcessMessageSwitch D s req).pLsiLogic
    { (lsilogicProcessMessageSwitch D s req).pReply with
      u8Function := req.u8Function
      u32MessageContext := req.u32MessageContext }
    (lsilogicProcessMessageSwitch D s req).fForceReplyPostFifo
  exact ⟨f1.trans (w6 hfault), f2.trans w5⟩

/-- A register read changes neither the state nor the fault code. -/
theorem registerRead_state (D : MptDefs) (s : LSILOGICSCSI) (uOffset cb : Nat) :
    (lsilogicRegisterRead D s uOffset cb).1.enmState = s.enmState
      ∧ (lsilogicRegisterRead D s uOffset cb).1.u16IOCFaultCode = s.u16IOCFaultCode := by
  unfold lsilogicRegisterRead
  dsimp only
  split_ifs <;> exact ⟨rfl, rfl⟩

/-- A register write that is no explicit reset neither leaves the Fault state
nor changes the fault code. -/
theorem registerWrite_fault (D : MptDefs) (s : LSILOGICSCSI) (uOffset v : Nat)
    (hfault : s.enmState = LSILOGICSTATE.FAULT)
    (hnr : ¬ isExplicitReset s (ControllerOp.registerWrite uOffset v)) :
    (lsilogicRegisterWrite D s uOffset v).enmState = LSILOGICSTATE.FAULT
      ∧ (lsilogicRegisterWrite D s uOffset v).u16IOCFaultCode = s.u16IOCFaultCode := by
  have hnr' : ¬ ((uOffset = LSILOGIC_REG_HOST_DIAGNOSTIC
        ∧ (u32 v &&& LSILOGIC_REG_HOST_DIAGNOSTIC_RESET_ADAPTER) ≠ 0)
      ∨ (uOffset = LSILOGIC_REG_DOORBELL ∧ s.fDoorbellInProgress = false
        ∧ LSILOGIC_REG_DOORBELL_GET_FUNCTION (u32 v)
            = LSILOGIC_DOORBELL_FUNCTION_IOC_MSG_UNIT_RESET)) := hnr
  by_cases hd : uOffset = LSILOGIC_REG_DOORBELL
  · subst hd
    have h1 : LSILOGIC_REG_DOORBELL ≠ LSILOGIC_REG_REPLY_QUEUE := by decide
    have h2 : LSILOGIC_REG_DOORBELL ≠ LSILOGIC_REG_REQUEST_QUEUE := by decide
    cases hf : s.fDoorbellInProgress
    · have hfn : LSILOGIC_REG_DOORBELL_GET_FUNCTION (u32 v)
          ≠ LSILOGIC_DOORBELL_FUNCTION_IOC_MSG_UNIT_RESET :=
        fun h => hnr' (Or.inr ⟨rfl, hf, h⟩)
      simp only [lsilogicRegisterWrite, h1, h2, if_false, if_true, hf, Bool.not_false, hfn]
      split_ifs <;> exact ⟨hfault, rfl⟩
    · simp only [lsilogicRegisterWrite, h1, h2, if_false, if_true, hf, Bool.not_true,
        Bool.false_eq_true]
      split_ifs
      · exact processMessageRequest_fault D _ _ hfault
      · exact ⟨hfault, rfl⟩
  · by_cases hh : uOffset = LSILOGIC_REG_HOST_DIAGNOSTIC
    · subst hh
      have hbit : ¬ (u32 v &&& LSILOGIC_REG_HOST_DIAGNOSTIC_RESET_ADAPTER) ≠ 0 :=
        fun h => hnr' (Or.inl ⟨rfl, h⟩)
      have h1 : LSILOGIC_REG_HOST_DIAGNOSTIC ≠ LSILOGIC_REG_REPLY_QUEUE := by decide
      have h2 : LSILOGIC_REG_HOST_DIAGNOSTIC ≠ LSILOGIC_REG_REQUEST_QUEUE := by decide
      have h3 : LSILOGIC_REG_HOST_DIAGNOSTIC ≠ LSILOGIC_REG_DOORBELL := by decide
      have h4 : LSILOGIC_REG_HOST_DIAGNOSTIC ≠ LSILOGIC_REG_HOST_INTR_STATUS := by decide
      have h5 : LSILOGIC_REG_HOST_DIAGNOSTIC ≠ LSILOGIC_REG_HOST_INTR_MASK := by decide
      have h6 : LSILOGIC_REG_HOST_DIAGNOSTIC ≠ LSILOGIC_REG_WRITE_SEQUENCE := by decide
      simp only [lsilogicRegisterWrite, h1, h2, h3, h4, h5, h6, if_false, if_true, hbit]
      exact ⟨hfault, by trivial⟩
    · unfold lsilogicRegisterWrite
      dsimp only
      split_ifs <;> exact ⟨hfault, rfl⟩

/-- Processing a SCSI I/O request changes neither the state nor the fault code. -/
theorem processSCSIIORequest_state (D : MptDefs) (alloc : Nat → Bool) (fuel : Nat)
    (s : LSILOGICSCSI) (ts : LSILOGICTASKSTATE) :
    ∀ r, lsilogicProcessSCSIIORequest D alloc fuel s ts = some r →
      r.1.enmState = s.enmState ∧ r.1.u16IOCFaultCode = s.u16IOCFaultCode := by
  unfold lsilogicProcessSCSIIORequest
  dsimp only
  split
  · intro r h
    cases h
  · split_ifs
    all_goals
      intro r h
      rw [← Option.some.inj h]
      first
        | exact ⟨rfl, rfl⟩
        | exact ⟨(finishAddressReply_frame D s _ false).1,
            (finishAddressReply_frame D s _ false).2.1⟩

/-- The completion of a SCSI request changes neither the state nor the fault
code. -/
theorem deviceSCSIRequestCompleted_state (D : MptDefs) (s : LSILOGICSCSI)
    (ts : LSILOGICTASKSTATE) (rc : Nat) :
    (lsilogicDeviceSCSIRequestCompleted D s ts rc).enmState = s.enmState
      ∧ (lsilogicDeviceSCSIRequestCompleted D s ts rc).u16IOCFaultCode = s.u16IOCFaultCode := by
  have hd : ∀ (t : LSILOGICSCSI) (u : LSILOGICTASKSTATE),
      (lsilogicScatterGatherListDestroy D t u).1.enmState = t.enmState
        ∧ (lsilogicScatterGatherListDestroy D t u).1.u16IOCFaultCode = t.u16IOCFaultCode := by
    intro t u
    unfold lsilogicScatterGatherListDestroy
    dsimp only
    split <;> exact ⟨rfl, rfl⟩
  unfold lsilogicDeviceSCSIRequestCompleted
  dsimp only
  cases ts.pTargetDevice with
  | none =>
    dsimp only
    split_ifs
    all_goals first
      | exact ⟨rfl, rfl⟩
      | exact ⟨(hd _ _).1, (hd _ _).2⟩
      | exact ⟨(finishAddressReply_frame D _ _ true).1.trans (hd _ _).1,
          (finishAddressReply_frame D _ _ true).2.1.trans (hd _ _).2⟩
  | some iDev =>
    dsimp only
    split_ifs
    all_goals first
      | exact ⟨rfl, rfl⟩
      | exact ⟨(hd _ _).1, (hd _ _).2⟩
      | exact ⟨(finishAddressReply_frame D _ _ true).1.trans (hd _ _).1,
          (finishAddressReply_frame D _ _ true).2.1.trans (hd _ _).2⟩

end LsiLogic


namespace LsiLogic

end LsiLogic


namespace LsiLogic

/-- The Doorbell write that completes a handshake message. -/
theorem registerWrite_doorbell_complete (D : MptDefs) (s : LSILOGICSCSI) (v : Nat)
    (hf : s.fDoorbellInProgress = true)
    (hlast : u32 (s.iMessage + 1) = s.cMessage) :
    lsilogicRegisterWrite D s LSILOGIC_REG_DOORBELL v
      = { (lsilogicProcessMessageRequest D
            { s with
              aMessage := writeSlot s.aMessage s.iMessage (u32 v)
              iMessage := u32 (s.iMessage + 1) }
            (D.decodeRequest (aMessageBytes (writeSlot s.aMessage s.iMessage (u32 v))))).1 with
          ReplyBuffer := (lsilogicProcessMessageRequest D
            { s with
              aMessage := writeSlot s.aMessage s.iMessage (u32 v)
              iMessage := u32 (s.iMessage + 1) }
            (D.decodeRequest (aMessageBytes (writeSlot s.aMessage s.iMessage (u32 v))))).2.1 } := by
  have h1 : LSILOGIC_REG_DOORBELL ≠ LSILOGIC_REG_REPLY_QUEUE := by decide
  have h2 : LSILOGIC_REG_DOORBELL ≠ LSILOGIC_REG_REQUEST_QUEUE := by decide
  simp only [lsilogicRegisterWrite, h1, h2, if_false, if_true, hf, Bool.not_true, hlast]
  rfl

/-- What the Doorbell write that completes a handshake message leaves behind,
when the reply is not forced to the reply FIFO. -/
theorem registerWrite_doorbell_staged (D : MptDefs) (s : LSILOGICSCSI) (v : Nat)
    (hf : s.fDoorbellInProgress = true)
    (hlast : u32 (s.iMessage + 1) = s.cMessage)
    (hfn : (D.decodeRequest (aMessageBytes (writeSlot s.aMessage s.iMessage (u32 v)))).u8Function
      ≠ D.MPT_MESSAGE_HDR_FUNCTION_SCSI_TASK_MGMT) :
    (lsilogicRegisterWrite D s LSILOGIC_REG_DOORBELL v).cReplySize
        = 2 * (lsilogicRegisterWrite D s LSILOGIC_REG_DOORBELL v).ReplyBuffer.u8MessageLength
      ∧ (lsilogicRegisterWrite D s LSILOGIC_REG_DOORBELL v).uNextReplyEntryRead = 0
      ∧ (lsilogicRegisterWrite D s LSILOGIC_REG_DOORBELL v).uInterruptStatus.testBit 0 = true
      ∧ (lsilogicRegisterWrite D s LSILOGIC_REG_DOORBELL v).fDoorbellInProgress = true
      ∧ (lsilogicRegisterWrite D s LSILOGIC_REG_DOORBELL v).ReplyBuffer.u8MessageLength < 256 := by
  rw [registerWrite_doorbell_complete D s v hf hlast]
  obtain ⟨h1, h2, h3, h4, -, -⟩ := processMessageRequest_doorbell D
    { s with
      aMessage := writeSlot s.aMessage s.iMessage (u32 v)
      iMessage := u32 (s.iMessage + 1) }
    (D.decodeRequest (aMessageBytes (writeSlot s.aMessage s.iMessage (u32 v)))) hf hfn
  obtain ⟨-, -, -, -, -, -, w7, -⟩ := processMessageSwitch_frame D
    { s with
      aMessage := writeSlot s.aMessage s.iMessage (u32 v)
      iMessage := u32 (s.iMessage + 1) }
    (D.decodeRequest (aMessageBytes (writeSlot s.aMessage s.iMessage (u32 v))))
  exact ⟨h1, h2, h3, h4, w7⟩

/-- The words a run of Doorbell reads returns from a staged reply. -/
theorem readDoorbell_words (D : MptDefs) (t : LSILOGICSCSI)
    (hf : t.fDoorbellInProgress = true) (hn : t.uNextReplyEntryRead = 0)
    (hsz : t.cReplySize < 4294967296) (k : Nat) (hk : k < t.cReplySize) :
    ∃ x, (readRegisterTimes D t LSILOGIC_REG_DOORBELL 4 t.cReplySize).2[k]? = some (some x)
      ∧ x % 65536 = au16Reply D t.ReplyBuffer k := by
  obtain ⟨-, -, -, -, -, -, r7⟩ := readDoorbell_run D t.cReplySize t hf (by omega)
  refine ⟨LSILOGIC_REG_DOORBELL_SET_STATE t.enmState
      ||| LSILOGIC_REG_DOORBELL_SET_USED t.fDoorbellInProgress
      ||| LSILOGIC_REG_DOORBELL_SET_WHOINIT t.enmWhoInit
      ||| au16Reply D t.ReplyBuffer k, ?_, doorbell_status_low _ _ _ _ (au16Reply_lt D _ _)⟩
  rw [r7, List.getElem?_map, List.getElem?_range hk, hn]
  simp only [Option.map_some', Nat.zero_add]

/-- C8 (doorbell reply size): when a Doorbell write completes a handshake
message whose reply is not forced to the reply FIFO (the message is no task
management request), then afterwards `cReplySize` is twice the
`u8MessageLength` of the reply in `ReplyBuffer`, `uNextReplyEntryRead` is 0, the
system-doorbell status bit (bit 0) is set, and for every `k < cReplySize` the
`(k+1)`-th subsequent 4-byte Doorbell read returns the `k`-th 16-bit word of the
reply in its low 16 bits. -/
theorem C8_doorbell_reply_size (D : MptDefs) (s : LSILOGICSCSI) (v : Nat)
    (hf : s.fDoorbellInProgress = true)
    (hlast : u32 (s.iMessage + 1) = s.cMessage)
    (hfn : (D.decodeRequest (aMessageBytes (writeSlot s.aMessage s.iMessage (u32 v)))).u8Function
      ≠ D.MPT_MESSAGE_HDR_FUNCTION_SCSI_TASK_MGMT) :
    (lsilogicRegisterWrite D s LSILOGIC_REG_DOORBELL v).cReplySize
        = 2 * (lsilogicRegisterWrite D s LSILOGIC_REG_DOORBELL v).ReplyBuffer.u8MessageLength
      ∧ (lsilogicRegisterWrite D s LSILOGIC_REG_DOORBELL v).uNextReplyEntryRead = 0
      ∧ (lsilogicRegisterWrite D s LSILOGIC_REG_DOORBELL v).uInterruptStatus.testBit 0 = true
      ∧ ∀ k, k < (lsilogicRegisterWrite D s LSILOGIC_REG_DOORBELL v).cReplySize →
          ∃ x, (readRegisterTimes D (lsilogicRegisterWrite D s LSILOGIC_REG_DOORBELL v)
                  LSILOGIC_REG_DOORBELL 4
                  (lsilogicRegisterWrite D s LSILOGIC_REG_DOORBELL v).cReplySize).2[k]?
                = some (some x)
            ∧ x % 65536
                = au16Reply D (lsilogicRegisterWrite D s LSILOGIC_REG_DOORBELL v).ReplyBuffer k := by
  obtain ⟨h1, h2, h3, h4, h5⟩ := registerWrite_doorbell_staged D s v hf hlast hfn
  refine ⟨h1, h2, h3, ?_⟩
  intro k hk
  exact readDoorbell_words D _ h4 h2 (by rw [h1]; omega) k hk

/-- C8, evaluated: the last dword of a handshake that carries an IOC-Init
message. -/
theorem C8_doorbell_reply_size_witness :
    (exHandshake.fDoorbellInProgress = true
      ∧ u32 (exHandshake.iMessage + 1) = exHandshake.cMessage
      ∧ (mptDefs.decodeRequest
            (aMessageBytes (writeSlot exHandshake.aMessage exHandshake.iMessage (u32 0)))).u8Function
          ≠ mptDefs.MPT_MESSAGE_HDR_FUNCTION_SCSI_TASK_MGMT)
    ∧ (lsilogicRegisterWrite mptDefs exHandshake LSILOGIC_REG_DOORBELL 0).cReplySize
        = 2 * (lsilogicRegisterWrite mptDefs exHandshake LSILOGIC_REG_DOORBELL 0
                ).ReplyBuffer.u8MessageLength
    ∧ (lsilogicRegisterWrite mptDefs exHandshake LSILOGIC_REG_DOORBELL 0).cReplySize = 10 :=
  ⟨by decide,
   (C8_doorbell_reply_size mptDefs exHandshake 0 (by decide) (by decide) (by decide)).1,
   by decide⟩

/-- C9, refuted as stated: with the IOC-Init reply of 10 words staged, the
handshake flag is still set after exactly 10 Doorbell reads. -/
theorem C9_handshake_completion_counterexample :
    exStaged.fDoorbellInProgress = true
      ∧ exStaged.cReplySize = 10
      ∧ exStaged.uNextReplyEntryRead = 0
      ∧ ¬ ((readRegisterTimes mptDefs exStaged LSILOGIC_REG_DOORBELL 4 exStaged.cReplySize
            ).1.fDoorbellInProgress = false) := by
  decide

/-- C9 as amended: once a handshake reply of `cReplySize` 16-bit words has been
staged, reading exactly `cReplySize` words through the Doorbell register leaves
`fDoorbellInProgress` set, with `uNextReplyEntryRead = cReplySize`; the next
write to the Host-Interrupt-Status register then clears `fDoorbellInProgress`. -/
theorem C9_handshake_completion (D : MptDefs) (t : LSILOGICSCSI) (v : Nat)
    (hf : t.fDoorbellInProgress = true)
    (hn : t.uNextReplyEntryRead = 0)
    (hm : t.cMessage = t.iMessage)
    (hsz : t.cReplySize < 4294967296) :
    (readRegisterTimes D t LSILOGIC_REG_DOORBELL 4 t.cReplySize).1.fDoorbellInProgress = true
      ∧ (readRegisterTimes D t LSILOGIC_REG_DOORBELL 4 t.cReplySize).1.uNextReplyEntryRead
          = t.cReplySize
      ∧ (lsilogicRegisterWrite D
          (readRegisterTimes D t LSILOGIC_REG_DOORBELL 4 t.cReplySize).1
          LSILOGIC_REG_HOST_INTR_STATUS v).fDoorbellInProgress = false := by
  obtain ⟨h1, h2, h3, h4, h5, -, -⟩ := readDoorbell_run D t.cReplySize t hf (by omega)
  rw [hn, Nat.zero_add] at h2
  refine ⟨h1, h2, ?_⟩
  have e1 : LSILOGIC_REG_HOST_INTR_STATUS ≠ LSILOGIC_REG_REPLY_QUEUE := by decide
  have e2 : LSILOGIC_REG_HOST_INTR_STATUS ≠ LSILOGIC_REG_REQUEST_QUEUE := by decide
  have e3 : LSILOGIC_REG_HOST_INTR_STATUS ≠ LSILOGIC_REG_DOORBELL := by decide
  simp only [lsilogicRegisterWrite, e1, e2, e3, if_false, if_true, lsilogicUpdateInterrupt,
    h1, h2, h3, h4, h5, hm, decide_True, Bool.and_self]

/-- C9 as amended, evaluated on the staged IOC-Init reply. -/
theorem C9_handshake_completion_witness :
    (exStaged.fDoorbellInProgress = true
      ∧ exStaged.uNextReplyEntryRead = 0
      ∧ exStaged.cMessage = exStaged.iMessage
      ∧ exStaged.cReplySize < 4294967296)
    ∧ (readRegisterTimes mptDefs exStaged LSILOGIC_REG_DOORBELL 4 exStaged.cReplySize
        ).1.fDoorbellInProgress = true
    ∧ (lsilogicRegisterWrite mptDefs
        (readRegisterTimes mptDefs exStaged LSILOGIC_REG_DOORBELL 4 exStaged.cReplySize).1
        LSILOGIC_REG_HOST_INTR_STATUS 0).fDoorbellInProgress = false :=
  have h := C9_handshake_completion mptDefs exStaged 0 (by decide) (by decide) (by decide)
    (by decide)
  ⟨by decide, h.1, h.2.2⟩

end LsiLogic


namespace LsiLogic

/-! ## The scatter/gather walk -/

theorem sameAcc_refl (w : SGWalk) : w.sameAcc w := ⟨rfl, rfl, rfl, rfl, rfl⟩

theorem sameAcc_trans {a b c : SGWalk} (h1 : a.sameAcc b) (h2 : b.sameAcc c) : a.sameAcc c :=
  ⟨h1.1.trans h2.1, h1.2.1.trans h2.2.1, h1.2.2.1.trans h2.2.2.1, h1.2.2.2.1.trans h2.2.2.2.1,
    h1.2.2.2.2.trans h2.2.2.2.2⟩

theorem processEntry_sameAcc (mem : GuestMem) (m : Bool) (w1 w2 : SGWalk) (e : MptSGEntryUnion)
    (h : w1.sameAcc w2) :
    (lsilogicSGProcessEntry mem m w1 e).sameAcc (lsilogicSGProcessEntry mem m w2 e) := by
  obtain ⟨h1, h2, h3, h4, h5⟩ := h
  cases m
  · simp only [lsilogicSGProcessEntry, SGWalk.sameAcc, h1, h2, h3, h4, h5]
    simp
  · cases hd : e.fBufferContainsData <;>
      simp only [lsilogicSGProcessEntry, SGWalk.sameAcc, h1, h2, h3, h4, h5, hd] <;> simp

theorem foldl_processEntry_sameAcc (mem : GuestMem) (m : Bool) (es : List MptSGEntryUnion)
    (w1 w2 : SGWalk) (h : w1.sameAcc w2) :
    (es.foldl (lsilogicSGProcessEntry mem m) w1).sameAcc
      (es.foldl (lsilogicSGProcessEntry mem m) w2) := by
  induction es generalizing w1 w2 with
  | nil => exact h
  | cons e es ih => exact ih _ _ (processEntry_sameAcc mem m w1 w2 e h)

/-- Processing an element leaves the walk position and the end-of-list flag alone. -/
theorem processEntry_pos (mem : GuestMem) (m : Bool) (w : SGWalk) (e : MptSGEntryUnion) :
    (lsilogicSGProcessEntry mem m w e).GCPhysSGEntryNext = w.GCPhysSGEntryNext
      ∧ (lsilogicSGProcessEntry mem m w e).GCPhysSegmentStart = w.GCPhysSegmentStart
      ∧ (lsilogicSGProcessEntry mem m w e).uChainOffsetNext = w.uChainOffsetNext
      ∧ (lsilogicSGProcessEntry mem m w e).fEndOfList = w.fEndOfList := by
  cases m <;> simp [lsilogicSGProcessEntry]

theorem nextChain_sameAcc (D : MptDefs) (mem : GuestMem) (w : SGWalk) :
    (lsilogicSGNextChain D mem w).sameAcc w
      ∧ (lsilogicSGNextChain D mem w).fEndOfList = w.fEndOfList := by
  unfold lsilogicSGNextChain
  split
  · exact ⟨⟨rfl, rfl, rfl, rfl, rfl⟩, rfl⟩
  · exact ⟨⟨rfl, rfl, rfl, rfl, rfl⟩, rfl⟩

theorem sgListLoop_succ (D : MptDefs) (mem : GuestMem) (m : Bool) (f : Nat) (w : SGWalk) :
    lsilogicSGListLoop D mem m (f + 1) w
      = if w.fEndOfList then SGLoop.done w else sgContinue D mem m f f w := by
  simp only [lsilogicSGListLoop, sgContinue]

/-- One step of the inner loop on an element that is no zero element. -/
theorem sgSegmentLoop_succ (D : MptDefs) (mem : GuestMem) (m : Bool) (f : Nat) (w : SGWalk)
    (hz : ¬ isZeroElement (sgEntryAt D mem w.GCPhysSGEntryNext)) :
    lsilogicSGSegmentLoop D mem m (f + 1) w
      = (if (sgEntryAt D mem w.GCPhysSGEntryNext).fEndOfList then
          SGLoop.done
            { lsilogicSGProcessEntry mem m
                { w with
                  GCPhysSGEntryNext := w.GCPhysSGEntryNext
                    + sgEntrySize D (sgEntryAt D mem w.GCPhysSGEntryNext) }
                (sgEntryAt D mem w.GCPhysSGEntryNext) with fEndOfList := true }
        else if (sgEntryAt D mem w.GCPhysSGEntryNext).fLastElement then
          SGLoop.done
            (lsilogicSGProcessEntry mem m
              { w with
                GCPhysSGEntryNext := w.GCPhysSGEntryNext
                  + sgEntrySize D (sgEntryAt D mem w.GCPhysSGEntryNext) }
              (sgEntryAt D mem w.GCPhysSGEntryNext))
        else
          lsilogicSGSegmentLoop D mem m f
            (lsilogicSGProcessEntry mem m
              { w with
                GCPhysSGEntryNext := w.GCPhysSGEntryNext
                  + sgEntrySize D (sgEntryAt D mem w.GCPhysSGEntryNext) }
              (sgEntryAt D mem w.GCPhysSGEntryNext))) := by
  have hz' : ¬ ((D.decodeSGEntry (physRead mem w.GCPhysSGEntryNext D.sizeof_MptSGEntryUnion)
        ).u24Length = 0
      ∧ (D.decodeSGEntry (physRead mem w.GCPhysSGEntryNext D.sizeof_MptSGEntryUnion)
        ).fEndOfList = true
      ∧ (D.decodeSGEntry (physRead mem w.GCPhysSGEntryNext D.sizeof_MptSGEntryUnion)
        ).fEndOfBuffer = true) := hz
  have hsize : (if (D.decodeSGEntry (physRead mem w.GCPhysSGEntryNext
          D.sizeof_MptSGEntryUnion)).f64BitAddress = true
        then w.GCPhysSGEntryNext + D.sizeof_MptSGEntrySimple64
        else w.GCPhysSGEntryNext + D.sizeof_MptSGEntrySimple32)
      = w.GCPhysSGEntryNext + sgEntrySize D (sgEntryAt D mem w.GCPhysSGEntryNext) := by
    unfold sgEntrySize sgEntryAt
    split <;> rfl
  rw [lsilogicSGSegmentLoop]
  simp only [hz', if_false, hsize]
  rfl

/-- Continuing from a walk state on a chain that is no zero element. -/
theorem sgContinue_succ (D : MptDefs) (mem : GuestMem) (m : Bool) (f1 f2 : Nat) (w : SGWalk)
    (hz : ¬ isZeroElement (sgEntryAt D mem w.GCPhysSGEntryNext)) :
    sgContinue D mem m (f1 + 1) f2 w
      = (if (sgEntryAt D mem w.GCPhysSGEntryNext).fEndOfList then
          lsilogicSGListLoop D mem m f2 (lsilogicSGNextChain D mem
            { lsilogicSGProcessEntry mem m
                { w with
                  GCPhysSGEntryNext := w.GCPhysSGEntryNext
                    + sgEntrySize D (sgEntryAt D mem w.GCPhysSGEntryNext) }
                (sgEntryAt D mem w.GCPhysSGEntryNext) with fEndOfList := true })
        else if (sgEntryAt D mem w.GCPhysSGEntryNext).fLastElement then
          lsilogicSGListLoop D mem m f2 (lsilogicSGNextChain D mem
            (lsilogicSGProcessEntry mem m
              { w with
                GCPhysSGEntryNext := w.GCPhysSGEntryNext
                  + sgEntrySize D (sgEntryAt D mem w.GCPhysSGEntryNext) }
              (sgEntryAt D mem w.GCPhysSGEntryNext)))
        else
          sgContinue D mem m f1 f2
            (lsilogicSGProcessEntry mem m
              { w with
                GCPhysSGEntryNext := w.GCPhysSGEntryNext
                  + sgEntrySize D (sgEntryAt D mem w.GCPhysSGEntryNext) }
              (sgEntryAt D mem w.GCPhysSGEntryNext))) := by
  unfold sgContinue
  rw [sgSegmentLoop_succ D mem m f1 w hz]
  split_ifs <;> rfl

/-- The walk of a chain ends, given enough fuel, and accumulates what processing
the elements of the chain one after the other accumulates. -/
theorem sgContinue_of_chain (D : MptDefs) (mem : GuestMem) (m : Bool)
    (next seg off : Nat) (es : List MptSGEntryUnion) (h : SGChain D mem next seg off es) :
    ∃ f0, ∀ w : SGWalk, w.GCPhysSGEntryNext = next → w.GCPhysSegmentStart = seg →
      w.uChainOffsetNext = off → w.fEndOfList = false →
      ∀ f1, f0 ≤ f1 → ∀ f2, f0 ≤ f2 →
        ∃ w', sgContinue D mem m f1 f2 w = SGLoop.done w'
          ∧ w'.sameAcc (es.foldl (lsilogicSGProcessEntry mem m) w) := by
  induction h with
  | last next seg off hz heol =>
    refine ⟨1, fun w hn hs ho hf f1 h1 f2 h2 => ?_⟩
    obtain ⟨g1, rfl⟩ := Nat.exists_eq_add_of_le h1
    obtain ⟨g2, rfl⟩ := Nat.exists_eq_add_of_le h2
    subst hn
    rw [Nat.add_comm 1 g1, Nat.add_comm 1 g2, sgContinue_succ D mem m _ _ w hz, if_pos heol,
      sgListLoop_succ]
    have hc := nextChain_sameAcc D mem
      { lsilogicSGProcessEntry mem m
          { w with
            GCPhysSGEntryNext := w.GCPhysSGEntryNext
              + sgEntrySize D (sgEntryAt D mem w.GCPhysSGEntryNext) }
          (sgEntryAt D mem w.GCPhysSGEntryNext) with fEndOfList := true }
    rw [if_pos (by rw [hc.2])]
    refine ⟨_, rfl, sameAcc_trans hc.1 ?_⟩
    refine sameAcc_trans (b := lsilogicSGProcessEntry mem m
          { w with
            GCPhysSGEntryNext := w.GCPhysSGEntryNext
              + sgEntrySize D (sgEntryAt D mem w.GCPhysSGEntryNext) }
          (sgEntryAt D mem w.GCPhysSGEntryNext)) ⟨rfl, rfl, rfl, rfl, rfl⟩ ?_
    exact processEntry_sameAcc mem m _ w _ ⟨rfl, rfl, rfl, rfl, rfl⟩
  | inSegment next seg off es hz heol hlast _ ih =>
    obtain ⟨f0, hf0⟩ := ih
    refine ⟨f0 + 1, fun w hn hs ho hf f1 h1 f2 h2 => ?_⟩
    subst hn
    obtain ⟨g1, rfl⟩ := Nat.exists_eq_add_of_le h1
    obtain ⟨w', hw', hacc⟩ := hf0
      (lsilogicSGProcessEntry mem m
          { w with
            GCPhysSGEntryNext := w.GCPhysSGEntryNext
              + sgEntrySize D (sgEntryAt D mem w.GCPhysSGEntryNext) }
          (sgEntryAt D mem w.GCPhysSGEntryNext))
      (processEntry_pos mem m _ _).1
      ((processEntry_pos mem m _ _).2.1.trans hs)
      ((processEntry_pos mem m _ _).2.2.1.trans ho)
      ((processEntry_pos mem m _ _).2.2.2.trans hf)
      (f0 + g1) (Nat.le_add_right _ _) f2 (by omega)
    have e1 : f0 + 1 + g1 = (f0 + g1) + 1 := by omega
    rw [e1, sgContinue_succ D mem m _ _ w hz, heol, hlast]
    refine ⟨w', hw', sameAcc_trans hacc ?_⟩
    exact foldl_processEntry_sameAcc mem m es _ _
      (processEntry_sameAcc mem m _ w _ ⟨rfl, rfl, rfl, rfl, rfl⟩)
  | noChain next seg es hz heol hlast _ ih =>
    obtain ⟨f0, hf0⟩ := ih
    refine ⟨f0 + 1, fun w hn hs ho hf f1 h1 f2 h2 => ?_⟩
    subst hn
    have hp := processEntry_pos mem m
          { w with
            GCPhysSGEntryNext := w.GCPhysSGEntryNext
              + sgEntrySize D (sgEntryAt D mem w.GCPhysSGEntryNext) }
          (sgEntryAt D mem w.GCPhysSGEntryNext)
    have hnc : lsilogicSGNextChain D mem (lsilogicSGProcessEntry mem m
          { w with
            GCPhysSGEntryNext := w.GCPhysSGEntryNext
              + sgEntrySize D (sgEntryAt D mem w.GCPhysSGEntryNext) }
          (sgEntryAt D mem w.GCPhysSGEntryNext))
        = lsilogicSGProcessEntry mem m
          { w with
            GCPhysSGEntryNext := w.GCPhysSGEntryNext
              + sgEntrySize D (sgEntryAt D mem w.GCPhysSGEntryNext) }
          (sgEntryAt D mem w.GCPhysSGEntryNext) := by
      unfold lsilogicSGNextChain
      rw [if_neg]
      rw [hp.2.2.1]
      exact fun hne => hne ho
    obtain ⟨g1, rfl⟩ := Nat.exists_eq_add_of_le h1
    obtain ⟨g2, rfl⟩ := Nat.exists_eq_add_of_le h2
    obtain ⟨w', hw', hacc⟩ := hf0 _ hp.1 (hp.2.1.trans hs) (hp.2.2.1.trans ho)
      (hp.2.2.2.trans hf) (f0 + g2) (Nat.le_add_right _ _) (f0 + g2) (Nat.le_add_right _ _)
    have e1 : f0 + 1 + g1 = (f0 + g1) + 1 := by omega
    have e2 : f0 + 1 + g2 = (f0 + g2) + 1 := by omega
    rw [e1, e2, sgContinue_succ D mem m _ _ w hz]
    simp only [heol, hlast, Bool.false_eq_true, if_false, if_true]
    rw [hnc, sgListLoop_succ, if_neg (by rw [hp.2.2.2.trans hf]; exact Bool.false_ne_true)]
    refine ⟨w', hw', sameAcc_trans hacc ?_⟩
    exact foldl_processEntry_sameAcc mem m es _ _
      (processEntry_sameAcc mem m _ w _ ⟨rfl, rfl, rfl, rfl, rfl⟩)
  | nextSegment next seg off es hz heol hlast hoff _ ih =>
    obtain ⟨f0, hf0⟩ := ih
    refine ⟨f0 + 1, fun w hn hs ho hf f1 h1 f2 h2 => ?_⟩
    subst hn
    have hp := processEntry_pos mem m
          { w with
            GCPhysSGEntryNext := w.GCPhysSGEntryNext
              + sgEntrySize D (sgEntryAt D mem w.GCPhysSGEntryNext) }
          (sgEntryAt D mem w.GCPhysSGEntryNext)
    have hc := nextChain_sameAcc D mem (lsilogicSGProcessEntry mem m
          { w with
            GCPhysSGEntryNext := w.GCPhysSGEntryNext
              + sgEntrySize D (sgEntryAt D mem w.GCPhysSGEntryNext) }
          (sgEntryAt D mem w.GCPhysSGEntryNext))
    have hoff' : (lsilogicSGProcessEntry mem m
          { w with
            GCPhysSGEntryNext := w.GCPhysSGEntryNext
              + sgEntrySize D (sgEntryAt D mem w.GCPhysSGEntryNext) }
          (sgEntryAt D mem w.GCPhysSGEntryNext)).uChainOffsetNext ≠ 0 := by
      rw [hp.2.2.1, ho]; exact hoff
    have hnext : (lsilogicSGNextChain D mem (lsilogicSGProcessEntry mem m
          { w with
            GCPhysSGEntryNext := w.GCPhysSGEntryNext
              + sgEntrySize D (sgEntryAt D mem w.GCPhysSGEntryNext) }
          (sgEntryAt D mem w.GCPhysSGEntryNext))).GCPhysSGEntryNext
          = sgChainAddress (sgChainAt D mem (seg + off))
        ∧ (lsilogicSGNextChain D mem (lsilogicSGProcessEntry mem m
          { w with
            GCPhysSGEntryNext := w.GCPhysSGEntryNext
              + sgEntrySize D (sgEntryAt D mem w.GCPhysSGEntryNext) }
          (sgEntryAt D mem w.GCPhysSGEntryNext))).GCPhysSegmentStart
          = sgChainAddress (sgChainAt D mem (seg + off))
        ∧ (lsilogicSGNextChain D mem (lsilogicSGProcessEntry mem m
          { w with
            GCPhysSGEntryNext := w.GCPhysSGEntryNext
              + sgEntrySize D (sgEntryAt D mem w.GCPhysSGEntryNext) }
          (sgEntryAt D mem w.GCPhysSGEntryNext))).uChainOffsetNext
          = u32 (((sgChainAt D mem (seg + off)).u8NextChainOffset % 256) * 4) := by
      unfold lsilogicSGNextChain
      rw [if_pos hoff', hp.2.1, hp.2.2.1]
      subst hs ho
      exact ⟨rfl, rfl, rfl⟩
    obtain ⟨g1, rfl⟩ := Nat.exists_eq_add_of_le h1
    obtain ⟨g2, rfl⟩ := Nat.exists_eq_add_of_le h2
    obtain ⟨w', hw', hacc⟩ := hf0 _ hnext.1 hnext.2.1 hnext.2.2
      (hc.2.trans (hp.2.2.2.trans hf)) (f0 + g2) (Nat.le_add_right _ _) (f0 + g2)
      (Nat.le_add_right _ _)
    have e1 : f0 + 1 + g1 = (f0 + g1) + 1 := by omega
    have e2 : f0 + 1 + g2 = (f0 + g2) + 1 := by omega
    rw [e1, e2, sgContinue_succ D mem m _ _ w hz]
    simp only [heol, hlast, Bool.false_eq_true, if_false, if_true]
    rw [sgListLoop_succ,
      if_neg (by rw [hc.2.trans (hp.2.2.2.trans hf)]; exact Bool.false_ne_true)]
    refine ⟨w', hw', sameAcc_trans hacc ?_⟩
    refine foldl_processEntry_sameAcc mem m es _ _ (sameAcc_trans hc.1 ?_)
    exact processEntry_sameAcc mem m _ w _ ⟨rfl, rfl, rfl, rfl, rfl⟩

end LsiLogic


namespace LsiLogic

/-! ## What the two passes accumulate -/

theorem u32_add_u32 (a b : Nat) : u32 (u32 a + b) = u32 (a + b) := by
  unfold u32; omega

/-- The counting pass counts the elements and adds up their lengths. -/
theorem countingPass_fold (mem : GuestMem) (es : List MptSGEntryUnion) (w : SGWalk) :
    (es.foldl (lsilogicSGProcessEntry mem false) w).pTaskState = w.pTaskState
      ∧ u32 (es.foldl (lsilogicSGProcessEntry mem false) w).cSGInfo
          = u32 (w.cSGInfo + es.length)
      ∧ u32 (es.foldl (lsilogicSGProcessEntry mem false) w).cbUnalignedComplete
          = u32 (w.cbUnalignedComplete + fragmentsLength (es.map sgFragment)) := by
  induction es generalizing w with
  | nil => exact ⟨rfl, rfl, rfl⟩
  | cons e es ih =>
    obtain ⟨h1, h2, h3⟩ := ih (lsilogicSGProcessEntry mem false w e)
    refine ⟨h1, ?_, ?_⟩
    · rw [List.foldl_cons, h2]
      simp only [lsilogicSGProcessEntry, Bool.false_eq_true, if_false, List.length_cons]
      rw [u32_add_u32]; congr 1; omega
    · rw [List.foldl_cons, h3]
      simp only [lsilogicSGProcessEntry, Bool.false_eq_true, if_false, List.map_cons,
        fragmentsLength, List.sum_cons, sgFragment]
      rw [u32_add_u32]; congr 1; omega

theorem countingPass_fold_lt (mem : GuestMem) (es : List MptSGEntryUnion) (w : SGWalk)
    (h0 : w.cSGInfo < 4294967296) :
    (es.foldl (lsilogicSGProcessEntry mem false) w).cSGInfo < 4294967296 := by
  induction es generalizing w with
  | nil => exact h0
  | cons e es ih =>
    apply ih
    simp only [lsilogicSGProcessEntry, Bool.false_eq_true, if_false, u32]
    omega

/-- One step of the mapping pass. -/
theorem mappingPass_step (mem : GuestMem) (w : SGWalk) (e : MptSGEntryUnion) :
    (lsilogicSGProcessEntry mem true w e).pSGInfoCurr = w.pSGInfoCurr + 1
      ∧ (lsilogicSGProcessEntry mem true w e).pbBufferUnalignedSGInfoPos
          = w.pbBufferUnalignedSGInfoPos + e.u24Length
      ∧ (lsilogicSGProcessEntry mem true w e).pTaskState.cSGInfoEntries
          = w.pTaskState.cSGInfoEntries
      ∧ (lsilogicSGProcessEntry mem true w e).pTaskState.cSGListTooBig
          = w.pTaskState.cSGListTooBig
      ∧ (∀ j, (lsilogicSGProcessEntry mem true w e).pTaskState.paSGEntries j
          = if j = w.pSGInfoCurr then
              { fGuestMemory := false
                fBufferContainsData := e.fBufferContainsData
                pvBuf := w.pbBufferUnalignedSGInfoPos
                cbBuf := e.u24Length
                GCPhysAddrBufferUnaligned := sgEntryAddress e }
            else w.pTaskState.paSGEntries j)
      ∧ (∀ a, (lsilogicSGProcessEntry mem true w e).pTaskState.pvBufferUnaligned a
          = if e.fBufferContainsData = true ∧ w.pbBufferUnalignedSGInfoPos ≤ a
                ∧ a < w.pbBufferUnalignedSGInfoPos + e.u24Length then
              mem (sgEntryAddress e + (a - w.pbBufferUnalignedSGInfoPos))
            else w.pTaskState.pvBufferUnaligned a) := by
  cases hd : e.fBufferContainsData
  · simp [lsilogicSGProcessEntry, hd]
  · simp [lsilogicSGProcessEntry, hd, lsilogicCopyFromSGListIntoBuffer]

/-- The mapping pass leaves alone the descriptor entries before its cursor, the
staging buffer before its position and the number of descriptor entries. -/
theorem mappingPass_frame (mem : GuestMem) (es : List MptSGEntryUnion) (w : SGWalk) :
    (es.foldl (lsilogicSGProcessEntry mem true) w).pTaskState.cSGInfoEntries
        = w.pTaskState.cSGInfoEntries
      ∧ (es.foldl (lsilogicSGProcessEntry mem true) w).pTaskState.cSGListTooBig
        = w.pTaskState.cSGListTooBig
      ∧ (∀ j, j < w.pSGInfoCurr →
          (es.foldl (lsilogicSGProcessEntry mem true) w).pTaskState.paSGEntries j
            = w.pTaskState.paSGEntries j)
      ∧ (∀ a, a < w.pbBufferUnalignedSGInfoPos →
          (es.foldl (lsilogicSGProcessEntry mem true) w).pTaskState.pvBufferUnaligned a
            = w.pTaskState.pvBufferUnaligned a) := by
  induction es generalizing w with
  | nil => exact ⟨rfl, rfl, fun _ _ => rfl, fun _ _ => rfl⟩
  | cons e es ih =>
    obtain ⟨h1, h1b, h2, h3⟩ := ih (lsilogicSGProcessEntry mem true w e)
    obtain ⟨s1, s2, s3, s3b, s4, s5⟩ := mappingPass_step mem w e
    refine ⟨h1.trans s3, h1b.trans s3b, fun j hj => ?_, fun a ha => ?_⟩
    · rw [List.foldl_cons, h2 j (by omega), s4, if_neg (by omega)]
    · rw [List.foldl_cons, h3 a (by omega), s5, if_neg (by omega)]

/-- The descriptor entries the mapping pass stores. -/
theorem mappingPass_entries (mem : GuestMem) (es : List MptSGEntryUnion) (w : SGWalk) :
    (List.range es.length).map
        (fun k => (es.foldl (lsilogicSGProcessEntry mem true) w).pTaskState.paSGEntries
          (w.pSGInfoCurr + k))
      = sgInfosOf w.pbBufferUnalignedSGInfoPos es := by
  induction es generalizing w with
  | nil => rfl
  | cons e es ih =>
    obtain ⟨s1, s2, s3, s3b, s4, s5⟩ := mappingPass_step mem w e
    have hfr := (mappingPass_frame mem es (lsilogicSGProcessEntry mem true w e)).2.2.1
    have ih' := ih (lsilogicSGProcessEntry mem true w e)
    rw [List.length_cons, List.range_succ_eq_map, List.map_cons, List.map_map, sgInfosOf,
      List.foldl_cons]
    congr 1
    · rw [Nat.add_zero, hfr _ (by omega), s4, if_pos rfl]
    · rw [← s2, ← ih']
      apply List.map_congr_left
      intro k _
      simp only [Function.comp, s1]
      congr 1; omega

/-- The staging buffer the mapping pass fills for data-bearing elements. -/
theorem mappingPass_staging (mem : GuestMem) (es : List MptSGEntryUnion) (w : SGWalk)
    (hdata : ∀ e ∈ es, e.fBufferContainsData = true) :
    (List.range (fragmentsLength (es.map sgFragment))).map
        (fun i => (es.foldl (lsilogicSGProcessEntry mem true) w).pTaskState.pvBufferUnaligned
          (w.pbBufferUnalignedSGInfoPos + i))
      = fragmentBytes mem (es.map sgFragment) := by
  induction es generalizing w with
  | nil => rfl
  | cons e es ih =>
    obtain ⟨s1, s2, s3, s3b, s4, s5⟩ := mappingPass_step mem w e
    have hfr := (mappingPass_frame mem es (lsilogicSGProcessEntry mem true w e)).2.2.2
    have ih' := ih (lsilogicSGProcessEntry mem true w e)
      (fun x hx => hdata x (List.mem_cons_of_mem _ hx))
    have hd : e.fBufferContainsData = true := hdata e (List.mem_cons_self _ _)
    simp only [List.map_cons, fragmentsLength, List.sum_cons, fragmentBytes, List.flatMap_cons,
      List.foldl_cons]
    rw [List.range_add, List.map_append]
    congr 1
    · unfold physRead sgFragment
      apply List.map_congr_left
      intro i hi
      rw [List.mem_range] at hi
      simp only at hi ⊢
      rw [hfr _ (by omega), s5, if_pos ⟨hd, by omega, by omega⟩]
      congr 1; omega
    · rw [List.map_map]
      have := ih'
      simp only [fragmentsLength, fragmentBytes] at this
      rw [← this]
      apply List.map_congr_left
      intro i _
      simp only [Function.comp, s2, sgFragment]
      congr 1; omega

/-- The mapping pass leaves the staging buffer alone when no element is
data-bearing. -/
theorem mappingPass_staging_nodata (mem : GuestMem) (es : List MptSGEntryUnion) (w : SGWalk)
    (hdata : ∀ e ∈ es, e.fBufferContainsData = false) :
    (es.foldl (lsilogicSGProcessEntry mem true) w).pTaskState.pvBufferUnaligned
      = w.pTaskState.pvBufferUnaligned := by
  induction es generalizing w with
  | nil => rfl
  | cons e es ih =>
    rw [List.foldl_cons, ih _ (fun x hx => hdata x (List.mem_cons_of_mem _ hx))]
    funext a
    rw [(mappingPass_step mem w e).2.2.2.2.2 a, if_neg]
    rw [hdata e (List.mem_cons_self _ _)]
    simp

end LsiLogic


namespace LsiLogic

/-! ## Creating and destroying a scatter/gather list -/

/-- When every allocation succeeds, `lsilogicScatterGatherListAllocate` succeeds
and sets the number of descriptor entries. -/
theorem scatterGatherListAllocate_ok (D : MptDefs) (alloc : Nat → Bool)
    (halloc : ∀ n, alloc n = true) (ts : LSILOGICTASKSTATE) (cSGList cSGInfo cbUnaligned : Nat) :
    (lsilogicScatterGatherListAllocate D alloc ts cSGList cSGInfo cbUnaligned).2 = VINF_SUCCESS
      ∧ (lsilogicScatterGatherListAllocate D alloc ts cSGList cSGInfo cbUnaligned
          ).1.cSGInfoEntries = cSGInfo := by
  unfold lsilogicScatterGatherListAllocate
  simp only [halloc, if_true]
  by_cases h1 : ts.cSGListSize < cSGList
  · simp only [h1, if_true, Bool.not_true, Bool.false_eq_true, if_false]
    split_ifs <;> first | exact ⟨rfl, rfl⟩ | (exfalso; simp_all)
  · by_cases h2 : ts.cSGListSize > cSGList
    · simp only [h1, h2, if_true, Bool.not_true, Bool.false_eq_true, if_false]
      split_ifs <;> first | exact ⟨rfl, rfl⟩ | (exfalso; simp_all)
    · simp only [h1, h2, if_true, Bool.not_true, Bool.false_eq_true, if_false]
      split_ifs <;> first | exact ⟨rfl, rfl⟩ | (exfalso; simp_all)

/-- The loop of `lsilogicScatterGatherListDestroy` is the store loop over the
descriptor entries it visits. -/
theorem scatterGatherListDestroyLoop_eq (ts : LSILOGICTASKSTATE) (n i : Nat) (mem : GuestMem) :
    lsilogicScatterGatherListDestroyLoop ts n i mem
      = sgCopyOut ts.pvBufferUnaligned mem
          ((List.range n).map (fun k => ts.paSGEntries (i + k))) := by
  induction n generalizing i mem with
  | zero => rfl
  | succ n ih =>
    rw [lsilogicScatterGatherListDestroyLoop, ih, List.range_succ_eq_map, List.map_cons,
      List.map_map]
    unfold sgCopyOut
    rw [List.foldl_cons]
    have e : (fun k => ts.paSGEntries (i + 1 + k))
        = (fun k => ts.paSGEntries (i + k)) ∘ Nat.succ := by
      funext k
      simp only [Function.comp]
      congr 1; omega
    rw [e]
    rfl

/-- The store loop writes nothing outside the fragments of its entries. -/
theorem sgCopyOut_frame (buf : Nat → Nat) (infos : List LSILOGICTASKSTATESGENTRY)
    (mem : GuestMem) (a : Nat)
    (h : ∀ info ∈ infos, ¬ (info.GCPhysAddrBufferUnaligned ≤ a
        ∧ a < info.GCPhysAddrBufferUnaligned + info.cbBuf)) :
    sgCopyOut buf mem infos a = mem a := by
  induction infos generalizing mem with
  | nil => rfl
  | cons info infos ih =>
    unfold sgCopyOut
    rw [List.foldl_cons]
    have ih' := fun m => ih m (fun x hx => h x (List.mem_cons_of_mem _ hx))
    unfold sgCopyOut at ih'
    rw [ih']
    have h0 := h info (List.mem_cons_self _ _)
    split_ifs
    · rfl
    · unfold lsilogicCopyFromBufferIntoSGList physWrite
      rw [if_neg h0]
    · rfl

/-- The fragments of the descriptor entries are the fragments of the elements. -/
theorem sgInfosOf_fragments (es : List MptSGEntryUnion) (pos : Nat) :
    ∀ info ∈ sgInfosOf pos es,
      (info.GCPhysAddrBufferUnaligned, info.cbBuf) ∈ es.map sgFragment := by
  induction es generalizing pos with
  | nil => intro info h; cases h
  | cons e es ih =>
    intro info h
    rw [sgInfosOf, List.mem_cons] at h
    rcases h with h | h
    · subst h
      exact List.mem_cons_self _ _
    · exact List.mem_cons_of_mem _ (ih _ info h)

/-- A staging buffer that holds the concatenation of the fragments holds the
bytes of the first fragment first and the concatenation of the others behind
them. -/
theorem staging_cons (buf : Nat → Nat) (mem : GuestMem) (pos : Nat) (f : Nat × Nat)
    (fs : List (Nat × Nat))
    (h : (List.range (fragmentsLength (f :: fs))).map (fun i => buf (pos + i))
        = fragmentBytes mem (f :: fs)) :
    (∀ j, j < f.2 → buf (pos + j) = mem (f.1 + j))
      ∧ (List.range (fragmentsLength fs)).map (fun i => buf (pos + f.2 + i))
          = fragmentBytes mem fs := by
  simp only [fragmentsLength, List.map_cons, List.sum_cons, fragmentBytes,
    List.flatMap_cons] at h ⊢
  rw [List.range_add, List.map_append] at h
  have hl : ((List.range f.2).map (fun i => buf (pos + i))).length
      = (physRead mem f.1 f.2).length := by
    simp [physRead]
  obtain ⟨h1, h2⟩ := List.append_inj h hl
  constructor
  · intro j hj
    have := congrArg (fun l => l.getD j 0) h1
    simpa [physRead, List.getD_eq_getElem?_getD, hj] using this
  · rw [← h2, List.map_map]
    apply List.map_congr_left
    intro i _
    simp only [Function.comp]
    congr 1; omega

/-- The store loop over the descriptor entries of a non-data-bearing chain with
pairwise disjoint fragments writes to each fragment the bytes staged for it. -/
theorem sgCopyOut_fragments (buf : Nat → Nat) (memA : GuestMem) (es : List MptSGEntryUnion)
    (pos : Nat) (mem : GuestMem)
    (hdata : ∀ e ∈ es, e.fBufferContainsData = false)
    (hdisj : fragmentsDisjoint (es.map sgFragment))
    (hbuf : (List.range (fragmentsLength (es.map sgFragment))).map (fun i => buf (pos + i))
        = fragmentBytes memA (es.map sgFragment)) :
    ∀ f ∈ es.map sgFragment, ∀ j, j < f.2 →
      sgCopyOut buf mem (sgInfosOf pos es) (f.1 + j) = memA (f.1 + j) := by
  induction es generalizing pos mem with
  | nil => intro f hf; cases hf
  | cons e es ih =>
    intro f hf j hj
    rw [List.map_cons] at hbuf hdisj hf
    obtain ⟨hb1, hb2⟩ := staging_cons buf memA pos (sgFragment e) (es.map sgFragment) hbuf
    have hd : e.fBufferContainsData = false := hdata e (List.mem_cons_self _ _)
    have hstep : sgCopyOut buf mem (sgInfosOf pos (e :: es))
        = sgCopyOut buf
            (physWrite mem (sgEntryAddress e) (fun i => buf (pos + i)) e.u24Length)
            (sgInfosOf (pos + e.u24Length) es) := by
      unfold sgCopyOut
      rw [sgInfosOf, List.foldl_cons]
      simp [hd, lsilogicCopyFromBufferIntoSGList]
    rw [hstep]
    rw [List.mem_cons] at hf
    rcases hf with hf | hf
    · subst hf
      rw [sgCopyOut_frame]
      · unfold physWrite
        simp only [sgFragment] at hj hb1 ⊢
        rw [if_pos ⟨by omega, by omega⟩, Nat.add_sub_cancel_left, hb1 j hj]
      · intro info hinfo hin
        have hg := sgInfosOf_fragments es _ info hinfo
        exact hdisj.1 _ hg (sgEntryAddress e + j)
          ⟨Nat.le_add_right _ _, by simp only [sgFragment] at hj ⊢; omega, hin.1, hin.2⟩
    · exact ih (pos + e.u24Length) _ (fun x hx => hdata x (List.mem_cons_of_mem _ hx))
        hdisj.2 hb2 f hf j hj

/-- Given enough fuel and successful allocations, `lsilogicScatterGatherListCreate`
on a chain returns `VINF_SUCCESS` with one descriptor entry per element and,
for data-bearing elements, the staged bytes. -/
theorem scatterGatherListCreate_of_chain (D : MptDefs) (alloc : Nat → Bool)
    (halloc : ∀ n, alloc n = true) (mem : GuestMem) (GCPhysSGLStart uChainOffset : Nat)
    (es : List MptSGEntryUnion)
    (h : SGChain D mem GCPhysSGLStart GCPhysSGLStart uChainOffset es)
    (hlen : es.length < 4294967296) :
    ∃ f0, ∀ fuel, f0 ≤ fuel → ∀ ts : LSILOGICTASKSTATE, ∃ t,
      lsilogicScatterGatherListCreate D alloc fuel mem ts GCPhysSGLStart uChainOffset
          = some (t, VINF_SUCCESS)
        ∧ t.cSGInfoEntries = es.length
        ∧ (List.range es.length).map t.paSGEntries = sgInfosOf 0 es
        ∧ ((∀ e ∈ es, e.fBufferContainsData = true) →
            (List.range (fragmentsLength (es.map sgFragment))).map t.pvBufferUnaligned
              = fragmentBytes mem (es.map sgFragment)) := by
  obtain ⟨f1, hf1⟩ := sgContinue_of_chain D mem false _ _ _ es h
  obtain ⟨f2, hf2⟩ := sgContinue_of_chain D mem true _ _ _ es h
  refine ⟨max f1 f2 + 1, fun fuel hfuel ts => ?_⟩
  obtain ⟨g, rfl⟩ : ∃ g, fuel = g + 1 := ⟨fuel - 1, by omega⟩
  have hg1 : f1 ≤ g := by omega
  have hg2 : f2 ≤ g := by omega
  obtain ⟨w1, hw1, hacc1⟩ := hf1
    { pTaskState := ts
      cSGInfo := 0
      cbUnalignedComplete := 0
      pSGInfoCurr := 0
      pbBufferUnalignedSGInfoPos := 0
      fEndOfList := false
      GCPhysSGEntryNext := GCPhysSGLStart
      GCPhysSegmentStart := GCPhysSGLStart
      uChainOffsetNext := uChainOffset } rfl rfl rfl rfl g hg1 g hg1
  obtain ⟨c1, c2, c3⟩ := countingPass_fold mem es
    { pTaskState := ts
      cSGInfo := 0
      cbUnalignedComplete := 0
      pSGInfoCurr := 0
      pbBufferUnalignedSGInfoPos := 0
      fEndOfList := false
      GCPhysSGEntryNext := GCPhysSGLStart
      GCPhysSegmentStart := GCPhysSGLStart
      uChainOffsetNext := uChainOffset }
  have c2lt := countingPass_fold_lt mem es
    { pTaskState := ts
      cSGInfo := 0
      cbUnalignedComplete := 0
      pSGInfoCurr := 0
      pbBufferUnalignedSGInfoPos := 0
      fEndOfList := false
      GCPhysSGEntryNext := GCPhysSGLStart
      GCPhysSegmentStart := GCPhysSGLStart
      uChainOffsetNext := uChainOffset } (by show (0 : Nat) < 4294967296; decide)
  have hcount : w1.cSGInfo = es.length := by
    rw [hacc1.2.1]
    rw [u32_of_lt c2lt] at c2
    rw [c2]
    show u32 (0 + es.length) = es.length
    rw [Nat.zero_add, u32_of_lt hlen]
  obtain ⟨a1, a2⟩ := scatterGatherListAllocate_ok D alloc halloc w1.pTaskState
    w1.cSGInfo w1.cSGInfo w1.cbUnalignedComplete
  obtain ⟨w3, hw3, hacc3⟩ := hf2
    { w1 with
      pTaskState :=
        { (lsilogicScatterGatherListAllocate D alloc w1.pTaskState
            w1.cSGInfo w1.cSGInfo w1.cbUnalignedComplete).1 with
          paSGEntries := fun j =>
            if j = 0 then
              { (lsilogicScatterGatherListAllocate D alloc w1.pTaskState
                  w1.cSGInfo w1.cSGInfo w1.cbUnalignedComplete).1.paSGEntries 0 with
                fGuestMemory := false }
            else
              (lsilogicScatterGatherListAllocate D alloc w1.pTaskState
                w1.cSGInfo w1.cSGInfo w1.cbUnalignedComplete).1.paSGEntries j }
      pSGInfoCurr := 0
      pbBufferUnalignedSGInfoPos := 0
      fEndOfList := false
      GCPhysSGEntryNext := GCPhysSGLStart
      GCPhysSegmentStart := GCPhysSGLStart
      uChainOffsetNext := uChainOffset } rfl rfl rfl rfl g hg2 g hg2
  have hfr := mappingPass_frame mem es
    { w1 with
      pTaskState :=
        { (lsilogicScatterGatherListAllocate D alloc w1.pTaskState
            w1.cSGInfo w1.cSGInfo w1.cbUnalignedComplete).1 with
          paSGEntries := fun j =>
            if j = 0 then
              { (lsilogicScatterGatherListAllocate D alloc w1.pTaskState
                  w1.cSGInfo w1.cSGInfo w1.cbUnalignedComplete).1.paSGEntries 0 with
                fGuestMemory := false }
            else
              (lsilogicScatterGatherListAllocate D alloc w1.pTaskState
                w1.cSGInfo w1.cSGInfo w1.cbUnalignedComplete).1.paSGEntries j }
      pSGInfoCurr := 0
      pbBufferUnalignedSGInfoPos := 0
      fEndOfList := false
      GCPhysSGEntryNext := GCPhysSGLStart
      GCPhysSegmentStart := GCPhysSGLStart
      uChainOffsetNext := uChainOffset }
  have hent := mappingPass_entries mem es
    { w1 with
      pTaskState :=
        { (lsilogicScatterGatherListAllocate D alloc w1.pTaskState
            w1.cSGInfo w1.cSGInfo w1.cbUnalignedComplete).1 with
          paSGEntries := fun j =>
            if j = 0 then
              { (lsilogicScatterGatherListAllocate D alloc w1.pTaskState
                  w1.cSGInfo w1.cSGInfo w1.cbUnalignedComplete).1.paSGEntries 0 with
                fGuestMemory := false }
            else
              (lsilogicScatterGatherListAllocate D alloc w1.pTaskState
                w1.cSGInfo w1.cSGInfo w1.cbUnalignedComplete).1.paSGEntries j }
      pSGInfoCurr := 0
      pbBufferUnalignedSGInfoPos := 0
      fEndOfList := false
      GCPhysSGEntryNext := GCPhysSGLStart
      GCPhysSegmentStart := GCPhysSGLStart
      uChainOffsetNext := uChainOffset }
  have hstg := mappingPass_staging mem es
    { w1 with
      pTaskState :=
        { (lsilogicScatterGatherListAllocate D alloc w1.pTaskState
            w1.cSGInfo w1.cSGInfo w1.cbUnalignedComplete).1 with
          paSGEntries := fun j =>
            if j = 0 then
              { (lsilogicScatterGatherListAllocate D alloc w1.pTaskState
                  w1.cSGInfo w1.cSGInfo w1.cbUnalignedComplete).1.paSGEntries 0 with
                fGuestMemory := false }
            else
              (lsilogicScatterGatherListAllocate D alloc w1.pTaskState
                w1.cSGInfo w1.cSGInfo w1.cbUnalignedComplete).1.paSGEntries j }
      pSGInfoCurr := 0
      pbBufferUnalignedSGInfoPos := 0
      fEndOfList := false
      GCPhysSGEntryNext := GCPhysSGLStart
      GCPhysSegmentStart := GCPhysSGLStart
      uChainOffsetNext := uChainOffset }
  rw [← hacc3.1] at hfr hent hstg
  unfold lsilogicScatterGatherListCreate
  simp only [sgListLoop_succ, Bool.false_eq_true, if_false, hw1, hw3, a1]
  refine ⟨_, rfl, ?_, ?_, ?_⟩
  · exact (hfr.1.trans a2).trans hcount
  · simpa using hent
  · intro hdata
    simpa using hstg hdata

end LsiLogic


namespace LsiLogic

theorem scatterGatherListDestroy_mem (D : MptDefs) (s : LSILOGICSCSI) (ts : LSILOGICTASKSTATE) :
    (lsilogicScatterGatherListDestroy D s ts).1.mem
      = sgCopyOut ts.pvBufferUnaligned s.mem
          ((List.range ts.cSGInfoEntries).map ts.paSGEntries) := by
  have e : (lsilogicScatterGatherListDestroy D s ts).1.mem
      = lsilogicScatterGatherListDestroyLoop ts ts.cSGInfoEntries 0 s.mem := by
    unfold lsilogicScatterGatherListDestroy
    simp only []
    split <;> rfl
  rw [e, scatterGatherListDestroyLoop_eq]
  simp only [Nat.zero_add]

/-- C10, where the claim fails: a data-bearing chain of a simple element
(5 bytes at 0x5000) followed by a zero element.  The walk ends, the two
fragments do not overlap, and `lsilogicScatterGatherListCreate` returns
`VINF_SUCCESS` with no descriptor entry and the staging buffer untouched,
while the concatenation of the fragments is the five bytes at 0x5000. -/
theorem C10_sg_round_trip_counterexample :
    [sgFragment (sgEntryAt mptDefs exSGMemZ 0x3000),
        sgFragment (sgEntryAt mptDefs exSGMemZ 0x3008)] = [(0x5000, 5), (0, 0)]
      ∧ (sgEntryAt mptDefs exSGMemZ 0x3000).fBufferContainsData = true
      ∧ (sgEntryAt mptDefs exSGMemZ 0x3000).fEndOfList = false
      ∧ (sgEntryAt mptDefs exSGMemZ 0x3000).fLastElement = false
      ∧ (sgEntryAt mptDefs exSGMemZ 0x3008).fBufferContainsData = true
      ∧ (sgEntryAt mptDefs exSGMemZ 0x3008).fEndOfList = true
      ∧ fragmentBytes exSGMemZ [(0x5000, 5), (0, 0)] = [0x11, 0x22, 0x33, 0x44, 0x55]
      ∧ (lsilogicScatterGatherListCreate mptDefs (fun _ => true) 8 exSGMemZ
            LSILOGICTASKSTATE.zero 0x3000 0).map
          (fun r => (r.2, r.1.cSGInfoEntries, (List.range 5).map r.1.pvBufferUnaligned))
          = some (VINF_SUCCESS, 0, [0, 0, 0, 0, 0]) := by
  decide

/-- C10 (amended): scatter-gather round trip, for chains without a zero
element.  Let a chain of simple elements in guest memory be well formed: it
may span several segments linked by chain elements, its last element is marked
end-of-list, none of its elements is a zero element (length 0 with end-of-list
and end-of-buffer), it has fewer than 2^32 elements and bytes, and its
fragments do not overlap; let every allocation succeed.  Then, given enough
fuel, `lsilogicScatterGatherListCreate` on the data-bearing chain returns
`VINF_SUCCESS` with a staging buffer equal to the concatenation, in chain
order, of the guest bytes of each fragment; and on a non-data-bearing chain
with the same fragments it returns `VINF_SUCCESS` with a task state on which
`lsilogicScatterGatherListDestroy`, the staging buffer holding those bytes,
writes them back: every fragment holds exactly the original bytes and no guest
address outside the fragments is written. -/
theorem C10_sg_round_trip (D : MptDefs) (alloc : Nat → Bool) (memA memB : GuestMem)
    (startA offA startB offB : Nat) (esA esB : List MptSGEntryUnion) (buf : Nat → Nat)
    (halloc : ∀ n, alloc n = true)
    (hA : SGChain D memA startA startA offA esA)
    (hB : SGChain D memB startB startB offB esB)
    (hdataA : ∀ e ∈ esA, e.fBufferContainsData = true)
    (hdataB : ∀ e ∈ esB, e.fBufferContainsData = false)
    (hshape : esB.map sgFragment = esA.map sgFragment)
    (hlen : esA.length < 4294967296)
    (_htotal : fragmentsLength (esA.map sgFragment) < 4294967296)
    (hdisj : fragmentsDisjoint (esA.map sgFragment))
    (hbuf : (List.range (fragmentsLength (esA.map sgFragment))).map buf
        = fragmentBytes memA (esA.map sgFragment)) :
    ∃ f0, ∀ fuel, f0 ≤ fuel → ∀ (tsA tsB : LSILOGICTASKSTATE) (s : LSILOGICSCSI),
      (∃ tA, lsilogicScatterGatherListCreate D alloc fuel memA tsA startA offA
            = some (tA, VINF_SUCCESS)
          ∧ (List.range (fragmentsLength (esA.map sgFragment))).map tA.pvBufferUnaligned
            = fragmentBytes memA (esA.map sgFragment))
      ∧ (∃ tB, lsilogicScatterGatherListCreate D alloc fuel memB tsB startB offB
            = some (tB, VINF_SUCCESS)
          ∧ (∀ f ∈ esA.map sgFragment, ∀ j, j < f.2 →
              (lsilogicScatterGatherListDestroy D s
                { tB with pvBufferUnaligned := buf }).1.mem (f.1 + j) = memA (f.1 + j))
          ∧ (∀ a, ¬ inFragments (esA.map sgFragment) a →
              (lsilogicScatterGatherListDestroy D s
                { tB with pvBufferUnaligned := buf }).1.mem a = s.mem a)) := by
  have hlenB : esB.length < 4294967296 := by
    have := congrArg List.length hshape
    simp only [List.length_map] at this
    omega
  obtain ⟨fa, hfa⟩ := scatterGatherListCreate_of_chain D alloc halloc memA startA offA esA hA hlen
  obtain ⟨fb, hfb⟩ := scatterGatherListCreate_of_chain D alloc halloc memB startB offB esB hB hlenB
  refine ⟨max fa fb, fun fuel hfuel tsA tsB s => ⟨?_, ?_⟩⟩
  · obtain ⟨tA, h1, _, _, h4⟩ := hfa fuel (by omega) tsA
    exact ⟨tA, h1, h4 hdataA⟩
  · obtain ⟨tB, h1, h2, h3, _⟩ := hfb fuel (by omega) tsB
    have hmem : (lsilogicScatterGatherListDestroy D s { tB with pvBufferUnaligned := buf }).1.mem
        = sgCopyOut buf s.mem (sgInfosOf 0 esB) := by
      rw [scatterGatherListDestroy_mem]
      show sgCopyOut buf s.mem ((List.range tB.cSGInfoEntries).map tB.paSGEntries) = _
      rw [h2, h3]
    refine ⟨tB, h1, ?_, ?_⟩
    · rw [hmem, ← hshape]
      apply sgCopyOut_fragments buf memA esB 0 s.mem hdataB
      · rw [hshape]; exact hdisj
      · rw [hshape]; simpa only [Nat.zero_add] using hbuf
    · intro a ha
      rw [hmem]
      apply sgCopyOut_frame
      intro info hinfo hin
      apply ha
      rw [← hshape]
      exact ⟨_, sgInfosOf_fragments esB 0 info hinfo, hin.1, hin.2⟩

/-- C10, evaluated: a chain of two segments linked by a chain element, with
fragments of 5 and 3 bytes. -/
theorem C10_sg_round_trip_witness :
    (SGChain mptDefs exSGMemA 0x3000 0x3000 8 exSGChainA
      ∧ SGChain mptDefs exSGMemB 0x3000 0x3000 8 exSGChainB
      ∧ exSGChainA.map sgFragment = [(0x5000, 5), (0x6000, 3)]
      ∧ exSGChainB.map sgFragment = exSGChainA.map sgFragment
      ∧ (∀ e ∈ exSGChainA, e.fBufferContainsData = true)
      ∧ (∀ e ∈ exSGChainB, e.fBufferContainsData = false)
      ∧ fragmentsDisjoint (exSGChainA.map sgFragment)
      ∧ (List.range (fragmentsLength (exSGChainA.map sgFragment))).map exSGStaging
          = fragmentBytes exSGMemA (exSGChainA.map sgFragment)
      ∧ fragmentBytes exSGMemA (exSGChainA.map sgFragment)
          = [0x11, 0x22, 0x33, 0x44, 0x55, 0xAA, 0xBB, 0xCC])
    ∧ ∃ f0, ∀ fuel, f0 ≤ fuel → ∀ (tsA tsB : LSILOGICTASKSTATE) (s : LSILOGICSCSI),
      (∃ tA, lsilogicScatterGatherListCreate mptDefs (fun _ => true) fuel exSGMemA tsA 0x3000 8
            = some (tA, VINF_SUCCESS)
          ∧ (List.range (fragmentsLength (exSGChainA.map sgFragment))).map tA.pvBufferUnaligned
            = fragmentBytes exSGMemA (exSGChainA.map sgFragment))
      ∧ (∃ tB, lsilogicScatterGatherListCreate mptDefs (fun _ => true) fuel exSGMemB tsB 0x3000 8
            = some (tB, VINF_SUCCESS)
          ∧ (∀ f ∈ exSGChainA.map sgFragment, ∀ j, j < f.2 →
              (lsilogicScatterGatherListDestroy mptDefs s
                { tB with pvBufferUnaligned := exSGStaging }).1.mem (f.1 + j)
                = exSGMemA (f.1 + j))
          ∧ (∀ a, ¬ inFragments (exSGChainA.map sgFragment) a →
              (lsilogicScatterGatherListDestroy mptDefs s
                { tB with pvBufferUnaligned := exSGStaging }).1.mem a = s.mem a)) := by
  have hA : SGChain mptDefs exSGMemA 0x3000 0x3000 8 exSGChainA :=
    SGChain.nextSegment 0x3000 0x3000 8 [sgEntryAt mptDefs exSGMemA 0x4000]
      (by decide) (by decide) (by decide) (by decide)
      (SGChain.last 0x4000 0x4000 0 (by decide) (by decide))
  have hB : SGChain mptDefs exSGMemB 0x3000 0x3000 8 exSGChainB :=
    SGChain.nextSegment 0x3000 0x3000 8 [sgEntryAt mptDefs exSGMemB 0x4000]
      (by decide) (by decide) (by decide) (by decide)
      (SGChain.last 0x4000 0x4000 0 (by decide) (by decide))
  have hfr : exSGChainA.map sgFragment = [(0x5000, 5), (0x6000, 3)] := by decide
  have hdisj : fragmentsDisjoint (exSGChainA.map sgFragment) := by
    rw [hfr]
    refine ⟨fun g hg a h => ?_, fun g hg => ?_, trivial⟩
    · rw [List.mem_singleton] at hg
      subst hg
      simp only at h
      omega
    · cases hg
  exact ⟨⟨hA, hB, hfr, by decide, by decide, by decide, hdisj, by decide, by decide⟩,
    C10_sg_round_trip mptDefs (fun _ => true) exSGMemA exSGMemB 0x3000 8 0x3000 8
      exSGChainA exSGChainB exSGStaging (fun _ => rfl) hA hB (by decide) (by decide)
      (by decide) (by decide) (by decide) hdisj (by decide)⟩

end LsiLogic


namespace LsiLogic

/-! ## Empty transfers and address replies -/

/-- The inner loop of `lsilogicScatterGatherListCreate` on a zero element. -/
theorem sgSegmentLoop_zero (D : MptDefs) (mem : GuestMem) (m : Bool) (f : Nat) (w : SGWalk)
    (hz : isZeroElement (sgEntryAt D mem w.GCPhysSGEntryNext)) :
    lsilogicSGSegmentLoop D mem m (f + 1) w
      = SGLoop.returned { w.pTaskState with cSGListEntries := 0, cSGInfoEntries := 0 } := by
  have hz' : (D.decodeSGEntry (physRead mem w.GCPhysSGEntryNext D.sizeof_MptSGEntryUnion)
        ).u24Length = 0
      ∧ (D.decodeSGEntry (physRead mem w.GCPhysSGEntryNext D.sizeof_MptSGEntryUnion)
        ).fEndOfList = true
      ∧ (D.decodeSGEntry (physRead mem w.GCPhysSGEntryNext D.sizeof_MptSGEntryUnion)
        ).fEndOfBuffer = true := hz
  rw [lsilogicSGSegmentLoop]
  simp only [hz', and_self, if_true]

/-- C11 (empty transfer): if the first scatter/gather element that
`lsilogicScatterGatherListCreate` reads has length 0 with `fEndOfList` and
`fEndOfBuffer` set, the function returns `VINF_SUCCESS` with `cSGListEntries =
0` and `cSGInfoEntries = 0` and with every other member of the task state as
it was, whatever the allocator would answer (no allocation, nothing staged);
a following `lsilogicScatterGatherListDestroy` leaves guest memory as it is.
The fuel 2 is one iteration of the outer and one of the inner loop. -/
theorem C11_empty_transfer (D : MptDefs) (alloc : Nat → Bool) (mem : GuestMem)
    (ts : LSILOGICTASKSTATE) (GCPhysSGLStart uChainOffset fuel : Nat) (s : LSILOGICSCSI)
    (hzero : isZeroElement (sgEntryAt D mem GCPhysSGLStart)) (hfuel : 2 ≤ fuel) :
    lsilogicScatterGatherListCreate D alloc fuel mem ts GCPhysSGLStart uChainOffset
        = some ({ ts with cSGListEntries := 0, cSGInfoEntries := 0 }, VINF_SUCCESS)
      ∧ (lsilogicScatterGatherListDestroy D s
          { ts with cSGListEntries := 0, cSGInfoEntries := 0 }).1.mem = s.mem := by
  obtain ⟨g, rfl⟩ : ∃ g, fuel = g + 1 + 1 := ⟨fuel - 2, by omega⟩
  constructor
  · unfold lsilogicScatterGatherListCreate
    simp only [lsilogicSGListLoop, Bool.false_eq_true, if_false]
    rw [sgSegmentLoop_zero D mem false g _ hzero]
  · unfold lsilogicScatterGatherListDestroy
    simp only [lsilogicScatterGatherListDestroyLoop]
    split <;> rfl

/-- C11, evaluated: a scatter/gather list that starts with a zero element. -/
theorem C11_empty_transfer_witness :
    (isZeroElement (sgEntryAt mptDefs exSGMemEmpty 0x3000) ∧ 2 ≤ 2)
      ∧ lsilogicScatterGatherListCreate mptDefs (fun _ => false) 2 exSGMemEmpty
            LSILOGICTASKSTATE.zero 0x3000 0
          = some ({ LSILOGICTASKSTATE.zero with cSGListEntries := 0, cSGInfoEntries := 0 },
              VINF_SUCCESS)
      ∧ (lsilogicScatterGatherListDestroy mptDefs exReady
          { LSILOGICTASKSTATE.zero with cSGListEntries := 0, cSGInfoEntries := 0 }).1.mem
          = exReady.mem :=
  ⟨by decide,
   C11_empty_transfer mptDefs (fun _ => false) exSGMemEmpty LSILOGICTASKSTATE.zero 0x3000 0 2
     exReady (by decide) (by decide)⟩

/-- `LSILOGIC_RTGCPHYS_FROM_U32` of two 32-bit values. -/
theorem rtgcphys_from_u32 (hi lo : Nat) (hhi : hi < 4294967296) (hlo : lo < 4294967296) :
    LSILOGIC_RTGCPHYS_FROM_U32 hi lo = (hi <<< 32) ||| lo := by
  unfold LSILOGIC_RTGCPHYS_FROM_U32 u32
  rw [Nat.mod_eq_of_lt hhi, Nat.mod_eq_of_lt hlo, Nat.shiftLeft_eq, Nat.mul_comm]
  exact @Nat.mul_add_lt_is_or 32 lo hlo hi

/-- The reply-FIFO branch of `lsilogicFinishAddressReply`. -/
theorem finishAddressReply_fifo (D : MptDefs) (s : LSILOGICSCSI) (pReply : MptReplyUnion)
    (f : Bool) (hfifo : (s.fDoorbellInProgress && !f) = false) :
    (lsilogicFinishAddressReply D s pReply f).uReplyFreeQueueNextAddressRead
        = u32 (s.uReplyFreeQueueNextAddressRead + 1) % s.cReplyQueueEntries
      ∧ (lsilogicFinishAddressReply D s pReply f).uReplyFreeQueueNextEntryFreeWrite
        = s.uReplyFreeQueueNextEntryFreeWrite
      ∧ (lsilogicFinishAddressReply D s pReply f).mem
        = physWrite s.mem
            (LSILOGIC_RTGCPHYS_FROM_U32 s.u32HostMFAHighAddr
              (s.pReplyFreeQueueBase s.uReplyFreeQueueNextAddressRead))
            (D.abReply pReply)
            (if s.cbReplyFrame < D.sizeof_MptReplyUnion then s.cbReplyFrame
             else D.sizeof_MptReplyUnion)
      ∧ (lsilogicFinishAddressReply D s pReply f).pReplyPostQueueBase
        = writeSlot s.pReplyPostQueueBase s.uReplyPostQueueNextEntryFreeWrite
            (RT_BIT 31 ||| (s.pReplyFreeQueueBase s.uReplyFreeQueueNextAddressRead >>> 1))
      ∧ (lsilogicFinishAddressReply D s pReply f).uReplyPostQueueNextEntryFreeWrite
        = u32 (s.uReplyPostQueueNextEntryFreeWrite + 1) % s.cReplyQueueEntries
      ∧ (lsilogicFinishAddressReply D s pReply f).uReplyPostQueueNextAddressRead
        = s.uReplyPostQueueNextAddressRead
      ∧ (lsilogicFinishAddressReply D s pReply f).uInterruptStatus
        = (if f then s.uInterruptStatus ||| LSILOGIC_REG_HOST_INTR_STATUS_SYSTEM_DOORBELL
           else s.uInterruptStatus) ||| LSILOGIC_REG_HOST_INTR_STATUS_REPLY_INTR
      ∧ (lsilogicFinishAddressReply D s pReply f).fDoorbellInProgress
        = (if f then false else s.fDoorbellInProgress)
      ∧ (lsilogicFinishAddressReply D s pReply f).pTaskCache = s.pTaskCache
      ∧ (lsilogicFinishAddressReply D s pReply f).aSubmitted = s.aSubmitted
      ∧ (lsilogicFinishAddressReply D s pReply f).aDeviceStates = s.aDeviceStates := by
  unfold lsilogicFinishAddressReply
  rw [if_neg (by rw [hfifo]; exact Bool.false_ne_true)]
  cases f <;> exact ⟨rfl, rfl, rfl, rfl, rfl, rfl, rfl, rfl, rfl, rfl, rfl⟩

/-- C12 (address reply through the reply FIFO): when `lsilogicFinishAddressReply`
runs with no doorbell handshake in progress, or with `fForceReplyFifo`, it takes
the value `a` at the reply-free read cursor and advances that cursor by one
modulo `cReplyQueueEntries`, writes the first `min(cbReplyFrame,
sizeof(MptReplyUnion))` bytes of the reply to guest physical address
`(u32HostMFAHighAddr << 32) | a` and nothing else, stores `0x80000000 | (a >> 1)`
at the reply-post write cursor and advances that cursor by one modulo
`cReplyQueueEntries`, and sets the reply-interrupt status bit (bit 3); with
`fForceReplyFifo` it also clears `fDoorbellInProgress` and sets the
system-doorbell status bit (bit 0).  The hypotheses are the ranges of the
`uint32_t` members, the cursors being below the largest `uint32_t`. -/
theorem C12_address_reply_fifo (D : MptDefs) (s : LSILOGICSCSI) (pReply : MptReplyUnion)
    (fForceReplyFifo : Bool)
    (hfifo : (s.fDoorbellInProgress && !fForceReplyFifo) = false)
    (hr : s.uReplyFreeQueueNextAddressRead < 4294967295)
    (hw : s.uReplyPostQueueNextEntryFreeWrite < 4294967295)
    (ha : s.pReplyFreeQueueBase s.uReplyFreeQueueNextAddressRead < 4294967296)
    (hhi : s.u32HostMFAHighAddr < 4294967296) :
    (lsilogicFinishAddressReply D s pReply fForceReplyFifo).uReplyFreeQueueNextAddressRead
        = (s.uReplyFreeQueueNextAddressRead + 1) % s.cReplyQueueEntries
      ∧ (lsilogicFinishAddressReply D s pReply fForceReplyFifo).mem
        = physWrite s.mem
            ((s.u32HostMFAHighAddr <<< 32)
              ||| s.pReplyFreeQueueBase s.uReplyFreeQueueNextAddressRead)
            (D.abReply pReply) (min s.cbReplyFrame D.sizeof_MptReplyUnion)
      ∧ (lsilogicFinishAddressReply D s pReply fForceReplyFifo).pReplyPostQueueBase
        = writeSlot s.pReplyPostQueueBase s.uReplyPostQueueNextEntryFreeWrite
            (0x80000000 ||| (s.pReplyFreeQueueBase s.uReplyFreeQueueNextAddressRead >>> 1))
      ∧ (lsilogicFinishAddressReply D s pReply fForceReplyFifo).uReplyPostQueueNextEntryFreeWrite
        = (s.uReplyPostQueueNextEntryFreeWrite + 1) % s.cReplyQueueEntries
      ∧ (lsilogicFinishAddressReply D s pReply fForceReplyFifo).uInterruptStatus.testBit 3 = true
      ∧ (fForceReplyFifo = true →
          (lsilogicFinishAddressReply D s pReply fForceReplyFifo).fDoorbellInProgress = false
            ∧ (lsilogicFinishAddressReply D s pReply fForceReplyFifo).uInterruptStatus.testBit 0
                = true)
      ∧ (fForceReplyFifo = false →
          (lsilogicFinishAddressReply D s pReply fForceReplyFifo).fDoorbellInProgress = false
            ∧ (lsilogicFinishAddressReply D s pReply fForceReplyFifo).uInterruptStatus
                = s.uInterruptStatus ||| 8) := by
  obtain ⟨h1, -, h3, h4, h5, -, h7, h8, -⟩ := finishAddressReply_fifo D s pReply fForceReplyFifo hfifo
  have hbit3 : LSILOGIC_REG_HOST_INTR_STATUS_REPLY_INTR.testBit 3 = true := by decide
  have hbit0 : LSILOGIC_REG_HOST_INTR_STATUS_SYSTEM_DOORBELL.testBit 0 = true := by decide
  refine ⟨?_, ?_, ?_, ?_, ?_, ?_, ?_⟩
  · rw [h1, u32_of_lt (by omega)]
  · have hmin : (if s.cbReplyFrame < D.sizeof_MptReplyUnion then s.cbReplyFrame
          else D.sizeof_MptReplyUnion) = min s.cbReplyFrame D.sizeof_MptReplyUnion := by
      rw [Nat.min_def]
      split_ifs <;> omega
    rw [h3, rtgcphys_from_u32 _ _ hhi ha, hmin]
  · rw [h4]; rfl
  · rw [h5, u32_of_lt (by omega)]
  · rw [h7, Nat.testBit_lor, hbit3, Bool.or_true]
  · intro hf
    subst hf
    refine ⟨h8, ?_⟩
    rw [h7, Nat.testBit_lor, if_pos rfl, Nat.testBit_lor, hbit0, Bool.or_true, Bool.true_or]
  · intro hf
    subst hf
    have hd : s.fDoorbellInProgress = false := by simpa using hfifo
    refine ⟨h8.trans hd, ?_⟩
    rw [h7]
    rfl

/-- C12, evaluated: an address reply on the device `exReplyFree`, whose
reply-free ring holds the frame address 0x2000. -/
theorem C12_address_reply_fifo_witness :
    ((exReplyFree.fDoorbellInProgress && !false) = false
      ∧ exReplyFree.uReplyFreeQueueNextAddressRead < 4294967295
      ∧ exReplyFree.uReplyPostQueueNextEntryFreeWrite < 4294967295
      ∧ exReplyFree.pReplyFreeQueueBase exReplyFree.uReplyFreeQueueNextAddressRead = 0x2000
      ∧ exReplyFree.u32HostMFAHighAddr < 4294967296)
    ∧ ((lsilogicFinishAddressReply mptDefs exReplyFree exReply false
          ).uReplyFreeQueueNextAddressRead
        = (exReplyFree.uReplyFreeQueueNextAddressRead + 1) % exReplyFree.cReplyQueueEntries
      ∧ (lsilogicFinishAddressReply mptDefs exReplyFree exReply false).mem
        = physWrite exReplyFree.mem
            ((exReplyFree.u32HostMFAHighAddr <<< 32)
              ||| exReplyFree.pReplyFreeQueueBase exReplyFree.uReplyFreeQueueNextAddressRead)
            (mptDefs.abReply exReply) (min exReplyFree.cbReplyFrame mptDefs.sizeof_MptReplyUnion)
      ∧ (lsilogicFinishAddressReply mptDefs exReplyFree exReply false).pReplyPostQueueBase
        = writeSlot exReplyFree.pReplyPostQueueBase exReplyFree.uReplyPostQueueNextEntryFreeWrite
            (0x80000000
              ||| (exReplyFree.pReplyFreeQueueBase exReplyFree.uReplyFreeQueueNextAddressRead
                    >>> 1))
      ∧ (lsilogicFinishAddressReply mptDefs exReplyFree exReply false
          ).uReplyPostQueueNextEntryFreeWrite
        = (exReplyFree.uReplyPostQueueNextEntryFreeWrite + 1) % exReplyFree.cReplyQueueEntries
      ∧ (lsilogicFinishAddressReply mptDefs exReplyFree exReply false
          ).uInterruptStatus.testBit 3 = true
      ∧ (false = true →
          (lsilogicFinishAddressReply mptDefs exReplyFree exReply false
            ).fDoorbellInProgress = false
            ∧ (lsilogicFinishAddressReply mptDefs exReplyFree exReply false
                ).uInterruptStatus.testBit 0 = true)
      ∧ (false = false →
          (lsilogicFinishAddressReply mptDefs exReplyFree exReply false
            ).fDoorbellInProgress = false
            ∧ (lsilogicFinishAddressReply mptDefs exReplyFree exReply false).uInterruptStatus
                = exReplyFree.uInterruptStatus ||| 8))
    ∧ (physRead (lsilogicFinishAddressReply mptDefs exReplyFree exReply false).mem 0x2000 12
          = [0, 0, 8, 0, 0, 0, 0, 0, 0x88, 0x77, 0x66, 0x55]
        ∧ (lsilogicFinishAddressReply mptDefs exReplyFree exReply false).pReplyPostQueueBase 0
          = 0x80001000) :=
  ⟨by decide,
   C12_address_reply_fifo mptDefs exReplyFree exReply false (by decide) (by decide) (by decide)
     (by decide) (by decide),
   by decide⟩

end LsiLogic


namespace LsiLogic

/-! ## SCSI I/O requests that are not sent to a driver -/

/-- What `lsilogicFinishAddressReply` leaves alone in either branch. -/
theorem finishAddressReply_env (D : MptDefs) (s : LSILOGICSCSI) (pReply : MptReplyUnion)
    (f : Bool) :
    (lsilogicFinishAddressReply D s pReply f).pTaskCache = s.pTaskCache
      ∧ (lsilogicFinishAddressReply D s pReply f).aSubmitted = s.aSubmitted
      ∧ (lsilogicFinishAddressReply D s pReply f).aDeviceStates = s.aDeviceStates := by
  unfold lsilogicFinishAddressReply
  split
  · exact ⟨rfl, rfl, rfl⟩
  · cases f <;> exact ⟨rfl, rfl, rfl⟩

/-- The device state array plays no part in `lsilogicFinishAddressReply`. -/
theorem finishAddressReply_devices (D : MptDefs) (s : LSILOGICSCSI) (pReply : MptReplyUnion)
    (f : Bool) (devs : Nat → LSILOGICDEVICE) :
    lsilogicFinishAddressReply D { s with aDeviceStates := devs } pReply f
      = { lsilogicFinishAddressReply D s pReply f with aDeviceStates := devs } := by
  unfold lsilogicFinishAddressReply
  split
  · rfl
  · cases f <;> rfl

/-- The path of `lsilogicProcessSCSIIORequest` for a request that is not sent to
a driver: once the scatter/gather list is created, the error reply is finished
as an address reply and the task state goes back to the task cache. -/
theorem processSCSIIORequest_error (D : MptDefs) (alloc : Nat → Bool) (fuel : Nat)
    (s : LSILOGICSCSI) (ts : LSILOGICTASKSTATE) (created : LSILOGICTASKSTATE × Int)
    (hsg : scsiIOCreateSGList D alloc fuel s ts = some created)
    (hnosend : ¬ ((D.decodeRequest ts.GuestRequest).SCSIIO_u8TargetID < D.LSILOGIC_DEVICES_MAX
      ∧ (D.decodeRequest ts.GuestRequest).SCSIIO_u8Bus = 0
      ∧ (s.aDeviceStates (D.decodeRequest ts.GuestRequest).SCSIIO_u8TargetID).pDrvBase = true)) :
    lsilogicProcessSCSIIORequest D alloc fuel s ts
      = some (RTCacheInsert
          (lsilogicFinishAddressReply D s
            (scsiIOErrorReply D (D.decodeRequest ts.GuestRequest) created.1.IOCReply
              (if (D.decodeRequest ts.GuestRequest).SCSIIO_u8TargetID < D.LSILOGIC_DEVICES_MAX
                  ∧ (D.decodeRequest ts.GuestRequest).SCSIIO_u8Bus = 0 then
                D.MPT_SCSI_IO_ERROR_IOCSTATUS_DEVICE_NOT_THERE
              else if (D.decodeRequest ts.GuestRequest).SCSIIO_u8Bus ≠ 0 then
                D.MPT_SCSI_IO_ERROR_IOCSTATUS_INVALID_BUS
              else
                D.MPT_SCSI_IO_ERROR_IOCSTATUS_INVALID_TARGETID)) false)
          { created.1 with
            IOCReply := scsiIOErrorReply D (D.decodeRequest ts.GuestRequest) created.1.IOCReply
              (if (D.decodeRequest ts.GuestRequest).SCSIIO_u8TargetID < D.LSILOGIC_DEVICES_MAX
                  ∧ (D.decodeRequest ts.GuestRequest).SCSIIO_u8Bus = 0 then
                D.MPT_SCSI_IO_ERROR_IOCSTATUS_DEVICE_NOT_THERE
              else if (D.decodeRequest ts.GuestRequest).SCSIIO_u8Bus ≠ 0 then
                D.MPT_SCSI_IO_ERROR_IOCSTATUS_INVALID_BUS
              else
                D.MPT_SCSI_IO_ERROR_IOCSTATUS_INVALID_TARGETID) },
        created.2) := by
  unfold scsiIOCreateSGList at hsg
  unfold lsilogicProcessSCSIIORequest
  simp only [hsg]
  by_cases hr : (D.decodeRequest ts.GuestRequest).SCSIIO_u8TargetID < D.LSILOGIC_DEVICES_MAX
      ∧ (D.decodeRequest ts.GuestRequest).SCSIIO_u8Bus = 0
  · have hd : (s.aDeviceStates (D.decodeRequest ts.GuestRequest).SCSIIO_u8TargetID).pDrvBase
        = false := by
      cases h : (s.aDeviceStates (D.decodeRequest ts.GuestRequest).SCSIIO_u8TargetID).pDrvBase
      · rfl
      · exact absurd ⟨hr.1, hr.2, h⟩ hnosend
    simp [hr.1, hr.2, hd, scsiIOErrorReply]
  · by_cases hb : (D.decodeRequest ts.GuestRequest).SCSIIO_u8Bus = 0
    · have ht : ¬ (D.decodeRequest ts.GuestRequest).SCSIIO_u8TargetID < D.LSILOGIC_DEVICES_MAX :=
        fun h => hr ⟨h, hb⟩
      simp [ht, hb, scsiIOErrorReply]
    · simp [hb, scsiIOErrorReply]

end LsiLogic


namespace LsiLogic

/-! ## Completion of SCSI requests -/

/-- Destroying a scatter/gather list touches guest memory only. -/
theorem scatterGatherListDestroy_frame (D : MptDefs) (s : LSILOGICSCSI) (ts : LSILOGICTASKSTATE) :
    (lsilogicScatterGatherListDestroy D s ts).1
      = { s with mem := (lsilogicScatterGatherListDestroy D s ts).1.mem } := by
  unfold lsilogicScatterGatherListDestroy
  dsimp only
  split <;> rfl

/-- What the first steps of `lsilogicDeviceSCSIRequestCompleted` leave alone:
the state, the fault code, the rings and their cursors, the reply frame size and
the high address of the reply frames. -/
theorem scsiRequestReleased_frame (D : MptDefs) (s : LSILOGICSCSI) (ts : LSILOGICTASKSTATE) :
    (scsiRequestReleased D s ts).1.enmState = s.enmState
      ∧ (scsiRequestReleased D s ts).1.u16IOCFaultCode = s.u16IOCFaultCode
      ∧ (scsiRequestReleased D s ts).1.fDoorbellInProgress = s.fDoorbellInProgress
      ∧ (scsiRequestReleased D s ts).1.pReplyFreeQueueBase = s.pReplyFreeQueueBase
      ∧ (scsiRequestReleased D s ts).1.uReplyFreeQueueNextAddressRead
          = s.uReplyFreeQueueNextAddressRead
      ∧ (scsiRequestReleased D s ts).1.pReplyPostQueueBase = s.pReplyPostQueueBase
      ∧ (scsiRequestReleased D s ts).1.uReplyPostQueueNextEntryFreeWrite
          = s.uReplyPostQueueNextEntryFreeWrite
      ∧ (scsiRequestReleased D s ts).1.cReplyQueueEntries = s.cReplyQueueEntries
      ∧ (scsiRequestReleased D s ts).1.cbReplyFrame = s.cbReplyFrame
      ∧ (scsiRequestReleased D s ts).1.u32HostMFAHighAddr = s.u32HostMFAHighAddr
      ∧ (scsiRequestReleased D s ts).1.uInterruptStatus = s.uInterruptStatus := by
  unfold scsiRequestReleased
  dsimp only
  rw [scatterGatherListDestroy_frame]
  cases ts.pTargetDevice <;> exact ⟨rfl, rfl, rfl, rfl, rfl, rfl, rfl, rfl, rfl, rfl, rfl⟩

/-- The function `lsilogicDeviceSCSIRequestCompleted` for a request that is not a
BIOS request, by the completion status. -/
theorem deviceSCSIRequestCompleted_eq (D : MptDefs) (s : LSILOGICSCSI) (ts : LSILOGICTASKSTATE)
    (rc : Nat) (hbios : ts.fBIOS = false) :
    lsilogicDeviceSCSIRequestCompleted D s ts rc
      = if rc = D.SCSI_STATUS_OK then
          RTCacheInsert
            (lsilogicFinishContextReply (scsiRequestReleased D s ts).1
              (D.decodeRequest ts.GuestRequest).u32MessageContext)
            (scsiRequestReleased D s ts).2
        else
          RTCacheInsert
            (lsilogicFinishAddressReply D (scsiRequestReleased D s ts).1
              (scsiCompletionErrorReply D (D.decodeRequest ts.GuestRequest) rc) true)
            { (scsiRequestReleased D s ts).2 with
              IOCReply := scsiCompletionErrorReply D (D.decodeRequest ts.GuestRequest) rc } := by
  unfold lsilogicDeviceSCSIRequestCompleted scsiRequestReleased scsiCompletionErrorReply
  simp only [hbios, Bool.false_eq_true, if_false]

/-- Putting a task state into the task cache changes the task cache only. -/
theorem rtCacheInsert_frame (x : LSILOGICSCSI) (t : LSILOGICTASKSTATE) :
    (RTCacheInsert x t).enmState = x.enmState
      ∧ (RTCacheInsert x t).u16IOCFaultCode = x.u16IOCFaultCode
      ∧ (RTCacheInsert x t).pReplyPostQueueBase = x.pReplyPostQueueBase
      ∧ (RTCacheInsert x t).uReplyFreeQueueNextAddressRead = x.uReplyFreeQueueNextAddressRead
      ∧ (RTCacheInsert x t).mem = x.mem :=
  ⟨rfl, rfl, rfl, rfl, rfl⟩

/-- A context reply takes no reply frame and writes no guest memory. -/
theorem finishContextReply_env (x : LSILOGICSCSI) (c : Nat) :
    (lsilogicFinishContextReply x c).uReplyFreeQueueNextAddressRead
        = x.uReplyFreeQueueNextAddressRead
      ∧ (lsilogicFinishContextReply x c).mem = x.mem :=
  ⟨rfl, rfl⟩

/-- C15 (backend I/O failure): when `lsilogicDeviceSCSIRequestCompleted` is
called for a request that is not a BIOS request with `rcCompletion !=
SCSI_STATUS_OK`, the guest receives an address reply: the reply, whose
`u8SCSIStatus` is `rcCompletion`, `u8SCSIState` is `AUTOSENSE_VALID`,
`u16IOCStatus` is 0, `u32SenseCount` is 18 and message context is the
request's, is finished with `lsilogicFinishAddressReply` through the reply FIFO,
so its first `min(cbReplyFrame, sizeof(MptReplyUnion))` bytes stand in the reply
frame taken from the reply-free ring and the tagged frame address is posted;
`enmState` and `u16IOCFaultCode` are unchanged.  When `rcCompletion ==
SCSI_STATUS_OK` only the message context is posted to the reply-post ring: no
reply frame is taken.  `rcCompletion` is a SCSI status byte. -/
theorem C15_backend_io_failure (D : MptDefs) (s : LSILOGICSCSI) (ts : LSILOGICTASKSTATE)
    (rcCompletion : Nat) (hbios : ts.fBIOS = false) (hrc : rcCompletion < 256) :
    (rcCompletion ≠ D.SCSI_STATUS_OK →
      ∃ reply : MptReplyUnion,
        lsilogicDeviceSCSIRequestCompleted D s ts rcCompletion
            = RTCacheInsert
                (lsilogicFinishAddressReply D (scsiRequestReleased D s ts).1 reply true)
                { (scsiRequestReleased D s ts).2 with IOCReply := reply }
          ∧ reply.SCSIIOError_u8SCSIStatus = rcCompletion
          ∧ reply.SCSIIOError_u8SCSIState = D.MPT_SCSI_IO_ERROR_SCSI_STATE_AUTOSENSE_VALID
          ∧ reply.SCSIIOError_u16IOCStatus = 0
          ∧ reply.SCSIIOError_u32SenseCount = 18
          ∧ reply.u32MessageContext = (D.decodeRequest ts.GuestRequest).u32MessageContext
          ∧ (lsilogicDeviceSCSIRequestCompleted D s ts rcCompletion).pReplyPostQueueBase
              = writeSlot s.pReplyPostQueueBase s.uReplyPostQueueNextEntryFreeWrite
                  (RT_BIT 31 ||| (s.pReplyFreeQueueBase s.uReplyFreeQueueNextAddressRead >>> 1))
          ∧ (lsilogicDeviceSCSIRequestCompleted D s ts rcCompletion
              ).uReplyFreeQueueNextAddressRead
              = u32 (s.uReplyFreeQueueNextAddressRead + 1) % s.cReplyQueueEntries
          ∧ (∀ i, i < min s.cbReplyFrame D.sizeof_MptReplyUnion →
              (lsilogicDeviceSCSIRequestCompleted D s ts rcCompletion).mem
                  (LSILOGIC_RTGCPHYS_FROM_U32 s.u32HostMFAHighAddr
                    (s.pReplyFreeQueueBase s.uReplyFreeQueueNextAddressRead) + i)
                = D.abReply reply i))
      ∧ (rcCompletion = D.SCSI_STATUS_OK →
          lsilogicDeviceSCSIRequestCompleted D s ts rcCompletion
              = RTCacheInsert
                  (lsilogicFinishContextReply (scsiRequestReleased D s ts).1
                    (D.decodeRequest ts.GuestRequest).u32MessageContext)
                  (scsiRequestReleased D s ts).2
            ∧ (lsilogicDeviceSCSIRequestCompleted D s ts rcCompletion).pReplyPostQueueBase
                = writeSlot s.pReplyPostQueueBase s.uReplyPostQueueNextEntryFreeWrite
                    (D.decodeRequest ts.GuestRequest).u32MessageContext
            ∧ (lsilogicDeviceSCSIRequestCompleted D s ts rcCompletion
                ).uReplyFreeQueueNextAddressRead = s.uReplyFreeQueueNextAddressRead
            ∧ (lsilogicDeviceSCSIRequestCompleted D s ts rcCompletion).mem
                = (scsiRequestReleased D s ts).1.mem)
      ∧ (lsilogicDeviceSCSIRequestCompleted D s ts rcCompletion).enmState = s.enmState
      ∧ (lsilogicDeviceSCSIRequestCompleted D s ts rcCompletion).u16IOCFaultCode
          = s.u16IOCFaultCode := by
  obtain ⟨r1, r2, -, r4, r5, r6, r7, r8, r9, r10, -⟩ := scsiRequestReleased_frame D s ts
  have heq := deviceSCSIRequestCompleted_eq D s ts rcCompletion hbios
  refine ⟨fun hne => ?_, fun hok => ?_, ?_, ?_⟩
  · rw [if_neg hne] at heq
    obtain ⟨f1, -, f3, f4, -⟩ := finishAddressReply_fifo D (scsiRequestReleased D s ts).1
      (scsiCompletionErrorReply D (D.decodeRequest ts.GuestRequest) rcCompletion) true
      (by simp)
    refine ⟨_, heq, Nat.mod_eq_of_lt hrc, rfl, rfl, rfl, rfl, ?_, ?_, ?_⟩
    · rw [heq, (rtCacheInsert_frame _ _).2.2.1, f4, r4, r5, r6, r7]
    · rw [heq, (rtCacheInsert_frame _ _).2.2.2.1, f1, r5, r8]
    · intro i hi
      rw [heq, (rtCacheInsert_frame _ _).2.2.2.2, f3, r4, r5, r9, r10]
      have hi' : i < (if s.cbReplyFrame < D.sizeof_MptReplyUnion then s.cbReplyFrame
          else D.sizeof_MptReplyUnion) := by
        rw [Nat.min_def] at hi
        split_ifs at hi ⊢ <;> omega
      unfold physWrite
      rw [if_pos ⟨Nat.le_add_right _ _, by omega⟩, Nat.add_sub_cancel_left]
  · rw [if_pos hok] at heq
    refine ⟨heq, ?_, ?_, ?_⟩
    · rw [heq, (rtCacheInsert_frame _ _).2.2.1, finishContextReply_base, r6, r7]
    · rw [heq, (rtCacheInsert_frame _ _).2.2.2.1, (finishContextReply_env _ _).1, r5]
    · rw [heq, (rtCacheInsert_frame _ _).2.2.2.2, (finishContextReply_env _ _).2]
  · rw [heq]
    split_ifs
    · rw [(rtCacheInsert_frame _ _).1, finishContextReply_state, r1]
    · rw [(rtCacheInsert_frame _ _).1, (finishAddressReply_frame D _ _ true).1, r1]
  · rw [heq]
    split_ifs
    · rw [(rtCacheInsert_frame _ _).2.1, finishContextReply_fault, r2]
    · rw [(rtCacheInsert_frame _ _).2.1, (finishAddressReply_frame D _ _ true).2.1, r2]

/-- C15, evaluated: the request of `exCompletedTask` completed on the
Operational device `exOperational` with status 2 (check condition) and with
status 0. -/
theorem C15_backend_io_failure_witness :
    (exCompletedTask.fBIOS = false ∧ 2 < 256 ∧ 2 ≠ mptDefs.SCSI_STATUS_OK
      ∧ exOperational.enmState = LSILOGICSTATE.OPERATIONAL)
    ∧ ((lsilogicDeviceSCSIRequestCompleted mptDefs exOperational exCompletedTask 2).enmState
          = exOperational.enmState
      ∧ (lsilogicDeviceSCSIRequestCompleted mptDefs exOperational exCompletedTask 2
          ).u16IOCFaultCode = exOperational.u16IOCFaultCode)
    ∧ (physRead (lsilogicDeviceSCSIRequestCompleted mptDefs exOperational exCompletedTask 2).mem
          0x2100 16
        = [3, 0, 8, 0, 6, 18, 0, 0, 0x78, 0x56, 0x34, 0x12, 2, 1, 0, 0]
      ∧ (lsilogicDeviceSCSIRequestCompleted mptDefs exOperational exCompletedTask 2
          ).pReplyPostQueueBase 1 = 0x80001080
      ∧ (lsilogicDeviceSCSIRequestCompleted mptDefs exOperational exCompletedTask 0
          ).pReplyPostQueueBase 1 = 0x12345678
      ∧ physRead (lsilogicDeviceSCSIRequestCompleted mptDefs exOperational exCompletedTask 0).mem
          0x2100 16 = [0, 0, 0, 0, 0, 0, 0, 0, 0, 0, 0, 0, 0, 0, 0, 0]) :=
  ⟨by decide,
   (C15_backend_io_failure mptDefs exOperational exCompletedTask 2 (by decide) (by decide)).2.2,
   by decide⟩

end LsiLogic


namespace LsiLogic

/-! ## Messages with a function code that has no case label -/

/-- The `switch` of `lsilogicProcessMessageRequest` on a function code of the
`default` label: device state and cleared reply pass through. -/
theorem processMessageSwitch_default (D : MptDefs) (s : LSILOGICSCSI) (req : MptRequestUnion)
    (hfn : req.u8Function ∉ handledFunctions D) :
    lsilogicProcessMessageSwitch D s req
      = { pLsiLogic := s, pReply := MptReplyUnion.zero, rc := VINF_SUCCESS,
          fForceReplyPostFifo := false } := by
  simp only [handledFunctions, List.mem_cons, List.mem_singleton, not_or, List.not_mem_nil,
    or_false] at hfn
  obtain ⟨h1, h2, h3, h4, h5, h6, h7, h8⟩ := hfn
  simp only [lsilogicProcessMessageSwitch, h1, h2, h3, h4, h5, h6, h7, h8, if_false]

/-- A message with a function code of the `default` label: the reply is the
cleared reply with the function code and the message context of the request,
delivered as an address reply without forcing the reply FIFO. -/
theorem processMessageRequest_default (D : MptDefs) (s : LSILOGICSCSI) (req : MptRequestUnion)
    (hfn : req.u8Function ∉ handledFunctions D) :
    lsilogicProcessMessageRequest D s req
      = (lsilogicFinishAddressReply D s
          { MptReplyUnion.zero with
            u8Function := req.u8Function
            u32MessageContext := req.u32MessageContext } false,
         { MptReplyUnion.zero with
            u8Function := req.u8Function
            u32MessageContext := req.u32MessageContext }, VINF_SUCCESS) := by
  unfold lsilogicProcessMessageRequest
  rw [processMessageSwitch_default D s req hfn]

/-- C20, refuted on the code: the handshake `exUnknownWrites` completes a
message with the function code 0x7F, which has no case label; after its last
dword the device is still in the Ready state with the fault code 0.  The same
function code in a frame on the request ring (`exDrainDevice 0x7F`) makes
`lsilogicNotifyQueueConsumer` latch `INVALID_FUNCTION` and enter the Fault
state. -/
theorem C20_unknown_function_counterexample :
    exUnknownHandshake.fDoorbellInProgress = true
      ∧ u32 (exUnknownHandshake.iMessage + 1) = exUnknownHandshake.cMessage
      ∧ (mptDefs.decodeRequest (aMessageBytes
            (writeSlot exUnknownHandshake.aMessage exUnknownHandshake.iMessage
              (u32 0xAABBCCDD)))).u8Function = 0x7F
      ∧ 0x7F ∉ mptDefs.MPT_MESSAGE_HDR_FUNCTION_SCSI_IO_REQUEST :: handledFunctions mptDefs
      ∧ ¬ ((lsilogicRegisterWrite mptDefs exUnknownHandshake LSILOGIC_REG_DOORBELL
              0xAABBCCDD).u16IOCFaultCode = LSILOGIC_IOCSTATUS_INVALID_FUNCTION)
      ∧ ¬ ((lsilogicRegisterWrite mptDefs exUnknownHandshake LSILOGIC_REG_DOORBELL
              0xAABBCCDD).enmState = LSILOGICSTATE.FAULT)
      ∧ (lsilogicRegisterWrite mptDefs exUnknownHandshake LSILOGIC_REG_DOORBELL
              0xAABBCCDD).enmState = LSILOGICSTATE.READY
      ∧ (lsilogicRegisterWrite mptDefs exUnknownHandshake LSILOGIC_REG_DOORBELL
              0xAABBCCDD).u16IOCFaultCode = 0
      ∧ (lsilogicNotifyQueueConsumer mptDefs (fun _ => true) 2 (exDrainDevice 0x7F)).map
          (fun t => (t.enmState, t.u16IOCFaultCode))
          = some (LSILOGICSTATE.FAULT, LSILOGIC_IOCSTATUS_INVALID_FUNCTION) := by
  decide

/-- The last dword of a handshake whose message carries a function code of the
`default` label: nothing is latched, `u16IOCFaultCode` and `enmState` are as
before; the cleared reply with the echoed function code and message context is
staged for the Doorbell register with a size of zero words. -/
theorem registerWrite_doorbell_default (D : MptDefs) (s : LSILOGICSCSI) (v : Nat)
    (hf : s.fDoorbellInProgress = true)
    (hlast : u32 (s.iMessage + 1) = s.cMessage)
    (hfn : (D.decodeRequest (aMessageBytes (writeSlot s.aMessage s.iMessage (u32 v)))).u8Function
      ∉ handledFunctions D) :
    (lsilogicRegisterWrite D s LSILOGIC_REG_DOORBELL v).u16IOCFaultCode = s.u16IOCFaultCode
      ∧ (lsilogicRegisterWrite D s LSILOGIC_REG_DOORBELL v).enmState = s.enmState
      ∧ (lsilogicRegisterWrite D s LSILOGIC_REG_DOORBELL v).ReplyBuffer
          = { MptReplyUnion.zero with
              u8Function := (D.decodeRequest
                (aMessageBytes (writeSlot s.aMessage s.iMessage (u32 v)))).u8Function
              u32MessageContext := (D.decodeRequest
                (aMessageBytes (writeSlot s.aMessage s.iMessage (u32 v)))).u32MessageContext }
      ∧ (lsilogicRegisterWrite D s LSILOGIC_REG_DOORBELL v).cReplySize = 0
      ∧ (lsilogicRegisterWrite D s LSILOGIC_REG_DOORBELL v).fDoorbellInProgress = true := by
  rw [registerWrite_doorbell_complete D s v hf hlast, processMessageRequest_default D _ _ hfn]
  obtain ⟨f1, f2, -⟩ := finishAddressReply_frame D
    { s with
      aMessage := writeSlot s.aMessage s.iMessage (u32 v)
      iMessage := u32 (s.iMessage + 1) }
    { MptReplyUnion.zero with
      u8Function := (D.decodeRequest
        (aMessageBytes (writeSlot s.aMessage s.iMessage (u32 v)))).u8Function
      u32MessageContext := (D.decodeRequest
        (aMessageBytes (writeSlot s.aMessage s.iMessage (u32 v)))).u32MessageContext } false
  obtain ⟨d1, -, -, d4, -, -⟩ := finishAddressReply_doorbell D
    { s with
      aMessage := writeSlot s.aMessage s.iMessage (u32 v)
      iMessage := u32 (s.iMessage + 1) }
    { MptReplyUnion.zero with
      u8Function := (D.decodeRequest
        (aMessageBytes (writeSlot s.aMessage s.iMessage (u32 v)))).u8Function
      u32MessageContext := (D.decodeRequest
        (aMessageBytes (writeSlot s.aMessage s.iMessage (u32 v)))).u32MessageContext } hf
  exact ⟨f2, f1, rfl, d1, d4⟩

end LsiLogic


namespace LsiLogic

/-! ## Configuration requests -/

/-- A configuration request whose page lookup fails. -/
theorem processConfigurationRequest_notFound (D : MptDefs) (s : LSILOGICSCSI)
    (req : MptRequestUnion) (r : MptReplyUnion) (h : configurationRequestPage D req = none) :
    lsilogicProcessConfigurationRequest D s req r
      = (s, { r with
              u8MessageLength := 6
              Configuration_u8Action := req.Configuration_u8Action
              u8Function := req.u8Function
              u32MessageContext := req.u32MessageContext
              Configuration_u8PageType := req.Configuration_u8PageType
              Configuration_u8PageNumber := req.Configuration_u8PageNumber
              Configuration_u8PageLength := req.Configuration_u8PageLength
              Configuration_u8PageVersion := req.Configuration_u8PageVersion }, VINF_SUCCESS) := by
  unfold configurationRequestPage at h
  dsimp only at h
  unfold lsilogicProcessConfigurationRequest
  dsimp only
  rw [h]

/-- The device state a configuration request leaves behind when its page
lookup succeeds. -/
theorem processConfigurationRequest_found (D : MptDefs) (s : LSILOGICSCSI)
    (req : MptRequestUnion) (r : MptReplyUnion) (page : ConfigPage)
    (h : configurationRequestPage D req = some page) :
    (lsilogicProcessConfigurationRequest D s req r).1
      = (if req.Configuration_u8Action = D.MPT_CONFIGURATION_REQUEST_ACTION_DEFAULT
              ∨ req.Configuration_u8Action = D.MPT_CONFIGURATION_REQUEST_ACTION_HEADER then
            s
          else if req.Configuration_u8Action = D.MPT_CONFIGURATION_REQUEST_ACTION_READ_NVRAM
              ∨ req.Configuration_u8Action = D.MPT_CONFIGURATION_REQUEST_ACTION_READ_CURRENT
              ∨ req.Configuration_u8Action = D.MPT_CONFIGURATION_REQUEST_ACTION_READ_DEFAULT then
            if req.Configuration_SimpleSGElement.u24Length ≠ 0 then
              { s with
                mem := physWrite s.mem (sgEntryAddress req.Configuration_SimpleSGElement)
                  (fun i => s.ConfigurationPages (pageDataAddr D page + i))
                  (configurationRequestCopySize D req page) }
            else s
          else if req.Configuration_u8Action = D.MPT_CONFIGURATION_REQUEST_ACTION_WRITE_CURRENT
              ∨ req.Configuration_u8Action = D.MPT_CONFIGURATION_REQUEST_ACTION_WRITE_NVRAM then
            if req.Configuration_SimpleSGElement.u24Length ≠ 0 then
              { s with
                ConfigurationPages := fun a =>
                  if pageDataAddr D page ≤ a
                      ∧ a < pageDataAddr D page + configurationRequestCopySize D req page then
                    s.mem (sgEntryAddress req.Configuration_SimpleSGElement
                      + (a - pageDataAddr D page))
                  else
                    s.ConfigurationPages a }
            else s
          else s)
      ∧ (lsilogicProcessConfigurationRequest D s req r).2.2 = VINF_SUCCESS := by
  unfold configurationRequestPage at h
  dsimp only at h
  unfold lsilogicProcessConfigurationRequest configurationRequestCopySize
  dsimp only
  rw [h]
  dsimp only
  split_ifs <;> exact ⟨rfl, rfl⟩

/-- The transfer size is the minimum of the element length and the page size. -/
theorem configurationRequestCopySize_eq (D : MptDefs) (req : MptRequestUnion) (page : ConfigPage) :
    configurationRequestCopySize D req page
      = min req.Configuration_SimpleSGElement.u24Length (D.sizeofPage page) := by
  unfold configurationRequestCopySize
  rw [Nat.min_def]
  split_ifs <;> omega

/-- The three read actions on a found page. -/
theorem processConfigurationRequest_read (D : MptDefs) (s : LSILOGICSCSI)
    (req : MptRequestUnion) (r : MptReplyUnion) (page : ConfigPage)
    (hcases : (configurationRequestActions D).Nodup)
    (h : configurationRequestPage D req = some page)
    (hact : req.Configuration_u8Action = D.MPT_CONFIGURATION_REQUEST_ACTION_READ_CURRENT
      ∨ req.Configuration_u8Action = D.MPT_CONFIGURATION_REQUEST_ACTION_READ_DEFAULT
      ∨ req.Configuration_u8Action = D.MPT_CONFIGURATION_REQUEST_ACTION_READ_NVRAM)
    (hlen : req.Configuration_SimpleSGElement.u24Length ≠ 0) :
    (lsilogicProcessConfigurationRequest D s req r).1
      = { s with
          mem := physWrite s.mem (sgEntryAddress req.Configuration_SimpleSGElement)
            (fun i => s.ConfigurationPages (pageDataAddr D page + i))
            (min req.Configuration_SimpleSGElement.u24Length (D.sizeofPage page)) } := by
  rw [(processConfigurationRequest_found D s req r page h).1,
    configurationRequestCopySize_eq]
  simp only [configurationRequestActions, List.nodup_cons, List.mem_cons, List.mem_singleton,
    not_or, List.not_mem_nil, or_false, List.nodup_nil, and_true] at hcases
  obtain ⟨⟨-, d2, d3, d4, -, -⟩, ⟨e2, e3, e4, -, -⟩, -⟩ := hcases
  have n1 : ¬ (req.Configuration_u8Action = D.MPT_CONFIGURATION_REQUEST_ACTION_DEFAULT
      ∨ req.Configuration_u8Action = D.MPT_CONFIGURATION_REQUEST_ACTION_HEADER) := by
    rcases hact with a | a | a <;> rw [a] <;> rintro (b | b)
    · exact d3 b.symm
    · exact e3 b.symm
    · exact d4 b.symm
    · exact e4 b.symm
    · exact d2 b.symm
    · exact e2 b.symm
  have n2 : req.Configuration_u8Action = D.MPT_CONFIGURATION_REQUEST_ACTION_READ_NVRAM
      ∨ req.Configuration_u8Action = D.MPT_CONFIGURATION_REQUEST_ACTION_READ_CURRENT
      ∨ req.Configuration_u8Action = D.MPT_CONFIGURATION_REQUEST_ACTION_READ_DEFAULT := by
    rcases hact with a | a | a
    · exact Or.inr (Or.inl a)
    · exact Or.inr (Or.inr a)
    · exact Or.inl a
  rw [if_neg n1, if_pos n2, if_pos hlen]

/-- The two write actions on a found page. -/
theorem processConfigurationRequest_write (D : MptDefs) (s : LSILOGICSCSI)
    (req : MptRequestUnion) (r : MptReplyUnion) (page : ConfigPage)
    (hcases : (configurationRequestActions D).Nodup)
    (h : configurationRequestPage D req = some page)
    (hact : req.Configuration_u8Action = D.MPT_CONFIGURATION_REQUEST_ACTION_WRITE_CURRENT
      ∨ req.Configuration_u8Action = D.MPT_CONFIGURATION_REQUEST_ACTION_WRITE_NVRAM)
    (hlen : req.Configuration_SimpleSGElement.u24Length ≠ 0) :
    (lsilogicProcessConfigurationRequest D s req r).1
      = { s with
          ConfigurationPages := fun a =>
            if pageDataAddr D page ≤ a
                ∧ a < pageDataAddr D page
                    + min req.Configuration_SimpleSGElement.u24Length (D.sizeofPage page) then
              s.mem (sgEntryAddress req.Configuration_SimpleSGElement + (a - pageDataAddr D page))
            else
              s.ConfigurationPages a } := by
  rw [(processConfigurationRequest_found D s req r page h).1,
    configurationRequestCopySize_eq]
  simp only [configurationRequestActions, List.nodup_cons, List.mem_cons, List.mem_singleton,
    not_or, List.not_mem_nil, or_false, List.nodup_nil, and_true] at hcases
  obtain ⟨⟨-, -, -, -, d5, d6⟩, ⟨-, -, -, e5, e6⟩, ⟨-, -, f5, f6⟩, ⟨-, g5, g6⟩, ⟨k5, k6⟩, -⟩ :=
    hcases
  have n1 : ¬ (req.Configuration_u8Action = D.MPT_CONFIGURATION_REQUEST_ACTION_DEFAULT
      ∨ req.Configuration_u8Action = D.MPT_CONFIGURATION_REQUEST_ACTION_HEADER) := by
    rcases hact with a | a <;> rw [a] <;> rintro (b | b)
    · exact d5 b.symm
    · exact e5 b.symm
    · exact d6 b.symm
    · exact e6 b.symm
  have n2 : ¬ (req.Configuration_u8Action = D.MPT_CONFIGURATION_REQUEST_ACTION_READ_NVRAM
      ∨ req.Configuration_u8Action = D.MPT_CONFIGURATION_REQUEST_ACTION_READ_CURRENT
      ∨ req.Configuration_u8Action = D.MPT_CONFIGURATION_REQUEST_ACTION_READ_DEFAULT) := by
    rcases hact with a | a <;> rw [a] <;> rintro (b | b | b)
    · exact f5 b.symm
    · exact g5 b.symm
    · exact k5 b.symm
    · exact f6 b.symm
    · exact g6 b.symm
    · exact k6 b.symm
  rw [if_neg n1, if_neg n2, if_pos hact, if_pos hlen]

/-- A configuration request with an element of length zero, or with the
action HEADER or DEFAULT, leaves the device state as it is. -/
theorem processConfigurationRequest_noop (D : MptDefs) (s : LSILOGICSCSI)
    (req : MptRequestUnion) (r : MptReplyUnion)
    (hno : req.Configuration_SimpleSGElement.u24Length = 0
      ∨ req.Configuration_u8Action = D.MPT_CONFIGURATION_REQUEST_ACTION_HEADER
      ∨ req.Configuration_u8Action = D.MPT_CONFIGURATION_REQUEST_ACTION_DEFAULT) :
    (lsilogicProcessConfigurationRequest D s req r).1 = s := by
  cases h : configurationRequestPage D req with
  | none => rw [processConfigurationRequest_notFound D s req r h]
  | some page =>
    rw [(processConfigurationRequest_found D s req r page h).1]
    rcases hno with a | a | a
    · simp only [a, ne_eq, not_true_eq_false, if_false, ite_self]
    · rw [if_pos (Or.inr a)]
    · rw [if_pos (Or.inl a)]

end LsiLogic


namespace LsiLogic

set_option maxRecDepth 100000

/-- C17, refuted as stated: a configuration request for the page type 0x0F,
which no lookup function serves, with page number 7, page length 3 and page
version 2, is answered with success and with these four values in the reply,
not with zeroes. -/
theorem C17_config_unregistered_page_counterexample :
    configurationRequestPage mptDefs (exConfigReq 0 0x0F 7 0 0) = none
      ∧ (lsilogicProcessConfigurationRequest mptDefs exReady (exConfigReq 0 0x0F 7 0 0)
          MptReplyUnion.zero).2.2 = VINF_SUCCESS
      ∧ ¬ ((lsilogicProcessConfigurationRequest mptDefs exReady (exConfigReq 0 0x0F 7 0 0)
              MptReplyUnion.zero).2.1.Configuration_u8PageType = 0
          ∧ (lsilogicProcessConfigurationRequest mptDefs exReady (exConfigReq 0 0x0F 7 0 0)
              MptReplyUnion.zero).2.1.Configuration_u8PageNumber = 0
          ∧ (lsilogicProcessConfigurationRequest mptDefs exReady (exConfigReq 0 0x0F 7 0 0)
              MptReplyUnion.zero).2.1.Configuration_u8PageLength = 0
          ∧ (lsilogicProcessConfigurationRequest mptDefs exReady (exConfigReq 0 0x0F 7 0 0)
              MptReplyUnion.zero).2.1.Configuration_u8PageVersion = 0)
      ∧ [(lsilogicProcessConfigurationRequest mptDefs exReady (exConfigReq 0 0x0F 7 0 0)
              MptReplyUnion.zero).2.1.Configuration_u8PageType,
         (lsilogicProcessConfigurationRequest mptDefs exReady (exConfigReq 0 0x0F 7 0 0)
              MptReplyUnion.zero).2.1.Configuration_u8PageNumber,
         (lsilogicProcessConfigurationRequest mptDefs exReady (exConfigReq 0 0x0F 7 0 0)
              MptReplyUnion.zero).2.1.Configuration_u8PageLength,
         (lsilogicProcessConfigurationRequest mptDefs exReady (exConfigReq 0 0x0F 7 0 0)
              MptReplyUnion.zero).2.1.Configuration_u8PageVersion] = [0x0F, 7, 3, 2] := by
  decide

/-- C17 as amended: for every configuration request whose (page type, page
number, index) is not found, `lsilogicProcessConfigurationRequest` returns
success (`VINF_SUCCESS`), leaves the device state alone, and the reply's
`u8PageType`, `u8PageNumber`, `u8PageLength` and `u8PageVersion` are the values
the request carried in those fields. -/
theorem C17_config_unregistered_page (D : MptDefs) (s : LSILOGICSCSI) (req : MptRequestUnion)
    (reply : MptReplyUnion) (hnone : configurationRequestPage D req = none) :
    (lsilogicProcessConfigurationRequest D s req reply).2.2 = VINF_SUCCESS
      ∧ (lsilogicProcessConfigurationRequest D s req reply).1 = s
      ∧ (lsilogicProcessConfigurationRequest D s req reply).2.1.Configuration_u8PageType
          = req.Configuration_u8PageType
      ∧ (lsilogicProcessConfigurationRequest D s req reply).2.1.Configuration_u8PageNumber
          = req.Configuration_u8PageNumber
      ∧ (lsilogicProcessConfigurationRequest D s req reply).2.1.Configuration_u8PageLength
          = req.Configuration_u8PageLength
      ∧ (lsilogicProcessConfigurationRequest D s req reply).2.1.Configuration_u8PageVersion
          = req.Configuration_u8PageVersion := by
  rw [processConfigurationRequest_notFound D s req reply hnone]
  exact ⟨rfl, rfl, rfl, rfl, rfl, rfl⟩

/-- C17 as amended, evaluated on a request for page 9 of the I/O unit pages,
of which there are four. -/
theorem C17_config_unregistered_page_witness :
    configurationRequestPage mptDefs (exConfigReq 1 0x00 9 4 0x6000) = none
      ∧ (lsilogicProcessConfigurationRequest mptDefs exConfigDevice
          (exConfigReq 1 0x00 9 4 0x6000) MptReplyUnion.zero).2.2 = VINF_SUCCESS
      ∧ (lsilogicProcessConfigurationRequest mptDefs exConfigDevice
          (exConfigReq 1 0x00 9 4 0x6000) MptReplyUnion.zero).2.1.Configuration_u8PageNumber
          = 9 :=
  have h := C17_config_unregistered_page mptDefs exConfigDevice (exConfigReq 1 0x00 9 4 0x6000)
    MptReplyUnion.zero (by decide)
  ⟨by decide, h.1, h.2.2.2.1.trans (by decide)⟩

/-- C18: for a found page with data pointer `pageDataAddr` and size `cbPage`, and
a request whose simple element has length `L > 0`, a READ_CURRENT, READ_DEFAULT
or READ_NVRAM action writes exactly the first `min(L, cbPage)` bytes of the page
to the guest buffer address and nothing beyond; a WRITE_CURRENT or WRITE_NVRAM
action replaces exactly the first `min(L, cbPage)` bytes of the page with the
bytes of the guest buffer; with `L = 0`, and for the HEADER action, neither
guest memory nor the page store is modified.  Consequently a write of
`L <= cbPage` bytes followed by a read of `L` bytes returns the bytes written. -/
theorem C18_config_read_write_truncation (D : MptDefs) (s : LSILOGICSCSI)
    (req : MptRequestUnion) (reply : MptReplyUnion) (page : ConfigPage)
    (hcases : (configurationRequestActions D).Nodup)
    (hfound : configurationRequestPage D req = some page) :
    ((req.Configuration_u8Action = D.MPT_CONFIGURATION_REQUEST_ACTION_READ_CURRENT
          ∨ req.Configuration_u8Action = D.MPT_CONFIGURATION_REQUEST_ACTION_READ_DEFAULT
          ∨ req.Configuration_u8Action = D.MPT_CONFIGURATION_REQUEST_ACTION_READ_NVRAM) →
        0 < req.Configuration_SimpleSGElement.u24Length →
        (∀ i, i < min req.Configuration_SimpleSGElement.u24Length (D.sizeofPage page) →
            (lsilogicProcessConfigurationRequest D s req reply).1.mem
                (sgEntryAddress req.Configuration_SimpleSGElement + i)
              = s.ConfigurationPages (pageDataAddr D page + i))
          ∧ (∀ a, ¬ (sgEntryAddress req.Configuration_SimpleSGElement ≤ a
                ∧ a < sgEntryAddress req.Configuration_SimpleSGElement
                    + min req.Configuration_SimpleSGElement.u24Length (D.sizeofPage page)) →
              (lsilogicProcessConfigurationRequest D s req reply).1.mem a = s.mem a)
          ∧ (lsilogicProcessConfigurationRequest D s req reply).1.ConfigurationPages
              = s.ConfigurationPages)
      ∧ ((req.Configuration_u8Action = D.MPT_CONFIGURATION_REQUEST_ACTION_WRITE_CURRENT
            ∨ req.Configuration_u8Action = D.MPT_CONFIGURATION_REQUEST_ACTION_WRITE_NVRAM) →
          0 < req.Configuration_SimpleSGElement.u24Length →
          (∀ i, i < min req.Configuration_SimpleSGElement.u24Length (D.sizeofPage page) →
              (lsilogicProcessConfigurationRequest D s req reply).1.ConfigurationPages
                  (pageDataAddr D page + i)
                = s.mem (sgEntryAddress req.Configuration_SimpleSGElement + i))
            ∧ (∀ a, ¬ (pageDataAddr D page ≤ a
                  ∧ a < pageDataAddr D page
                      + min req.Configuration_SimpleSGElement.u24Length (D.sizeofPage page)) →
                (lsilogicProcessConfigurationRequest D s req reply).1.ConfigurationPages a
                  = s.ConfigurationPages a)
            ∧ (lsilogicProcessConfigurationRequest D s req reply).1.mem = s.mem)
      ∧ ((req.Configuration_SimpleSGElement.u24Length = 0
            ∨ req.Configuration_u8Action = D.MPT_CONFIGURATION_REQUEST_ACTION_HEADER) →
          (lsilogicProcessConfigurationRequest D s req reply).1.mem = s.mem
            ∧ (lsilogicProcessConfigurationRequest D s req reply).1.ConfigurationPages
                = s.ConfigurationPages)
      ∧ ((req.Configuration_u8Action = D.MPT_CONFIGURATION_REQUEST_ACTION_WRITE_CURRENT
            ∨ req.Configuration_u8Action = D.MPT_CONFIGURATION_REQUEST_ACTION_WRITE_NVRAM) →
          req.Configuration_SimpleSGElement.u24Length ≤ D.sizeofPage page →
          ∀ (reqR : MptRequestUnion) (replyR : MptReplyUnion),
            configurationRequestPage D reqR = some page →
            (reqR.Configuration_u8Action = D.MPT_CONFIGURATION_REQUEST_ACTION_READ_CURRENT
              ∨ reqR.Configuration_u8Action = D.MPT_CONFIGURATION_REQUEST_ACTION_READ_DEFAULT
              ∨ reqR.Configuration_u8Action = D.MPT_CONFIGURATION_REQUEST_ACTION_READ_NVRAM) →
            reqR.Configuration_SimpleSGElement.u24Length
              = req.Configuration_SimpleSGElement.u24Length →
            ∀ i, i < req.Configuration_SimpleSGElement.u24Length →
              (lsilogicProcessConfigurationRequest D
                  (lsilogicProcessConfigurationRequest D s req reply).1 reqR replyR).1.mem
                  (sgEntryAddress reqR.Configuration_SimpleSGElement + i)
                = s.mem (sgEntryAddress req.Configuration_SimpleSGElement + i)) := by
  refine ⟨?_, ?_, ?_, ?_⟩
  · intro hact hlen
    rw [processConfigurationRequest_read D s req reply page hcases hfound hact (by omega)]
    refine ⟨fun i hi => ?_, fun a ha => ?_, rfl⟩
    · dsimp only
      unfold physWrite
      rw [if_pos (by omega), Nat.add_sub_cancel_left]
    · dsimp only
      unfold physWrite
      rw [if_neg ha]
  · intro hact hlen
    rw [processConfigurationRequest_write D s req reply page hcases hfound hact (by omega)]
    refine ⟨fun i hi => ?_, fun a ha => ?_, rfl⟩
    · dsimp only
      rw [if_pos (by omega), Nat.add_sub_cancel_left]
    · dsimp only
      rw [if_neg ha]
  · intro hno
    rw [processConfigurationRequest_noop D s req reply
      (hno.elim Or.inl (fun h => Or.inr (Or.inl h)))]
    exact ⟨rfl, rfl⟩
  · intro hact hle reqR replyR hfoundR hactR hlenR i hi
    have hpos : req.Configuration_SimpleSGElement.u24Length ≠ 0 := by omega
    rw [processConfigurationRequest_read D _ reqR replyR page hcases hfoundR hactR
      (by rw [hlenR]; exact hpos)]
    dsimp only
    unfold physWrite
    rw [if_pos (by rw [hlenR, Nat.min_eq_left hle]; omega), Nat.add_sub_cancel_left,
      processConfigurationRequest_write D s req reply page hcases hfound hact hpos]
    dsimp only
    rw [if_pos (by rw [Nat.min_eq_left hle]; omega), Nat.add_sub_cancel_left]

/-- C18, evaluated: eight bytes written from the guest address 0x6000 to IOC
page 1, which is 16 bytes long, and read back to the guest address 0x6100. -/
theorem C18_config_read_write_truncation_witness :
    ((configurationRequestActions mptDefs).Nodup
      ∧ configurationRequestPage mptDefs (exConfigReq 2 0x01 1 8 0x6000)
          = some ConfigPage.IOCPage1
      ∧ configurationRequestPage mptDefs (exConfigReq 1 0x01 1 8 0x6100)
          = some ConfigPage.IOCPage1)
    ∧ (∀ i, i < 8 →
        (lsilogicProcessConfigurationRequest mptDefs
            (lsilogicProcessConfigurationRequest mptDefs exConfigDevice
              (exConfigReq 2 0x01 1 8 0x6000) MptReplyUnion.zero).1
            (exConfigReq 1 0x01 1 8 0x6100) MptReplyUnion.zero).1.mem
            (sgEntryAddress (exConfigReq 1 0x01 1 8 0x6100).Configuration_SimpleSGElement + i)
          = exConfigDevice.mem
              (sgEntryAddress (exConfigReq 2 0x01 1 8 0x6000).Configuration_SimpleSGElement
                + i))
    ∧ sgEntryAddress (exConfigReq 1 0x01 1 8 0x6100).Configuration_SimpleSGElement = 0x6100
    ∧ (List.range 8).map (fun i => exConfigDevice.mem (0x6000 + i))
        = [0xA0, 0xA1, 0xA2, 0xA3, 0xA4, 0xA5, 0xA6, 0xA7] :=
  ⟨by decide,
   (C18_config_read_write_truncation mptDefs exConfigDevice (exConfigReq 2 0x01 1 8 0x6000)
      MptReplyUnion.zero ConfigPage.IOCPage1 (by decide) (by decide)).2.2.2
      (Or.inl (by decide)) (by decide) (exConfigReq 1 0x01 1 8 0x6100) MptReplyUnion.zero
      (by decide) (Or.inl (by decide)) (by decide),
   by decide, by decide⟩

/-- C19, refuted as stated: manufacturing page 0 carries the attribute
PERSISTENT_READONLY after a hard reset; a WRITE_CURRENT request of eight bytes
addressed to it replaces the first eight stored bytes of the page, header
included. -/
theorem C19_readonly_page_write_counterexample :
    configurationRequestPage mptDefs (exConfigReq 2 0x09 0 8 0x6000)
        = some ConfigPage.ManufacturingPage0
      ∧ (exConfigReq 2 0x09 0 8 0x6000).Configuration_u8Action
          = mptDefs.MPT_CONFIGURATION_REQUEST_ACTION_WRITE_CURRENT
      ∧ mptDefs.MPT_CONFIGURATION_PAGE_ATTRIBUTE_GET
            (getHeaderField mptDefs exConfigDevice.ConfigurationPages
              ConfigPage.ManufacturingPage0 HeaderField.u8PageType)
          = mptDefs.MPT_CONFIGURATION_PAGE_ATTRIBUTE_PERSISTENT_READONLY
      ∧ (List.range 4).map (fun i => exConfigDevice.ConfigurationPages
            (mptDefs.offPage ConfigPage.ManufacturingPage0 + i)) = [0, 19, 0, 0x39]
      ∧ (List.range 8).map (fun i => (lsilogicProcessConfigurationRequest mptDefs exConfigDevice
            (exConfigReq 2 0x09 0 8 0x6000) MptReplyUnion.zero).1.ConfigurationPages
            (mptDefs.offPage ConfigPage.ManufacturingPage0 + i))
          = [0xA0, 0xA1, 0xA2, 0xA3, 0xA4, 0xA5, 0xA6, 0xA7]
      ∧ ¬ (∀ i, i < 4 →
            (lsilogicProcessConfigurationRequest mptDefs exConfigDevice
              (exConfigReq 2 0x09 0 8 0x6000) MptReplyUnion.zero).1.ConfigurationPages
              (mptDefs.offPage ConfigPage.ManufacturingPage0 + i)
            = exConfigDevice.ConfigurationPages
                (mptDefs.offPage ConfigPage.ManufacturingPage0 + i)) := by
  decide

/-- C19 as amended: for every page whose header attribute is READONLY or
PERSISTENT_READONLY, a WRITE_CURRENT or WRITE_NVRAM configuration request
addressed to it leaves the page's stored bytes unchanged when its element
length `L` is 0; with `L > 0` it replaces the first `min(L, cbPage)` bytes at the
page's data pointer with the bytes of the guest buffer, and leaves every other
stored byte unchanged. -/
theorem C19_readonly_page_write (D : MptDefs) (s : LSILOGICSCSI) (req : MptRequestUnion)
    (reply : MptReplyUnion) (page : ConfigPage)
    (hcases : (configurationRequestActions D).Nodup)
    (hfound : configurationRequestPage D req = some page)
    (_hattr : D.MPT_CONFIGURATION_PAGE_ATTRIBUTE_GET
          (getHeaderField D s.ConfigurationPages page HeaderField.u8PageType)
        = D.MPT_CONFIGURATION_PAGE_ATTRIBUTE_READONLY
      ∨ D.MPT_CONFIGURATION_PAGE_ATTRIBUTE_GET
          (getHeaderField D s.ConfigurationPages page HeaderField.u8PageType)
        = D.MPT_CONFIGURATION_PAGE_ATTRIBUTE_PERSISTENT_READONLY)
    (hact : req.Configuration_u8Action = D.MPT_CONFIGURATION_REQUEST_ACTION_WRITE_CURRENT
      ∨ req.Configuration_u8Action = D.MPT_CONFIGURATION_REQUEST_ACTION_WRITE_NVRAM) :
    (req.Configuration_SimpleSGElement.u24Length = 0 →
        (lsilogicProcessConfigurationRequest D s req reply).1.ConfigurationPages
          = s.ConfigurationPages)
      ∧ (0 < req.Configuration_SimpleSGElement.u24Length →
          ∀ i, i < min req.Configuration_SimpleSGElement.u24Length (D.sizeofPage page) →
            (lsilogicProcessConfigurationRequest D s req reply).1.ConfigurationPages
                (pageDataAddr D page + i)
              = s.mem (sgEntryAddress req.Configuration_SimpleSGElement + i))
      ∧ (∀ a, ¬ (pageDataAddr D page ≤ a
            ∧ a < pageDataAddr D page
                + min req.Configuration_SimpleSGElement.u24Length (D.sizeofPage page)) →
          (lsilogicProcessConfigurationRequest D s req reply).1.ConfigurationPages a
            = s.ConfigurationPages a) := by
  have hzero : req.Configuration_SimpleSGElement.u24Length = 0 →
      (lsilogicProcessConfigurationRequest D s req reply).1 = s :=
    fun h => processConfigurationRequest_noop D s req reply (Or.inl h)
  refine ⟨fun h => by rw [hzero h], fun hlen i hi => ?_, fun a ha => ?_⟩
  · rw [processConfigurationRequest_write D s req reply page hcases hfound hact (by omega)]
    dsimp only
    rw [if_pos (by omega), Nat.add_sub_cancel_left]
  · by_cases hlen : req.Configuration_SimpleSGElement.u24Length = 0
    · rw [hzero hlen]
    · rw [processConfigurationRequest_write D s req reply page hcases hfound hact hlen]
      dsimp only
      rw [if_neg ha]

/-- C19 as amended, evaluated on a write of eight bytes to manufacturing page
0: the byte behind the eight is the one the hard reset stored. -/
theorem C19_readonly_page_write_witness :
    ((configurationRequestActions mptDefs).Nodup
      ∧ configurationRequestPage mptDefs (exConfigReq 2 0x09 0 8 0x6000)
          = some ConfigPage.ManufacturingPage0
      ∧ mptDefs.MPT_CONFIGURATION_PAGE_ATTRIBUTE_GET
            (getHeaderField mptDefs exConfigDevice.ConfigurationPages
              ConfigPage.ManufacturingPage0 HeaderField.u8PageType)
          = mptDefs.MPT_CONFIGURATION_PAGE_ATTRIBUTE_PERSISTENT_READONLY)
    ∧ (∀ i, i < min (exConfigReq 2 0x09 0 8 0x6000).Configuration_SimpleSGElement.u24Length
          (mptDefs.sizeofPage ConfigPage.ManufacturingPage0) →
        (lsilogicProcessConfigurationRequest mptDefs exConfigDevice
            (exConfigReq 2 0x09 0 8 0x6000) MptReplyUnion.zero).1.ConfigurationPages
            (pageDataAddr mptDefs ConfigPage.ManufacturingPage0 + i)
          = exConfigDevice.mem
              (sgEntryAddress (exConfigReq 2 0x09 0 8 0x6000).Configuration_SimpleSGElement
                + i))
    ∧ min (exConfigReq 2 0x09 0 8 0x6000).Configuration_SimpleSGElement.u24Length
        (mptDefs.sizeofPage ConfigPage.ManufacturingPage0) = 8 :=
  ⟨by decide,
   (C19_readonly_page_write mptDefs exConfigDevice (exConfigReq 2 0x09 0 8 0x6000)
      MptReplyUnion.zero ConfigPage.ManufacturingPage0 (by decide) (by decide)
      (Or.inr (by decide)) (Or.inl (by decide))).2.1 (by decide),
   by decide⟩

end LsiLogic


namespace LsiLogic

/-! ## The page store after a hard reset -/

/-- A byte read back from its eight bits. -/
theorem byte_of_bits (x : Nat) :
    ((List.range 8).map (fun k => (x >>> k) % 2 * 2 ^ k)).sum = x % 256 := by
  simp only [List.range, List.range.loop, List.map, List.sum_cons, List.sum_nil,
    Nat.shiftRight_eq_div_pow]
  norm_num
  omega

/-- An assignment of eight bits at a byte boundary stores the low byte of the
value. -/
theorem storeBits_byte (p : Nat → Nat) (a v : Nat) : storeBits p (8 * a) 8 v a = v % 256 := by
  unfold storeBits
  rw [← byte_of_bits v]
  congr 1
  apply List.map_congr_left
  intro k hk
  rw [List.mem_range] at hk
  rw [if_pos ⟨by omega, by omega⟩, Nat.add_sub_cancel_left]

/-- An assignment that reaches no bit of a byte leaves the low eight bits of
that byte alone. -/
theorem storeBits_other (p : Nat → Nat) (start width v a : Nat)
    (h : ¬ (start < 8 * a + 8 ∧ 8 * a < start + width)) :
    storeBits p start width v a = p a % 256 := by
  unfold storeBits
  rw [← byte_of_bits (p a)]
  congr 1
  apply List.map_congr_left
  intro k hk
  rw [List.mem_range] at hk
  rw [if_neg (by omega)]

/-- An assignment that does not touch a byte leaves its low eight bits alone. -/
theorem apply_not_touches (D : MptDefs) (p : Nat → Nat) (w : PageWrite) (a : Nat)
    (h : w.touches D a = false) : w.apply D p a % 256 = p a % 256 := by
  cases w with
  | header page f v =>
    simp only [PageWrite.touches, beq_eq_false_iff_ne, ne_eq] at h
    simp only [PageWrite.apply, setHeaderField]
    rw [storeBits_other _ _ _ _ _ (by omega), Nat.mod_mod]
  | field page f width v =>
    simp only [PageWrite.touches, Bool.and_eq_false_iff, decide_eq_false_iff_not] at h
    simp only [PageWrite.apply, setPageField]
    rw [storeBits_other _ _ _ _ _ (by omega), Nat.mod_mod]
  | chars page f src n =>
    simp only [PageWrite.touches, Bool.and_eq_false_iff, decide_eq_false_iff_not] at h
    simp only [PageWrite.apply, strncpy]
    rw [if_neg (by omega)]

/-- A run of assignments none of which touches a byte leaves its low eight
bits alone. -/
theorem foldl_apply_not_touches (D : MptDefs) (a : Nat) (ws : List PageWrite) :
    ∀ p : Nat → Nat, (ws.all (fun w => !w.touches D a)) = true →
      ws.foldl (PageWrite.apply D) p a % 256 = p a % 256 := by
  induction ws with
  | nil => intro p _; rfl
  | cons w ws ih =>
    intro p h
    simp only [List.all_cons, Bool.and_eq_true, Bool.not_eq_true'] at h
    rw [List.foldl_cons, ih _ h.2, apply_not_touches D p w a h.1]

/-- Under the layout condition the byte of a header field holds, after the
whole run, the value of its assignment. -/
theorem foldl_apply_header (D : MptDefs) (page : ConfigPage) (f : HeaderField) (v : Nat)
    (ws : List PageWrite) :
    ∀ p : Nat → Nat, headersKept D ws = true → PageWrite.header page f v ∈ ws →
      ws.foldl (PageWrite.apply D) p (pageHeaderAddr D page + D.offHeaderField f) % 256
        = v % 256 := by
  induction ws with
  | nil => intro p _ hm; cases hm
  | cons w ws ih =>
    intro p hk hm
    rw [List.foldl_cons]
    rcases List.mem_cons.mp hm with e | hm'
    · subst e
      simp only [headersKept, Bool.and_eq_true] at hk
      rw [foldl_apply_not_touches D _ ws _ hk.1]
      simp only [PageWrite.apply, setHeaderField]
      rw [storeBits_byte, Nat.mod_mod]
    · have hk' : headersKept D ws = true := by
        cases w with
        | header page' f' v' =>
          simp only [headersKept, Bool.and_eq_true] at hk
          exact hk.2
        | field page' f' width v' => simpa only [headersKept] using hk
        | chars page' f' src n => simpa only [headersKept] using hk
      exact ih _ hk' hm'

/-- Running the concatenated lists of a loop is running the loop. -/
theorem foldl_flatMap_apply (D : MptDefs) (f : Nat → List PageWrite)
    (g : (Nat → Nat) → Nat → Nat → Nat)
    (hg : ∀ p i, g p i = (f i).foldl (PageWrite.apply D) p) (l : List Nat) :
    ∀ p : Nat → Nat, (l.flatMap f).foldl (PageWrite.apply D) p = l.foldl g p := by
  induction l with
  | nil => intro p; rfl
  | cons i l ih =>
    intro p
    rw [List.flatMap_cons, List.foldl_append, List.foldl_cons, ih, hg]

/-- The header assignments of a page, run as a list. -/
theorem setPageHeader_eq (D : MptDefs) (p : Nat → Nat) (page : ConfigPage) (t n : Nat) :
    (setPageHeaderWrites D page t n).foldl (PageWrite.apply D) p = setPageHeader D p page t n :=
  rfl

/-- The body of the loop over the port pages, run as a list. -/
theorem initPortPages_eq (D : MptDefs) (p : Nat → Nat) (i : Nat) :
    initPortPages D p i = (initPortPagesWrites D i).foldl (PageWrite.apply D) p := by
  unfold initPortPages initPortPagesWrites
  simp only [List.foldl_append, setPageHeader_eq, List.foldl_cons, List.foldl_nil,
    PageWrite.apply, List.foldl_map]

/-- The body of the loop over the device pages, run as a list. -/
theorem initDevicePages_eq (D : MptDefs) (uBusCurr : Nat) (p : Nat → Nat) (uDeviceCurr : Nat) :
    initDevicePages D uBusCurr p uDeviceCurr
      = (initDevicePagesWrites D uBusCurr uDeviceCurr).foldl (PageWrite.apply D) p := by
  unfold initDevicePages initDevicePagesWrites
  simp only [List.foldl_append, setPageHeader_eq]

/-- The page store after `lsilogicInitializeConfigurationPages` is the cleared
store after the run of its assignments. -/
theorem initializeConfigurationPages_eq (D : MptDefs) (s : LSILOGICSCSI) :
    (lsilogicInitializeConfigurationPages D s).ConfigurationPages
      = (initializeConfigurationPagesWrites D s.PciDev_devfn).foldl (PageWrite.apply D)
          (fun _ => 0) := by
  unfold lsilogicInitializeConfigurationPages initializeConfigurationPagesWrites
    initFixedPagesWrites
  simp only [List.foldl_append, setPageHeader_eq, List.foldl_cons, List.foldl_nil,
    PageWrite.apply]
  rw [foldl_flatMap_apply D _ (initPortPages D) (initPortPages_eq D),
    foldl_flatMap_apply D _
      (fun p uBusCurr => (List.range D.cDevicePages).foldl (initDevicePages D uBusCurr) p)
      (fun p uBusCurr => (foldl_flatMap_apply D _ (initDevicePages D uBusCurr)
        (initDevicePages_eq D uBusCurr) _ p).symm)]

/-- The page store after a hard reset. -/
theorem hardReset_pages_run (D : MptDefs) (s : LSILOGICSCSI) :
    (lsilogicHardReset D s).ConfigurationPages
      = (initializeConfigurationPagesWrites D s.PciDev_devfn).foldl (PageWrite.apply D)
          (fun _ => 0) := by
  rw [← initializeConfigurationPages_eq D s]
  rfl

end LsiLogic


namespace LsiLogic

set_option maxRecDepth 100000

/-- The header of a page whose header assignments belong to the run of
`lsilogicInitializeConfigurationPages`, after a hard reset. -/
theorem hardReset_header (D : MptDefs) (s : LSILOGICSCSI) (page : ConfigPage) (t n : Nat)
    (hlayout : headersKept D (initializeConfigurationPagesWrites D s.PciDev_devfn) = true)
    (hsub : ∀ w, w ∈ setPageHeaderWrites D page t n →
      w ∈ initializeConfigurationPagesWrites D s.PciDev_devfn) :
    getHeaderField D (lsilogicHardReset D s).ConfigurationPages page HeaderField.u8PageNumber
        = n % 256
      ∧ getHeaderField D (lsilogicHardReset D s).ConfigurationPages page HeaderField.u8PageType
        = t % 256 := by
  unfold getHeaderField
  rw [hardReset_pages_run]
  constructor
  · exact foldl_apply_header D page HeaderField.u8PageNumber n _ _ hlayout
      (hsub _ (by simp [setPageHeaderWrites]))
  · exact foldl_apply_header D page HeaderField.u8PageType t _ _ hlayout
      (hsub _ (by simp [setPageHeaderWrites]))

/-- The header assignments of the pages that are not in an array. -/
theorem fixed_page_writes (D : MptDefs) (devfn : Nat) (w : PageWrite) :
    (w ∈ setPageHeaderWrites D ConfigPage.ManufacturingPage0
          (D.MPT_CONFIGURATION_PAGE_ATTRIBUTE_PERSISTENT_READONLY
            ||| D.MPT_CONFIGURATION_PAGE_TYPE_MANUFACTURING) 0
      ∨ w ∈ setPageHeaderWrites D ConfigPage.ManufacturingPage1
          (D.MPT_CONFIGURATION_PAGE_ATTRIBUTE_PERSISTENT_READONLY
            ||| D.MPT_CONFIGURATION_PAGE_TYPE_MANUFACTURING) 1
      ∨ w ∈ setPageHeaderWrites D ConfigPage.ManufacturingPage2
          (D.MPT_CONFIGURATION_PAGE_ATTRIBUTE_READONLY
            ||| D.MPT_CONFIGURATION_PAGE_TYPE_MANUFACTURING) 2
      ∨ w ∈ setPageHeaderWrites D ConfigPage.ManufacturingPage3
          (D.MPT_CONFIGURATION_PAGE_ATTRIBUTE_READONLY
            ||| D.MPT_CONFIGURATION_PAGE_TYPE_MANUFACTURING) 3
      ∨ w ∈ setPageHeaderWrites D ConfigPage.ManufacturingPage4
          (D.MPT_CONFIGURATION_PAGE_ATTRIBUTE_PERSISTENT_READONLY
            ||| D.MPT_CONFIGURATION_PAGE_TYPE_MANUFACTURING) 4
      ∨ w ∈ setPageHeaderWrites D ConfigPage.IOUnitPage0
          (D.MPT_CONFIGURATION_PAGE_ATTRIBUTE_READONLY ||| D.MPT_CONFIGURATION_PAGE_TYPE_IO_UNIT) 0
      ∨ w ∈ setPageHeaderWrites D ConfigPage.IOUnitPage1
          (D.MPT_CONFIGURATION_PAGE_ATTRIBUTE_READONLY ||| D.MPT_CONFIGURATION_PAGE_TYPE_IO_UNIT) 1
      ∨ w ∈ setPageHeaderWrites D ConfigPage.IOUnitPage2
          (D.MPT_CONFIGURATION_PAGE_ATTRIBUTE_PERSISTENT ||| D.MPT_CONFIGURATION_PAGE_TYPE_IO_UNIT) 2
      ∨ w ∈ setPageHeaderWrites D ConfigPage.IOUnitPage3
          (D.MPT_CONFIGURATION_PAGE_ATTRIBUTE_CHANGEABLE ||| D.MPT_CONFIGURATION_PAGE_TYPE_IO_UNIT) 3
      ∨ w ∈ setPageHeaderWrites D ConfigPage.IOCPage0
          (D.MPT_CONFIGURATION_PAGE_ATTRIBUTE_READONLY ||| D.MPT_CONFIGURATION_PAGE_TYPE_IOC) 0
      ∨ w ∈ setPageHeaderWrites D ConfigPage.IOCPage1
          (D.MPT_CONFIGURATION_PAGE_ATTRIBUTE_CHANGEABLE ||| D.MPT_CONFIGURATION_PAGE_TYPE_IOC) 1
      ∨ w ∈ setPageHeaderWrites D ConfigPage.IOCPage2
          (D.MPT_CONFIGURATION_PAGE_ATTRIBUTE_READONLY ||| D.MPT_CONFIGURATION_PAGE_TYPE_IOC) 2
      ∨ w ∈ setPageHeaderWrites D ConfigPage.IOCPage3
          (D.MPT_CONFIGURATION_PAGE_ATTRIBUTE_READONLY ||| D.MPT_CONFIGURATION_PAGE_TYPE_IOC) 3
      ∨ w ∈ setPageHeaderWrites D ConfigPage.IOCPage4
          (D.MPT_CONFIGURATION_PAGE_ATTRIBUTE_READONLY ||| D.MPT_CONFIGURATION_PAGE_TYPE_IOC) 4
      ∨ w ∈ setPageHeaderWrites D ConfigPage.IOCPage6
          (D.MPT_CONFIGURATION_PAGE_ATTRIBUTE_READONLY ||| D.MPT_CONFIGURATION_PAGE_TYPE_IOC) 6) →
    w ∈ initializeConfigurationPagesWrites D devfn := by
  intro h
  unfold initializeConfigurationPagesWrites initFixedPagesWrites
  simp only [List.mem_append]
  refine Or.inl (Or.inl ?_)
  tauto

/-- The header assignments of the pages of a port. -/
theorem port_page_writes (D : MptDefs) (devfn i : Nat) (hi : i < D.cPortPages) (w : PageWrite) :
    (w ∈ setPageHeaderWrites D (ConfigPage.SCSISPIPortPage0 i)
          (D.MPT_CONFIGURATION_PAGE_ATTRIBUTE_READONLY
            ||| D.MPT_CONFIGURATION_PAGE_TYPE_SCSI_SPI_PORT) 0
      ∨ w ∈ setPageHeaderWrites D (ConfigPage.SCSISPIPortPage1 i)
          (D.MPT_CONFIGURATION_PAGE_ATTRIBUTE_CHANGEABLE
            ||| D.MPT_CONFIGURATION_PAGE_TYPE_SCSI_SPI_PORT) 1
      ∨ w ∈ setPageHeaderWrites D (ConfigPage.SCSISPIPortPage2 i)
          (D.MPT_CONFIGURATION_PAGE_ATTRIBUTE_CHANGEABLE
            ||| D.MPT_CONFIGURATION_PAGE_TYPE_SCSI_SPI_PORT) 2) →
    w ∈ initializeConfigurationPagesWrites D devfn := by
  intro h
  unfold initializeConfigurationPagesWrites
  simp only [List.mem_append]
  refine Or.inl (Or.inr (List.mem_flatMap.mpr ⟨i, List.mem_range.mpr hi, ?_⟩))
  unfold initPortPagesWrites
  simp only [List.mem_append]
  tauto

/-- The header assignments of the pages of a device. -/
theorem device_page_writes (D : MptDefs) (devfn b d : Nat) (hb : b < D.cBuses)
    (hd : d < D.cDevicePages) (w : PageWrite) :
    (w ∈ setPageHeaderWrites D (ConfigPage.SCSISPIDevicePage0 b d)
          (D.MPT_CONFIGURATION_PAGE_ATTRIBUTE_READONLY
            ||| D.MPT_CONFIGURATION_PAGE_TYPE_SCSI_SPI_DEVICE) 0
      ∨ w ∈ setPageHeaderWrites D (ConfigPage.SCSISPIDevicePage1 b d)
          (D.MPT_CONFIGURATION_PAGE_ATTRIBUTE_CHANGEABLE
            ||| D.MPT_CONFIGURATION_PAGE_TYPE_SCSI_SPI_DEVICE) 1
      ∨ w ∈ setPageHeaderWrites D (ConfigPage.SCSISPIDevicePage2 b d)
          (D.MPT_CONFIGURATION_PAGE_ATTRIBUTE_CHANGEABLE
            ||| D.MPT_CONFIGURATION_PAGE_TYPE_SCSI_SPI_DEVICE) 2
      ∨ w ∈ setPageHeaderWrites D (ConfigPage.SCSISPIDevicePage3 b d)
          (D.MPT_CONFIGURATION_PAGE_ATTRIBUTE_READONLY
            ||| D.MPT_CONFIGURATION_PAGE_TYPE_SCSI_SPI_DEVICE) 3) →
    w ∈ initializeConfigurationPagesWrites D devfn := by
  intro h
  unfold initializeConfigurationPagesWrites
  simp only [List.mem_append]
  refine Or.inr (List.mem_flatMap.mpr ⟨b, List.mem_range.mpr hb,
    List.mem_flatMap.mpr ⟨d, List.mem_range.mpr hd, ?_⟩⟩)
  unfold initDevicePagesWrites
  simp only [List.mem_append]
  tauto

/-- The I/O unit pages 0..3 after a hard reset. -/
theorem hardReset_ioUnit_pages (D : MptDefs) (s : LSILOGICSCSI) (n : Nat) (hn : n ≤ 3)
    (hlayout : headersKept D (initializeConfigurationPagesWrites D s.PciDev_devfn) = true) :
    ∃ page, lsilogicConfigurationIOUnitPageGetFromNumber n = some page
      ∧ ∃ attr, attr ∈ configurationPageAttributes D
        ∧ getHeaderField D (lsilogicHardReset D s).ConfigurationPages page
            HeaderField.u8PageNumber = n % 256
        ∧ getHeaderField D (lsilogicHardReset D s).ConfigurationPages page
            HeaderField.u8PageType = (attr ||| D.MPT_CONFIGURATION_PAGE_TYPE_IO_UNIT) % 256 := by
  interval_cases n
  all_goals
    refine ⟨_, rfl, ?_⟩
    first
      | exact ⟨_, List.mem_cons_self _ _, hardReset_header D s _ _ _ hlayout
          (fun w hw => fixed_page_writes D _ w (by simp only [hw, true_or, or_true]))⟩
      | exact ⟨_, List.mem_cons_of_mem _ (List.mem_cons_self _ _), hardReset_header D s _ _ _
          hlayout (fun w hw => fixed_page_writes D _ w (by simp only [hw, true_or, or_true]))⟩
      | exact ⟨_, List.mem_cons_of_mem _ (List.mem_cons_of_mem _ (List.mem_cons_self _ _)),
          hardReset_header D s _ _ _ hlayout
          (fun w hw => fixed_page_writes D _ w (by simp only [hw, true_or, or_true]))⟩

/-- The IOC pages 0..4 and 6 after a hard reset. -/
theorem hardReset_ioc_pages (D : MptDefs) (s : LSILOGICSCSI) (n : Nat) (hn : n ≤ 4 ∨ n = 6)
    (hlayout : headersKept D (initializeConfigurationPagesWrites D s.PciDev_devfn) = true) :
    ∃ page, lsilogicConfigurationIOCPageGetFromNumber n = some page
      ∧ ∃ attr, attr ∈ configurationPageAttributes D
        ∧ getHeaderField D (lsilogicHardReset D s).ConfigurationPages page
            HeaderField.u8PageNumber = n % 256
        ∧ getHeaderField D (lsilogicHardReset D s).ConfigurationPages page
            HeaderField.u8PageType = (attr ||| D.MPT_CONFIGURATION_PAGE_TYPE_IOC) % 256 := by
  rcases hn with hn | hn
  · interval_cases n
    all_goals
      refine ⟨_, rfl, ?_⟩
      first
        | exact ⟨_, List.mem_cons_self _ _, hardReset_header D s _ _ _ hlayout
            (fun w hw => fixed_page_writes D _ w (by simp only [hw, true_or, or_true]))⟩
        | exact ⟨_, List.mem_cons_of_mem _ (List.mem_cons_self _ _), hardReset_header D s _ _ _
            hlayout (fun w hw => fixed_page_writes D _ w (by simp only [hw, true_or, or_true]))⟩
  · subst hn
    exact ⟨_, rfl, _, List.mem_cons_self _ _, hardReset_header D s _ _ _ hlayout
      (fun w hw => fixed_page_writes D _ w (by simp only [hw, true_or, or_true]))⟩

/-- The manufacturing pages 0..4 after a hard reset. -/
theorem hardReset_manufacturing_pages (D : MptDefs) (s : LSILOGICSCSI) (n : Nat) (hn : n ≤ 4)
    (hlayout : headersKept D (initializeConfigurationPagesWrites D s.PciDev_devfn) = true) :
    ∃ page, lsilogicConfigurationManufacturingPageGetFromNumber n = some page
      ∧ ∃ attr, attr ∈ configurationPageAttributes D
        ∧ getHeaderField D (lsilogicHardReset D s).ConfigurationPages page
            HeaderField.u8PageNumber = n % 256
        ∧ getHeaderField D (lsilogicHardReset D s).ConfigurationPages page
            HeaderField.u8PageType
              = (attr ||| D.MPT_CONFIGURATION_PAGE_TYPE_MANUFACTURING) % 256 := by
  interval_cases n
  all_goals
    refine ⟨_, rfl, ?_⟩
    first
      | exact ⟨_, List.mem_cons_self _ _, hardReset_header D s _ _ _ hlayout
          (fun w hw => fixed_page_writes D _ w (by simp only [hw, true_or, or_true]))⟩
      | exact ⟨_, List.mem_cons_of_mem _ (List.mem_cons_self _ _), hardReset_header D s _ _ _
          hlayout (fun w hw => fixed_page_writes D _ w (by simp only [hw, true_or, or_true]))⟩
      | exact ⟨_, List.mem_cons_of_mem _ (List.mem_cons_of_mem _ (List.mem_cons_self _ _)),
          hardReset_header D s _ _ _ hlayout
          (fun w hw => fixed_page_writes D _ w (by simp only [hw, true_or, or_true]))⟩
      | exact ⟨_, List.mem_cons_of_mem _ (List.mem_cons_of_mem _ (List.mem_cons_of_mem _
          (List.mem_cons_self _ _))), hardReset_header D s _ _ _ hlayout
          (fun w hw => fixed_page_writes D _ w (by simp only [hw, true_or, or_true]))⟩

/-- The SCSI-SPI port pages 0..2 of a valid port after a hard reset. -/
theorem hardReset_port_pages (D : MptDefs) (s : LSILOGICSCSI) (i n : Nat) (hn : n ≤ 2)
    (hi : i < D.cPortPages)
    (hlayout : headersKept D (initializeConfigurationPagesWrites D s.PciDev_devfn) = true) :
    ∃ page, lsilogicConfigurationSCSISPIPortPageGetFromNumber D i n = some page
      ∧ ∃ attr, attr ∈ configurationPageAttributes D
        ∧ getHeaderField D (lsilogicHardReset D s).ConfigurationPages page
            HeaderField.u8PageNumber = n % 256
        ∧ getHeaderField D (lsilogicHardReset D s).ConfigurationPages page
            HeaderField.u8PageType
              = (attr ||| D.MPT_CONFIGURATION_PAGE_TYPE_SCSI_SPI_PORT) % 256 := by
  unfold lsilogicConfigurationSCSISPIPortPageGetFromNumber
  rw [if_neg (by omega)]
  interval_cases n
  all_goals
    refine ⟨_, rfl, ?_⟩
    first
      | exact ⟨_, List.mem_cons_self _ _, hardReset_header D s _ _ _ hlayout
          (fun w hw => port_page_writes D _ i hi w (by simp only [hw, true_or, or_true]))⟩
      | exact ⟨_, List.mem_cons_of_mem _ (List.mem_cons_self _ _), hardReset_header D s _ _ _
          hlayout (fun w hw => port_page_writes D _ i hi w (by simp only [hw, true_or, or_true]))⟩

/-- The SCSI-SPI device pages 0..3 of a valid bus and target after a hard
reset. -/
theorem hardReset_device_pages (D : MptDefs) (s : LSILOGICSCSI) (b d n : Nat) (hn : n ≤ 3)
    (hb : b < D.cBuses) (hd : d < D.cDevicePages)
    (hlayout : headersKept D (initializeConfigurationPagesWrites D s.PciDev_devfn) = true) :
    ∃ page, lsilogicConfigurationSCSISPIDevicePageGetFromNumber D b d n = some page
      ∧ ∃ attr, attr ∈ configurationPageAttributes D
        ∧ getHeaderField D (lsilogicHardReset D s).ConfigurationPages page
            HeaderField.u8PageNumber = n % 256
        ∧ getHeaderField D (lsilogicHardReset D s).ConfigurationPages page
            HeaderField.u8PageType
              = (attr ||| D.MPT_CONFIGURATION_PAGE_TYPE_SCSI_SPI_DEVICE) % 256 := by
  unfold lsilogicConfigurationSCSISPIDevicePageGetFromNumber
  rw [if_neg (by omega), if_neg (by omega)]
  interval_cases n
  all_goals
    refine ⟨_, rfl, ?_⟩
    first
      | exact ⟨_, List.mem_cons_self _ _, hardReset_header D s _ _ _ hlayout
          (fun w hw => device_page_writes D _ b d hb hd w (by simp only [hw, true_or, or_true]))⟩
      | exact ⟨_, List.mem_cons_of_mem _ (List.mem_cons_self _ _), hardReset_header D s _ _ _
          hlayout (fun w hw => device_page_writes D _ b d hb hd w (by simp only [hw, true_or, or_true]))⟩

end LsiLogic


namespace LsiLogic

set_option maxRecDepth 1000000

/-- A page number outside 0..3 is no I/O unit page. -/
theorem ioUnit_none (n : Nat) (hn : ¬ n ≤ 3) :
    lsilogicConfigurationIOUnitPageGetFromNumber n = none := by
  unfold lsilogicConfigurationIOUnitPageGetFromNumber
  split_ifs <;> first | rfl | omega

/-- A page number outside 0..4 and 6 is no IOC page. -/
theorem ioc_none (n : Nat) (hn : ¬ (n ≤ 4 ∨ n = 6)) :
    lsilogicConfigurationIOCPageGetFromNumber n = none := by
  unfold lsilogicConfigurationIOCPageGetFromNumber
  split_ifs <;> first | rfl | omega

/-- A page number outside 0..4 is no manufacturing page. -/
theorem manufacturing_none (n : Nat) (hn : ¬ n ≤ 4) :
    lsilogicConfigurationManufacturingPageGetFromNumber n = none := by
  unfold lsilogicConfigurationManufacturingPageGetFromNumber
  split_ifs <;> first | rfl | omega

/-- A page number outside 0..2 or an invalid port index is no SCSI-SPI port
page. -/
theorem port_none (D : MptDefs) (i n : Nat) (hn : ¬ (n ≤ 2 ∧ i < D.cPortPages)) :
    lsilogicConfigurationSCSISPIPortPageGetFromNumber D i n = none := by
  unfold lsilogicConfigurationSCSISPIPortPageGetFromNumber
  split_ifs <;> first | rfl | omega

/-- A page number outside 0..3 or an invalid bus or target is no SCSI-SPI
device page. -/
theorem device_none (D : MptDefs) (b d n : Nat)
    (hn : ¬ (n ≤ 3 ∧ b < D.cBuses ∧ d < D.cDevicePages)) :
    lsilogicConfigurationSCSISPIDevicePageGetFromNumber D b d n = none := by
  unfold lsilogicConfigurationSCSISPIDevicePageGetFromNumber
  split_ifs <;> first | rfl | omega

/-- C16: immediately after a hard reset, for every registered key (I/O unit
pages 0..3, IOC pages 0..4 and 6, manufacturing pages 0..4, SCSI-SPI port pages
0..2 of every valid port index, SCSI-SPI device pages 0..3 of every valid bus
and target) the page lookup of a configuration request succeeds and the header
of the page it returns has `u8PageNumber` equal to the requested number and
page-type bits equal to the requested type; for every other combination of
page type, page number and index the lookup returns `VERR_NOT_FOUND`. -/
theorem C16_config_page_lookup (D : MptDefs) (s : LSILOGICSCSI) (req : MptRequestUnion)
    (htypes : (configurationPageTypes D).Nodup)
    (hget : ∀ attr, attr ∈ configurationPageAttributes D →
      ∀ t, t ∈ configurationPageTypes D →
        D.MPT_CONFIGURATION_PAGE_TYPE_GET ((attr ||| t) % 256) = t)
    (hlayout : headersKept D (initializeConfigurationPagesWrites D s.PciDev_devfn) = true) :
    (specRegisteredKey D (D.MPT_CONFIGURATION_PAGE_TYPE_GET req.Configuration_u8PageType)
          req.Configuration_u8PageNumber req.Configuration_u8PortNumber
          req.Configuration_u8Bus req.Configuration_u8TargetID →
        ∃ page, configurationRequestPage D req = some page
          ∧ getHeaderField D (lsilogicHardReset D s).ConfigurationPages page
              HeaderField.u8PageNumber = req.Configuration_u8PageNumber
          ∧ D.MPT_CONFIGURATION_PAGE_TYPE_GET
              (getHeaderField D (lsilogicHardReset D s).ConfigurationPages page
                HeaderField.u8PageType)
            = D.MPT_CONFIGURATION_PAGE_TYPE_GET req.Configuration_u8PageType)
      ∧ (¬ specRegisteredKey D (D.MPT_CONFIGURATION_PAGE_TYPE_GET req.Configuration_u8PageType)
            req.Configuration_u8PageNumber req.Configuration_u8PortNumber
            req.Configuration_u8Bus req.Configuration_u8TargetID →
          configurationRequestPage D req = none) := by
  simp only [configurationPageTypes, List.nodup_cons, List.mem_cons, List.mem_singleton,
    not_or, List.not_mem_nil, or_false, List.nodup_nil, and_true, not_false_eq_true] at htypes
  obtain ⟨⟨a1, a2, a3, a4⟩, ⟨b2, b3, b4⟩, ⟨c3, c4⟩, d4⟩ := htypes
  unfold specRegisteredKey configurationRequestPage
  dsimp only
  generalize D.MPT_CONFIGURATION_PAGE_TYPE_GET req.Configuration_u8PageType = t
  generalize req.Configuration_u8PageNumber = n
  generalize req.Configuration_u8PortNumber = port
  generalize req.Configuration_u8Bus = bus
  generalize req.Configuration_u8TargetID = target
  constructor
  · rintro (⟨ht, hn⟩ | ⟨ht, hn⟩ | ⟨ht, hn⟩ | ⟨ht, hn, hp⟩ | ⟨ht, hn, hb, hd⟩)
    · subst ht
      obtain ⟨page, h1, attr, h2, h3, h4⟩ := hardReset_ioUnit_pages D s n hn hlayout
      refine ⟨page, by rw [if_pos rfl]; exact h1, by rw [h3]; omega, ?_⟩
      rw [h4]
      exact hget attr h2 _ (by simp [configurationPageTypes])
    · subst ht
      obtain ⟨page, h1, attr, h2, h3, h4⟩ := hardReset_ioc_pages D s n hn hlayout
      refine ⟨page, by rw [if_neg (Ne.symm a1), if_pos rfl]; exact h1, by rw [h3]; omega, ?_⟩
      rw [h4]
      exact hget attr h2 _ (by simp [configurationPageTypes])
    · subst ht
      obtain ⟨page, h1, attr, h2, h3, h4⟩ := hardReset_manufacturing_pages D s n hn hlayout
      refine ⟨page, by rw [if_neg (Ne.symm a2), if_neg (Ne.symm b2), if_pos rfl]; exact h1,
        by rw [h3]; omega, ?_⟩
      rw [h4]
      exact hget attr h2 _ (by simp [configurationPageTypes])
    · subst ht
      obtain ⟨page, h1, attr, h2, h3, h4⟩ := hardReset_port_pages D s port n hn hp hlayout
      refine ⟨page, by
        rw [if_neg (Ne.symm a3), if_neg (Ne.symm b3), if_neg (Ne.symm c3), if_pos rfl]
        exact h1, by rw [h3]; omega, ?_⟩
      rw [h4]
      exact hget attr h2 _ (by simp [configurationPageTypes])
    · subst ht
      obtain ⟨page, h1, attr, h2, h3, h4⟩ :=
        hardReset_device_pages D s bus target n hn hb hd hlayout
      refine ⟨page, by
        rw [if_neg (Ne.symm a4), if_neg (Ne.symm b4), if_neg (Ne.symm c4),
          if_neg (Ne.symm d4), if_pos rfl]
        exact h1, by rw [h3]; omega, ?_⟩
      rw [h4]
      exact hget attr h2 _ (by simp [configurationPageTypes])
  · intro hno
    simp only [not_or] at hno
    obtain ⟨n1, n2, n3, n4, n5⟩ := hno
    split_ifs with e1 e2 e3 e4 e5
    · exact ioUnit_none n (fun h => n1 ⟨e1, h⟩)
    · exact ioc_none n (fun h => n2 ⟨e2, h⟩)
    · exact manufacturing_none n (fun h => n3 ⟨e3, h⟩)
    · exact port_none D port n (fun h => n4 ⟨e4, h.1, h.2⟩)
    · exact device_none D bus target n (fun h => n5 ⟨e5, h.1, h.2.1, h.2.2⟩)
    · rfl

/-- C16, evaluated on the device as constructed: a request for SCSI-SPI
device page 2 of target 0 on bus 0 finds the page, whose header carries the
page number 2 and the type bits 4; a request for device page 4 finds none. -/
theorem C16_config_page_lookup_witness :
    ((configurationPageTypes mptDefs).Nodup
      ∧ (∀ attr, attr ∈ configurationPageAttributes mptDefs →
          ∀ t, t ∈ configurationPageTypes mptDefs →
            mptDefs.MPT_CONFIGURATION_PAGE_TYPE_GET ((attr ||| t) % 256) = t)
      ∧ headersKept mptDefs (initializeConfigurationPagesWrites mptDefs
          (constructedDevice 3 3 (fun _ => 0)).PciDev_devfn) = true
      ∧ specRegisteredKey mptDefs 4 2 0 0 0)
    ∧ (∃ page, configurationRequestPage mptDefs (exConfigReq 0 0x14 2 0 0) = some page
        ∧ getHeaderField mptDefs
            (lsilogicHardReset mptDefs (constructedDevice 3 3 (fun _ => 0))).ConfigurationPages
            page HeaderField.u8PageNumber = (exConfigReq 0 0x14 2 0 0).Configuration_u8PageNumber
        ∧ mptDefs.MPT_CONFIGURATION_PAGE_TYPE_GET (getHeaderField mptDefs
            (lsilogicHardReset mptDefs (constructedDevice 3 3 (fun _ => 0))).ConfigurationPages
            page HeaderField.u8PageType)
          = mptDefs.MPT_CONFIGURATION_PAGE_TYPE_GET
              (exConfigReq 0 0x14 2 0 0).Configuration_u8PageType)
    ∧ configurationRequestPage mptDefs (exConfigReq 0 0x14 4 0 0) = none :=
  ⟨⟨by decide, by decide, by decide, by decide⟩,
   (C16_config_page_lookup mptDefs (constructedDevice 3 3 (fun _ => 0))
      (exConfigReq 0 0x14 2 0 0) (by decide) (by decide) (by decide)).1 (by decide),
   by decide⟩

end LsiLogic


namespace LsiLogic

set_option maxRecDepth 100000

/-! ## The request queue consumer -/

/-- The call `RTCacheRequest` changes nothing but the task cache. -/
theorem rtCacheRequest_state (s : LSILOGICSCSI) :
    (RTCacheRequest s).1 = { s with pTaskCache := s.pTaskCache.tail } := by
  unfold RTCacheRequest
  cases h : s.pTaskCache with
  | nil =>
    cases s
    simp only at h
    subst h
    rfl
  | cons ts rest => rfl

/-- A function code that is no case label of the `switch` of
`lsilogicNotifyQueueConsumer` takes the `default` label. -/
theorem requestSize_default (D : MptDefs) (f : Nat) (hf : f ∉ drainFunctions D) :
    lsilogicRequestSize D f = (0, true) := by
  simp only [drainFunctions, List.mem_cons, List.mem_singleton, not_or, List.not_mem_nil,
    or_false] at hf
  obtain ⟨h0, h1, h2, h3, h4, h5, h6, h7, h8, h9⟩ := hf
  simp only [lsilogicRequestSize, h0, h1, h2, h3, h4, h5, h6, h7, h8, h9, if_false]

/-- The function codes EVENT_ACK and FW_DOWNLOAD leave the request size at zero
and set no fault. -/
theorem requestSize_todo (D : MptDefs) (f : Nat)
    (hf : f = D.MPT_MESSAGE_HDR_FUNCTION_EVENT_ACK ∨ f = D.MPT_MESSAGE_HDR_FUNCTION_FW_DOWNLOAD) :
    lsilogicRequestSize D f = (0, false) := by
  have h := D.functionsDistinct
  simp only [List.nodup_cons, List.mem_cons, List.mem_singleton, not_or, List.not_mem_nil,
    or_false, List.nodup_nil, and_true, not_false_eq_true] at h
  obtain ⟨⟨-, -, -, -, -, -, -, a8, a9⟩, ⟨-, -, -, -, -, -, b8, b9⟩, ⟨-, -, -, -, -, c8, c9⟩,
    ⟨-, -, -, -, d8, d9⟩, ⟨-, -, -, e8, e9⟩, ⟨-, -, f8, f9⟩, ⟨-, g8, g9⟩, ⟨h8, h9⟩, i9⟩ := h
  rcases hf with e | e <;> subst e
  · simp only [lsilogicRequestSize, Ne.symm a8, Ne.symm b8, Ne.symm c8, Ne.symm d8,
      Ne.symm e8, Ne.symm f8, Ne.symm g8, Ne.symm h8, if_false, if_true]
  · simp only [lsilogicRequestSize, Ne.symm a9, Ne.symm b9, Ne.symm c9, Ne.symm d9,
      Ne.symm e9, Ne.symm f9, Ne.symm g9, Ne.symm h9, Ne.symm i9, if_false, if_true]

/-- One turn of the loop of `lsilogicNotifyQueueConsumer` on a frame whose
request size stays zero: the task state taken from the cache is dropped, the
fault code is set when the `default` label was taken, and the loop goes on. -/
theorem drainLoop_skip (D : MptDefs) (alloc : Nat → Bool) (w fuel : Nat) (s : LSILOGICSCSI)
    (hop : s.enmState = LSILOGICSTATE.OPERATIONAL)
    (hne : s.uRequestQueueNextAddressRead ≠ w) (fault : Bool)
    (hsz : lsilogicRequestSize D (drainFrameFunction D s (RTCacheRequest s).2.GuestRequest)
      = (0, fault)) :
    lsilogicNotifyQueueConsumerLoop D alloc w (fuel + 1) s
      = lsilogicNotifyQueueConsumerLoop D alloc w fuel
          (if fault then
            lsilogicSetIOCFaultCode { s with pTaskCache := s.pTaskCache.tail }
              LSILOGIC_IOCSTATUS_INVALID_FUNCTION
          else
            { s with pTaskCache := s.pTaskCache.tail }) := by
  have hs := rtCacheRequest_state s
  have hmem : (RTCacheRequest s).1.mem = s.mem := by rw [hs]
  unfold drainFrameFunction drainFrameAddr at hsz
  rw [lsilogicNotifyQueueConsumerLoop, if_pos ⟨hop, hne⟩]
  simp only [hmem, hsz, ne_eq, not_true_eq_false, if_false, hs]

/-- One turn of the loop on a frame whose function code takes the `default`
label: the loop ends in the Fault state, the task state it took is dropped. -/
theorem drainLoop_default (D : MptDefs) (alloc : Nat → Bool) (w fuel : Nat) (s : LSILOGICSCSI)
    (hop : s.enmState = LSILOGICSTATE.OPERATIONAL)
    (hne : s.uRequestQueueNextAddressRead ≠ w)
    (hfn : drainFrameFunction D s (RTCacheRequest s).2.GuestRequest ∉ drainFunctions D) :
    lsilogicNotifyQueueConsumerLoop D alloc w (fuel + 2) s
      = some { s with
          enmState := LSILOGICSTATE.FAULT
          u16IOCFaultCode := LSILOGIC_IOCSTATUS_INVALID_FUNCTION
          pTaskCache := s.pTaskCache.tail } := by
  rw [drainLoop_skip D alloc w (fuel + 1) s hop hne true (requestSize_default D _ hfn)]
  simp only [if_true, lsilogicSetIOCFaultCode, hop, ne_eq, reduceCtorEq, not_false_eq_true]
  rw [lsilogicNotifyQueueConsumerLoop, if_neg (by simp)]

/-- C21: when the loop of the drain, in the Operational state, takes from the
request ring a frame whose function code is none of the codes named in its
`switch` (the `default` branch), it sets `u16IOCFaultCode = INVALID_FUNCTION`
and `enmState = Fault`, produces no reply (reply rings, reply buffer, guest
memory and interrupt status stay as they are) and processes no further ring
entry: the drain returns with the read cursor where it was. -/
theorem C21_unknown_function_on_ring (D : MptDefs) (alloc : Nat → Bool) (w fuel : Nat)
    (s : LSILOGICSCSI)
    (hop : s.enmState = LSILOGICSTATE.OPERATIONAL)
    (hne : s.uRequestQueueNextAddressRead ≠ w)
    (hfn : drainFrameFunction D s (RTCacheRequest s).2.GuestRequest ∉ drainFunctions D) :
    ∃ t, lsilogicNotifyQueueConsumerLoop D alloc w (fuel + 2) s = some t
      ∧ t.u16IOCFaultCode = LSILOGIC_IOCSTATUS_INVALID_FUNCTION
      ∧ t.enmState = LSILOGICSTATE.FAULT
      ∧ t.pReplyPostQueueBase = s.pReplyPostQueueBase
      ∧ t.uReplyPostQueueNextEntryFreeWrite = s.uReplyPostQueueNextEntryFreeWrite
      ∧ t.pReplyFreeQueueBase = s.pReplyFreeQueueBase
      ∧ t.uReplyFreeQueueNextAddressRead = s.uReplyFreeQueueNextAddressRead
      ∧ t.ReplyBuffer = s.ReplyBuffer
      ∧ t.cReplySize = s.cReplySize
      ∧ t.mem = s.mem
      ∧ t.uInterruptStatus = s.uInterruptStatus
      ∧ t.fIrqLevel = s.fIrqLevel
      ∧ t.aSubmitted = s.aSubmitted
      ∧ t.uRequestQueueNextAddressRead = s.uRequestQueueNextAddressRead :=
  ⟨_, drainLoop_default D alloc w fuel s hop hne hfn,
    rfl, rfl, rfl, rfl, rfl, rfl, rfl, rfl, rfl, rfl, rfl, rfl, rfl⟩

/-- C21, evaluated: the drain of a ring that holds one frame with the function
code 0x7F. -/
theorem C21_unknown_function_on_ring_witness :
    ((exDrainDevice 0x7F).enmState = LSILOGICSTATE.OPERATIONAL
      ∧ (exDrainDevice 0x7F).uRequestQueueNextAddressRead
          ≠ (exDrainDevice 0x7F).uRequestQueueNextEntryFreeWrite
      ∧ drainFrameFunction mptDefs (exDrainDevice 0x7F)
          (RTCacheRequest (exDrainDevice 0x7F)).2.GuestRequest ∉ drainFunctions mptDefs)
    ∧ (∃ t, lsilogicNotifyQueueConsumerLoop mptDefs (fun _ => true)
          (exDrainDevice 0x7F).uRequestQueueNextEntryFreeWrite 2 (exDrainDevice 0x7F) = some t
        ∧ t.u16IOCFaultCode = LSILOGIC_IOCSTATUS_INVALID_FUNCTION
        ∧ t.enmState = LSILOGICSTATE.FAULT)
    ∧ (lsilogicNotifyQueueConsumer mptDefs (fun _ => true) 2 (exDrainDevice 0x7F)).map
        (fun t => (t.enmState.toNat, t.u16IOCFaultCode, t.uRequestQueueNextAddressRead))
        = some (4, 1, 0) :=
  have h := C21_unknown_function_on_ring mptDefs (fun _ => true)
    (exDrainDevice 0x7F).uRequestQueueNextEntryFreeWrite 0 (exDrainDevice 0x7F)
    (by decide) (by decide) (by decide)
  ⟨by decide, h.elim (fun t ht => ⟨t, ht.1, ht.2.1, ht.2.2.1⟩), by decide⟩

/-- A drain whose first frame carries the function code EVENT_ACK or FW_DOWNLOAD
never leaves its loop: the request size stays zero, no fault is set and the
read cursor does not move. -/
theorem drainLoop_stuck (D : MptDefs) (alloc : Nat → Bool) (w : Nat) (fuel : Nat) :
    ∀ s : LSILOGICSCSI, s.enmState = LSILOGICSTATE.OPERATIONAL →
      s.uRequestQueueNextAddressRead ≠ w →
      (∀ g, drainFrameFunction D s g = D.MPT_MESSAGE_HDR_FUNCTION_EVENT_ACK
        ∨ drainFrameFunction D s g = D.MPT_MESSAGE_HDR_FUNCTION_FW_DOWNLOAD) →
      lsilogicNotifyQueueConsumerLoop D alloc w fuel s = none := by
  induction fuel with
  | zero => intro s _ _ _; rfl
  | succ n ih =>
    intro s hop hne hfn
    rw [drainLoop_skip D alloc w n s hop hne false (requestSize_todo D _ (hfn _))]
    exact ih _ hop hne (fun g => hfn g)

/-- C22, refuted on the code: the drain of a ring whose first frame carries the
function code EVENT_ACK (8) or FW_DOWNLOAD (9) does not return, whatever the
number of turns its loop is given. -/
theorem C22_drain_terminates_counterexample :
    (exDrainDevice 8).enmState = LSILOGICSTATE.OPERATIONAL
      ∧ (exDrainDevice 8).uRequestQueueNextAddressRead
          ≠ (exDrainDevice 8).uRequestQueueNextEntryFreeWrite
      ∧ (∀ fuel, lsilogicNotifyQueueConsumer mptDefs (fun _ => true) fuel (exDrainDevice 8)
          = none)
      ∧ (∀ fuel, lsilogicNotifyQueueConsumer mptDefs (fun _ => true) fuel (exDrainDevice 9)
          = none) :=
  ⟨by decide, by decide,
   fun fuel => drainLoop_stuck mptDefs _ _ fuel _ (by decide) (by decide)
     (fun _ => Or.inl rfl),
   fun fuel => drainLoop_stuck mptDefs _ _ fuel _ (by decide) (by decide)
     (fun _ => Or.inr rfl)⟩

/-- C23, refuted on the code: the drain of a ring that holds one frame with the
function code 0x7F takes the one free task state from the task cache and
returns with the cache empty and nothing handed to a backend: the task state
is neither returned nor pending. -/
theorem C23_task_state_balance_counterexample :
    (exDrainDevice 0x7F).pTaskCache.length = 1
      ∧ (exDrainDevice 0x7F).aSubmitted.length = 0
      ∧ (lsilogicNotifyQueueConsumer mptDefs (fun _ => true) 2 (exDrainDevice 0x7F)).map
          (fun t => (t.pTaskCache.length, t.aSubmitted.length)) = some (0, 0) := by
  decide

end LsiLogic


namespace LsiLogic

set_option maxRecDepth 100000

/-! ## Register reads and the reply header -/

/-- C26: for every request message passed to `lsilogicProcessMessageRequest`,
whatever its function code, the reply's `u8Function` equals the request's
`u8Function` and the reply's `u32MessageContext` equals the request's
`u32MessageContext`; the reply so completed is the one handed to
`lsilogicFinishAddressReply`. -/
theorem C26_reply_header_echo (D : MptDefs) (s : LSILOGICSCSI) (req : MptRequestUnion) :
    (lsilogicProcessMessageRequest D s req).2.1.u8Function = req.u8Function
      ∧ (lsilogicProcessMessageRequest D s req).2.1.u32MessageContext = req.u32MessageContext
      ∧ (lsilogicProcessMessageRequest D s req).1
          = lsilogicFinishAddressReply D (lsilogicProcessMessageSwitch D s req).pLsiLogic
              (lsilogicProcessMessageRequest D s req).2.1
              (lsilogicProcessMessageSwitch D s req).fForceReplyPostFifo :=
  ⟨rfl, rfl, rfl⟩

/-- The value of a status read of the Doorbell register, as a sum. -/
theorem doorbell_status_sum (st who fc : Nat) (hwho : who < 8) (hfc : fc < 65536) :
    (st <<< 28 ||| who <<< 24) ||| fc = st * 268435456 + who * 16777216 + fc := by
  have h1 : st <<< 28 ||| who <<< 24 = st * 268435456 + who * 16777216 := by
    have e := @Nat.mul_add_lt_is_or 28 (who * 16777216) (by norm_num; omega) st
    rw [Nat.shiftLeft_eq, Nat.shiftLeft_eq]
    norm_num at e ⊢
    rw [Nat.mul_comm st 268435456, ← e]
  rw [h1]
  have e := @Nat.mul_add_lt_is_or 24 fc (by norm_num; omega) (st * 16 + who)
  norm_num at e
  rw [show st * 268435456 + who * 16777216 = 16777216 * (st * 16 + who) by ring, ← e]

/-- C27: a 4-byte read of the Doorbell register while no handshake is in
progress returns `((enmState & 0xF) << 28) | ((enmWhoInit & 0x7) << 24) |
u16IOCFaultCode`, with bit 27 clear, and changes no controller state; the fault
code is readable in bits 0..15 and the state in bits 28..31, in particular in
the Fault state. -/
theorem C27_doorbell_status_read (D : MptDefs) (s : LSILOGICSCSI)
    (hf : s.fDoorbellInProgress = false) (hfc : s.u16IOCFaultCode < 65536) :
    lsilogicRegisterRead D s LSILOGIC_REG_DOORBELL 4
        = (s, some ((((s.enmState.toNat &&& 0xF) <<< 28) ||| ((s.enmWhoInit &&& 0x7) <<< 24))
            ||| s.u16IOCFaultCode))
      ∧ ((((s.enmState.toNat &&& 0xF) <<< 28) ||| ((s.enmWhoInit &&& 0x7) <<< 24))
            ||| s.u16IOCFaultCode).testBit 27 = false
      ∧ ((((s.enmState.toNat &&& 0xF) <<< 28) ||| ((s.enmWhoInit &&& 0x7) <<< 24))
            ||| s.u16IOCFaultCode) % 65536 = s.u16IOCFaultCode
      ∧ ((((s.enmState.toNat &&& 0xF) <<< 28) ||| ((s.enmWhoInit &&& 0x7) <<< 24))
            ||| s.u16IOCFaultCode) / 268435456 = s.enmState.toNat
      ∧ (s.enmState = LSILOGICSTATE.FAULT →
          ((((s.enmState.toNat &&& 0xF) <<< 28) ||| ((s.enmWhoInit &&& 0x7) <<< 24))
            ||| s.u16IOCFaultCode) / 268435456 = 4) := by
  have hwho : s.enmWhoInit &&& 0x7 < 8 := Nat.lt_succ_of_le Nat.and_le_right
  have hst : s.enmState.toNat &&& 0xF = s.enmState.toNat := by
    cases s.enmState <;> rfl
  have hst4 : s.enmState.toNat ≤ 4 := by
    cases s.enmState <;> decide
  have hsum := doorbell_status_sum (s.enmState.toNat &&& 0xF) (s.enmWhoInit &&& 0x7)
    s.u16IOCFaultCode hwho hfc
  refine ⟨?_, ?_, ?_, ?_, ?_⟩
  · have e1 : LSILOGIC_REG_DOORBELL ≠ LSILOGIC_REG_REPLY_QUEUE := by decide
    have e2 : (LSILOGIC_REG_DOORBELL &&& not32 3) = LSILOGIC_REG_DOORBELL := by decide
    have e3 : u32 ((s.enmState.toNat &&& 0x0f) <<< 28) = (s.enmState.toNat &&& 0xF) <<< 28 := by
      cases s.enmState <;> rfl
    simp only [lsilogicRegisterRead, e1, e2, if_false, if_true, hf, Bool.false_eq_true,
      lsilogicRegisterReadClip, LSILOGIC_REG_DOORBELL_SET_STATE, LSILOGIC_REG_DOORBELL_SET_USED,
      LSILOGIC_REG_DOORBELL_SET_WHOINIT, e3, Nat.zero_shiftLeft, Nat.or_zero]
  · rw [hsum, hst, Nat.testBit_to_div_mod]
    simp only [decide_eq_false_iff_not]
    omega
  · rw [hsum, hst]; omega
  · rw [hsum, hst]; omega
  · intro h
    rw [hsum, hst, h]
    have : LSILOGICSTATE.FAULT.toNat = 4 := rfl
    omega

/-- C27, evaluated in the Fault state with the fault code 5: the read returns
0x40000005. -/
theorem C27_doorbell_status_read_witness :
    (exFault.fDoorbellInProgress = false ∧ exFault.u16IOCFaultCode < 65536)
    ∧ (lsilogicRegisterRead mptDefs exFault LSILOGIC_REG_DOORBELL 4).2 = some 0x40000005
    ∧ ((((exFault.enmState.toNat &&& 0xF) <<< 28) ||| ((exFault.enmWhoInit &&& 0x7) <<< 24))
        ||| exFault.u16IOCFaultCode) % 65536 = exFault.u16IOCFaultCode :=
  have h := C27_doorbell_status_read mptDefs exFault (by decide) (by decide)
  ⟨by decide, (congrArg Prod.snd h.1).trans (by decide), h.2.2.1⟩

/-- Reads of one or two bytes anywhere in the Doorbell slot return the low
bytes of the register value. -/
theorem registerRead_doorbell_low (D : MptDefs) (s : LSILOGICSCSI) (o : Nat) (ho : o < 4) :
    (lsilogicRegisterRead D s o 1).2
        = (lsilogicRegisterRead D s LSILOGIC_REG_DOORBELL 4).2.map (fun v => v % 256)
      ∧ (lsilogicRegisterRead D s o 2).2
        = (lsilogicRegisterRead D s LSILOGIC_REG_DOORBELL 4).2.map (fun v => v % 65536) := by
  have e1 : LSILOGIC_REG_DOORBELL ≠ LSILOGIC_REG_REPLY_QUEUE := by decide
  have e2 : (LSILOGIC_REG_DOORBELL &&& not32 3) = LSILOGIC_REG_DOORBELL := by decide
  have e3 : (o &&& not32 3) = LSILOGIC_REG_DOORBELL := by
    interval_cases o <;> decide
  have e4 : (u32 (o - (o &&& 3)) * 8) % 256 = 0 := by
    interval_cases o <;> decide
  have m1 : ∀ v : Nat, (v &&& u32 (0xff <<< 0)) >>> 0 % 256 = v % 256 := by
    intro v
    have h := Nat.and_pow_two_sub_one_eq_mod v 8
    norm_num [u32] at h ⊢
    rw [h, Nat.mod_mod]
  have m2 : ∀ v : Nat, (v &&& u32 (0xffff <<< 0)) >>> 0 % 65536 = v % 65536 := by
    intro v
    have h := Nat.and_pow_two_sub_one_eq_mod v 16
    norm_num [u32] at h ⊢
    rw [h, Nat.mod_mod]
  simp only [lsilogicRegisterRead, e1, e2, e3, if_false, if_true, lsilogicRegisterReadClip, e4,
    m1, m2]
  constructor <;> split <;> simp

/-- C28, refuted on the code: in the Fault state with the fault code 5 a 4-byte
read of the Doorbell slot returns 0x40000005; a 1-byte read at offset 3 returns
5, the lowest byte, not byte 3 (0x40); a 2-byte read at offset 2 returns 5, not
the upper half 0x4000.  In every state the reads of one and two bytes at every
offset of the Doorbell slot return the low bytes. -/
theorem C28_byte_register_read_counterexample :
    (lsilogicRegisterRead mptDefs exFault 0 4).2 = some 0x40000005
      ∧ (lsilogicRegisterRead mptDefs exFault 3 1).2 = some 5
      ∧ (0x40000005 >>> (8 * (3 &&& 3))) % 256 = 0x40
      ∧ (lsilogicRegisterRead mptDefs exFault 2 2).2 = some 5
      ∧ (0x40000005 >>> (8 * (2 &&& 3))) % 65536 = 0x4000
      ∧ (∀ (D : MptDefs) (s : LSILOGICSCSI) (o : Nat), o < 4 →
          (lsilogicRegisterRead D s o 1).2
            = (lsilogicRegisterRead D s LSILOGIC_REG_DOORBELL 4).2.map (fun v => v % 256)) :=
  ⟨by decide, by decide, by decide, by decide, by decide,
   fun D s o ho => (registerRead_doorbell_low D s o ho).1⟩

/-- C29, refuted as stated: on the device `exReady` the Doorbell write of the
function IOC-message-unit-reset leaves the interrupt mask 0, a hard reset
leaves the doorbell and reply bits of the mask set; on the Operational device
`exOperational` with a reply frame size changed to 64 the write keeps that size,
a hard reset sets 128. -/
theorem C29_ioc_reset_counterexample :
    exReady.fDoorbellInProgress = false
      ∧ LSILOGIC_REG_DOORBELL_GET_FUNCTION 0x40000000
          = LSILOGIC_DOORBELL_FUNCTION_IOC_MSG_UNIT_RESET
      ∧ (lsilogicRegisterWrite mptDefs exReady LSILOGIC_REG_DOORBELL 0x40000000).uInterruptMask
          = 0
      ∧ (lsilogicHardReset mptDefs exReady).uInterruptMask = 9
      ∧ ¬ ((lsilogicRegisterWrite mptDefs exReady LSILOGIC_REG_DOORBELL
              0x40000000).uInterruptMask
            = (lsilogicHardReset mptDefs exReady).uInterruptMask)
      ∧ (lsilogicRegisterWrite mptDefs { exOperational with cbReplyFrame := 64 }
            LSILOGIC_REG_DOORBELL 0x40000000).cbReplyFrame = 64
      ∧ (lsilogicHardReset mptDefs { exOperational with cbReplyFrame := 64 }).cbReplyFrame
          = 128 := by
  decide

/-- C29 as amended: for every controller state with no handshake in progress, a
Doorbell write with the function 0x40 (IOC-message-unit-reset) leaves `enmState`
Ready, the interrupt status 0 and the six ring cursors 0, as `lsilogicHardReset`
applied to that state does; unlike a hard reset it sets the interrupt mask to 0
(a hard reset adds the doorbell and reply mask bits to the mask) and leaves
`cMaxDevices`, `cMaxBuses`, `cbReplyFrame`, the diagnostic progress and the
configuration pages as they were. -/
theorem C29_ioc_reset (D : MptDefs) (s : LSILOGICSCSI) (v : Nat)
    (hf : s.fDoorbellInProgress = false)
    (hfn : LSILOGIC_REG_DOORBELL_GET_FUNCTION (u32 v)
      = LSILOGIC_DOORBELL_FUNCTION_IOC_MSG_UNIT_RESET) :
    ((lsilogicRegisterWrite D s LSILOGIC_REG_DOORBELL v).enmState = LSILOGICSTATE.READY
        ∧ (lsilogicHardReset D s).enmState = LSILOGICSTATE.READY)
      ∧ ((lsilogicRegisterWrite D s LSILOGIC_REG_DOORBELL v).uInterruptStatus = 0
        ∧ (lsilogicHardReset D s).uInterruptStatus = 0)
      ∧ ((lsilogicRegisterWrite D s LSILOGIC_REG_DOORBELL v).uReplyFreeQueueNextEntryFreeWrite = 0
        ∧ (lsilogicRegisterWrite D s LSILOGIC_REG_DOORBELL v).uReplyFreeQueueNextAddressRead = 0
        ∧ (lsilogicRegisterWrite D s LSILOGIC_REG_DOORBELL v).uReplyPostQueueNextEntryFreeWrite = 0
        ∧ (lsilogicRegisterWrite D s LSILOGIC_REG_DOORBELL v).uReplyPostQueueNextAddressRead = 0
        ∧ (lsilogicRegisterWrite D s LSILOGIC_REG_DOORBELL v).uRequestQueueNextEntryFreeWrite = 0
        ∧ (lsilogicRegisterWrite D s LSILOGIC_REG_DOORBELL v).uRequestQueueNextAddressRead = 0)
      ∧ ((lsilogicHardReset D s).uReplyFreeQueueNextEntryFreeWrite = 0
        ∧ (lsilogicHardReset D s).uReplyFreeQueueNextAddressRead = 0
        ∧ (lsilogicHardReset D s).uReplyPostQueueNextEntryFreeWrite = 0
        ∧ (lsilogicHardReset D s).uReplyPostQueueNextAddressRead = 0
        ∧ (lsilogicHardReset D s).uRequestQueueNextEntryFreeWrite = 0
        ∧ (lsilogicHardReset D s).uRequestQueueNextAddressRead = 0)
      ∧ ((lsilogicRegisterWrite D s LSILOGIC_REG_DOORBELL v).uInterruptMask = 0
        ∧ (lsilogicHardReset D s).uInterruptMask
            = s.uInterruptMask ||| (LSILOGIC_REG_HOST_INTR_MASK_DOORBELL
                ||| LSILOGIC_REG_HOST_INTR_MASK_REPLY))
      ∧ ((lsilogicRegisterWrite D s LSILOGIC_REG_DOORBELL v).cMaxDevices = s.cMaxDevices
        ∧ (lsilogicRegisterWrite D s LSILOGIC_REG_DOORBELL v).cMaxBuses = s.cMaxBuses
        ∧ (lsilogicRegisterWrite D s LSILOGIC_REG_DOORBELL v).cbReplyFrame = s.cbReplyFrame
        ∧ (lsilogicRegisterWrite D s LSILOGIC_REG_DOORBELL v).iDiagnosticAccess
            = s.iDiagnosticAccess
        ∧ (lsilogicRegisterWrite D s LSILOGIC_REG_DOORBELL v).ConfigurationPages
            = s.ConfigurationPages) := by
  have e1 : LSILOGIC_REG_DOORBELL ≠ LSILOGIC_REG_REPLY_QUEUE := by decide
  have e2 : LSILOGIC_REG_DOORBELL ≠ LSILOGIC_REG_REQUEST_QUEUE := by decide
  have hw : lsilogicRegisterWrite D s LSILOGIC_REG_DOORBELL v
      = { lsilogicUpdateInterrupt
            { s with
              enmState := LSILOGICSTATE.RESET
              uInterruptMask := 0
              uInterruptStatus := 0 } with
          uReplyFreeQueueNextEntryFreeWrite := 0
          uReplyFreeQueueNextAddressRead := 0
          uReplyPostQueueNextEntryFreeWrite := 0
          uReplyPostQueueNextAddressRead := 0
          uRequestQueueNextEntryFreeWrite := 0
          uRequestQueueNextAddressRead := 0
          enmState := LSILOGICSTATE.READY } := by
    simp only [lsilogicRegisterWrite, e1, e2, if_false, if_true, hf, Bool.not_false, hfn]
  rw [hw]
  exact ⟨⟨rfl, rfl⟩, ⟨rfl, rfl⟩, ⟨rfl, rfl, rfl, rfl, rfl, rfl⟩, ⟨rfl, rfl, rfl, rfl, rfl, rfl⟩,
    ⟨rfl, rfl⟩, ⟨rfl, rfl, rfl, rfl, rfl⟩⟩

/-- C29 as amended, evaluated on the device `exOperational`. -/
theorem C29_ioc_reset_witness :
    (exOperational.fDoorbellInProgress = false
      ∧ LSILOGIC_REG_DOORBELL_GET_FUNCTION (u32 0x40000000)
          = LSILOGIC_DOORBELL_FUNCTION_IOC_MSG_UNIT_RESET
      ∧ exOperational.enmState = LSILOGICSTATE.OPERATIONAL)
    ∧ (lsilogicRegisterWrite mptDefs exOperational LSILOGIC_REG_DOORBELL 0x40000000).enmState
        = LSILOGICSTATE.READY
    ∧ (lsilogicRegisterWrite mptDefs exOperational LSILOGIC_REG_DOORBELL
        0x40000000).uInterruptMask = 0 :=
  have h := C29_ioc_reset mptDefs exOperational 0x40000000 (by decide) (by decide)
  ⟨by decide, h.1.1, h.2.2.2.2.1.1⟩

/-- C30, refuted on the code: with the chain of `exSGMemA` (two elements, 5 and 3
bytes) and an allocator that fails the staging buffer of 8 bytes,
`lsilogicScatterGatherListCreate` does not stop at the failure: it walks the
chain a second time, fills both descriptor entries, copies the eight guest bytes
through the staging buffer pointer, which is NULL, and returns `VERR_NO_MEMORY`
only at its end. -/
theorem C30_allocation_failure_counterexample :
    (lsilogicScatterGatherListCreate mptDefs (fun n => decide (n ≠ 8)) 10 exSGMemA
        LSILOGICTASKSTATE.zero 0x3000 8).map
      (fun r => (r.2, r.1.fBufferUnalignedNull,
        [(r.1.paSGEntries 0).cbBuf, (r.1.paSGEntries 0).GCPhysAddrBufferUnaligned,
         (r.1.paSGEntries 1).cbBuf, (r.1.paSGEntries 1).GCPhysAddrBufferUnaligned],
        (List.range 8).map r.1.pvBufferUnaligned))
      = some (VERR_NO_MEMORY, true, [5, 0x5000, 3, 0x6000],
          [0x11, 0x22, 0x33, 0x44, 0x55, 0xAA, 0xBB, 0xCC]) := by
  decide

end LsiLogic


namespace LsiLogic

/-! ## The interrupt line -/

/-- The test of `lsilogicUpdateInterrupt` is the test of the specification. -/
theorem updateInterrupt_test (uInterruptStatus uInterruptMask : Nat) :
    (uInterruptStatus &&& not32 LSILOGIC_REG_HOST_INTR_STATUS_DOORBELL_STS)
        &&& not32 (uInterruptMask &&& not32 LSILOGIC_REG_HOST_INTR_MASK_IRQ_ROUTING)
      = specInterruptPending uInterruptStatus uInterruptMask := by
  have h1 : not32 LSILOGIC_REG_HOST_INTR_STATUS_DOORBELL_STS = 0x7FFFFFFF := by decide
  have h2 : not32 LSILOGIC_REG_HOST_INTR_MASK_IRQ_ROUTING = 0xFFFFFCFF := by decide
  have h3 : uInterruptMask &&& 0xFFFFFCFF < 4294967296 :=
    Nat.lt_of_le_of_lt Nat.and_le_right (by decide)
  rw [h1, h2]
  unfold specInterruptPending not32 u32
  rw [Nat.mod_eq_of_lt h3]

/-- After `lsilogicUpdateInterrupt` the interrupt line is as the specification
says. -/
theorem updateInterrupt_ok (s : LSILOGICSCSI) : irqLineOK (lsilogicUpdateInterrupt s) := by
  unfold irqLineOK lsilogicUpdateInterrupt
  dsimp only
  rw [updateInterrupt_test]
  split_ifs with h
  · exact ⟨fun _ => h, fun _ => rfl⟩
  · exact ⟨fun e => absurd e (by decide), fun e => absurd e h⟩

/-- The condition `irqLineOK` looks at the line, the status and the mask only. -/
theorem irqLineOK_congr (s t : LSILOGICSCSI) (h1 : t.fIrqLevel = s.fIrqLevel)
    (h2 : t.uInterruptStatus = s.uInterruptStatus) (h3 : t.uInterruptMask = s.uInterruptMask)
    (h : irqLineOK s) : irqLineOK t := by
  unfold irqLineOK at *
  rw [h1, h2, h3]
  exact h

/-- An operation that ends with the line updated, or that left line, status and
mask alone, keeps the interrupt line. -/
theorem interruptLineKept_of (s t : LSILOGICSCSI)
    (h : irqLineOK t ∨ (t.fIrqLevel = s.fIrqLevel ∧ t.uInterruptStatus = s.uInterruptStatus
      ∧ t.uInterruptMask = s.uInterruptMask)) :
    interruptLineKept s t := by
  rcases h with h | ⟨h1, h2, h3⟩
  · exact ⟨fun _ => h, fun _ => h⟩
  · exact ⟨fun hc => hc.elim (fun c => absurd h2 c) (fun c => absurd h3 c),
      fun hs => irqLineOK_congr s t h1 h2 h3 hs⟩

/-- After `lsilogicSetInterrupt` the line is as the specification says. -/
theorem setInterrupt_ok (s : LSILOGICSCSI) (u : Nat) : irqLineOK (lsilogicSetInterrupt s u) :=
  updateInterrupt_ok _

/-- After `lsilogicFinishContextReply` the line is as the specification says. -/
theorem finishContextReply_ok (s : LSILOGICSCSI) (c : Nat) :
    irqLineOK (lsilogicFinishContextReply s c) :=
  updateInterrupt_ok _

/-- After `lsilogicFinishAddressReply` the line is as the specification says. -/
theorem finishAddressReply_ok (D : MptDefs) (s : LSILOGICSCSI) (r : MptReplyUnion) (f : Bool) :
    irqLineOK (lsilogicFinishAddressReply D s r f) := by
  unfold lsilogicFinishAddressReply
  split
  · exact updateInterrupt_ok _
  · exact updateInterrupt_ok _

/-- After `lsilogicHardReset` the line is as the specification says. -/
theorem hardReset_ok (D : MptDefs) (s : LSILOGICSCSI) : irqLineOK (lsilogicHardReset D s) :=
  irqLineOK_congr
    (lsilogicUpdateInterrupt
      { s with
        enmState := LSILOGICSTATE.RESET
        uInterruptMask := s.uInterruptMask ||| (LSILOGIC_REG_HOST_INTR_MASK_DOORBELL |||
          LSILOGIC_REG_HOST_INTR_MASK_REPLY)
        uInterruptStatus := 0 })
    _ rfl rfl rfl (updateInterrupt_ok _)

/-- After `lsilogicProcessMessageRequest` the line is as the specification
says. -/
theorem processMessageRequest_ok (D : MptDefs) (s : LSILOGICSCSI) (req : MptRequestUnion) :
    irqLineOK (lsilogicProcessMessageRequest D s req).1 :=
  finishAddressReply_ok D _ _ _

/-- The bits of the constant `~(bit8|bit9)`. -/
theorem testBit_routing_mask (i : Nat) :
    (0xFFFFFCFF : Nat).testBit i = (decide (i < 32) && decide (i ≠ 8) && decide (i ≠ 9)) := by
  by_cases h : i < 32
  · interval_cases i <;> rfl
  · have h2 : (0xFFFFFCFF : Nat) < 2 ^ i :=
      Nat.lt_of_lt_of_le (by norm_num) (Nat.pow_le_pow_right (by norm_num) (Nat.le_of_not_lt h))
    rw [Nat.testBit_lt_two_pow h2]
    simp [h]

/-- The value `specInterruptPending` is non-zero if and only if some status
bit other than the doorbell-status bit (bit 31) is set and not masked; the mask
bits 8 and 9 mask nothing. -/
theorem specInterruptPending_ne_zero (uInterruptStatus uInterruptMask : Nat) :
    specInterruptPending uInterruptStatus uInterruptMask ≠ 0
      ↔ ∃ i, i < 31 ∧ uInterruptStatus.testBit i = true
          ∧ ¬ (uInterruptMask.testBit i = true ∧ i ≠ 8 ∧ i ≠ 9) := by
  have hbit : ∀ i, (specInterruptPending uInterruptStatus uInterruptMask).testBit i = true
      ↔ (i < 31 ∧ uInterruptStatus.testBit i = true
          ∧ ¬ (uInterruptMask.testBit i = true ∧ i ≠ 8 ∧ i ≠ 9)) := by
    intro i
    unfold specInterruptPending
    have e1 : (0x7FFFFFFF : Nat) = 2 ^ 31 - 1 := by norm_num
    have e2 : (0xFFFFFFFF : Nat) = 2 ^ 32 - 1 := by norm_num
    rw [Nat.testBit_and, Nat.testBit_and, Nat.testBit_xor, Nat.testBit_and,
      testBit_routing_mask, e1, e2, Nat.testBit_two_pow_sub_one, Nat.testBit_two_pow_sub_one]
    by_cases h31 : i < 31
    · have h32 : i < 32 := by omega
      cases hs : uInterruptStatus.testBit i <;> cases hm : uInterruptMask.testBit i <;>
        by_cases h8 : i = 8 <;> by_cases h9 : i = 9 <;> simp [h31, h32, h8, h9]
    · simp [h31]
  constructor
  · intro h
    obtain ⟨i, hi⟩ := Nat.ne_zero_implies_bit_true h
    exact ⟨i, (hbit i).mp hi⟩
  · rintro ⟨i, hi⟩ h0
    have := (hbit i).mpr hi
    rw [h0, Nat.zero_testBit] at this
    exact absurd this (by decide)

/-- A write to a register ends with the line updated, or leaves line, status
and mask alone. -/
theorem registerWrite_line_of (D : MptDefs) (s : LSILOGICSCSI) (uOffset v : Nat) :
    ∀ t, lsilogicRegisterWrite D s uOffset v = t →
      irqLineOK t ∨ (t.fIrqLevel = s.fIrqLevel ∧ t.uInterruptStatus = s.uInterruptStatus
        ∧ t.uInterruptMask = s.uInterruptMask) := by
  intro t ht
  by_cases hd : uOffset = LSILOGIC_REG_DOORBELL
  · subst hd
    have h1 : LSILOGIC_REG_DOORBELL ≠ LSILOGIC_REG_REPLY_QUEUE := by decide
    have h2 : LSILOGIC_REG_DOORBELL ≠ LSILOGIC_REG_REQUEST_QUEUE := by decide
    cases hf : s.fDoorbellInProgress
    · simp only [lsilogicRegisterWrite, h1, h2, if_false, if_true, hf, Bool.not_false] at ht
      split_ifs at ht
      all_goals subst ht
      all_goals first
        | exact Or.inr ⟨rfl, rfl, rfl⟩
        | exact Or.inl (updateInterrupt_ok _)
    · simp only [lsilogicRegisterWrite, h1, h2, if_false, if_true, hf, Bool.not_true,
        Bool.false_eq_true] at ht
      split_ifs at ht
      all_goals subst ht
      · exact Or.inl (irqLineOK_congr _ _ rfl rfl rfl (processMessageRequest_ok D _ _))
      · exact Or.inr ⟨rfl, rfl, rfl⟩
  · by_cases hs : uOffset = LSILOGIC_REG_HOST_INTR_STATUS
    · subst hs
      have h1 : LSILOGIC_REG_HOST_INTR_STATUS ≠ LSILOGIC_REG_REPLY_QUEUE := by decide
      have h2 : LSILOGIC_REG_HOST_INTR_STATUS ≠ LSILOGIC_REG_REQUEST_QUEUE := by decide
      simp only [lsilogicRegisterWrite, h1, h2, hd, if_false, if_true] at ht
      subst ht
      exact Or.inl (updateInterrupt_ok _)
    · by_cases hm : uOffset = LSILOGIC_REG_HOST_INTR_MASK
      · subst hm
        have h1 : LSILOGIC_REG_HOST_INTR_MASK ≠ LSILOGIC_REG_REPLY_QUEUE := by decide
        have h2 : LSILOGIC_REG_HOST_INTR_MASK ≠ LSILOGIC_REG_REQUEST_QUEUE := by decide
        simp only [lsilogicRegisterWrite, h1, h2, hd, hs, if_false, if_true] at ht
        subst ht
        exact Or.inl (updateInterrupt_ok _)
      · by_cases hh : uOffset = LSILOGIC_REG_HOST_DIAGNOSTIC
        · subst hh
          have h1 : LSILOGIC_REG_HOST_DIAGNOSTIC ≠ LSILOGIC_REG_REPLY_QUEUE := by decide
          have h2 : LSILOGIC_REG_HOST_DIAGNOSTIC ≠ LSILOGIC_REG_REQUEST_QUEUE := by decide
          have h6 : LSILOGIC_REG_HOST_DIAGNOSTIC ≠ LSILOGIC_REG_WRITE_SEQUENCE := by decide
          simp only [lsilogicRegisterWrite, h1, h2, h6, hd, hs, hm, if_false, if_true] at ht
          split_ifs at ht
          all_goals subst ht
          · exact Or.inl (hardReset_ok D s)
          · exact Or.inr ⟨rfl, rfl, rfl⟩
        · simp only [lsilogicRegisterWrite, hd, hs, hm, hh, if_false] at ht
          split_ifs at ht
          all_goals subst ht
          all_goals exact Or.inr ⟨rfl, rfl, rfl⟩

/-- A write to a register keeps the interrupt line. -/
theorem registerWrite_line (D : MptDefs) (s : LSILOGICSCSI) (uOffset v : Nat) :
    irqLineOK (lsilogicRegisterWrite D s uOffset v)
      ∨ ((lsilogicRegisterWrite D s uOffset v).fIrqLevel = s.fIrqLevel
        ∧ (lsilogicRegisterWrite D s uOffset v).uInterruptStatus = s.uInterruptStatus
        ∧ (lsilogicRegisterWrite D s uOffset v).uInterruptMask = s.uInterruptMask) :=
  registerWrite_line_of D s uOffset v _ rfl

/-- A read of a register ends with the line updated, or leaves line, status
and mask alone. -/
theorem registerRead_line_of (D : MptDefs) (s : LSILOGICSCSI) (uOffset cb : Nat) :
    ∀ r, lsilogicRegisterRead D s uOffset cb = r →
      irqLineOK r.1 ∨ (r.1.fIrqLevel = s.fIrqLevel ∧ r.1.uInterruptStatus = s.uInterruptStatus
        ∧ r.1.uInterruptMask = s.uInterruptMask) := by
  intro r hr
  unfold lsilogicRegisterRead at hr
  dsimp only at hr
  split_ifs at hr
  all_goals subst hr
  all_goals first
    | exact Or.inr ⟨rfl, rfl, rfl⟩
    | exact Or.inl (updateInterrupt_ok _)

/-- A read of a register keeps the interrupt line. -/
theorem registerRead_line (D : MptDefs) (s : LSILOGICSCSI) (uOffset cb : Nat) :
    irqLineOK (lsilogicRegisterRead D s uOffset cb).1
      ∨ ((lsilogicRegisterRead D s uOffset cb).1.fIrqLevel = s.fIrqLevel
        ∧ (lsilogicRegisterRead D s uOffset cb).1.uInterruptStatus = s.uInterruptStatus
        ∧ (lsilogicRegisterRead D s uOffset cb).1.uInterruptMask = s.uInterruptMask) :=
  registerRead_line_of D s uOffset cb _ rfl

/-- C24: after every write to and read of a register, after a context and an
address reply, after a hard reset and after the IOC-message-unit reset (a write
to the Doorbell register), if the operation changed `uInterruptStatus` or
`uInterruptMask` then the PCI interrupt line is asserted if and only if
`(uInterruptStatus & ~bit31) & ~(uInterruptMask & ~(bit8|bit9))` is non-zero,
and an operation that changed neither keeps this relation; the value is
non-zero exactly when some status bit other than the doorbell-status bit is set
and not masked. -/
theorem C24_interrupt_line (D : MptDefs) (s : LSILOGICSCSI) :
    (∀ uOffset v, interruptLineKept s (lsilogicRegisterWrite D s uOffset v))
      ∧ (∀ uOffset cb, interruptLineKept s (lsilogicRegisterRead D s uOffset cb).1)
      ∧ (∀ c, irqLineOK (lsilogicFinishContextReply s c))
      ∧ (∀ r f, irqLineOK (lsilogicFinishAddressReply D s r f))
      ∧ irqLineOK (lsilogicHardReset D s)
      ∧ (∀ v, s.fDoorbellInProgress = false →
          LSILOGIC_REG_DOORBELL_GET_FUNCTION (u32 v)
            = LSILOGIC_DOORBELL_FUNCTION_IOC_MSG_UNIT_RESET →
          irqLineOK (lsilogicRegisterWrite D s LSILOGIC_REG_DOORBELL v))
      ∧ (irqLineOK s ↔ (s.fIrqLevel = true ↔
          ∃ i, i < 31 ∧ s.uInterruptStatus.testBit i = true
            ∧ ¬ (s.uInterruptMask.testBit i = true ∧ i ≠ 8 ∧ i ≠ 9))) := by
  refine ⟨fun o v => interruptLineKept_of _ _ (registerWrite_line D s o v),
    fun o cb => interruptLineKept_of _ _ (registerRead_line D s o cb),
    fun c => finishContextReply_ok s c, fun r f => finishAddressReply_ok D s r f,
    hardReset_ok D s, ?_, ?_⟩
  · intro v hf hfn
    have e1 : LSILOGIC_REG_DOORBELL ≠ LSILOGIC_REG_REPLY_QUEUE := by decide
    have e2 : LSILOGIC_REG_DOORBELL ≠ LSILOGIC_REG_REQUEST_QUEUE := by decide
    simp only [lsilogicRegisterWrite, e1, e2, if_false, if_true, hf, Bool.not_false, hfn]
    exact irqLineOK_congr _ _ rfl rfl rfl (updateInterrupt_ok _)
  · unfold irqLineOK
    rw [specInterruptPending_ne_zero]

end LsiLogic


namespace LsiLogic

/-! ## The Write-Sequence register -/

/-- The low nibble of the 32-bit value written. -/
theorem low_nibble (v : Nat) : u32 v &&& 0xf = v % 16 := by
  have h := Nat.and_pow_two_sub_one_eq_mod (u32 v) 4
  norm_num at h
  rw [h]
  unfold u32
  omega

/-- One write to the Write-Sequence register. -/
theorem writeSequence_step (D : MptDefs) (t : LSILOGICSCSI) (v : Nat) :
    (t.fDiagnosticEnabled = true →
        (lsilogicRegisterWrite D t LSILOGIC_REG_WRITE_SEQUENCE v).fDiagnosticEnabled = false
          ∧ (lsilogicRegisterWrite D t LSILOGIC_REG_WRITE_SEQUENCE v).iDiagnosticAccess = 0)
      ∧ (t.fDiagnosticEnabled = false →
          v % 16 = g_lsilogicDiagnosticAccess.getD t.iDiagnosticAccess 0 →
          (lsilogicRegisterWrite D t LSILOGIC_REG_WRITE_SEQUENCE v).iDiagnosticAccess
              = u32 (t.iDiagnosticAccess + 1)
            ∧ (lsilogicRegisterWrite D t LSILOGIC_REG_WRITE_SEQUENCE v).fDiagnosticEnabled
              = decide (u32 (t.iDiagnosticAccess + 1) = 5))
      ∧ (t.fDiagnosticEnabled = false →
          v % 16 ≠ g_lsilogicDiagnosticAccess.getD t.iDiagnosticAccess 0 →
          (lsilogicRegisterWrite D t LSILOGIC_REG_WRITE_SEQUENCE v).iDiagnosticAccess = 0
            ∧ (lsilogicRegisterWrite D t LSILOGIC_REG_WRITE_SEQUENCE v).fDiagnosticEnabled
              = false) := by
  have h1 : LSILOGIC_REG_WRITE_SEQUENCE ≠ LSILOGIC_REG_REPLY_QUEUE := by decide
  have h2 : LSILOGIC_REG_WRITE_SEQUENCE ≠ LSILOGIC_REG_REQUEST_QUEUE := by decide
  have h3 : LSILOGIC_REG_WRITE_SEQUENCE ≠ LSILOGIC_REG_DOORBELL := by decide
  have h4 : LSILOGIC_REG_WRITE_SEQUENCE ≠ LSILOGIC_REG_HOST_INTR_STATUS := by decide
  have h5 : LSILOGIC_REG_WRITE_SEQUENCE ≠ LSILOGIC_REG_HOST_INTR_MASK := by decide
  have hlen : g_lsilogicDiagnosticAccess.length = 5 := rfl
  refine ⟨fun he => ?_, fun he hk => ?_, fun he hk => ?_⟩
  · simp only [lsilogicRegisterWrite, h1, h2, h3, h4, h5, if_false, if_true, he, and_self]
  · simp only [lsilogicRegisterWrite, h1, h2, h3, h4, h5, if_false, if_true, he,
      Bool.false_eq_true, low_nibble, hk, hlen]
    split_ifs with h
    · exact ⟨rfl, by simp [h]⟩
    · exact ⟨rfl, by simp [he, h]⟩
  · simp only [lsilogicRegisterWrite, h1, h2, h3, h4, h5, if_false, if_true, he,
      Bool.false_eq_true, low_nibble, hk, and_self]

/-- A run of writes to the Write-Sequence register, one write longer. -/
theorem writeSequence_append (D : MptDefs) (s : LSILOGICSCSI) (vs : List Nat) (v : Nat) :
    writeSequence D s (vs ++ [v])
      = lsilogicRegisterWrite D (writeSequence D s vs) LSILOGIC_REG_WRITE_SEQUENCE v := by
  simp only [writeSequence, List.foldl_append, List.foldl_cons, List.foldl_nil]

/-- The keys up to a progress below 5, one key longer. -/
theorem key_take_succ (p : Nat) (hp : p ≤ 4) :
    g_lsilogicDiagnosticAccess.take (p + 1)
      = g_lsilogicDiagnosticAccess.take p ++ [g_lsilogicDiagnosticAccess.getD p 0] := by
  interval_cases p <;> rfl

/-- A suffix stays a suffix when both lists grow by the same element. -/
theorem suffix_snoc (a l : List Nat) (x : Nat) (h : a <:+ l) : a ++ [x] <:+ l ++ [x] := by
  obtain ⟨t, rfl⟩ := h
  exact ⟨t, by simp⟩

/-- What a run of writes to the Write-Sequence register, started with access
disabled and progress 0, keeps: while access is disabled the progress is at
most 4 and the low nibbles of the last writes are the keys up to the progress;
when access is enabled the low nibbles of the last five writes are the keys. -/
theorem writeSequence_inv (D : MptDefs) (s : LSILOGICSCSI)
    (hdis : s.fDiagnosticEnabled = false) (hp : s.iDiagnosticAccess = 0) (vs : List Nat) :
    ((writeSequence D s vs).fDiagnosticEnabled = false →
        (writeSequence D s vs).iDiagnosticAccess ≤ 4
          ∧ g_lsilogicDiagnosticAccess.take (writeSequence D s vs).iDiagnosticAccess
              <:+ vs.map (fun v => v % 16))
      ∧ ((writeSequence D s vs).fDiagnosticEnabled = true →
          g_lsilogicDiagnosticAccess <:+ vs.map (fun v => v % 16)) := by
  induction vs using List.reverseRecOn with
  | nil =>
    refine ⟨fun _ => ?_, fun h => ?_⟩
    · have e : (writeSequence D s []).iDiagnosticAccess = 0 := hp
      rw [e]
      exact ⟨by omega, List.nil_suffix⟩
    · have : s.fDiagnosticEnabled = true := h
      rw [hdis] at this
      cases this
  | append_singleton vs v ih =>
    rw [writeSequence_append, List.map_append, List.map_cons, List.map_nil]
    obtain ⟨s1, s2, s3⟩ := writeSequence_step D (writeSequence D s vs) v
    cases he : (writeSequence D s vs).fDiagnosticEnabled
    · obtain ⟨hle, hsuf⟩ := ih.1 he
      have hu : u32 ((writeSequence D s vs).iDiagnosticAccess + 1)
          = (writeSequence D s vs).iDiagnosticAccess + 1 := by
        unfold u32; omega
      by_cases hk : v % 16
          = g_lsilogicDiagnosticAccess.getD (writeSequence D s vs).iDiagnosticAccess 0
      · obtain ⟨e1, e2⟩ := s2 he hk
        rw [hu] at e1 e2
        refine ⟨fun h => ?_, fun h => ?_⟩
        · rw [e2, decide_eq_false_iff_not] at h
          rw [e1]
          refine ⟨by omega, ?_⟩
          rw [key_take_succ _ hle, hk]
          exact suffix_snoc _ _ _ hsuf
        · rw [e2, decide_eq_true_eq] at h
          have h4 : (writeSequence D s vs).iDiagnosticAccess = 4 := by omega
          rw [h4] at hsuf hk
          rw [hk]
          exact suffix_snoc _ _ _ hsuf
      · obtain ⟨e1, e2⟩ := s3 he hk
        refine ⟨fun _ => ?_, fun h => ?_⟩
        · rw [e1]
          exact ⟨by omega, List.nil_suffix⟩
        · rw [e2] at h
          cases h
    · obtain ⟨e1, e2⟩ := s1 he
      refine ⟨fun _ => ?_, fun h => ?_⟩
      · rw [e2]
        exact ⟨by omega, List.nil_suffix⟩
      · rw [e1] at h
        cases h

/-- C25: with diagnostic access disabled and progress `iDiagnosticAccess = 0`,
writing to the Write-Sequence register five values whose low nibbles are 0x4,
0xB, 0x2, 0x7, 0xD in that order sets `fDiagnosticEnabled`; at any progress
`p < 5` a write whose low nibble differs from the `p`-th key resets the progress
to 0 and leaves access disabled; access becomes enabled only by five
consecutive correct keys (after any run of writes that leaves access enabled,
the last five values written have the keys as low nibbles); and any write
while access is enabled disables it and resets the progress to 0. -/
theorem C25_write_sequence_unlock (D : MptDefs) (s : LSILOGICSCSI) :
    (s.fDiagnosticEnabled = false → s.iDiagnosticAccess = 0 →
        ∀ v1 v2 v3 v4 v5 : Nat, v1 % 16 = 0x4 → v2 % 16 = 0xB → v3 % 16 = 0x2 →
          v4 % 16 = 0x7 → v5 % 16 = 0xD →
          (writeSequence D s [v1, v2, v3, v4, v5]).fDiagnosticEnabled = true)
      ∧ (s.fDiagnosticEnabled = false → s.iDiagnosticAccess < 5 →
          ∀ v, v % 16 ≠ g_lsilogicDiagnosticAccess.getD s.iDiagnosticAccess 0 →
            (lsilogicRegisterWrite D s LSILOGIC_REG_WRITE_SEQUENCE v).iDiagnosticAccess = 0
              ∧ (lsilogicRegisterWrite D s LSILOGIC_REG_WRITE_SEQUENCE v).fDiagnosticEnabled
                  = false)
      ∧ (s.fDiagnosticEnabled = false → s.iDiagnosticAccess = 0 →
          ∀ vs : List Nat, (writeSequence D s vs).fDiagnosticEnabled = true →
            5 ≤ vs.length
              ∧ (vs.drop (vs.length - 5)).map (fun v => v % 16) = [0x4, 0xB, 0x2, 0x7, 0xD])
      ∧ (s.fDiagnosticEnabled = true →
          ∀ v, (lsilogicRegisterWrite D s LSILOGIC_REG_WRITE_SEQUENCE v).fDiagnosticEnabled
                = false
            ∧ (lsilogicRegisterWrite D s LSILOGIC_REG_WRITE_SEQUENCE v).iDiagnosticAccess = 0) := by
  refine ⟨fun hdis hp v1 v2 v3 v4 v5 k1 k2 k3 k4 k5 => ?_,
    fun hdis _ v hv => (writeSequence_step D s v).2.2 hdis hv,
    fun hdis hp vs hen => ?_, fun hen v => (writeSequence_step D s v).1 hen⟩
  · have w1 := (writeSequence_step D s v1).2.1 hdis (by rw [hp, k1]; rfl)
    rw [hp] at w1
    have w2 := (writeSequence_step D _ v2).2.1 (by rw [w1.2]; rfl) (by rw [w1.1, k2]; rfl)
    rw [w1.1] at w2
    have w3 := (writeSequence_step D _ v3).2.1 (by rw [w2.2]; rfl) (by rw [w2.1, k3]; rfl)
    rw [w2.1] at w3
    have w4 := (writeSequence_step D _ v4).2.1 (by rw [w3.2]; rfl) (by rw [w3.1, k4]; rfl)
    rw [w3.1] at w4
    have w5 := (writeSequence_step D _ v5).2.1 (by rw [w4.2]; rfl) (by rw [w4.1, k5]; rfl)
    rw [w4.1] at w5
    show (lsilogicRegisterWrite D _ LSILOGIC_REG_WRITE_SEQUENCE v5).fDiagnosticEnabled = true
    rw [w5.2]
    rfl
  · have hsuf := (writeSequence_inv D s hdis hp vs).2 hen
    have hlen := hsuf.length_le
    rw [List.length_map] at hlen
    have h5 : g_lsilogicDiagnosticAccess.length = 5 := rfl
    refine ⟨by omega, ?_⟩
    rw [List.map_drop]
    have := List.suffix_iff_eq_drop.mp hsuf
    rw [List.length_map, h5] at this
    exact this.symm

/-- C25, evaluated on the device after its first hard reset: the five keys
enable diagnostic access, a wrong fifth key does not. -/
theorem C25_write_sequence_unlock_witness :
    (exReady.fDiagnosticEnabled = false ∧ exReady.iDiagnosticAccess = 0)
    ∧ (writeSequence mptDefs exReady [0x4, 0xB, 0x2, 0x7, 0xD]).fDiagnosticEnabled = true
    ∧ (writeSequence mptDefs exReady [0x4, 0xB, 0x2, 0x7, 0xC]).fDiagnosticEnabled = false
    ∧ (writeSequence mptDefs exReady [0x4, 0xB, 0x2, 0x7, 0xC]).iDiagnosticAccess = 0 :=
  ⟨by decide,
   (C25_write_sequence_unlock mptDefs exReady).1 (by decide) (by decide)
     0x4 0xB 0x2 0x7 0xD (by decide) (by decide) (by decide) (by decide) (by decide),
   by decide, by decide⟩

end LsiLogic


namespace LsiLogic

set_option maxRecDepth 100000

/-! ## Resets, the fault code and diagnostic access -/

/-- A 4-byte read of the Doorbell register while no handshake is in progress:
the state is unchanged, the value carries the controller state in bits 28..31
and the fault code in bits 0..15. -/
theorem registerRead_doorbell_status (D : MptDefs) (t : LSILOGICSCSI)
    (hf : t.fDoorbellInProgress = false) (hfc : t.u16IOCFaultCode < 65536) :
    ∃ r, lsilogicRegisterRead D t LSILOGIC_REG_DOORBELL 4 = (t, some r)
      ∧ r / 268435456 = t.enmState.toNat ∧ r % 65536 = t.u16IOCFaultCode := by
  have hwho : t.enmWhoInit &&& 0x7 < 8 := Nat.lt_succ_of_le Nat.and_le_right
  have hst : t.enmState.toNat &&& 0xF = t.enmState.toNat := by
    cases t.enmState <;> rfl
  have hst4 : t.enmState.toNat ≤ 4 := by
    cases t.enmState <;> decide
  have hsum := doorbell_status_sum (t.enmState.toNat &&& 0xF) (t.enmWhoInit &&& 0x7)
    t.u16IOCFaultCode hwho hfc
  refine ⟨(((t.enmState.toNat &&& 0xF) <<< 28) ||| ((t.enmWhoInit &&& 0x7) <<< 24))
    ||| t.u16IOCFaultCode, ?_, ?_, ?_⟩
  · have e1 : LSILOGIC_REG_DOORBELL ≠ LSILOGIC_REG_REPLY_QUEUE := by decide
    have e2 : (LSILOGIC_REG_DOORBELL &&& not32 3) = LSILOGIC_REG_DOORBELL := by decide
    have e3 : u32 ((t.enmState.toNat &&& 0x0f) <<< 28) = (t.enmState.toNat &&& 0xF) <<< 28 := by
      cases t.enmState <;> rfl
    simp only [lsilogicRegisterRead, e1, e2, if_false, if_true, hf, Bool.false_eq_true,
      lsilogicRegisterReadClip, LSILOGIC_REG_DOORBELL_SET_STATE, LSILOGIC_REG_DOORBELL_SET_USED,
      LSILOGIC_REG_DOORBELL_SET_WHOINIT, e3, Nat.zero_shiftLeft, Nat.or_zero]
  · rw [hsum, hst]; omega
  · rw [hsum, hst]; omega

/-- The Doorbell write of the function IOC-message-unit-reset, no handshake
being in progress: state Ready, fault code and handshake flag as before. -/
theorem registerWrite_iocReset (D : MptDefs) (s : LSILOGICSCSI) (v : Nat)
    (hf : s.fDoorbellInProgress = false)
    (hfn : LSILOGIC_REG_DOORBELL_GET_FUNCTION (u32 v)
      = LSILOGIC_DOORBELL_FUNCTION_IOC_MSG_UNIT_RESET) :
    (lsilogicRegisterWrite D s LSILOGIC_REG_DOORBELL v).enmState = LSILOGICSTATE.READY
      ∧ (lsilogicRegisterWrite D s LSILOGIC_REG_DOORBELL v).u16IOCFaultCode = s.u16IOCFaultCode
      ∧ (lsilogicRegisterWrite D s LSILOGIC_REG_DOORBELL v).fDoorbellInProgress = false := by
  have e1 : LSILOGIC_REG_DOORBELL ≠ LSILOGIC_REG_REPLY_QUEUE := by decide
  have e2 : LSILOGIC_REG_DOORBELL ≠ LSILOGIC_REG_REQUEST_QUEUE := by decide
  simp only [lsilogicRegisterWrite, e1, e2, if_false, if_true, hf, Bool.not_false, hfn]
  exact ⟨trivial, rfl, rfl⟩

/-- C39: the latched fault code survives reset.  Neither `lsilogicHardReset`
nor the Doorbell function IOC-message-unit-reset (written while no handshake is
in progress) changes `u16IOCFaultCode`; both leave the controller in the Ready
state.  So after either reset of a controller whose fault code is `c` (a
`uint16_t`), a 4-byte read of the Doorbell register, no handshake being in
progress, returns a value with the Ready state (1) in bits 28..31 and `c` in
bits 0..15. -/
theorem C39_fault_code_survives_reset (D : MptDefs) (s : LSILOGICSCSI) (v : Nat)
    (hf : s.fDoorbellInProgress = false)
    (hfn : LSILOGIC_REG_DOORBELL_GET_FUNCTION (u32 v)
      = LSILOGIC_DOORBELL_FUNCTION_IOC_MSG_UNIT_RESET)
    (hfc : s.u16IOCFaultCode < 65536) :
    (lsilogicHardReset D s).u16IOCFaultCode = s.u16IOCFaultCode
      ∧ (lsilogicRegisterWrite D s LSILOGIC_REG_DOORBELL v).u16IOCFaultCode = s.u16IOCFaultCode
      ∧ (lsilogicHardReset D s).enmState = LSILOGICSTATE.READY
      ∧ (lsilogicRegisterWrite D s LSILOGIC_REG_DOORBELL v).enmState = LSILOGICSTATE.READY
      ∧ (∃ r, (lsilogicRegisterRead D (lsilogicHardReset D s) LSILOGIC_REG_DOORBELL 4).2 = some r
          ∧ r / 268435456 = 1 ∧ r % 65536 = s.u16IOCFaultCode)
      ∧ (∃ r, (lsilogicRegisterRead D (lsilogicRegisterWrite D s LSILOGIC_REG_DOORBELL v)
              LSILOGIC_REG_DOORBELL 4).2 = some r
          ∧ r / 268435456 = 1 ∧ r % 65536 = s.u16IOCFaultCode) := by
  obtain ⟨w1, w2, w3⟩ := registerWrite_iocReset D s v hf hfn
  refine ⟨rfl, w2, rfl, w1, ?_, ?_⟩
  · obtain ⟨r, h1, h2, h3⟩ := registerRead_doorbell_status D (lsilogicHardReset D s) hf hfc
    exact ⟨r, by rw [h1], h2, h3⟩
  · obtain ⟨r, h1, h2, h3⟩ := registerRead_doorbell_status D
      (lsilogicRegisterWrite D s LSILOGIC_REG_DOORBELL v) w3 (by rw [w2]; exact hfc)
    exact ⟨r, by rw [h1], by rw [h2, w1]; rfl, by rw [h3, w2]⟩

/-- C39, evaluated on the device in the Fault state with the fault code 5:
after a hard reset, and after the Doorbell write 0x40000000, a Doorbell read
returns 0x10000005. -/
theorem C39_fault_code_survives_reset_witness :
    (exFault.enmState = LSILOGICSTATE.FAULT ∧ exFault.u16IOCFaultCode = 5
      ∧ exFault.fDoorbellInProgress = false
      ∧ LSILOGIC_REG_DOORBELL_GET_FUNCTION (u32 0x40000000)
        = LSILOGIC_DOORBELL_FUNCTION_IOC_MSG_UNIT_RESET)
    ∧ (lsilogicRegisterRead mptDefs (lsilogicHardReset mptDefs exFault)
        LSILOGIC_REG_DOORBELL 4).2 = some 0x10000005
    ∧ (lsilogicRegisterRead mptDefs
        (lsilogicRegisterWrite mptDefs exFault LSILOGIC_REG_DOORBELL 0x40000000)
        LSILOGIC_REG_DOORBELL 4).2 = some 0x10000005
    ∧ ((lsilogicHardReset mptDefs exFault).u16IOCFaultCode = exFault.u16IOCFaultCode
      ∧ (lsilogicRegisterWrite mptDefs exFault LSILOGIC_REG_DOORBELL 0x40000000).u16IOCFaultCode
          = exFault.u16IOCFaultCode
      ∧ (lsilogicHardReset mptDefs exFault).enmState = LSILOGICSTATE.READY
      ∧ (lsilogicRegisterWrite mptDefs exFault LSILOGIC_REG_DOORBELL 0x40000000).enmState
          = LSILOGICSTATE.READY
      ∧ (∃ r, (lsilogicRegisterRead mptDefs (lsilogicHardReset mptDefs exFault)
              LSILOGIC_REG_DOORBELL 4).2 = some r
          ∧ r / 268435456 = 1 ∧ r % 65536 = exFault.u16IOCFaultCode)
      ∧ (∃ r, (lsilogicRegisterRead mptDefs
              (lsilogicRegisterWrite mptDefs exFault LSILOGIC_REG_DOORBELL 0x40000000)
              LSILOGIC_REG_DOORBELL 4).2 = some r
          ∧ r / 268435456 = 1 ∧ r % 65536 = exFault.u16IOCFaultCode)) :=
  ⟨by decide, by decide, by decide,
   C39_fault_code_survives_reset mptDefs exFault 0x40000000 (by decide) (by decide) (by decide)⟩

/-- A hard reset leaves `fDiagnosticEnabled` as it finds it and clears the
position in the key sequence. -/
theorem hardReset_diagnostic (D : MptDefs) (s : LSILOGICSCSI) :
    (lsilogicHardReset D s).fDiagnosticEnabled = s.fDiagnosticEnabled
      ∧ (lsilogicHardReset D s).iDiagnosticAccess = 0 :=
  ⟨rfl, rfl⟩

/-- C38, refuted on the code: on the device `exUnlocked`, whose write-sequence
key was completed, `lsilogicHardReset` (also when reached through the
reset-adapter bit of the Host-Diagnostic register) clears `iDiagnosticAccess`
but leaves `fDiagnosticEnabled` set.  A read of the Host-Diagnostic register
then returns 0x80, not 0, and a write of the first key 0x04 to the
Write-Sequence register is taken as the write that disables access (the key
position stays 0), where on a locked device it advances the key position to 1.
In every state the reset leaves `fDiagnosticEnabled` as it was. -/
theorem C38_hard_reset_diagnostic_counterexample :
    exUnlocked.fDiagnosticEnabled = true
      ∧ (lsilogicHardReset mptDefs exUnlocked).fDiagnosticEnabled = true
      ∧ (lsilogicHardReset mptDefs exUnlocked).iDiagnosticAccess = 0
      ∧ (lsilogicRegisterWrite mptDefs exUnlocked LSILOGIC_REG_HOST_DIAGNOSTIC 0x04
          ).fDiagnosticEnabled = true
      ∧ (lsilogicRegisterRead mptDefs (lsilogicHardReset mptDefs exUnlocked)
          LSILOGIC_REG_HOST_DIAGNOSTIC 4).2 = some 0x80
      ∧ (lsilogicRegisterWrite mptDefs (lsilogicHardReset mptDefs exUnlocked)
          LSILOGIC_REG_WRITE_SEQUENCE 0x04).iDiagnosticAccess = 0
      ∧ (lsilogicRegisterWrite mptDefs (lsilogicHardReset mptDefs exUnlocked)
          LSILOGIC_REG_WRITE_SEQUENCE 0x04).fDiagnosticEnabled = false
      ∧ (lsilogicRegisterWrite mptDefs exReady LSILOGIC_REG_WRITE_SEQUENCE 0x04
          ).iDiagnosticAccess = 1
      ∧ (∀ (D : MptDefs) (s : LSILOGICSCSI),
          (lsilogicHardReset D s).fDiagnosticEnabled = s.fDiagnosticEnabled) :=
  ⟨by decide, by decide, by decide, by decide, by decide, by decide, by decide, by decide,
   fun D s => (hardReset_diagnostic D s).1⟩

/-- C37, refuted on the code: for manufacturing page 1 the lookup hands out
the header at offset 76 of the page store, the page size 260, and as data
pointer the member `abVPDInfo` at offset 80.  The 260 bytes from the data
pointer end at offset 340, four bytes behind the end of the page at 336, where
manufacturing page 2 starts; they do not start at the header.  For pages 0, 2,
3 and 4 the data pointer is the start of the page.  A configuration request
that reads manufacturing page 1 into a buffer of 260 bytes therefore stores the
first four bytes of manufacturing page 2 into the last four bytes of the
buffer. -/
theorem C37_manufacturing_page_region_counterexample :
    lsilogicConfigurationManufacturingPageGetFromNumber 1 = some ConfigPage.ManufacturingPage1
      ∧ pageHeaderAddr mptDefs ConfigPage.ManufacturingPage1 = 76
      ∧ mptDefs.offPage ConfigPage.ManufacturingPage1 = 76
      ∧ mptDefs.sizeofPage ConfigPage.ManufacturingPage1 = 260
      ∧ pageDataAddr mptDefs ConfigPage.ManufacturingPage1 = 80
      ∧ pageDataAddr mptDefs ConfigPage.ManufacturingPage1
          + mptDefs.sizeofPage ConfigPage.ManufacturingPage1 = 340
      ∧ mptDefs.offPage ConfigPage.ManufacturingPage1
          + mptDefs.sizeofPage ConfigPage.ManufacturingPage1 = 336
      ∧ mptDefs.offPage ConfigPage.ManufacturingPage2 = 336
      ∧ (∀ n ∈ [0, 2, 3, 4], ∃ pg,
          lsilogicConfigurationManufacturingPageGetFromNumber n = some pg
            ∧ pageDataAddr mptDefs pg = mptDefs.offPage pg
            ∧ pageHeaderAddr mptDefs pg = mptDefs.offPage pg)
      ∧ (List.range 4).map (fun i =>
          (lsilogicProcessConfigurationRequest mptDefs exConfigDevice
            (exConfigReq 1 9 1 260 0x6000) MptReplyUnion.zero).1.mem (0x6000 + 256 + i))
        = (List.range 4).map (fun i => exConfigDevice.ConfigurationPages (336 + i))
      ∧ (List.range 4).map (fun i => exConfigDevice.ConfigurationPages (336 + i))
        = [0, 2, 2, 9] := by
  refine ⟨by decide, by decide, by decide, by decide, by decide, by decide, by decide,
    by decide, by decide, by decide, by decide⟩

/-- A Doorbell write during a handshake that does not complete the message
stores the value at index `iMessage` and advances `iMessage`, whatever the
index is. -/
theorem registerWrite_doorbell_store (D : MptDefs) (s : LSILOGICSCSI) (v : Nat)
    (hf : s.fDoorbellInProgress = true) (hne : u32 (s.iMessage + 1) ≠ s.cMessage) :
    lsilogicRegisterWrite D s LSILOGIC_REG_DOORBELL v
      = { s with
          aMessage := writeSlot s.aMessage s.iMessage (u32 v)
          iMessage := u32 (s.iMessage + 1) } := by
  have e1 : LSILOGIC_REG_DOORBELL ≠ LSILOGIC_REG_REPLY_QUEUE := by decide
  have e2 : LSILOGIC_REG_DOORBELL ≠ LSILOGIC_REG_REQUEST_QUEUE := by decide
  simp only [lsilogicRegisterWrite, e1, e2, if_false, if_true, hf, Bool.not_true,
    Bool.false_eq_true, hne]

/-- C35, refuted on the code: the buffer `aMessage` has
`sizeof(MptConfigurationRequest)` = 40 elements.  Starting from the device
`exReady`, no handshake in progress, the Doorbell write 0x42000000 starts a
handshake that announces size 0; after 40 further writes `iMessage` is 40 and
the handshake is still in progress; the next write stores its value
0xDEADBEEF at index 40, behind the last element.  The same happens after a
completed message: on the device `exStaged`, whose IOC-Init message of six
dwords is complete and whose reply is not yet read, 34 further writes bring
`iMessage` to 40 and the next one stores at index 40.  No write during a
handshake compares `iMessage` with the number of elements. -/
theorem C35_doorbell_message_bounds_counterexample :
    exReady.fDoorbellInProgress = false
      ∧ mptDefs.sizeof_MptConfigurationRequest = 40
      ∧ (writeDoorbell mptDefs exReady (exOverlongWrites.take 41)).fDoorbellInProgress = true
      ∧ (writeDoorbell mptDefs exReady (exOverlongWrites.take 41)).iMessage = 40
      ∧ (writeDoorbell mptDefs exReady (exOverlongWrites.take 41)).aMessage 40 = 0
      ∧ (writeDoorbell mptDefs exReady exOverlongWrites).aMessage 40 = 0xDEADBEEF
      ∧ (writeDoorbell mptDefs exReady exOverlongWrites).iMessage = 41
      ∧ exStaged.iMessage = 6
      ∧ (writeDoorbell mptDefs exStaged (List.replicate 34 0xDEADBEEF)).iMessage = 40
      ∧ (writeDoorbell mptDefs exStaged (List.replicate 34 0xDEADBEEF)).fDoorbellInProgress = true
      ∧ (writeDoorbell mptDefs exStaged (List.replicate 35 0xDEADBEEF)).aMessage 40 = 0xDEADBEEF
      ∧ (∀ (D : MptDefs) (s : LSILOGICSCSI) (v : Nat), s.fDoorbellInProgress = true →
          u32 (s.iMessage + 1) ≠ s.cMessage →
          (lsilogicRegisterWrite D s LSILOGIC_REG_DOORBELL v).aMessage s.iMessage = u32 v) := by
  refine ⟨by decide, by decide, by decide, by decide, by decide, by decide, by decide,
    by decide, by decide, by decide, by decide, fun D s v hf hne => ?_⟩
  rw [registerWrite_doorbell_store D s v hf hne]
  simp [writeSlot]

end LsiLogic


namespace LsiLogic

/-! ## The ring cursors stay in range -/

/-- A step that leaves the capacities, slots and cursors of the rings alone is
safe. -/
theorem ringsSafe_of_state (s t : LSILOGICSCSI) (h : ringsInRange s)
    (e : ringState t = ringState s) : ringsSafe s t := by
  simp only [ringState, Prod.mk.injEq] at e
  obtain ⟨⟨e1, e2⟩, ⟨e3, e4, e5⟩, c1, c2, c3, c4, c5, c6⟩ := e
  unfold ringsSafe ringsInRange ringsKept
  rw [e1, e2, e3, e4, e5, c1, c2, c3, c4, c5, c6]
  exact ⟨h, rfl, rfl, fun _ _ => rfl, fun _ _ => rfl, fun _ _ => rfl⟩

theorem ringsSafe_refl (s : LSILOGICSCSI) (h : ringsInRange s) : ringsSafe s s :=
  ringsSafe_of_state s s h rfl

theorem ringsSafe_trans {s t u : LSILOGICSCSI} (h1 : ringsSafe s t) (h2 : ringsSafe t u) :
    ringsSafe s u := by
  obtain ⟨-, a1, a2, a3, a4, a5⟩ := h1
  obtain ⟨r, b1, b2, b3, b4, b5⟩ := h2
  refine ⟨r, b1.trans a1, b2.trans a2, fun i hi => ?_, fun i hi => ?_, fun i hi => ?_⟩
  · rw [b3 i (by rw [a1]; exact hi), a3 i hi]
  · rw [b4 i (by rw [a1]; exact hi), a4 i hi]
  · rw [b5 i (by rw [a2]; exact hi), a5 i hi]

/-- A safe step followed by a step that leaves the rings alone. -/
theorem ringsSafe_then_state {s t u : LSILOGICSCSI} (h1 : ringsSafe s t)
    (e : ringState u = ringState t) : ringsSafe s u :=
  ringsSafe_trans h1 (ringsSafe_of_state t u h1.1 e)

/-- An advanced cursor is below the capacity. -/
theorem cursor_advance_lt (c cap : Nat) (h : 1 ≤ cap) : u32 (c + 1) % cap < cap :=
  Nat.mod_lt _ h

/-- A slot at or beyond the capacity is not the slot at a cursor in range. -/
theorem writeSlot_beyond (p : Nat → Nat) (c v cap i : Nat) (hc : c < cap) (hi : cap ≤ i) :
    writeSlot p c v i = p i := by
  unfold writeSlot
  rw [if_neg (by omega)]

theorem setIOCFaultCode_rings (s : LSILOGICSCSI) (c : Nat) :
    ringState (lsilogicSetIOCFaultCode s c) = ringState s := by
  unfold lsilogicSetIOCFaultCode
  split <;> rfl

theorem processConfigurationRequest_rings (D : MptDefs) (s : LSILOGICSCSI)
    (req : MptRequestUnion) (r : MptReplyUnion) :
    ringState (lsilogicProcessConfigurationRequest D s req r).1 = ringState s := by
  unfold lsilogicProcessConfigurationRequest
  dsimp only
  split
  · rfl
  · split_ifs <;> rfl

theorem processMessageSwitch_rings (D : MptDefs) (s : LSILOGICSCSI) (req : MptRequestUnion) :
    ringState (lsilogicProcessMessageSwitch D s req).pLsiLogic = ringState s := by
  have hc := processConfigurationRequest_rings D s req MptReplyUnion.zero
  unfold lsilogicProcessMessageSwitch
  dsimp only
  split_ifs <;> first | rfl | exact hc

theorem rtCacheRequest_rings (s : LSILOGICSCSI) : ringState (RTCacheRequest s).1 = ringState s := by
  unfold RTCacheRequest
  split <;> rfl

theorem scatterGatherListDestroy_rings (D : MptDefs) (s : LSILOGICSCSI)
    (ts : LSILOGICTASKSTATE) :
    ringState (lsilogicScatterGatherListDestroy D s ts).1 = ringState s := by
  unfold lsilogicScatterGatherListDestroy
  dsimp only
  split <;> rfl

/-- Posting a context reply keeps the cursors in range. -/
theorem finishContextReply_safe (s : LSILOGICSCSI) (c : Nat) (h : ringsInRange s) :
    ringsSafe s (lsilogicFinishContextReply s c) := by
  obtain ⟨h1, h2, h3, h4, h5, h6, h7, h8⟩ := h
  exact ⟨⟨h1, h2, h3, h4, cursor_advance_lt _ _ h1, h6, h7, h8⟩, rfl, rfl, fun _ _ => rfl,
    fun i hi => writeSlot_beyond _ _ _ _ i h5 hi, fun _ _ => rfl⟩

/-- Posting an address reply keeps the cursors in range. -/
theorem finishAddressReply_safe (D : MptDefs) (s : LSILOGICSCSI) (r : MptReplyUnion) (f : Bool)
    (h : ringsInRange s) : ringsSafe s (lsilogicFinishAddressReply D s r f) := by
  obtain ⟨h1, h2, h3, h4, h5, h6, h7, h8⟩ := h
  unfold lsilogicFinishAddressReply
  split
  · exact ringsSafe_of_state _ _ ⟨h1, h2, h3, h4, h5, h6, h7, h8⟩ rfl
  · cases f
    · exact ⟨⟨h1, h2, h3, cursor_advance_lt _ _ h1, cursor_advance_lt _ _ h1, h6, h7, h8⟩,
        rfl, rfl, fun _ _ => rfl, fun i hi => writeSlot_beyond _ _ _ _ i h5 hi, fun _ _ => rfl⟩
    · exact ⟨⟨h1, h2, h3, cursor_advance_lt _ _ h1, cursor_advance_lt _ _ h1, h6, h7, h8⟩,
        rfl, rfl, fun _ _ => rfl, fun i hi => writeSlot_beyond _ _ _ _ i h5 hi, fun _ _ => rfl⟩

/-- Processing a message keeps the cursors in range. -/
theorem processMessageRequest_safe (D : MptDefs) (s : LSILOGICSCSI) (req : MptRequestUnion)
    (h : ringsInRange s) : ringsSafe s (lsilogicProcessMessageRequest D s req).1 := by
  have h1 := ringsSafe_of_state s _ h (processMessageSwitch_rings D s req)
  unfold lsilogicProcessMessageRequest
  dsimp only
  exact ringsSafe_trans h1 (finishAddressReply_safe D _ _ _ h1.1)

/-- A hard reset keeps the capacities and slots and zeroes the cursors. -/
theorem hardReset_safe (D : MptDefs) (s : LSILOGICSCSI) (h : ringsInRange s) :
    ringsSafe s (lsilogicHardReset D s) := by
  obtain ⟨h1, h2, -⟩ := h
  exact ⟨⟨h1, h2, h1, h1, h1, h1, h2, h2⟩, rfl, rfl, fun _ _ => rfl, fun _ _ => rfl,
    fun _ _ => rfl⟩

/-- A register write keeps the cursors in range. -/
theorem registerWrite_safe (D : MptDefs) (s : LSILOGICSCSI) (uOffset v : Nat)
    (h : ringsInRange s) : ringsSafe s (lsilogicRegisterWrite D s uOffset v) := by
  obtain ⟨h1, h2, h3, h4, h5, h6, h7, h8⟩ := id h
  have e21 : LSILOGIC_REG_REQUEST_QUEUE ≠ LSILOGIC_REG_REPLY_QUEUE := by decide
  have e31 : LSILOGIC_REG_DOORBELL ≠ LSILOGIC_REG_REPLY_QUEUE := by decide
  have e32 : LSILOGIC_REG_DOORBELL ≠ LSILOGIC_REG_REQUEST_QUEUE := by decide
  by_cases o1 : uOffset = LSILOGIC_REG_REPLY_QUEUE
  · subst o1
    simp only [lsilogicRegisterWrite, if_true]
    exact ⟨⟨h1, h2, cursor_advance_lt _ _ h1, h4, h5, h6, h7, h8⟩, rfl, rfl,
      fun i hi => writeSlot_beyond _ _ _ _ i h3 hi, fun _ _ => rfl, fun _ _ => rfl⟩
  by_cases o2 : uOffset = LSILOGIC_REG_REQUEST_QUEUE
  · subst o2
    simp only [lsilogicRegisterWrite, e21, if_false, if_true]
    split_ifs
    · exact ⟨⟨h1, h2, h3, h4, h5, h6, cursor_advance_lt _ _ h2, h8⟩, rfl, rfl,
        fun _ _ => rfl, fun _ _ => rfl, fun i hi => writeSlot_beyond _ _ _ _ i h7 hi⟩
    · exact ⟨⟨h1, h2, h3, h4, h5, h6, cursor_advance_lt _ _ h2, h8⟩, rfl, rfl,
        fun _ _ => rfl, fun _ _ => rfl, fun i hi => writeSlot_beyond _ _ _ _ i h7 hi⟩
  by_cases o3 : uOffset = LSILOGIC_REG_DOORBELL
  · subst o3
    cases hf : s.fDoorbellInProgress
    · simp only [lsilogicRegisterWrite, e31, e32, if_false, if_true, hf, Bool.not_false]
      split_ifs
      · exact ⟨⟨h1, h2, h1, h1, h1, h1, h2, h2⟩, rfl, rfl, fun _ _ => rfl, fun _ _ => rfl,
          fun _ _ => rfl⟩
      all_goals exact ringsSafe_of_state _ _ h rfl
    · have hs : ringsSafe s
          { s with
            aMessage := writeSlot s.aMessage s.iMessage (u32 v)
            iMessage := u32 (s.iMessage + 1) } := ringsSafe_of_state _ _ h rfl
      by_cases hl : u32 (s.iMessage + 1) = s.cMessage
      · rw [registerWrite_doorbell_complete D s v hf hl]
        exact ringsSafe_then_state
          (ringsSafe_trans hs (processMessageRequest_safe D
            { s with
              aMessage := writeSlot s.aMessage s.iMessage (u32 v)
              iMessage := u32 (s.iMessage + 1) }
            (D.decodeRequest (aMessageBytes (writeSlot s.aMessage s.iMessage (u32 v)))) hs.1))
          rfl
      · rw [registerWrite_doorbell_store D s v hf hl]
        exact hs
  by_cases o7 : uOffset = LSILOGIC_REG_HOST_DIAGNOSTIC
  · subst o7
    have e1 : LSILOGIC_REG_HOST_DIAGNOSTIC ≠ LSILOGIC_REG_REPLY_QUEUE := by decide
    have e2 : LSILOGIC_REG_HOST_DIAGNOSTIC ≠ LSILOGIC_REG_REQUEST_QUEUE := by decide
    have e3 : LSILOGIC_REG_HOST_DIAGNOSTIC ≠ LSILOGIC_REG_DOORBELL := by decide
    have e4 : LSILOGIC_REG_HOST_DIAGNOSTIC ≠ LSILOGIC_REG_HOST_INTR_STATUS := by decide
    have e5 : LSILOGIC_REG_HOST_DIAGNOSTIC ≠ LSILOGIC_REG_HOST_INTR_MASK := by decide
    have e6 : LSILOGIC_REG_HOST_DIAGNOSTIC ≠ LSILOGIC_REG_WRITE_SEQUENCE := by decide
    simp only [lsilogicRegisterWrite, e1, e2, e3, e4, e5, e6, if_false, if_true]
    split_ifs
    · exact hardReset_safe D s h
    · exact ringsSafe_refl s h
  · simp only [lsilogicRegisterWrite, o1, o2, o3, o7, if_false]
    split_ifs <;> exact ringsSafe_of_state _ _ h rfl

/-- A register read keeps the cursors in range. -/
theorem registerRead_safe (D : MptDefs) (s : LSILOGICSCSI) (uOffset cb : Nat)
    (h : ringsInRange s) : ringsSafe s (lsilogicRegisterRead D s uOffset cb).1 := by
  obtain ⟨h1, h2, h3, h4, h5, h6, h7, h8⟩ := id h
  unfold lsilogicRegisterRead
  dsimp only
  split_ifs
  · exact ⟨⟨h1, h2, h3, h4, h5, cursor_advance_lt _ _ h1, h7, h8⟩, rfl, rfl,
      fun _ _ => rfl, fun _ _ => rfl, fun _ _ => rfl⟩
  all_goals exact ringsSafe_of_state _ _ h rfl

/-- Processing a SCSI I/O request keeps the cursors in range. -/
theorem processSCSIIORequest_safe (D : MptDefs) (alloc : Nat → Bool) (fuel : Nat)
    (s : LSILOGICSCSI) (ts : LSILOGICTASKSTATE) (h : ringsInRange s) :
    ∀ r, lsilogicProcessSCSIIORequest D alloc fuel s ts = some r → ringsSafe s r.1 := by
  unfold lsilogicProcessSCSIIORequest
  dsimp only
  split
  · intro r hr
    cases hr
  · split_ifs
    all_goals
      intro r hr
      rw [← Option.some.inj hr]
      first
        | exact ringsSafe_of_state _ _ h rfl
        | exact ringsSafe_then_state (finishAddressReply_safe D s _ false h) rfl

theorem scsiRequestReleased_rings (D : MptDefs) (s : LSILOGICSCSI) (ts : LSILOGICTASKSTATE) :
    ringState (scsiRequestReleased D s ts).1 = ringState s := by
  unfold scsiRequestReleased
  dsimp only
  rw [scatterGatherListDestroy_frame]
  cases ts.pTargetDevice <;> rfl

/-- The completion of a SCSI request keeps the cursors in range. -/
theorem deviceSCSIRequestCompleted_safe (D : MptDefs) (s : LSILOGICSCSI)
    (ts : LSILOGICTASKSTATE) (rc : Nat) (h : ringsInRange s) :
    ringsSafe s (lsilogicDeviceSCSIRequestCompleted D s ts rc) := by
  cases hb : ts.fBIOS
  · rw [deviceSCSIRequestCompleted_eq D s ts rc hb]
    have hy := ringsSafe_of_state s _ h (scsiRequestReleased_rings D s ts)
    split_ifs
    · exact ringsSafe_then_state
        (ringsSafe_trans hy (finishContextReply_safe (scsiRequestReleased D s ts).1
          (D.decodeRequest ts.GuestRequest).u32MessageContext hy.1)) rfl
    · exact ringsSafe_then_state
        (ringsSafe_trans hy (finishAddressReply_safe D (scsiRequestReleased D s ts).1
          (scsiCompletionErrorReply D (D.decodeRequest ts.GuestRequest) rc) true hy.1)) rfl
  · unfold lsilogicDeviceSCSIRequestCompleted
    simp only [hb, if_true]
    cases ts.pTargetDevice <;> exact ringsSafe_of_state _ _ h rfl

end LsiLogic


namespace LsiLogic

set_option maxRecDepth 100000

/-! ## The request queue consumer and the ring cursors -/

/-- Advancing the read cursor of the request ring keeps the cursors in range. -/
theorem requestRead_advance_safe (x : LSILOGICSCSI) (hx : ringsInRange x) :
    ringsSafe x
      { x with
        uRequestQueueNextAddressRead :=
          u32 (x.uRequestQueueNextAddressRead + 1) % x.cRequestQueueEntries } := by
  obtain ⟨h1, h2, h3, h4, h5, h6, h7, h8⟩ := hx
  exact ⟨⟨h1, h2, h3, h4, h5, h6, h7, cursor_advance_lt _ _ h2⟩, rfl, rfl, fun _ _ => rfl,
    fun _ _ => rfl, fun _ _ => rfl⟩

theorem rtCacheInsert_safe {s y : LSILOGICSCSI} (ts : LSILOGICTASKSTATE) (hy : ringsSafe s y) :
    ringsSafe s (RTCacheInsert y ts) :=
  ringsSafe_then_state hy rfl

/-- One turn of the loop of the request queue consumer keeps the cursors in
range. -/
theorem notifyQueueConsumerTurn_safe (D : MptDefs) (alloc : Nat → Bool) (fuel : Nat)
    (s : LSILOGICSCSI) (h : ringsInRange s) :
    ∀ s', lsilogicNotifyQueueConsumerTurn D alloc fuel s = some s' → ringsSafe s s' := by
  intro s' hs'
  have hx : ringsSafe s
      (if (lsilogicRequestSize D
            (D.decodeRequest
              (readGuestRequest (RTCacheRequest s).1.mem
                (LSILOGIC_RTGCPHYS_FROM_U32 s.u32HostMFAHighAddr
                  (s.pRequestQueueBase s.uRequestQueueNextAddressRead &&& not32 0x07))
                D.sizeof_MptMessageHdr (RTCacheRequest s).2.GuestRequest)).u8Function).2 = true then
        lsilogicSetIOCFaultCode (RTCacheRequest s).1 LSILOGIC_IOCSTATUS_INVALID_FUNCTION
      else (RTCacheRequest s).1) := by
    split_ifs
    · exact ringsSafe_of_state _ _ h ((setIOCFaultCode_rings _ _).trans (rtCacheRequest_rings s))
    · exact ringsSafe_of_state _ _ h (rtCacheRequest_rings s)
  unfold lsilogicNotifyQueueConsumerTurn at hs'
  dsimp only at hs'
  generalize (if (lsilogicRequestSize D
            (D.decodeRequest
              (readGuestRequest (RTCacheRequest s).1.mem
                (LSILOGIC_RTGCPHYS_FROM_U32 s.u32HostMFAHighAddr
                  (s.pRequestQueueBase s.uRequestQueueNextAddressRead &&& not32 0x07))
                D.sizeof_MptMessageHdr (RTCacheRequest s).2.GuestRequest)).u8Function).2 = true then
        lsilogicSetIOCFaultCode (RTCacheRequest s).1 LSILOGIC_IOCSTATUS_INVALID_FUNCTION
      else (RTCacheRequest s).1) = x at hs' hx
  split at hs'
  · split at hs'
    · cases hs'
    · rename_i s3 hr
      rw [← Option.some.inj hs']
      have h3 : ringsSafe s s3 := by
        split_ifs at hr
        · obtain ⟨r, hr1, hr2⟩ := Option.map_eq_some'.mp hr
          rw [← hr2]
          exact ringsSafe_trans hx (processSCSIIORequest_safe D alloc fuel x _ hx.1 r hr1)
        · rw [← Option.some.inj hr]
          exact rtCacheInsert_safe _ (ringsSafe_trans hx (processMessageRequest_safe D x _ hx.1))
      exact ringsSafe_trans h3 (requestRead_advance_safe s3 h3.1)
  · rw [← Option.some.inj hs']
    exact hx

/-- The loop of the request queue consumer, by its turns. -/
theorem notifyQueueConsumerLoop_succ (D : MptDefs) (alloc : Nat → Bool) (w fuel : Nat)
    (s : LSILOGICSCSI) :
    lsilogicNotifyQueueConsumerLoop D alloc w (fuel + 1) s
      = if s.enmState = LSILOGICSTATE.OPERATIONAL ∧ s.uRequestQueueNextAddressRead ≠ w then
          (lsilogicNotifyQueueConsumerTurn D alloc fuel s).bind
            (lsilogicNotifyQueueConsumerLoop D alloc w fuel)
        else
          some s := by
  rw [lsilogicNotifyQueueConsumerLoop]
  unfold lsilogicNotifyQueueConsumerTurn
  dsimp only
  split_ifs
  all_goals first
    | rfl
    | (split <;> rfl)

/-- The loop of the request queue consumer keeps the cursors in range. -/
theorem notifyQueueConsumerLoop_safe (D : MptDefs) (alloc : Nat → Bool) (w fuel : Nat) :
    ∀ s : LSILOGICSCSI, ringsInRange s →
      ∀ s', lsilogicNotifyQueueConsumerLoop D alloc w fuel s = some s' → ringsSafe s s' := by
  induction fuel with
  | zero =>
    intro s _ s' hs'
    cases hs'
  | succ fuel ih =>
    intro s h s' hs'
    rw [notifyQueueConsumerLoop_succ] at hs'
    split_ifs at hs'
    · cases ht : lsilogicNotifyQueueConsumerTurn D alloc fuel s with
      | none =>
        rw [ht] at hs'
        cases hs'
      | some t =>
        rw [ht] at hs'
        have h1 := notifyQueueConsumerTurn_safe D alloc fuel s h t ht
        exact ringsSafe_trans h1 (ih t h1.1 s' hs')
    · rw [← Option.some.inj hs']
      exact ringsSafe_refl s h

/-- The request queue consumer keeps the cursors in range. -/
theorem notifyQueueConsumer_safe (D : MptDefs) (alloc : Nat → Bool) (fuel : Nat)
    (s : LSILOGICSCSI) (h : ringsInRange s) :
    ∀ s', lsilogicNotifyQueueConsumer D alloc fuel s = some s' → ringsSafe s s' := by
  intro s' hs'
  have h0 : ringsSafe s { s with fNotificationSend := false } := ringsSafe_of_state _ _ h rfl
  exact ringsSafe_trans h0
    (notifyQueueConsumerLoop_safe D alloc s.uRequestQueueNextEntryFreeWrite fuel _ h0.1 s' hs')

end LsiLogic


namespace LsiLogic

set_option maxRecDepth 100000

/-! ## The retained arrays of a task state -/

/-- The function `lsilogicScatterGatherListAllocate` is its three statements,
one after the other, left at the first allocation that fails. -/
theorem scatterGatherListAllocate_eq (D : MptDefs) (alloc : Nat → Bool)
    (ts : LSILOGICTASKSTATE) (cSGList cSGInfo cbUnaligned : Nat) :
    lsilogicScatterGatherListAllocate D alloc ts cSGList cSGInfo cbUnaligned
      = if !(sgAllocateList D alloc ts cSGList).2 then
          ((sgAllocateList D alloc ts cSGList).1, VERR_NO_MEMORY)
        else if !(sgAllocateInfo D alloc (sgAllocateList D alloc ts cSGList).1 cSGInfo).2 then
          ((sgAllocateInfo D alloc (sgAllocateList D alloc ts cSGList).1 cSGInfo).1,
            VERR_NO_MEMORY)
        else
          sgAllocateBuffer alloc
            (sgAllocateInfo D alloc (sgAllocateList D alloc ts cSGList).1 cSGInfo).1
            cbUnaligned :=
  rfl

/-- The first statement: the list counter, the list capacity and the number of
list entries; the info array and the staging buffer are left alone. -/
theorem sgAllocateList_spec (D : MptDefs) (alloc : Nat → Bool) (ts : LSILOGICTASKSTATE)
    (cSGList : Nat) :
    ((sgAllocateList D alloc ts cSGList).1.cSGListTooBig
        = if ts.cSGListSize < cSGList then
            (if alloc (cSGList * D.sizeof_PDMDATASEG) then 0 else ts.cSGListTooBig)
          else if cSGList < ts.cSGListSize then u32 (ts.cSGListTooBig + 1)
          else 0)
      ∧ ((sgAllocateList D alloc ts cSGList).1.cSGListSize
        = if ts.cSGListSize < cSGList ∧ alloc (cSGList * D.sizeof_PDMDATASEG) = true then cSGList
          else ts.cSGListSize)
      ∧ ((sgAllocateList D alloc ts cSGList).2 = true →
          (sgAllocateList D alloc ts cSGList).1.cSGListEntries = cSGList
            ∧ cSGList ≤ (sgAllocateList D alloc ts cSGList).1.cSGListSize)
      ∧ (sgAllocateList D alloc ts cSGList).1.cSGInfoSize = ts.cSGInfoSize
      ∧ (sgAllocateList D alloc ts cSGList).1.cbBufferUnaligned = ts.cbBufferUnaligned := by
  unfold sgAllocateList
  by_cases h1 : ts.cSGListSize < cSGList
  · cases a1 : alloc (cSGList * D.sizeof_PDMDATASEG) <;> simp [h1, a1]
  · by_cases h1' : cSGList < ts.cSGListSize
    · simp [h1, h1']
      omega
    · simp [h1, h1']
      omega

/-- The second statement leaves the list array and the staging buffer alone;
when it succeeds the info entries are the requested ones and fit. -/
theorem sgAllocateInfo_spec (D : MptDefs) (alloc : Nat → Bool) (ts : LSILOGICTASKSTATE)
    (cSGInfo : Nat) :
    (sgAllocateInfo D alloc ts cSGInfo).1.cSGListTooBig = ts.cSGListTooBig
      ∧ (sgAllocateInfo D alloc ts cSGInfo).1.cSGListSize = ts.cSGListSize
      ∧ (sgAllocateInfo D alloc ts cSGInfo).1.cSGListEntries = ts.cSGListEntries
      ∧ (sgAllocateInfo D alloc ts cSGInfo).1.cbBufferUnaligned = ts.cbBufferUnaligned
      ∧ ((sgAllocateInfo D alloc ts cSGInfo).2 = true →
          (sgAllocateInfo D alloc ts cSGInfo).1.cSGInfoEntries = cSGInfo
            ∧ cSGInfo ≤ (sgAllocateInfo D alloc ts cSGInfo).1.cSGInfoSize) := by
  unfold sgAllocateInfo
  by_cases h1 : ts.cSGInfoSize < cSGInfo
  · cases a1 : alloc (cSGInfo * D.sizeof_LSILOGICTASKSTATESGENTRY) <;> simp [h1, a1]
  · by_cases h1' : cSGInfo < ts.cSGInfoSize
    · simp [h1, h1']
      omega
    · simp [h1, h1']
      omega

/-- The third statement leaves the two arrays alone; when it succeeds the
staging buffer is large enough. -/
theorem sgAllocateBuffer_spec (alloc : Nat → Bool) (ts : LSILOGICTASKSTATE)
    (cbUnaligned : Nat) :
    (sgAllocateBuffer alloc ts cbUnaligned).1.cSGListTooBig = ts.cSGListTooBig
      ∧ (sgAllocateBuffer alloc ts cbUnaligned).1.cSGListSize = ts.cSGListSize
      ∧ (sgAllocateBuffer alloc ts cbUnaligned).1.cSGListEntries = ts.cSGListEntries
      ∧ (sgAllocateBuffer alloc ts cbUnaligned).1.cSGInfoEntries = ts.cSGInfoEntries
      ∧ (sgAllocateBuffer alloc ts cbUnaligned).1.cSGInfoSize = ts.cSGInfoSize
      ∧ ((sgAllocateBuffer alloc ts cbUnaligned).2 = VINF_SUCCESS →
          cbUnaligned ≤ (sgAllocateBuffer alloc ts cbUnaligned).1.cbBufferUnaligned) := by
  have hne : VERR_NO_MEMORY ≠ VINF_SUCCESS := by decide
  unfold sgAllocateBuffer
  by_cases h1 : ts.cbBufferUnaligned < cbUnaligned
  · cases a1 : alloc cbUnaligned <;> simp [h1, hne]
  · simp [h1]
    omega

/-- The list counter and the list capacity are settled by the first statement. -/
theorem scatterGatherListAllocate_counter (D : MptDefs) (alloc : Nat → Bool)
    (ts : LSILOGICTASKSTATE) (cSGList cSGInfo cbUnaligned : Nat) :
    (lsilogicScatterGatherListAllocate D alloc ts cSGList cSGInfo cbUnaligned).1.cSGListTooBig
        = (sgAllocateList D alloc ts cSGList).1.cSGListTooBig
      ∧ (lsilogicScatterGatherListAllocate D alloc ts cSGList cSGInfo cbUnaligned).1.cSGListSize
        = (sgAllocateList D alloc ts cSGList).1.cSGListSize := by
  obtain ⟨i1, i2, -⟩ := sgAllocateInfo_spec D alloc (sgAllocateList D alloc ts cSGList).1 cSGInfo
  obtain ⟨b1, b2, -⟩ := sgAllocateBuffer_spec alloc
    (sgAllocateInfo D alloc (sgAllocateList D alloc ts cSGList).1 cSGInfo).1 cbUnaligned
  rw [scatterGatherListAllocate_eq]
  split_ifs
  · exact ⟨rfl, rfl⟩
  · exact ⟨i1, i2⟩
  · exact ⟨b1.trans i1, b2.trans i2⟩

/-- After a successful `lsilogicScatterGatherListAllocate` the entry counts are
the requested ones and fit the capacities, and the staging buffer is large
enough. -/
theorem scatterGatherListAllocate_sizes (D : MptDefs) (alloc : Nat → Bool)
    (ts : LSILOGICTASKSTATE) (cSGList cSGInfo cbUnaligned : Nat)
    (hrc : (lsilogicScatterGatherListAllocate D alloc ts cSGList cSGInfo cbUnaligned).2
      = VINF_SUCCESS) :
    (lsilogicScatterGatherListAllocate D alloc ts cSGList cSGInfo cbUnaligned).1.cSGListEntries
        = cSGList
      ∧ cSGList
        ≤ (lsilogicScatterGatherListAllocate D alloc ts cSGList cSGInfo cbUnaligned).1.cSGListSize
      ∧ (lsilogicScatterGatherListAllocate D alloc ts cSGList cSGInfo cbUnaligned).1.cSGInfoEntries
        = cSGInfo
      ∧ cSGInfo
        ≤ (lsilogicScatterGatherListAllocate D alloc ts cSGList cSGInfo cbUnaligned).1.cSGInfoSize
      ∧ cbUnaligned
        ≤ (lsilogicScatterGatherListAllocate D alloc ts cSGList cSGInfo cbUnaligned
          ).1.cbBufferUnaligned := by
  have hne : VERR_NO_MEMORY ≠ VINF_SUCCESS := by decide
  obtain ⟨-, -, l3, -, -⟩ := sgAllocateList_spec D alloc ts cSGList
  obtain ⟨-, i2, i3, -, i5⟩ :=
    sgAllocateInfo_spec D alloc (sgAllocateList D alloc ts cSGList).1 cSGInfo
  obtain ⟨-, b2, b3, b4, b5, b6⟩ := sgAllocateBuffer_spec alloc
    (sgAllocateInfo D alloc (sgAllocateList D alloc ts cSGList).1 cSGInfo).1 cbUnaligned
  rw [scatterGatherListAllocate_eq] at hrc ⊢
  split_ifs at hrc ⊢ with c1 c2
  · exact absurd hrc hne
  · exact absurd hrc hne
  · have d1 : (sgAllocateList D alloc ts cSGList).2 = true := by
      cases h : (sgAllocateList D alloc ts cSGList).2
      · rw [h] at c1
        exact absurd rfl c1
      · rfl
    have d2 : (sgAllocateInfo D alloc (sgAllocateList D alloc ts cSGList).1 cSGInfo).2 = true := by
      cases h : (sgAllocateInfo D alloc (sgAllocateList D alloc ts cSGList).1 cSGInfo).2
      · rw [h] at c2
        exact absurd rfl c2
      · rfl
    obtain ⟨l3a, l3b⟩ := l3 d1
    obtain ⟨i5a, i5b⟩ := i5 d2
    refine ⟨(b3.trans i3).trans l3a, ?_, b4.trans i5a, ?_, b6 hrc⟩
    · rw [b2, i2]
      exact l3b
    · rw [b5]
      exact i5b

/-- A run of requests each of which finds the list capacity strictly larger
than needed: every request increments the counter (a `uint32_t`) and keeps the
capacity. -/
theorem allocateRun_oversize (D : MptDefs) (alloc : Nat → Bool)
    (reqs : List (Nat × Nat × Nat)) :
    ∀ ts : LSILOGICTASKSTATE, ts.cSGListTooBig < 4294967296 →
      (∀ r ∈ reqs, r.1 < ts.cSGListSize) →
      (allocateRun D alloc ts reqs).cSGListTooBig = u32 (ts.cSGListTooBig + reqs.length)
        ∧ (allocateRun D alloc ts reqs).cSGListSize = ts.cSGListSize := by
  induction reqs with
  | nil =>
    intro ts htb _
    exact ⟨(u32_of_lt htb).symm, rfl⟩
  | cons r reqs ih =>
    intro ts _ h
    have hr : r.1 < ts.cSGListSize := h r (List.mem_cons_self _ _)
    obtain ⟨c1, c2⟩ := scatterGatherListAllocate_counter D alloc ts r.1 r.2.1 r.2.2
    obtain ⟨l1, l2, -⟩ := sgAllocateList_spec D alloc ts r.1
    have n1 : ¬ ts.cSGListSize < r.1 := by omega
    rw [if_neg n1, if_pos hr] at l1
    rw [if_neg (fun hh => n1 hh.1)] at l2
    obtain ⟨j1, j2⟩ := ih (lsilogicScatterGatherListAllocate D alloc ts r.1 r.2.1 r.2.2).1
      (by rw [c1, l1]; exact Nat.mod_lt _ (by decide))
      (fun x hx => by rw [c2, l2]; exact h x (List.mem_cons_of_mem _ hx))
    unfold allocateRun at j1 j2 ⊢
    rw [List.foldl_cons, j1, j2, c1, c2, l1, l2, List.length_cons, u32_add_u32]
    exact ⟨by congr 1; omega, rfl⟩

/-- The task state `lsilogicScatterGatherListDestroy` leaves behind. -/
theorem scatterGatherListDestroy_taskState (D : MptDefs) (s : LSILOGICSCSI)
    (ts : LSILOGICTASKSTATE) :
    (D.LSILOGIC_NR_OF_ALLOWED_BIGGER_LISTS ≤ ts.cSGListTooBig →
        (lsilogicScatterGatherListDestroy D s ts).2
          = { ts with
              cSGListSize := 0
              cSGInfoSize := 0
              cSGInfoEntries := 0
              cSGListTooBig := 0
              fSGListHeadNull := true
              pSGListHead := LSILOGICTASKSTATE.zero.pSGListHead
              fSGEntriesNull := true
              paSGEntries := LSILOGICTASKSTATE.zero.paSGEntries
              fBufferUnalignedNull := true
              pvBufferUnaligned := fun _ => 0
              cbBufferUnaligned := 0 })
      ∧ (ts.cSGListTooBig < D.LSILOGIC_NR_OF_ALLOWED_BIGGER_LISTS →
        (lsilogicScatterGatherListDestroy D s ts).2 = ts) := by
  unfold lsilogicScatterGatherListDestroy
  dsimp only
  constructor
  · intro h
    rw [if_pos h]
  · intro h
    rw [if_neg (by omega)]

/-- C33: retained-array shrink policy.  `lsilogicScatterGatherListAllocate`
sets `cSGListTooBig` to 0 when the retained list array is grown (its allocation
succeeding) or fits exactly, and increments it by one, as a `uint32_t`, when
the retained capacity is strictly larger than needed; the capacity changes only
when the array is grown.  So after a run of `k` consecutive requests that each
find the capacity strictly larger than needed the counter is its value before
the run plus `k` (modulo 2^32), that is `k` when the run follows a request
that grew the array or fitted.  `lsilogicScatterGatherListDestroy` frees the
list array, the info array and the staging buffer and sets their sizes and the
counter to 0 when `cSGListTooBig >= LSILOGIC_NR_OF_ALLOWED_BIGGER_LISTS`, and
leaves the task state as it is otherwise.  After every successful allocate
`cSGListEntries <= cSGListSize`, `cSGInfoEntries <= cSGInfoSize` and
`cbBufferUnaligned` is at least the requested staging size. -/
theorem C33_retained_array_policy (D : MptDefs) (alloc : Nat → Bool) (s : LSILOGICSCSI)
    (ts : LSILOGICTASKSTATE) (cSGList cSGInfo cbUnaligned : Nat) :
    (ts.cSGListSize < cSGList → alloc (cSGList * D.sizeof_PDMDATASEG) = true →
        (lsilogicScatterGatherListAllocate D alloc ts cSGList cSGInfo cbUnaligned
          ).1.cSGListTooBig = 0
        ∧ (lsilogicScatterGatherListAllocate D alloc ts cSGList cSGInfo cbUnaligned
          ).1.cSGListSize = cSGList)
      ∧ (ts.cSGListSize = cSGList →
        (lsilogicScatterGatherListAllocate D alloc ts cSGList cSGInfo cbUnaligned
          ).1.cSGListTooBig = 0
        ∧ (lsilogicScatterGatherListAllocate D alloc ts cSGList cSGInfo cbUnaligned
          ).1.cSGListSize = ts.cSGListSize)
      ∧ (cSGList < ts.cSGListSize →
        (lsilogicScatterGatherListAllocate D alloc ts cSGList cSGInfo cbUnaligned
          ).1.cSGListTooBig = u32 (ts.cSGListTooBig + 1)
        ∧ (ts.cSGListTooBig < 4294967295 →
          (lsilogicScatterGatherListAllocate D alloc ts cSGList cSGInfo cbUnaligned
            ).1.cSGListTooBig = ts.cSGListTooBig + 1)
        ∧ (lsilogicScatterGatherListAllocate D alloc ts cSGList cSGInfo cbUnaligned
          ).1.cSGListSize = ts.cSGListSize)
      ∧ (∀ reqs : List (Nat × Nat × Nat), ts.cSGListTooBig < 4294967296 →
          (∀ r ∈ reqs, r.1 < ts.cSGListSize) →
          (allocateRun D alloc ts reqs).cSGListTooBig = u32 (ts.cSGListTooBig + reqs.length)
            ∧ (allocateRun D alloc ts reqs).cSGListSize = ts.cSGListSize)
      ∧ (D.LSILOGIC_NR_OF_ALLOWED_BIGGER_LISTS ≤ ts.cSGListTooBig →
          (lsilogicScatterGatherListDestroy D s ts).2.fSGListHeadNull = true
            ∧ (lsilogicScatterGatherListDestroy D s ts).2.fSGEntriesNull = true
            ∧ (lsilogicScatterGatherListDestroy D s ts).2.fBufferUnalignedNull = true
            ∧ (lsilogicScatterGatherListDestroy D s ts).2.cSGListSize = 0
            ∧ (lsilogicScatterGatherListDestroy D s ts).2.cSGInfoSize = 0
            ∧ (lsilogicScatterGatherListDestroy D s ts).2.cbBufferUnaligned = 0
            ∧ (lsilogicScatterGatherListDestroy D s ts).2.cSGListTooBig = 0)
      ∧ (ts.cSGListTooBig < D.LSILOGIC_NR_OF_ALLOWED_BIGGER_LISTS →
          (lsilogicScatterGatherListDestroy D s ts).2 = ts)
      ∧ ((lsilogicScatterGatherListAllocate D alloc ts cSGList cSGInfo cbUnaligned).2
            = VINF_SUCCESS →
          (lsilogicScatterGatherListAllocate D alloc ts cSGList cSGInfo cbUnaligned
              ).1.cSGListEntries
            ≤ (lsilogicScatterGatherListAllocate D alloc ts cSGList cSGInfo cbUnaligned
              ).1.cSGListSize
          ∧ (lsilogicScatterGatherListAllocate D alloc ts cSGList cSGInfo cbUnaligned
              ).1.cSGInfoEntries
            ≤ (lsilogicScatterGatherListAllocate D alloc ts cSGList cSGInfo cbUnaligned
              ).1.cSGInfoSize
          ∧ cbUnaligned
            ≤ (lsilogicScatterGatherListAllocate D alloc ts cSGList cSGInfo cbUnaligned
              ).1.cbBufferUnaligned) := by
  obtain ⟨c1, c2⟩ := scatterGatherListAllocate_counter D alloc ts cSGList cSGInfo cbUnaligned
  obtain ⟨l1, l2, -⟩ := sgAllocateList_spec D alloc ts cSGList
  obtain ⟨d1, d2⟩ := scatterGatherListDestroy_taskState D s ts
  refine ⟨fun h a => ?_, fun h => ?_, fun h => ?_,
    fun reqs htb h => allocateRun_oversize D alloc reqs ts htb h,
    fun h => ?_, d2, fun hrc => ?_⟩
  · rw [c1, c2, l1, l2, if_pos h, if_pos a, if_pos ⟨h, a⟩]
    exact ⟨rfl, rfl⟩
  · have n1 : ¬ ts.cSGListSize < cSGList := by omega
    have n2 : ¬ cSGList < ts.cSGListSize := by omega
    rw [c1, c2, l1, l2, if_neg n1, if_neg n2, if_neg (fun hh => n1 hh.1)]
    exact ⟨rfl, rfl⟩
  · have n1 : ¬ ts.cSGListSize < cSGList := by omega
    rw [c1, c2, l1, l2, if_neg n1, if_pos h, if_neg (fun hh => n1 hh.1)]
    exact ⟨rfl, fun hlt => u32_of_lt (by omega), rfl⟩
  · rw [d1 h]
    exact ⟨rfl, rfl, rfl, rfl, rfl, rfl, rfl⟩
  · obtain ⟨s1, s2, s3, s4, s5⟩ :=
      scatterGatherListAllocate_sizes D alloc ts cSGList cSGInfo cbUnaligned hrc
    exact ⟨by rw [s1]; exact s2, by rw [s3]; exact s4, s5⟩

/-- C33, evaluated: a fresh task state whose list array was grown to two
elements has the counter 0; three requests for one element each bring the
counter to 3, and `lsilogicScatterGatherListDestroy` retains the arrays; with
the counter at 100, the threshold of `mptDefs`, it frees them. -/
theorem C33_retained_array_policy_witness :
    exGrownTask.cSGListTooBig = 0
      ∧ exGrownTask.cSGListSize = 2
      ∧ (allocateRun mptDefs (fun _ => true) exGrownTask
          [(1, 1, 4), (1, 1, 4), (1, 1, 4)]).cSGListTooBig = 3
      ∧ (lsilogicScatterGatherListDestroy mptDefs exReady exGrownTask).2 = exGrownTask
      ∧ mptDefs.LSILOGIC_NR_OF_ALLOWED_BIGGER_LISTS = 100
      ∧ (lsilogicScatterGatherListDestroy mptDefs exReady
          { exGrownTask with cSGListTooBig := 100 }).2.cSGListSize = 0
      ∧ (lsilogicScatterGatherListDestroy mptDefs exReady
          { exGrownTask with cSGListTooBig := 100 }).2.fSGListHeadNull = true :=
  have h := C33_retained_array_policy mptDefs (fun _ => true) exReady exGrownTask 1 1 4
  have h' := C33_retained_array_policy mptDefs (fun _ => true) exReady
    { exGrownTask with cSGListTooBig := 100 } 1 1 4
  ⟨by decide, by decide,
   ((h.2.2.2.1 [(1, 1, 4), (1, 1, 4), (1, 1, 4)] (by decide) (by decide)).1).trans (by decide),
   h.2.2.2.2.2.1 (by decide), by decide,
   (h'.2.2.2.2.1 (by decide)).2.2.2.1, (h'.2.2.2.2.1 (by decide)).1⟩

end LsiLogic


namespace LsiLogic

set_option maxRecDepth 100000

/-! ## The scatter list handed to the backend -/

/-- The loop that constructs the scatter list, run over descriptor entries
that lie one behind the other in the staging buffer, the first of them right
behind the current segment: every entry is merged into the current segment. -/
theorem sgCoalesce_adjacent (pa : Nat → LSILOGICTASKSTATESGENTRY) (es : List MptSGEntryUnion) :
    ∀ (head : Nat → PDMDATASEG) (iSeg iInfo c pos : Nat),
      (List.range es.length).map (fun k => pa (iInfo + k)) = sgInfosOf pos es →
      (head iSeg).pvSeg + (head iSeg).cbSeg = pos →
      lsilogicSGCoalesce pa es.length head iSeg iInfo c
        = (fun j => if j = iSeg then
              { pvSeg := (head iSeg).pvSeg
                cbSeg := (head iSeg).cbSeg + fragmentsLength (es.map sgFragment) }
            else head j, c) := by
  induction es with
  | nil =>
    intro head iSeg iInfo c pos _ _
    rw [List.length_nil, lsilogicSGCoalesce]
    congr 1
    funext j
    split
    · rename_i hj
      rw [hj]
      rfl
    · rfl
  | cons e es ih =>
    intro head iSeg iInfo c pos hinfo hpos
    rw [List.length_cons, List.range_succ_eq_map, List.map_cons, List.map_map, sgInfosOf] at hinfo
    obtain ⟨h0, htail⟩ := List.cons.inj hinfo
    rw [Nat.add_zero] at h0
    have hpv : (pa iInfo).pvBuf = pos := by rw [h0]
    have hcb : (pa iInfo).cbBuf = e.u24Length := by rw [h0]
    have htail' : (List.range es.length).map (fun k => pa (iInfo + 1 + k))
        = sgInfosOf (pos + e.u24Length) es := by
      rw [← htail]
      apply List.map_congr_left
      intro k _
      simp only [Function.comp]
      congr 1
      omega
    have hstep : lsilogicSGCoalesce pa (es.length + 1) head iSeg iInfo c
        = lsilogicSGCoalesce pa es.length
            (fun j => if j = iSeg then
                { head iSeg with cbSeg := (head iSeg).cbSeg + (pa iInfo).cbBuf }
              else head j)
            iSeg (iInfo + 1) c := by
      rw [lsilogicSGCoalesce]
      dsimp only
      split_ifs with h1 h2
      · rfl
      · rfl
      · exact absurd (hpos.trans hpv.symm) h2
    rw [List.length_cons, hstep, ih _ iSeg (iInfo + 1) c (pos + e.u24Length) htail'
      (by simp only [if_true]; rw [hcb]; omega)]
    congr 1
    funext j
    by_cases hj : j = iSeg
    · simp only [hj, if_true, hcb, List.map_cons, fragmentsLength, List.sum_cons, sgFragment]
      congr 1
      omega
    · simp only [hj, if_false]

/-- The mapping pass leaves the sizes of the staging buffer and of the arrays
alone. -/
theorem mappingPass_sizes (mem : GuestMem) (es : List MptSGEntryUnion) (w : SGWalk) :
    (es.foldl (lsilogicSGProcessEntry mem true) w).pTaskState.cbBufferUnaligned
        = w.pTaskState.cbBufferUnaligned
      ∧ (es.foldl (lsilogicSGProcessEntry mem true) w).pbBufferUnalignedSGInfoPos
        = w.pbBufferUnalignedSGInfoPos + fragmentsLength (es.map sgFragment)
      ∧ (es.foldl (lsilogicSGProcessEntry mem true) w).pSGInfoCurr
        = w.pSGInfoCurr + es.length := by
  induction es generalizing w with
  | nil => exact ⟨rfl, rfl, rfl⟩
  | cons e es ih =>
    obtain ⟨h1, h2, h3⟩ := ih (lsilogicSGProcessEntry mem true w e)
    obtain ⟨s1, s2, -⟩ := mappingPass_step mem w e
    have s0 : (lsilogicSGProcessEntry mem true w e).pTaskState.cbBufferUnaligned
        = w.pTaskState.cbBufferUnaligned := by
      cases hd : e.fBufferContainsData <;> simp [lsilogicSGProcessEntry, hd]
    rw [List.foldl_cons]
    refine ⟨h1.trans s0, ?_, ?_⟩
    · rw [h2, s2]
      simp only [List.map_cons, fragmentsLength, List.sum_cons, sgFragment]
      omega
    · rw [h3, s1, List.length_cons]
      omega

/-- The counting pass keeps its byte counter a `uint32_t`. -/
theorem countingPass_bytes_lt (mem : GuestMem) (es : List MptSGEntryUnion) (w : SGWalk)
    (h0 : w.cbUnalignedComplete < 4294967296) :
    (es.foldl (lsilogicSGProcessEntry mem false) w).cbUnalignedComplete < 4294967296 := by
  induction es generalizing w with
  | nil => exact h0
  | cons e es ih =>
    apply ih
    simp only [lsilogicSGProcessEntry, Bool.false_eq_true, if_false, u32]
    omega

/-- Given enough fuel and successful allocations, `lsilogicScatterGatherListCreate`
on a chain returns `VINF_SUCCESS` with one descriptor entry per element, a
scatter list of one segment that spans all fragments, and a staging buffer of
at least the counted number of bytes. -/
theorem scatterGatherListCreate_of_chain_list (D : MptDefs) (alloc : Nat → Bool)
    (halloc : ∀ n, alloc n = true) (mem : GuestMem) (GCPhysSGLStart uChainOffset : Nat)
    (e : MptSGEntryUnion) (es : List MptSGEntryUnion)
    (h : SGChain D mem GCPhysSGLStart GCPhysSGLStart uChainOffset (e :: es))
    (hlen : (e :: es).length < 4294967296) :
    ∃ f0, ∀ fuel, f0 ≤ fuel → ∀ ts : LSILOGICTASKSTATE, ∃ t,
      lsilogicScatterGatherListCreate D alloc fuel mem ts GCPhysSGLStart uChainOffset
          = some (t, VINF_SUCCESS)
        ∧ t.cSGInfoEntries = (e :: es).length
        ∧ (List.range (e :: es).length).map t.paSGEntries = sgInfosOf 0 (e :: es)
        ∧ t.cSGListEntries = 1
        ∧ t.pSGListHead 0
            = { pvSeg := 0, cbSeg := fragmentsLength ((e :: es).map sgFragment) }
        ∧ u32 (fragmentsLength ((e :: es).map sgFragment)) ≤ t.cbBufferUnaligned := by
  obtain ⟨f1, hf1⟩ := sgContinue_of_chain D mem false _ _ _ (e :: es) h
  obtain ⟨f2, hf2⟩ := sgContinue_of_chain D mem true _ _ _ (e :: es) h
  refine ⟨max f1 f2 + 1, fun fuel hfuel ts => ?_⟩
  obtain ⟨g, rfl⟩ : ∃ g, fuel = g + 1 := ⟨fuel - 1, by omega⟩
  have hg1 : f1 ≤ g := by omega
  have hg2 : f2 ≤ g := by omega
  obtain ⟨w1, hw1, hacc1⟩ := hf1
    { pTaskState := ts
      cSGInfo := 0
      cbUnalignedComplete := 0
      pSGInfoCurr := 0
      pbBufferUnalignedSGInfoPos := 0
      fEndOfList := false
      GCPhysSGEntryNext := GCPhysSGLStart
      GCPhysSegmentStart := GCPhysSGLStart
      uChainOffsetNext := uChainOffset } rfl rfl rfl rfl g hg1 g hg1
  obtain ⟨c1, c2, c3⟩ := countingPass_fold mem (e :: es)
    { pTaskState := ts
      cSGInfo := 0
      cbUnalignedComplete := 0
      pSGInfoCurr := 0
      pbBufferUnalignedSGInfoPos := 0
      fEndOfList := false
      GCPhysSGEntryNext := GCPhysSGLStart
      GCPhysSegmentStart := GCPhysSGLStart
      uChainOffsetNext := uChainOffset }
  have c2lt := countingPass_fold_lt mem (e :: es)
    { pTaskState := ts
      cSGInfo := 0
      cbUnalignedComplete := 0
      pSGInfoCurr := 0
      pbBufferUnalignedSGInfoPos := 0
      fEndOfList := false
      GCPhysSGEntryNext := GCPhysSGLStart
      GCPhysSegmentStart := GCPhysSGLStart
      uChainOffsetNext := uChainOffset } (by show (0 : Nat) < 4294967296; decide)
  have c3lt := countingPass_bytes_lt mem (e :: es)
    { pTaskState := ts
      cSGInfo := 0
      cbUnalignedComplete := 0
      pSGInfoCurr := 0
      pbBufferUnalignedSGInfoPos := 0
      fEndOfList := false
      GCPhysSGEntryNext := GCPhysSGLStart
      GCPhysSegmentStart := GCPhysSGLStart
      uChainOffsetNext := uChainOffset } (by show (0 : Nat) < 4294967296; decide)
  have hcount : w1.cSGInfo = (e :: es).length := by
    rw [hacc1.2.1]
    rw [u32_of_lt c2lt] at c2
    rw [c2]
    show u32 (0 + (e :: es).length) = (e :: es).length
    rw [Nat.zero_add, u32_of_lt hlen]
  have hbytes : w1.cbUnalignedComplete = u32 (fragmentsLength ((e :: es).map sgFragment)) := by
    rw [hacc1.2.2.1]
    rw [u32_of_lt c3lt] at c3
    rw [c3]
    show u32 (0 + _) = _
    rw [Nat.zero_add]
  obtain ⟨a1, a2⟩ := scatterGatherListAllocate_ok D alloc halloc w1.pTaskState
    w1.cSGInfo w1.cSGInfo w1.cbUnalignedComplete
  obtain ⟨-, -, -, -, a5⟩ := scatterGatherListAllocate_sizes D alloc w1.pTaskState
    w1.cSGInfo w1.cSGInfo w1.cbUnalignedComplete a1
  obtain ⟨w3, hw3, hacc3⟩ := hf2
    { w1 with
      pTaskState :=
        { (lsilogicScatterGatherListAllocate D alloc w1.pTaskState
            w1.cSGInfo w1.cSGInfo w1.cbUnalignedComplete).1 with
          paSGEntries := fun j =>
            if j = 0 then
              { (lsilogicScatterGatherListAllocate D alloc w1.pTaskState
                  w1.cSGInfo w1.cSGInfo w1.cbUnalignedComplete).1.paSGEntries 0 with
                fGuestMemory := false }
            else
              (lsilogicScatterGatherListAllocate D alloc w1.pTaskState
                w1.cSGInfo w1.cSGInfo w1.cbUnalignedComplete).1.paSGEntries j }
      pSGInfoCurr := 0
      pbBufferUnalignedSGInfoPos := 0
      fEndOfList := false
      GCPhysSGEntryNext := GCPhysSGLStart
      GCPhysSegmentStart := GCPhysSGLStart
      uChainOffsetNext := uChainOffset } rfl rfl rfl rfl g hg2 g hg2
  have hfr := mappingPass_frame mem (e :: es)
    { w1 with
      pTaskState :=
        { (lsilogicScatterGatherListAllocate D alloc w1.pTaskState
            w1.cSGInfo w1.cSGInfo w1.cbUnalignedComplete).1 with
          paSGEntries := fun j =>
            if j = 0 then
              { (lsilogicScatterGatherListAllocate D alloc w1.pTaskState
                  w1.cSGInfo w1.cSGInfo w1.cbUnalignedComplete).1.paSGEntries 0 with
                fGuestMemory := false }
            else
              (lsilogicScatterGatherListAllocate D alloc w1.pTaskState
                w1.cSGInfo w1.cSGInfo w1.cbUnalignedComplete).1.paSGEntries j }
      pSGInfoCurr := 0
      pbBufferUnalignedSGInfoPos := 0
      fEndOfList := false
      GCPhysSGEntryNext := GCPhysSGLStart
      GCPhysSegmentStart := GCPhysSGLStart
      uChainOffsetNext := uChainOffset }
  have hent := mappingPass_entries mem (e :: es)
    { w1 with
      pTaskState :=
        { (lsilogicScatterGatherListAllocate D alloc w1.pTaskState
            w1.cSGInfo w1.cSGInfo w1.cbUnalignedComplete).1 with
          paSGEntries := fun j =>
            if j = 0 then
              { (lsilogicScatterGatherListAllocate D alloc w1.pTaskState
                  w1.cSGInfo w1.cSGInfo w1.cbUnalignedComplete).1.paSGEntries 0 with
                fGuestMemory := false }
            else
              (lsilogicScatterGatherListAllocate D alloc w1.pTaskState
                w1.cSGInfo w1.cSGInfo w1.cbUnalignedComplete).1.paSGEntries j }
      pSGInfoCurr := 0
      pbBufferUnalignedSGInfoPos := 0
      fEndOfList := false
      GCPhysSGEntryNext := GCPhysSGLStart
      GCPhysSegmentStart := GCPhysSGLStart
      uChainOffsetNext := uChainOffset }
  have hsz := mappingPass_sizes mem (e :: es)
    { w1 with
      pTaskState :=
        { (lsilogicScatterGatherListAllocate D alloc w1.pTaskState
            w1.cSGInfo w1.cSGInfo w1.cbUnalignedComplete).1 with
          paSGEntries := fun j =>
            if j = 0 then
              { (lsilogicScatterGatherListAllocate D alloc w1.pTaskState
                  w1.cSGInfo w1.cSGInfo w1.cbUnalignedComplete).1.paSGEntries 0 with
                fGuestMemory := false }
            else
              (lsilogicScatterGatherListAllocate D alloc w1.pTaskState
                w1.cSGInfo w1.cSGInfo w1.cbUnalignedComplete).1.paSGEntries j }
      pSGInfoCurr := 0
      pbBufferUnalignedSGInfoPos := 0
      fEndOfList := false
      GCPhysSGEntryNext := GCPhysSGLStart
      GCPhysSegmentStart := GCPhysSGLStart
      uChainOffsetNext := uChainOffset }
  rw [← hacc3.1] at hfr hent hsz
  have hn : w3.pTaskState.cSGInfoEntries = (e :: es).length :=
    (hfr.1.trans a2).trans hcount
  have hent0 : (List.range (e :: es).length).map w3.pTaskState.paSGEntries
      = sgInfosOf 0 (e :: es) := by
    simpa using hent
  have hent1 := hent0
  rw [List.length_cons, List.range_succ_eq_map, List.map_cons, List.map_map, sgInfosOf,
    Nat.zero_add] at hent1
  obtain ⟨p0, ptail⟩ := List.cons.inj hent1
  have ptail' : (List.range es.length).map (fun k => w3.pTaskState.paSGEntries (1 + k))
      = sgInfosOf e.u24Length es := by
    rw [← ptail]
    apply List.map_congr_left
    intro k _
    simp only [Function.comp]
    congr 1
    omega
  have hloop : u32 (w3.pTaskState.cSGInfoEntries + 4294967295) = es.length := by
    rw [hn, List.length_cons]
    rw [List.length_cons] at hlen
    unfold u32
    omega
  have hco := sgCoalesce_adjacent w3.pTaskState.paSGEntries es
    (fun j => if j = 0 then
        { pvSeg := (w3.pTaskState.paSGEntries 0).pvBuf
          cbSeg := (w3.pTaskState.paSGEntries 0).cbBuf }
      else w3.pTaskState.pSGListHead j)
    0 1 1 e.u24Length ptail' (by simp only [if_true]; rw [p0]; exact Nat.zero_add _)
  unfold lsilogicScatterGatherListCreate
  simp only [sgListLoop_succ, Bool.false_eq_true, if_false, hw1, hw3, a1, hloop, hco]
  refine ⟨_, rfl, hn, hent0, rfl, ?_, ?_⟩
  · simp only [if_true, p0, List.map_cons, fragmentsLength, List.sum_cons, sgFragment]
  · show _ ≤ w3.pTaskState.cbBufferUnaligned
    rw [hsz.1, ← hbytes]
    exact a5

/-- C31: coalescing result.  Let a chain of simple elements in guest memory
end (its last element is marked end-of-list, it contains no zero element) and
yield `n` descriptor entries, `1 <= n < 2^32`, and let the allocations succeed.
Then, given enough fuel, `lsilogicScatterGatherListCreate` returns
`VINF_SUCCESS` with `cSGInfoEntries = n` and a scatter list of exactly one
segment (`cSGListEntries = 1`); the segment starts at the beginning of the
staging buffer and its length is the sum of the `n` fragment lengths, because
the entries are staged one behind the other (entry `i` at the sum of the
lengths before it), so the loop that constructs the list merges every entry
into the first segment. -/
theorem C31_coalescing_result (D : MptDefs) (alloc : Nat → Bool) (mem : GuestMem)
    (GCPhysSGLStart uChainOffset : Nat) (es : List MptSGEntryUnion)
    (halloc : ∀ n, alloc n = true)
    (h : SGChain D mem GCPhysSGLStart GCPhysSGLStart uChainOffset es)
    (hlen : es.length < 4294967296) :
    1 ≤ es.length
      ∧ ∃ f0, ∀ fuel, f0 ≤ fuel → ∀ ts : LSILOGICTASKSTATE, ∃ t,
        lsilogicScatterGatherListCreate D alloc fuel mem ts GCPhysSGLStart uChainOffset
            = some (t, VINF_SUCCESS)
          ∧ t.cSGInfoEntries = es.length
          ∧ t.cSGListEntries = 1
          ∧ (t.pSGListHead 0).pvSeg = 0
          ∧ (t.pSGListHead 0).cbSeg = fragmentsLength (es.map sgFragment)
          ∧ (List.range es.length).map t.paSGEntries = sgInfosOf 0 es := by
  cases es with
  | nil => cases h
  | cons e es =>
    refine ⟨by rw [List.length_cons]; omega, ?_⟩
    obtain ⟨f0, hf0⟩ := scatterGatherListCreate_of_chain_list D alloc halloc mem GCPhysSGLStart
      uChainOffset e es h hlen
    refine ⟨f0, fun fuel hfuel ts => ?_⟩
    obtain ⟨t, h1, h2, h3, h4, h5, -⟩ := hf0 fuel hfuel ts
    exact ⟨t, h1, h2, h4, by rw [h5], by rw [h5], h3⟩

/-- C31, evaluated: the chain of two segments in `exSGMemA`, with fragments of
5 and 3 bytes, yields one segment of 8 bytes at the start of the staging
buffer. -/
theorem C31_coalescing_result_witness :
    (SGChain mptDefs exSGMemA 0x3000 0x3000 8 exSGChainA
      ∧ exSGChainA.map sgFragment = [(0x5000, 5), (0x6000, 3)])
    ∧ (lsilogicScatterGatherListCreate mptDefs (fun _ => true) 8 exSGMemA
          LSILOGICTASKSTATE.zero 0x3000 8).map
        (fun r => (r.2, r.1.cSGInfoEntries, r.1.cSGListEntries, r.1.pSGListHead 0))
      = some (VINF_SUCCESS, 2, 1, { pvSeg := 0, cbSeg := 8 })
    ∧ (1 ≤ exSGChainA.length
      ∧ ∃ f0, ∀ fuel, f0 ≤ fuel → ∀ ts : LSILOGICTASKSTATE, ∃ t,
        lsilogicScatterGatherListCreate mptDefs (fun _ => true) fuel exSGMemA ts 0x3000 8
            = some (t, VINF_SUCCESS)
          ∧ t.cSGInfoEntries = exSGChainA.length
          ∧ t.cSGListEntries = 1
          ∧ (t.pSGListHead 0).pvSeg = 0
          ∧ (t.pSGListHead 0).cbSeg = fragmentsLength (exSGChainA.map sgFragment)
          ∧ (List.range exSGChainA.length).map t.paSGEntries = sgInfosOf 0 exSGChainA) := by
  have hA : SGChain mptDefs exSGMemA 0x3000 0x3000 8 exSGChainA :=
    SGChain.nextSegment 0x3000 0x3000 8 [sgEntryAt mptDefs exSGMemA 0x4000]
      (by decide) (by decide) (by decide) (by decide)
      (SGChain.last 0x4000 0x4000 0 (by decide) (by decide))
  exact ⟨⟨hA, by decide⟩, by decide,
    C31_coalescing_result mptDefs (fun _ => true) exSGMemA 0x3000 8 exSGChainA
      (fun _ => rfl) hA (by decide)⟩

end LsiLogic


namespace LsiLogic

set_option maxRecDepth 100000

/-! ## Zero elements inside a chain -/

/-- The walk of a chain that meets a zero element returns there, given enough
fuel, with the task state that processing the elements before the zero element
leaves, its two entry counts set to 0. -/
theorem sgContinue_of_chainZ (D : MptDefs) (mem : GuestMem) (m : Bool)
    (next seg off : Nat) (es : List MptSGEntryUnion) (h : SGChainZ D mem next seg off es) :
    ∃ f0, ∀ w : SGWalk, w.GCPhysSGEntryNext = next → w.GCPhysSegmentStart = seg →
      w.uChainOffsetNext = off → w.fEndOfList = false →
      ∀ f1, f0 ≤ f1 → ∀ f2, f0 ≤ f2 →
        ∃ w' : SGWalk, sgContinue D mem m f1 f2 w
            = SGLoop.returned { w'.pTaskState with cSGListEntries := 0, cSGInfoEntries := 0 }
          ∧ w'.sameAcc (es.foldl (lsilogicSGProcessEntry mem m) w) := by
  induction h with
  | zero next seg off hz =>
    refine ⟨1, fun w hn hs ho hf f1 h1 f2 h2 => ?_⟩
    obtain ⟨g1, rfl⟩ := Nat.exists_eq_add_of_le h1
    subst hn
    rw [Nat.add_comm 1 g1]
    unfold sgContinue
    rw [sgSegmentLoop_zero D mem m g1 w hz]
    exact ⟨w, rfl, sameAcc_refl w⟩
  | inSegment next seg off es hz heol hlast _ ih =>
    obtain ⟨f0, hf0⟩ := ih
    refine ⟨f0 + 1, fun w hn hs ho hf f1 h1 f2 h2 => ?_⟩
    subst hn
    obtain ⟨g1, rfl⟩ := Nat.exists_eq_add_of_le h1
    obtain ⟨w', hw', hacc⟩ := hf0
      (lsilogicSGProcessEntry mem m
          { w with
            GCPhysSGEntryNext := w.GCPhysSGEntryNext
              + sgEntrySize D (sgEntryAt D mem w.GCPhysSGEntryNext) }
          (sgEntryAt D mem w.GCPhysSGEntryNext))
      (processEntry_pos mem m _ _).1
      ((processEntry_pos mem m _ _).2.1.trans hs)
      ((processEntry_pos mem m _ _).2.2.1.trans ho)
      ((processEntry_pos mem m _ _).2.2.2.trans hf)
      (f0 + g1) (Nat.le_add_right _ _) f2 (by omega)
    have e1 : f0 + 1 + g1 = (f0 + g1) + 1 := by omega
    rw [e1, sgContinue_succ D mem m _ _ w hz, heol, hlast]
    refine ⟨w', hw', sameAcc_trans hacc ?_⟩
    exact foldl_processEntry_sameAcc mem m es _ _
      (processEntry_sameAcc mem m _ w _ ⟨rfl, rfl, rfl, rfl, rfl⟩)
  | noChain next seg es hz heol hlast _ ih =>
    obtain ⟨f0, hf0⟩ := ih
    refine ⟨f0 + 1, fun w hn hs ho hf f1 h1 f2 h2 => ?_⟩
    subst hn
    have hp := processEntry_pos mem m
          { w with
            GCPhysSGEntryNext := w.GCPhysSGEntryNext
              + sgEntrySize D (sgEntryAt D mem w.GCPhysSGEntryNext) }
          (sgEntryAt D mem w.GCPhysSGEntryNext)
    have hnc : lsilogicSGNextChain D mem (lsilogicSGProcessEntry mem m
          { w with
            GCPhysSGEntryNext := w.GCPhysSGEntryNext
              + sgEntrySize D (sgEntryAt D mem w.GCPhysSGEntryNext) }
          (sgEntryAt D mem w.GCPhysSGEntryNext))
        = lsilogicSGProcessEntry mem m
          { w with
            GCPhysSGEntryNext := w.GCPhysSGEntryNext
              + sgEntrySize D (sgEntryAt D mem w.GCPhysSGEntryNext) }
          (sgEntryAt D mem w.GCPhysSGEntryNext) := by
      unfold lsilogicSGNextChain
      rw [if_neg]
      rw [hp.2.2.1]
      exact fun hne => hne ho
    obtain ⟨g1, rfl⟩ := Nat.exists_eq_add_of_le h1
    obtain ⟨g2, rfl⟩ := Nat.exists_eq_add_of_le h2
    obtain ⟨w', hw', hacc⟩ := hf0 _ hp.1 (hp.2.1.trans hs) (hp.2.2.1.trans ho)
      (hp.2.2.2.trans hf) (f0 + g2) (Nat.le_add_right _ _) (f0 + g2) (Nat.le_add_right _ _)
    have e1 : f0 + 1 + g1 = (f0 + g1) + 1 := by omega
    have e2 : f0 + 1 + g2 = (f0 + g2) + 1 := by omega
    rw [e1, e2, sgContinue_succ D mem m _ _ w hz]
    simp only [heol, hlast, Bool.false_eq_true, if_false, if_true]
    rw [hnc, sgListLoop_succ, if_neg (by rw [hp.2.2.2.trans hf]; exact Bool.false_ne_true)]
    refine ⟨w', hw', sameAcc_trans hacc ?_⟩
    exact foldl_processEntry_sameAcc mem m es _ _
      (processEntry_sameAcc mem m _ w _ ⟨rfl, rfl, rfl, rfl, rfl⟩)
  | nextSegment next seg off es hz heol hlast hoff _ ih =>
    obtain ⟨f0, hf0⟩ := ih
    refine ⟨f0 + 1, fun w hn hs ho hf f1 h1 f2 h2 => ?_⟩
    subst hn
    have hp := processEntry_pos mem m
          { w with
            GCPhysSGEntryNext := w.GCPhysSGEntryNext
              + sgEntrySize D (sgEntryAt D mem w.GCPhysSGEntryNext) }
          (sgEntryAt D mem w.GCPhysSGEntryNext)
    have hc := nextChain_sameAcc D mem (lsilogicSGProcessEntry mem m
          { w with
            GCPhysSGEntryNext := w.GCPhysSGEntryNext
              + sgEntrySize D (sgEntryAt D mem w.GCPhysSGEntryNext) }
          (sgEntryAt D mem w.GCPhysSGEntryNext))
    have hoff' : (lsilogicSGProcessEntry mem m
          { w with
            GCPhysSGEntryNext := w.GCPhysSGEntryNext
              + sgEntrySize D (sgEntryAt D mem w.GCPhysSGEntryNext) }
          (sgEntryAt D mem w.GCPhysSGEntryNext)).uChainOffsetNext ≠ 0 := by
      rw [hp.2.2.1, ho]; exact hoff
    have hnext : (lsilogicSGNextChain D mem (lsilogicSGProcessEntry mem m
          { w with
            GCPhysSGEntryNext := w.GCPhysSGEntryNext
              + sgEntrySize D (sgEntryAt D mem w.GCPhysSGEntryNext) }
          (sgEntryAt D mem w.GCPhysSGEntryNext))).GCPhysSGEntryNext
          = sgChainAddress (sgChainAt D mem (seg + off))
        ∧ (lsilogicSGNextChain D mem (lsilogicSGProcessEntry mem m
          { w with
            GCPhysSGEntryNext := w.GCPhysSGEntryNext
              + sgEntrySize D (sgEntryAt D mem w.GCPhysSGEntryNext) }
          (sgEntryAt D mem w.GCPhysSGEntryNext))).GCPhysSegmentStart
          = sgChainAddress (sgChainAt D mem (seg + off))
        ∧ (lsilogicSGNextChain D mem (lsilogicSGProcessEntry mem m
          { w with
            GCPhysSGEntryNext := w.GCPhysSGEntryNext
              + sgEntrySize D (sgEntryAt D mem w.GCPhysSGEntryNext) }
          (sgEntryAt D mem w.GCPhysSGEntryNext))).uChainOffsetNext
          = u32 (((sgChainAt D mem (seg + off)).u8NextChainOffset % 256) * 4) := by
      unfold lsilogicSGNextChain
      rw [if_pos hoff', hp.2.1, hp.2.2.1]
      subst hs ho
      exact ⟨rfl, rfl, rfl⟩
    obtain ⟨g1, rfl⟩ := Nat.exists_eq_add_of_le h1
    obtain ⟨g2, rfl⟩ := Nat.exists_eq_add_of_le h2
    obtain ⟨w', hw', hacc⟩ := hf0 _ hnext.1 hnext.2.1 hnext.2.2
      (hc.2.trans (hp.2.2.2.trans hf)) (f0 + g2) (Nat.le_add_right _ _) (f0 + g2)
      (Nat.le_add_right _ _)
    have e1 : f0 + 1 + g1 = (f0 + g1) + 1 := by omega
    have e2 : f0 + 1 + g2 = (f0 + g2) + 1 := by omega
    rw [e1, e2, sgContinue_succ D mem m _ _ w hz]
    simp only [heol, hlast, Bool.false_eq_true, if_false, if_true]
    rw [sgListLoop_succ,
      if_neg (by rw [hc.2.trans (hp.2.2.2.trans hf)]; exact Bool.false_ne_true)]
    refine ⟨w', hw', sameAcc_trans hacc ?_⟩
    refine foldl_processEntry_sameAcc mem m es _ _ (sameAcc_trans hc.1 ?_)
    exact processEntry_sameAcc mem m _ w _ ⟨rfl, rfl, rfl, rfl, rfl⟩


/-- On a chain that meets a zero element `lsilogicScatterGatherListCreate`
returns from its counting pass: `VINF_SUCCESS`, both entry counts 0, every
other member of the task state as it was. -/
theorem scatterGatherListCreate_of_chainZ (D : MptDefs) (alloc : Nat → Bool) (mem : GuestMem)
    (GCPhysSGLStart uChainOffset : Nat) (es : List MptSGEntryUnion)
    (h : SGChainZ D mem GCPhysSGLStart GCPhysSGLStart uChainOffset es) :
    ∃ f0, ∀ fuel, f0 ≤ fuel → ∀ ts : LSILOGICTASKSTATE,
      lsilogicScatterGatherListCreate D alloc fuel mem ts GCPhysSGLStart uChainOffset
        = some ({ ts with cSGListEntries := 0, cSGInfoEntries := 0 }, VINF_SUCCESS) := by
  obtain ⟨f1, hf1⟩ := sgContinue_of_chainZ D mem false _ _ _ es h
  refine ⟨f1 + 1, fun fuel hfuel ts => ?_⟩
  obtain ⟨g, rfl⟩ : ∃ g, fuel = g + 1 := ⟨fuel - 1, by omega⟩
  have hg1 : f1 ≤ g := by omega
  obtain ⟨w1, hw1, hacc1⟩ := hf1
    { pTaskState := ts
      cSGInfo := 0
      cbUnalignedComplete := 0
      pSGInfoCurr := 0
      pbBufferUnalignedSGInfoPos := 0
      fEndOfList := false
      GCPhysSGEntryNext := GCPhysSGLStart
      GCPhysSegmentStart := GCPhysSGLStart
      uChainOffsetNext := uChainOffset } rfl rfl rfl rfl g hg1 g hg1
  obtain ⟨c1, -, -⟩ := countingPass_fold mem es
    { pTaskState := ts
      cSGInfo := 0
      cbUnalignedComplete := 0
      pSGInfoCurr := 0
      pbBufferUnalignedSGInfoPos := 0
      fEndOfList := false
      GCPhysSGEntryNext := GCPhysSGLStart
      GCPhysSegmentStart := GCPhysSGLStart
      uChainOffsetNext := uChainOffset }
  have hts : w1.pTaskState = ts := hacc1.1.trans c1
  unfold lsilogicScatterGatherListCreate
  simp only [sgListLoop_succ, Bool.false_eq_true, if_false, hw1, hts]

/-- C36, where the claim fails: the chain at 0x3000 in `exSGMemZ` starts with
a simple element of 5 bytes (not end-of-list) and goes on with an element of
length 0 that has end-of-list and end-of-buffer set.  The walk ends, and
`lsilogicScatterGatherListCreate` on a fresh task state returns `VINF_SUCCESS`
with `cSGInfoEntries = 0`, `cSGListEntries = 0` and no staging buffer
(`cbBufferUnaligned = 0`, `pvBufferUnaligned` NULL). -/
theorem C36_leading_sentinel_counterexample :
    (sgEntryAt mptDefs exSGMemZ 0x3000).u24Length = 5
      ∧ (sgEntryAt mptDefs exSGMemZ 0x3000).fEndOfList = false
      ∧ (sgEntryAt mptDefs exSGMemZ 0x3000).fLastElement = false
      ∧ (sgEntryAt mptDefs exSGMemZ 0x3008).u24Length = 0
      ∧ (sgEntryAt mptDefs exSGMemZ 0x3008).fEndOfList = true
      ∧ (sgEntryAt mptDefs exSGMemZ 0x3008).fEndOfBuffer = true
      ∧ (lsilogicScatterGatherListCreate mptDefs (fun _ => true) 8 exSGMemZ
            LSILOGICTASKSTATE.zero 0x3000 0).map
          (fun r => (r.2, r.1.cSGInfoEntries, r.1.cSGListEntries, r.1.cbBufferUnaligned,
            r.1.fBufferUnalignedNull))
          = some (VINF_SUCCESS, 0, 0, 0, true) := by
  decide

/-- C36 (amended): the empty-transfer short-circuit applies to a zero element
at any position.  Let the first simple element `e` of a chain have non-zero
length.  If the chain ends with an element marked end-of-list and contains no
zero element (length 0 with end-of-list and end-of-buffer), has fewer than
2^32 elements and bytes, and the allocations succeed, then, given enough fuel,
`lsilogicScatterGatherListCreate` returns `VINF_SUCCESS` with `cSGInfoEntries
>= 1` and a staging buffer that covers the first fragment: the first entry is
staged at offset 0 with the length of `e`, which is non-zero and at most
`cbBufferUnaligned`.  If instead the walk meets a zero element behind `e`, then,
given enough fuel and whatever the allocator answers, the function returns
`VINF_SUCCESS` with `cSGInfoEntries = 0` and `cSGListEntries = 0` and leaves
every other member of the task state, the staging buffer among them, as it
was. -/
theorem C36_zero_element_anywhere (D : MptDefs) (alloc : Nat → Bool) (mem : GuestMem)
    (GCPhysSGLStart uChainOffset : Nat) (e : MptSGEntryUnion) (es : List MptSGEntryUnion)
    (hfirst : e.u24Length ≠ 0) :
    (SGChain D mem GCPhysSGLStart GCPhysSGLStart uChainOffset (e :: es) →
        (∀ n, alloc n = true) → (e :: es).length < 4294967296 →
        fragmentsLength ((e :: es).map sgFragment) < 4294967296 →
        ∃ f0, ∀ fuel, f0 ≤ fuel → ∀ ts : LSILOGICTASKSTATE, ∃ t,
          lsilogicScatterGatherListCreate D alloc fuel mem ts GCPhysSGLStart uChainOffset
              = some (t, VINF_SUCCESS)
            ∧ 1 ≤ t.cSGInfoEntries
            ∧ (t.paSGEntries 0).pvBuf = 0
            ∧ (t.paSGEntries 0).cbBuf = e.u24Length
            ∧ 0 < e.u24Length
            ∧ e.u24Length ≤ t.cbBufferUnaligned)
      ∧ (SGChainZ D mem GCPhysSGLStart GCPhysSGLStart uChainOffset (e :: es) →
        ∃ f0, ∀ fuel, f0 ≤ fuel → ∀ ts : LSILOGICTASKSTATE,
          lsilogicScatterGatherListCreate D alloc fuel mem ts GCPhysSGLStart uChainOffset
            = some ({ ts with cSGListEntries := 0, cSGInfoEntries := 0 }, VINF_SUCCESS)) := by
  refine ⟨fun h halloc hlen htotal => ?_, fun h =>
    scatterGatherListCreate_of_chainZ D alloc mem GCPhysSGLStart uChainOffset (e :: es) h⟩
  obtain ⟨f0, hf0⟩ := scatterGatherListCreate_of_chain_list D alloc halloc mem GCPhysSGLStart
    uChainOffset e es h hlen
  refine ⟨f0, fun fuel hfuel ts => ?_⟩
  obtain ⟨t, h1, h2, h3, -, -, h6⟩ := hf0 fuel hfuel ts
  rw [List.length_cons, List.range_succ_eq_map, List.map_cons, sgInfosOf] at h3
  obtain ⟨p0, -⟩ := List.cons.inj h3
  rw [u32_of_lt htotal] at h6
  have hle : e.u24Length ≤ fragmentsLength ((e :: es).map sgFragment) := by
    simp only [List.map_cons, fragmentsLength, List.sum_cons, sgFragment]
    omega
  exact ⟨t, h1, by rw [h2, List.length_cons]; omega, by rw [p0], by rw [p0],
    Nat.pos_of_ne_zero hfirst, le_trans hle h6⟩

/-- C36 (amended), evaluated: on the chain of `exSGMemZ`, a simple element of
5 bytes followed by a zero element, the function returns with no entries
whatever the allocator answers; on the chain of `exSGMemA`, without zero
element, the first fragment of 5 bytes is staged at offset 0 of a staging
buffer of 8 bytes. -/
theorem C36_zero_element_anywhere_witness :
    ((sgEntryAt mptDefs exSGMemZ 0x3000).u24Length ≠ 0
      ∧ SGChainZ mptDefs exSGMemZ 0x3000 0x3000 0 [sgEntryAt mptDefs exSGMemZ 0x3000]
      ∧ (sgEntryAt mptDefs exSGMemA 0x3000).u24Length ≠ 0
      ∧ SGChain mptDefs exSGMemA 0x3000 0x3000 8 exSGChainA)
    ∧ (∃ f0, ∀ fuel, f0 ≤ fuel → ∀ ts : LSILOGICTASKSTATE,
        lsilogicScatterGatherListCreate mptDefs (fun _ => false) fuel exSGMemZ ts 0x3000 0
          = some ({ ts with cSGListEntries := 0, cSGInfoEntries := 0 }, VINF_SUCCESS))
    ∧ (∃ f0, ∀ fuel, f0 ≤ fuel → ∀ ts : LSILOGICTASKSTATE, ∃ t,
        lsilogicScatterGatherListCreate mptDefs (fun _ => true) fuel exSGMemA ts 0x3000 8
            = some (t, VINF_SUCCESS)
          ∧ 1 ≤ t.cSGInfoEntries
          ∧ (t.paSGEntries 0).pvBuf = 0
          ∧ (t.paSGEntries 0).cbBuf = (sgEntryAt mptDefs exSGMemA 0x3000).u24Length
          ∧ 0 < (sgEntryAt mptDefs exSGMemA 0x3000).u24Length
          ∧ (sgEntryAt mptDefs exSGMemA 0x3000).u24Length ≤ t.cbBufferUnaligned)
    ∧ (lsilogicScatterGatherListCreate mptDefs (fun _ => true) 8 exSGMemA
          LSILOGICTASKSTATE.zero 0x3000 8).map
        (fun r => (r.2, r.1.cSGInfoEntries, (r.1.paSGEntries 0).cbBuf, r.1.cbBufferUnaligned))
      = some (VINF_SUCCESS, 2, 5, 8) := by
  have hZ : SGChainZ mptDefs exSGMemZ 0x3000 0x3000 0 [sgEntryAt mptDefs exSGMemZ 0x3000] :=
    SGChainZ.inSegment 0x3000 0x3000 0 [] (by decide) (by decide) (by decide)
      (SGChainZ.zero _ 0x3000 0 (by decide))
  have hA : SGChain mptDefs exSGMemA 0x3000 0x3000 8 exSGChainA :=
    SGChain.nextSegment 0x3000 0x3000 8 [sgEntryAt mptDefs exSGMemA 0x4000]
      (by decide) (by decide) (by decide) (by decide)
      (SGChain.last 0x4000 0x4000 0 (by decide) (by decide))
  exact ⟨⟨by decide, hZ, by decide, hA⟩,
    (C36_zero_element_anywhere mptDefs (fun _ => false) exSGMemZ 0x3000 0
      (sgEntryAt mptDefs exSGMemZ 0x3000) [] (by decide)).2 hZ,
    (C36_zero_element_anywhere mptDefs (fun _ => true) exSGMemA 0x3000 8
      (sgEntryAt mptDefs exSGMemA 0x3000) [sgEntryAt mptDefs exSGMemA 0x4000] (by decide)).1
      hA (fun _ => rfl) (by decide) (by decide),
    by decide⟩

end LsiLogic


namespace LsiLogic

set_option maxRecDepth 1000000

/-! ## The two passes over a long chain -/

/-- The staging slices of the descriptor entries lie one behind the other:
entry `i` starts where the entries before it end. -/
theorem sgInfosOf_consecutive (es : List MptSGEntryUnion) (pos : Nat) :
    (sgInfosOf pos es).length = es.length
      ∧ ∀ i, i < es.length →
        ((sgInfosOf pos es).map (fun x => x.pvBuf)).getD i 0
            = pos + fragmentsLength ((es.take i).map sgFragment)
          ∧ ((sgInfosOf pos es).map (fun x => x.cbBuf)).getD i 0
            = ((es.map sgFragment).map (fun f => f.2)).getD i 0 := by
  induction es generalizing pos with
  | nil => exact ⟨rfl, fun i hi => absurd hi (Nat.not_lt_zero _)⟩
  | cons e es ih =>
    obtain ⟨h1, h2⟩ := ih (pos + e.u24Length)
    refine ⟨by rw [sgInfosOf, List.length_cons, h1, List.length_cons], fun i hi => ?_⟩
    cases i with
    | zero => exact ⟨rfl, rfl⟩
    | succ i =>
      rw [List.length_cons] at hi
      obtain ⟨a, b⟩ := h2 i (by omega)
      constructor
      · simp only [sgInfosOf, List.map_cons, List.getD_cons_succ, List.take_succ_cons,
          fragmentsLength, List.sum_cons, sgFragment] at a ⊢
        rw [a]
        omega
      · simp only [sgInfosOf, List.map_cons, List.getD_cons_succ] at b ⊢
        exact b

/-- C32, refuted on the code: the chain at 0x3000 in `exSGMemLong` has 257
simple elements of 0xFFFFFF bytes each, the last one marked end-of-list, no
zero element.  The counting pass ends with `cSGInfo = 257` and, its byte
counter being a `uint32_t`, with `cbUnalignedComplete = 16776959`, which is
257 * 0xFFFFFF = 4311744255 modulo 2^32.  `lsilogicScatterGatherListCreate` on
a fresh task state allocates a staging buffer of 16776959 bytes and returns
`VINF_SUCCESS`; its mapping pass has filled the 257 entries with slices one
behind the other: entry 1 is the slice of 16777215 bytes at offset 16777215,
behind the end of the staging buffer, entry 256 the one at offset 4294967040,
and the single segment of the scatter list has 4311744255 bytes. -/
theorem C32_two_pass_consistency_counterexample :
    (sgEntryAt mptDefs exSGMemLong 0x3000).u24Length = 0xFFFFFF
      ∧ (sgEntryAt mptDefs exSGMemLong 0x3000).fEndOfList = false
      ∧ (sgEntryAt mptDefs exSGMemLong (0x3000 + 8 * 256)).u24Length = 0xFFFFFF
      ∧ (sgEntryAt mptDefs exSGMemLong (0x3000 + 8 * 256)).fEndOfList = true
      ∧ 257 * 0xFFFFFF = 4311744255
      ∧ u32 4311744255 = 16776959
      ∧ (lsilogicSGListLoop mptDefs exSGMemLong false 300
            { pTaskState := LSILOGICTASKSTATE.zero
              cSGInfo := 0
              cbUnalignedComplete := 0
              pSGInfoCurr := 0
              pbBufferUnalignedSGInfoPos := 0
              fEndOfList := false
              GCPhysSGEntryNext := 0x3000
              GCPhysSegmentStart := 0x3000
              uChainOffsetNext := 0 }).counters
          = some (257, 16776959, 0, 0)
      ∧ (lsilogicScatterGatherListCreate mptDefs (fun _ => true) 300 exSGMemLong
            LSILOGICTASKSTATE.zero 0x3000 0).map
          (fun r => (r.2, [r.1.cSGInfoEntries, r.1.cbBufferUnaligned,
            (r.1.paSGEntries 1).pvBuf, (r.1.paSGEntries 1).cbBuf,
            (r.1.paSGEntries 256).pvBuf, (r.1.paSGEntries 256).cbBuf,
            r.1.cSGListEntries, (r.1.pSGListHead 0).cbSeg]))
          = some (VINF_SUCCESS, [257, 16776959, 16777215, 16777215, 4294967040, 16777215, 1,
              4311744255]) := by
  refine ⟨by decide, by decide, by decide, by decide, by decide, by decide, by decide,
    by decide⟩

end LsiLogic


namespace LsiLogic

set_option maxRecDepth 100000

/-! ## SCSI I/O requests: when the walk of the scatter/gather list returns -/

/-- On a chain that ends `lsilogicScatterGatherListCreate` returns, given enough
fuel, whatever the allocations yield. -/
theorem scatterGatherListCreate_returns (D : MptDefs) (mem : GuestMem)
    (GCPhysSGLStart uChainOffset : Nat)
    (h : (∃ es, SGChain D mem GCPhysSGLStart GCPhysSGLStart uChainOffset es)
      ∨ (∃ es, SGChainZ D mem GCPhysSGLStart GCPhysSGLStart uChainOffset es)) :
    ∃ f0, ∀ fuel, f0 ≤ fuel → ∀ (alloc : Nat → Bool) (ts : LSILOGICTASKSTATE),
      ∃ r, lsilogicScatterGatherListCreate D alloc fuel mem ts GCPhysSGLStart uChainOffset
        = some r := by
  rcases h with ⟨es, h⟩ | ⟨es, h⟩
  · obtain ⟨f1, hf1⟩ := sgContinue_of_chain D mem false _ _ _ es h
    obtain ⟨f2, hf2⟩ := sgContinue_of_chain D mem true _ _ _ es h
    refine ⟨max f1 f2 + 1, fun fuel hfuel alloc ts => ?_⟩
    obtain ⟨g, rfl⟩ : ∃ g, fuel = g + 1 := ⟨fuel - 1, by omega⟩
    have hg1 : f1 ≤ g := by omega
    have hg2 : f2 ≤ g := by omega
    obtain ⟨w1, hw1, -⟩ := hf1
      { pTaskState := ts
        cSGInfo := 0
        cbUnalignedComplete := 0
        pSGInfoCurr := 0
        pbBufferUnalignedSGInfoPos := 0
        fEndOfList := false
        GCPhysSGEntryNext := GCPhysSGLStart
        GCPhysSegmentStart := GCPhysSGLStart
        uChainOffsetNext := uChainOffset } rfl rfl rfl rfl g hg1 g hg1
    obtain ⟨w3, hw3, -⟩ := hf2
      { w1 with
        pTaskState :=
          { (lsilogicScatterGatherListAllocate D alloc w1.pTaskState
              w1.cSGInfo w1.cSGInfo w1.cbUnalignedComplete).1 with
            paSGEntries := fun j =>
              if j = 0 then
                { (lsilogicScatterGatherListAllocate D alloc w1.pTaskState
                    w1.cSGInfo w1.cSGInfo w1.cbUnalignedComplete).1.paSGEntries 0 with
                  fGuestMemory := false }
              else
                (lsilogicScatterGatherListAllocate D alloc w1.pTaskState
                  w1.cSGInfo w1.cSGInfo w1.cbUnalignedComplete).1.paSGEntries j }
        pSGInfoCurr := 0
        pbBufferUnalignedSGInfoPos := 0
        fEndOfList := false
        GCPhysSGEntryNext := GCPhysSGLStart
        GCPhysSegmentStart := GCPhysSGLStart
        uChainOffsetNext := uChainOffset } rfl rfl rfl rfl g hg2 g hg2
    unfold lsilogicScatterGatherListCreate
    simp only [sgListLoop_succ, Bool.false_eq_true, if_false, hw1, hw3]
    exact ⟨_, rfl⟩
  · obtain ⟨f1, hf1⟩ := sgContinue_of_chainZ D mem false _ _ _ es h
    refine ⟨f1 + 1, fun fuel hfuel alloc ts => ?_⟩
    obtain ⟨g, rfl⟩ : ∃ g, fuel = g + 1 := ⟨fuel - 1, by omega⟩
    have hg1 : f1 ≤ g := by omega
    obtain ⟨w1, hw1, -⟩ := hf1
      { pTaskState := ts
        cSGInfo := 0
        cbUnalignedComplete := 0
        pSGInfoCurr := 0
        pbBufferUnalignedSGInfoPos := 0
        fEndOfList := false
        GCPhysSGEntryNext := GCPhysSGLStart
        GCPhysSegmentStart := GCPhysSGLStart
        uChainOffsetNext := uChainOffset } rfl rfl rfl rfl g hg1 g hg1
    unfold lsilogicScatterGatherListCreate
    simp only [sgListLoop_succ, Bool.false_eq_true, if_false, hw1]
    exact ⟨_, rfl⟩

/-- A walk that does not run out of fuel is on a chain that ends. -/
theorem sgContinue_ends (D : MptDefs) (mem : GuestMem) (m : Bool) :
    ∀ (f2 f1 : Nat) (w : SGWalk), w.fEndOfList = false →
      sgContinue D mem m f1 f2 w ≠ SGLoop.outOfFuel →
      (∃ es, SGChain D mem w.GCPhysSGEntryNext w.GCPhysSegmentStart w.uChainOffsetNext es)
        ∨ (∃ es, SGChainZ D mem w.GCPhysSGEntryNext w.GCPhysSegmentStart
            w.uChainOffsetNext es) := by
  intro f2
  induction f2 using Nat.strong_induction_on with
  | _ f2 ih2 =>
    intro f1
    induction f1 with
    | zero =>
      intro w _ h
      exact absurd rfl h
    | succ g ih1 =>
      intro w hf h
      by_cases hz : isZeroElement (sgEntryAt D mem w.GCPhysSGEntryNext)
      · exact Or.inr ⟨[], SGChainZ.zero _ _ _ hz⟩
      · rw [sgContinue_succ D mem m g f2 w hz] at h
        have hp := processEntry_pos mem m
          { w with
            GCPhysSGEntryNext := w.GCPhysSGEntryNext
              + sgEntrySize D (sgEntryAt D mem w.GCPhysSGEntryNext) }
          (sgEntryAt D mem w.GCPhysSGEntryNext)
        cases heol : (sgEntryAt D mem w.GCPhysSGEntryNext).fEndOfList
        · rw [heol] at h
          simp only [Bool.false_eq_true, if_false] at h
          cases hlast : (sgEntryAt D mem w.GCPhysSGEntryNext).fLastElement
          · rw [hlast] at h
            simp only [Bool.false_eq_true, if_false] at h
            rcases ih1 _ (hp.2.2.2.trans hf) h with ⟨es, hc⟩ | ⟨es, hc⟩
            · rw [hp.1, hp.2.1, hp.2.2.1] at hc
              exact Or.inl ⟨_, SGChain.inSegment _ _ _ es hz heol hlast hc⟩
            · rw [hp.1, hp.2.1, hp.2.2.1] at hc
              exact Or.inr ⟨_, SGChainZ.inSegment _ _ _ es hz heol hlast hc⟩
          · rw [hlast] at h
            simp only [if_true] at h
            have hc := nextChain_sameAcc D mem (lsilogicSGProcessEntry mem m
              { w with
                GCPhysSGEntryNext := w.GCPhysSGEntryNext
                  + sgEntrySize D (sgEntryAt D mem w.GCPhysSGEntryNext) }
              (sgEntryAt D mem w.GCPhysSGEntryNext))
            have hfe := hc.2.trans (hp.2.2.2.trans hf)
            cases f2 with
            | zero => exact absurd rfl h
            | succ k =>
              rw [sgListLoop_succ, if_neg (by rw [hfe]; exact Bool.false_ne_true)] at h
              have hrec := ih2 k (Nat.lt_succ_self k) k _ hfe h
              by_cases ho : w.uChainOffsetNext = 0
              · have hnc : lsilogicSGNextChain D mem (lsilogicSGProcessEntry mem m
                      { w with
                        GCPhysSGEntryNext := w.GCPhysSGEntryNext
                          + sgEntrySize D (sgEntryAt D mem w.GCPhysSGEntryNext) }
                      (sgEntryAt D mem w.GCPhysSGEntryNext))
                    = lsilogicSGProcessEntry mem m
                      { w with
                        GCPhysSGEntryNext := w.GCPhysSGEntryNext
                          + sgEntrySize D (sgEntryAt D mem w.GCPhysSGEntryNext) }
                      (sgEntryAt D mem w.GCPhysSGEntryNext) := by
                  unfold lsilogicSGNextChain
                  rw [if_neg]
                  rw [hp.2.2.1]
                  exact fun hne => hne ho
                rw [hnc, hp.1, hp.2.1, hp.2.2.1] at hrec
                rcases hrec with ⟨es, hc'⟩ | ⟨es, hc'⟩
                · have hc2 : SGChain D mem
                      (w.GCPhysSGEntryNext + sgEntrySize D (sgEntryAt D mem w.GCPhysSGEntryNext))
                      w.GCPhysSegmentStart 0 es := by
                    rw [← ho]; exact hc'
                  rw [ho]
                  exact Or.inl ⟨_, SGChain.noChain _ _ es hz heol hlast hc2⟩
                · have hc2 : SGChainZ D mem
                      (w.GCPhysSGEntryNext + sgEntrySize D (sgEntryAt D mem w.GCPhysSGEntryNext))
                      w.GCPhysSegmentStart 0 es := by
                    rw [← ho]; exact hc'
                  rw [ho]
                  exact Or.inr ⟨_, SGChainZ.noChain _ _ es hz heol hlast hc2⟩
              · have hoff' : (lsilogicSGProcessEntry mem m
                      { w with
                        GCPhysSGEntryNext := w.GCPhysSGEntryNext
                          + sgEntrySize D (sgEntryAt D mem w.GCPhysSGEntryNext) }
                      (sgEntryAt D mem w.GCPhysSGEntryNext)).uChainOffsetNext ≠ 0 := by
                  rw [hp.2.2.1]; exact ho
                have hnext : (lsilogicSGNextChain D mem (lsilogicSGProcessEntry mem m
                      { w with
                        GCPhysSGEntryNext := w.GCPhysSGEntryNext
                          + sgEntrySize D (sgEntryAt D mem w.GCPhysSGEntryNext) }
                      (sgEntryAt D mem w.GCPhysSGEntryNext))).GCPhysSGEntryNext
                      = sgChainAddress (sgChainAt D mem
                          (w.GCPhysSegmentStart + w.uChainOffsetNext))
                    ∧ (lsilogicSGNextChain D mem (lsilogicSGProcessEntry mem m
                      { w with
                        GCPhysSGEntryNext := w.GCPhysSGEntryNext
                          + sgEntrySize D (sgEntryAt D mem w.GCPhysSGEntryNext) }
                      (sgEntryAt D mem w.GCPhysSGEntryNext))).GCPhysSegmentStart
                      = sgChainAddress (sgChainAt D mem
                          (w.GCPhysSegmentStart + w.uChainOffsetNext))
                    ∧ (lsilogicSGNextChain D mem (lsilogicSGProcessEntry mem m
                      { w with
                        GCPhysSGEntryNext := w.GCPhysSGEntryNext
                          + sgEntrySize D (sgEntryAt D mem w.GCPhysSGEntryNext) }
                      (sgEntryAt D mem w.GCPhysSGEntryNext))).uChainOffsetNext
                      = u32 (((sgChainAt D mem
                          (w.GCPhysSegmentStart + w.uChainOffsetNext)).u8NextChainOffset
                            % 256) * 4) := by
                  unfold lsilogicSGNextChain
                  rw [if_pos hoff', hp.2.1, hp.2.2.1]
                  exact ⟨rfl, rfl, rfl⟩
                rw [hnext.1, hnext.2.1, hnext.2.2] at hrec
                rcases hrec with ⟨es, hc'⟩ | ⟨es, hc'⟩
                · exact Or.inl ⟨_, SGChain.nextSegment _ _ _ es hz heol hlast ho hc'⟩
                · exact Or.inr ⟨_, SGChainZ.nextSegment _ _ _ es hz heol hlast ho hc'⟩
        · exact Or.inl ⟨_, SGChain.last _ _ _ hz heol⟩

/-- When `lsilogicScatterGatherListCreate` returns, the chain it walked ends. -/
theorem scatterGatherListCreate_ends (D : MptDefs) (alloc : Nat → Bool) (fuel : Nat)
    (mem : GuestMem) (ts : LSILOGICTASKSTATE) (GCPhysSGLStart uChainOffset : Nat)
    (r : LSILOGICTASKSTATE × Int)
    (h : lsilogicScatterGatherListCreate D alloc fuel mem ts GCPhysSGLStart uChainOffset
      = some r) :
    (∃ es, SGChain D mem GCPhysSGLStart GCPhysSGLStart uChainOffset es)
      ∨ (∃ es, SGChainZ D mem GCPhysSGLStart GCPhysSGLStart uChainOffset es) := by
  cases fuel with
  | zero =>
    unfold lsilogicScatterGatherListCreate at h
    simp [lsilogicSGListLoop] at h
  | succ g =>
    have key : sgContinue D mem false g g
        { pTaskState := ts
          cSGInfo := 0
          cbUnalignedComplete := 0
          pSGInfoCurr := 0
          pbBufferUnalignedSGInfoPos := 0
          fEndOfList := false
          GCPhysSGEntryNext := GCPhysSGLStart
          GCPhysSegmentStart := GCPhysSGLStart
          uChainOffsetNext := uChainOffset } ≠ SGLoop.outOfFuel := by
      intro hc
      unfold lsilogicScatterGatherListCreate at h
      simp only [sgListLoop_succ, Bool.false_eq_true, if_false, hc] at h
      cases h
    exact sgContinue_ends D mem false g g _ rfl key

/-- A chain that runs in a circle: its segment holds one simple element, marked
last of the segment, and the chain element of the segment points back to the
segment.  The outer loop of `lsilogicScatterGatherListCreate` does not come to
an end on it, whatever the fuel. -/
theorem sgListLoop_cycle (D : MptDefs) (mem : GuestMem) (m : Bool) (a off : Nat)
    (hz : ¬ isZeroElement (sgEntryAt D mem a))
    (heol : (sgEntryAt D mem a).fEndOfList = false)
    (hlast : (sgEntryAt D mem a).fLastElement = true)
    (hoff : off ≠ 0)
    (haddr : sgChainAddress (sgChainAt D mem (a + off)) = a)
    (hnext : u32 (((sgChainAt D mem (a + off)).u8NextChainOffset % 256) * 4) = off) :
    ∀ (fuel : Nat) (w : SGWalk), w.GCPhysSGEntryNext = a → w.GCPhysSegmentStart = a →
      w.uChainOffsetNext = off → w.fEndOfList = false →
      lsilogicSGListLoop D mem m fuel w = SGLoop.outOfFuel := by
  intro fuel
  induction fuel with
  | zero =>
    intro w _ _ _ _
    rfl
  | succ n ih =>
    intro w hn hs ho hf
    rw [sgListLoop_succ, if_neg (by rw [hf]; exact Bool.false_ne_true)]
    cases n with
    | zero => rfl
    | succ k =>
      have hz' : ¬ isZeroElement (sgEntryAt D mem w.GCPhysSGEntryNext) := by
        rw [hn]; exact hz
      have heol' : (sgEntryAt D mem w.GCPhysSGEntryNext).fEndOfList = false := by
        rw [hn]; exact heol
      have hlast' : (sgEntryAt D mem w.GCPhysSGEntryNext).fLastElement = true := by
        rw [hn]; exact hlast
      have hp := processEntry_pos mem m
        { w with
          GCPhysSGEntryNext := w.GCPhysSGEntryNext
            + sgEntrySize D (sgEntryAt D mem w.GCPhysSGEntryNext) }
        (sgEntryAt D mem w.GCPhysSGEntryNext)
      have hc := nextChain_sameAcc D mem (lsilogicSGProcessEntry mem m
        { w with
          GCPhysSGEntryNext := w.GCPhysSGEntryNext
            + sgEntrySize D (sgEntryAt D mem w.GCPhysSGEntryNext) }
        (sgEntryAt D mem w.GCPhysSGEntryNext))
      have hoff' : (lsilogicSGProcessEntry mem m
            { w with
              GCPhysSGEntryNext := w.GCPhysSGEntryNext
                + sgEntrySize D (sgEntryAt D mem w.GCPhysSGEntryNext) }
            (sgEntryAt D mem w.GCPhysSGEntryNext)).uChainOffsetNext ≠ 0 := by
        rw [hp.2.2.1]
        show w.uChainOffsetNext ≠ 0
        rw [ho]
        exact hoff
      have hnx : (lsilogicSGNextChain D mem (lsilogicSGProcessEntry mem m
            { w with
              GCPhysSGEntryNext := w.GCPhysSGEntryNext
                + sgEntrySize D (sgEntryAt D mem w.GCPhysSGEntryNext) }
            (sgEntryAt D mem w.GCPhysSGEntryNext))).GCPhysSGEntryNext
            = sgChainAddress (sgChainAt D mem (w.GCPhysSegmentStart + w.uChainOffsetNext))
          ∧ (lsilogicSGNextChain D mem (lsilogicSGProcessEntry mem m
            { w with
              GCPhysSGEntryNext := w.GCPhysSGEntryNext
                + sgEntrySize D (sgEntryAt D mem w.GCPhysSGEntryNext) }
            (sgEntryAt D mem w.GCPhysSGEntryNext))).GCPhysSegmentStart
            = sgChainAddress (sgChainAt D mem (w.GCPhysSegmentStart + w.uChainOffsetNext))
          ∧ (lsilogicSGNextChain D mem (lsilogicSGProcessEntry mem m
            { w with
              GCPhysSGEntryNext := w.GCPhysSGEntryNext
                + sgEntrySize D (sgEntryAt D mem w.GCPhysSGEntryNext) }
            (sgEntryAt D mem w.GCPhysSGEntryNext))).uChainOffsetNext
            = u32 (((sgChainAt D mem
                (w.GCPhysSegmentStart + w.uChainOffsetNext)).u8NextChainOffset % 256) * 4) := by
        unfold lsilogicSGNextChain
        rw [if_pos hoff', hp.2.1, hp.2.2.1]
        exact ⟨rfl, rfl, rfl⟩
      have e1 : sgChainAddress (sgChainAt D mem (w.GCPhysSegmentStart + w.uChainOffsetNext))
          = a := by
        rw [hs, ho]; exact haddr
      have e2 : u32 (((sgChainAt D mem
            (w.GCPhysSegmentStart + w.uChainOffsetNext)).u8NextChainOffset % 256) * 4)
          = off := by
        rw [hs, ho]; exact hnext
      rw [sgContinue_succ D mem m k (k + 1) w hz', heol', hlast']
      simp only [Bool.false_eq_true, if_false, if_true]
      exact ih _ (hnx.1.trans e1) (hnx.2.1.trans e1) (hnx.2.2.trans e2)
        (hc.2.trans (hp.2.2.2.trans hf))

/-- `lsilogicProcessSCSIIORequest` returns only when its call of
`lsilogicScatterGatherListCreate` does. -/
theorem processSCSIIORequest_none (D : MptDefs) (alloc : Nat → Bool) (fuel : Nat)
    (s : LSILOGICSCSI) (ts : LSILOGICTASKSTATE)
    (h : scsiIOCreateSGList D alloc fuel s ts = none) :
    lsilogicProcessSCSIIORequest D alloc fuel s ts = none := by
  unfold scsiIOCreateSGList at h
  unfold lsilogicProcessSCSIIORequest
  simp only [h]

/-- On a request whose scatter/gather chain runs in a circle
`lsilogicProcessSCSIIORequest` does not return, whatever the fuel: it builds
the scatter/gather list before it looks at bus and target. -/
theorem processSCSIIORequest_cycle (D : MptDefs) (alloc : Nat → Bool) (s : LSILOGICSCSI)
    (ts : LSILOGICTASKSTATE)
    (hz : ¬ isZeroElement (sgEntryAt D s.mem (scsiIOSGLStart D ts)))
    (heol : (sgEntryAt D s.mem (scsiIOSGLStart D ts)).fEndOfList = false)
    (hlast : (sgEntryAt D s.mem (scsiIOSGLStart D ts)).fLastElement = true)
    (hoff : scsiIOChainOffset D ts ≠ 0)
    (haddr : sgChainAddress (sgChainAt D s.mem (scsiIOSGLStart D ts + scsiIOChainOffset D ts))
      = scsiIOSGLStart D ts)
    (hnext : u32 (((sgChainAt D s.mem
        (scsiIOSGLStart D ts + scsiIOChainOffset D ts)).u8NextChainOffset % 256) * 4)
      = scsiIOChainOffset D ts) (fuel : Nat) :
    lsilogicProcessSCSIIORequest D alloc fuel s ts = none := by
  apply processSCSIIORequest_none
  unfold scsiIOCreateSGList lsilogicScatterGatherListCreate
  have hloop := sgListLoop_cycle D s.mem false (scsiIOSGLStart D ts) (scsiIOChainOffset D ts)
    hz heol hlast hoff haddr hnext fuel
    { pTaskState := { ts with fBIOS := false }
      cSGInfo := 0
      cbUnalignedComplete := 0
      pSGInfoCurr := 0
      pbBufferUnalignedSGInfoPos := 0
      fEndOfList := false
      GCPhysSGEntryNext := scsiIOSGLStart D ts
      GCPhysSegmentStart := scsiIOSGLStart D ts
      uChainOffsetNext := scsiIOChainOffset D ts } rfl rfl rfl rfl
  unfold scsiIOSGLStart scsiIOChainOffset at hloop
  simp only [hloop]

/-- `lsilogicProcessSCSIIORequest` returns, given enough fuel, exactly on the
requests whose scatter/gather chain ends. -/
theorem processSCSIIORequest_returns_iff (D : MptDefs) (s : LSILOGICSCSI)
    (ts : LSILOGICTASKSTATE) :
    (scsiIOChainEnds D s ts →
        ∃ f0, ∀ fuel, f0 ≤ fuel → ∀ alloc : Nat → Bool,
          ∃ created, scsiIOCreateSGList D alloc fuel s ts = some created)
      ∧ (¬ scsiIOChainEnds D s ts →
          ∀ (alloc : Nat → Bool) (fuel : Nat),
            lsilogicProcessSCSIIORequest D alloc fuel s ts = none) := by
  refine ⟨fun hchain => ?_, fun hno alloc fuel => ?_⟩
  · obtain ⟨f0, hf0⟩ := scatterGatherListCreate_returns D s.mem (scsiIOSGLStart D ts)
      (scsiIOChainOffset D ts) hchain
    exact ⟨f0, fun fuel hfuel alloc => hf0 fuel hfuel alloc { ts with fBIOS := false }⟩
  · apply processSCSIIORequest_none
    cases hc : scsiIOCreateSGList D alloc fuel s ts with
    | none => rfl
    | some created =>
      exact absurd (scatterGatherListCreate_ends D alloc fuel s.mem { ts with fBIOS := false }
        (scsiIOSGLStart D ts) (scsiIOChainOffset D ts) created hc) hno

end LsiLogic


namespace LsiLogic

set_option maxRecDepth 100000

/-! ## SCSI I/O requests that are answered with an error reply -/

/-- C13, where the claim fails: the request `exScsiTask 3 0` addresses target 3
on bus 0 of a device without drivers, and its scatter/gather chain in
`exSGMemCyclic` runs in a circle: the simple element at 0x3000 (5 bytes, not
end-of-list) is the last of its segment, and the chain element at 0x3008 leads
back to 0x3000 with the next chain element again 8 bytes in.
`lsilogicProcessSCSIIORequest` walks the chain before it looks at the target
and does not return, whatever the fuel and the allocations: no error reply is
produced. -/
theorem C13_scsi_io_absent_device_counterexample :
    (mptDefs.decodeRequest (exScsiTask 3 0).GuestRequest).SCSIIO_u8Bus = 0
      ∧ (mptDefs.decodeRequest (exScsiTask 3 0).GuestRequest).SCSIIO_u8TargetID
          < mptDefs.LSILOGIC_DEVICES_MAX
      ∧ ((exDeviceWithMem exSGMemCyclic).aDeviceStates
          (mptDefs.decodeRequest (exScsiTask 3 0).GuestRequest).SCSIIO_u8TargetID).pDrvBase
          = false
      ∧ scsiIOSGLStart mptDefs (exScsiTask 3 0) = 0x3000
      ∧ scsiIOChainOffset mptDefs (exScsiTask 3 0) = 8
      ∧ (sgEntryAt mptDefs exSGMemCyclic 0x3000).u24Length = 5
      ∧ (sgEntryAt mptDefs exSGMemCyclic 0x3000).fEndOfList = false
      ∧ (sgEntryAt mptDefs exSGMemCyclic 0x3000).fLastElement = true
      ∧ sgChainAddress (sgChainAt mptDefs exSGMemCyclic 0x3008) = 0x3000
      ∧ (sgChainAt mptDefs exSGMemCyclic 0x3008).u8NextChainOffset = 2
      ∧ (∀ (alloc : Nat → Bool) (fuel : Nat),
          lsilogicProcessSCSIIORequest mptDefs alloc fuel (exDeviceWithMem exSGMemCyclic)
            (exScsiTask 3 0) = none) :=
  ⟨by decide, by decide, by decide, by decide, by decide, by decide, by decide, by decide,
   by decide, by decide,
   fun alloc fuel => processSCSIIORequest_cycle mptDefs alloc (exDeviceWithMem exSGMemCyclic)
     (exScsiTask 3 0) (by decide) (by decide) (by decide) (by decide) (by decide) (by decide)
     fuel⟩

/-- C13 as amended (SCSI I/O to an absent device): for every SCSI I/O request
with `u8Bus = 0` and `u8TargetID < LSILOGIC_DEVICES_MAX` whose target has no
driver attached (`pDrvBase == NULL`) and whose scatter/gather chain in guest
memory ends, `lsilogicProcessSCSIIORequest` returns, given enough fuel for the
walk of the chain and whatever the allocations yield, and produces an error
reply with `u16IOCStatus = DEVICE_NOT_THERE`, `u8SCSIStatus = SCSI_STATUS_OK`,
`u8SCSIState = TERMINATED`, the target ID, bus, function and message context of
the request and transfer and sense counts 0; it finishes the reply with
`lsilogicFinishAddressReply`, submits nothing to a driver (the submissions and
the device states are as before) and puts the task state into the task cache
once. -/
theorem C13_scsi_io_absent_device (D : MptDefs) (s : LSILOGICSCSI) (ts : LSILOGICTASKSTATE)
    (hbus : (D.decodeRequest ts.GuestRequest).SCSIIO_u8Bus = 0)
    (htarget : (D.decodeRequest ts.GuestRequest).SCSIIO_u8TargetID < D.LSILOGIC_DEVICES_MAX)
    (hdrv : (s.aDeviceStates (D.decodeRequest ts.GuestRequest).SCSIIO_u8TargetID).pDrvBase
      = false)
    (hchain : scsiIOChainEnds D s ts) :
    ∃ f0, ∀ fuel, f0 ≤ fuel → ∀ alloc : Nat → Bool,
      ∃ (created : LSILOGICTASKSTATE × Int) (reply : MptReplyUnion),
        scsiIOCreateSGList D alloc fuel s ts = some created
          ∧ lsilogicProcessSCSIIORequest D alloc fuel s ts
            = some (RTCacheInsert (lsilogicFinishAddressReply D s reply false)
                { created.1 with IOCReply := reply }, created.2)
          ∧ reply.SCSIIOError_u16IOCStatus = D.MPT_SCSI_IO_ERROR_IOCSTATUS_DEVICE_NOT_THERE
          ∧ reply.SCSIIOError_u8SCSIStatus = D.SCSI_STATUS_OK
          ∧ reply.SCSIIOError_u8SCSIState = D.MPT_SCSI_IO_ERROR_SCSI_STATE_TERMINATED
          ∧ reply.SCSIIOError_u8TargetID = (D.decodeRequest ts.GuestRequest).SCSIIO_u8TargetID
          ∧ reply.SCSIIOError_u8Bus = (D.decodeRequest ts.GuestRequest).SCSIIO_u8Bus
          ∧ reply.u8Function = (D.decodeRequest ts.GuestRequest).u8Function
          ∧ reply.u32MessageContext = (D.decodeRequest ts.GuestRequest).u32MessageContext
          ∧ reply.SCSIIOError_u32TransferCount = 0
          ∧ reply.SCSIIOError_u32SenseCount = 0
          ∧ (RTCacheInsert (lsilogicFinishAddressReply D s reply false)
              { created.1 with IOCReply := reply }).aSubmitted = s.aSubmitted
          ∧ (RTCacheInsert (lsilogicFinishAddressReply D s reply false)
              { created.1 with IOCReply := reply }).aDeviceStates = s.aDeviceStates
          ∧ (RTCacheInsert (lsilogicFinishAddressReply D s reply false)
              { created.1 with IOCReply := reply }).pTaskCache
            = { created.1 with IOCReply := reply } :: s.pTaskCache := by
  obtain ⟨f0, hf0⟩ := (processSCSIIORequest_returns_iff D s ts).1 hchain
  refine ⟨f0, fun fuel hfuel alloc => ?_⟩
  obtain ⟨created, hsg⟩ := hf0 fuel hfuel alloc
  have hrun := processSCSIIORequest_error D alloc fuel s ts created hsg
    (fun h => by rw [hdrv] at h; exact Bool.false_ne_true h.2.2)
  rw [if_pos ⟨htarget, hbus⟩] at hrun
  refine ⟨created, _, hsg, hrun, rfl, rfl, rfl, rfl, rfl, rfl, rfl, rfl, rfl, ?_, ?_, ?_⟩
  · exact (finishAddressReply_env D s _ false).2.1
  · exact (finishAddressReply_env D s _ false).2.2
  · show _ :: (lsilogicFinishAddressReply D s _ false).pTaskCache = _
    rw [(finishAddressReply_env D s _ false).1]

/-- C13 as amended, evaluated: a request for target 3 on bus 0 of a device
without drivers, with the scatter/gather chain of two segments in `exSGMemA`. -/
theorem C13_scsi_io_absent_device_witness :
    ((mptDefs.decodeRequest (exScsiTask 3 0).GuestRequest).SCSIIO_u8Bus = 0
      ∧ (mptDefs.decodeRequest (exScsiTask 3 0).GuestRequest).SCSIIO_u8TargetID
          < mptDefs.LSILOGIC_DEVICES_MAX
      ∧ ((exDeviceWithMem exSGMemA).aDeviceStates
          (mptDefs.decodeRequest (exScsiTask 3 0).GuestRequest).SCSIIO_u8TargetID).pDrvBase
          = false
      ∧ scsiIOChainEnds mptDefs (exDeviceWithMem exSGMemA) (exScsiTask 3 0))
    ∧ (∃ f0, ∀ fuel, f0 ≤ fuel → ∀ alloc : Nat → Bool,
        ∃ (created : LSILOGICTASKSTATE × Int) (reply : MptReplyUnion),
          lsilogicProcessSCSIIORequest mptDefs alloc fuel (exDeviceWithMem exSGMemA)
              (exScsiTask 3 0)
            = some (RTCacheInsert
                (lsilogicFinishAddressReply mptDefs (exDeviceWithMem exSGMemA) reply false)
                { created.1 with IOCReply := reply }, created.2)
          ∧ reply.SCSIIOError_u16IOCStatus
              = mptDefs.MPT_SCSI_IO_ERROR_IOCSTATUS_DEVICE_NOT_THERE
          ∧ reply.u32MessageContext = 0x12345678)
    ∧ (lsilogicProcessSCSIIORequest mptDefs (fun _ => true) 8 (exDeviceWithMem exSGMemA)
          (exScsiTask 3 0)).map
        (fun r => (r.2, r.1.aSubmitted.length,
          r.1.pTaskCache.map (fun t => [t.IOCReply.SCSIIOError_u16IOCStatus,
            t.IOCReply.SCSIIOError_u8SCSIStatus, t.IOCReply.SCSIIOError_u8SCSIState,
            t.IOCReply.SCSIIOError_u8TargetID, t.IOCReply.u32MessageContext])))
        = some (VINF_SUCCESS, 0, [[0x43, 0, 8, 3, 0x12345678]]) := by
  have hA : SGChain mptDefs exSGMemA 0x3000 0x3000 8 exSGChainA :=
    SGChain.nextSegment 0x3000 0x3000 8 [sgEntryAt mptDefs exSGMemA 0x4000]
      (by decide) (by decide) (by decide) (by decide)
      (SGChain.last 0x4000 0x4000 0 (by decide) (by decide))
  have e1 : scsiIOSGLStart mptDefs (exScsiTask 3 0) = 0x3000 := by decide
  have e2 : scsiIOChainOffset mptDefs (exScsiTask 3 0) = 8 := by decide
  have hchain : scsiIOChainEnds mptDefs (exDeviceWithMem exSGMemA) (exScsiTask 3 0) := by
    unfold scsiIOChainEnds
    rw [e1, e2]
    exact Or.inl ⟨_, hA⟩
  obtain ⟨f0, hf0⟩ := C13_scsi_io_absent_device mptDefs (exDeviceWithMem exSGMemA)
    (exScsiTask 3 0) (by decide) (by decide) (by decide) hchain
  refine ⟨⟨by decide, by decide, by decide, hchain⟩, ⟨f0, fun fuel hfuel alloc => ?_⟩,
    by decide⟩
  obtain ⟨created, reply, -, h1, h2, -, -, -, -, -, h8, -⟩ := hf0 fuel hfuel alloc
  refine ⟨created, reply, h1, h2, ?_⟩
  rw [h8]
  decide

/-- C14, where the claim fails: the requests `exScsiTask 3 1` (bus 1) and
`exScsiTask 20 0` (bus 0, target 20 of 16) come with the scatter/gather chain
of `exSGMemCyclic`, which runs in a circle: the simple element at 0x3000 (not
end-of-list) is the last of its segment, and the chain element at 0x3008 leads
back to 0x3000.  `lsilogicProcessSCSIIORequest` walks the chain before it looks
at bus and target and does not return, whatever the fuel and the allocations:
there is no error reply that could carry `INVALID_BUS` or `INVALID_TARGETID`. -/
theorem C14_scsi_io_out_of_range_counterexample :
    (mptDefs.decodeRequest (exScsiTask 3 1).GuestRequest).SCSIIO_u8Bus ≠ 0
      ∧ (mptDefs.decodeRequest (exScsiTask 20 0).GuestRequest).SCSIIO_u8Bus = 0
      ∧ mptDefs.LSILOGIC_DEVICES_MAX
          ≤ (mptDefs.decodeRequest (exScsiTask 20 0).GuestRequest).SCSIIO_u8TargetID
      ∧ (sgEntryAt mptDefs exSGMemCyclic 0x3000).fEndOfList = false
      ∧ (sgEntryAt mptDefs exSGMemCyclic 0x3000).fLastElement = true
      ∧ sgChainAddress (sgChainAt mptDefs exSGMemCyclic (0x3000 + 8)) = 0x3000
      ∧ (∀ (alloc : Nat → Bool) (fuel : Nat),
          lsilogicProcessSCSIIORequest mptDefs alloc fuel (exDeviceWithMem exSGMemCyclic)
            (exScsiTask 3 1) = none)
      ∧ (∀ (alloc : Nat → Bool) (fuel : Nat),
          lsilogicProcessSCSIIORequest mptDefs alloc fuel (exDeviceWithMem exSGMemCyclic)
            (exScsiTask 20 0) = none) :=
  ⟨by decide, by decide, by decide, by decide, by decide, by decide,
   fun alloc fuel => processSCSIIORequest_cycle mptDefs alloc (exDeviceWithMem exSGMemCyclic)
     (exScsiTask 3 1) (by decide) (by decide) (by decide) (by decide) (by decide) (by decide)
     fuel,
   fun alloc fuel => processSCSIIORequest_cycle mptDefs alloc (exDeviceWithMem exSGMemCyclic)
     (exScsiTask 20 0) (by decide) (by decide) (by decide) (by decide) (by decide) (by decide)
     fuel⟩

/-- C14 as amended (out-of-range target or bus): for every SCSI I/O request
whose scatter/gather chain in guest memory ends, `lsilogicProcessSCSIIORequest`
returns, given enough fuel for the walk of the chain and whatever the
allocations yield, with an error reply that carries `u16IOCStatus =
INVALID_BUS` when `u8Bus != 0`, and `INVALID_TARGETID` when `u8Bus = 0` and
`u8TargetID >= LSILOGIC_DEVICES_MAX`; in both cases `enmState` and
`u16IOCFaultCode` are unchanged, and no element of the device-state array is
accessed: the array is as before, and with any other array in its place the
outcome is the same. -/
theorem C14_scsi_io_out_of_range (D : MptDefs) (s : LSILOGICSCSI) (ts : LSILOGICTASKSTATE)
    (hrange : (D.decodeRequest ts.GuestRequest).SCSIIO_u8Bus ≠ 0
      ∨ D.LSILOGIC_DEVICES_MAX ≤ (D.decodeRequest ts.GuestRequest).SCSIIO_u8TargetID)
    (hchain : scsiIOChainEnds D s ts) :
    ∃ f0, ∀ fuel, f0 ≤ fuel → ∀ alloc : Nat → Bool,
      ∃ (created : LSILOGICTASKSTATE × Int) (reply : MptReplyUnion),
        scsiIOCreateSGList D alloc fuel s ts = some created
          ∧ lsilogicProcessSCSIIORequest D alloc fuel s ts
            = some (RTCacheInsert (lsilogicFinishAddressReply D s reply false)
                { created.1 with IOCReply := reply }, created.2)
          ∧ ((D.decodeRequest ts.GuestRequest).SCSIIO_u8Bus ≠ 0 →
              reply.SCSIIOError_u16IOCStatus = D.MPT_SCSI_IO_ERROR_IOCSTATUS_INVALID_BUS)
          ∧ ((D.decodeRequest ts.GuestRequest).SCSIIO_u8Bus = 0 →
              reply.SCSIIOError_u16IOCStatus
                = D.MPT_SCSI_IO_ERROR_IOCSTATUS_INVALID_TARGETID)
          ∧ (RTCacheInsert (lsilogicFinishAddressReply D s reply false)
              { created.1 with IOCReply := reply }).enmState = s.enmState
          ∧ (RTCacheInsert (lsilogicFinishAddressReply D s reply false)
              { created.1 with IOCReply := reply }).u16IOCFaultCode = s.u16IOCFaultCode
          ∧ (RTCacheInsert (lsilogicFinishAddressReply D s reply false)
              { created.1 with IOCReply := reply }).aDeviceStates = s.aDeviceStates
          ∧ ∀ devs : Nat → LSILOGICDEVICE,
              lsilogicProcessSCSIIORequest D alloc fuel { s with aDeviceStates := devs } ts
                = some ({ RTCacheInsert (lsilogicFinishAddressReply D s reply false)
                            { created.1 with IOCReply := reply } with aDeviceStates := devs },
                        created.2) := by
  have hno : ∀ devs : Nat → LSILOGICDEVICE,
      ¬ ((D.decodeRequest ts.GuestRequest).SCSIIO_u8TargetID < D.LSILOGIC_DEVICES_MAX
        ∧ (D.decodeRequest ts.GuestRequest).SCSIIO_u8Bus = 0
        ∧ (devs (D.decodeRequest ts.GuestRequest).SCSIIO_u8TargetID).pDrvBase = true) := by
    intro devs h
    rcases hrange with hb | ht
    · exact hb h.2.1
    · omega
  have hcond : ¬ ((D.decodeRequest ts.GuestRequest).SCSIIO_u8TargetID < D.LSILOGIC_DEVICES_MAX
      ∧ (D.decodeRequest ts.GuestRequest).SCSIIO_u8Bus = 0) := by
    intro h
    rcases hrange with hb | ht
    · exact hb h.2
    · omega
  obtain ⟨f0, hf0⟩ := (processSCSIIORequest_returns_iff D s ts).1 hchain
  refine ⟨f0, fun fuel hfuel alloc => ?_⟩
  obtain ⟨created, hsg⟩ := hf0 fuel hfuel alloc
  have hrun := processSCSIIORequest_error D alloc fuel s ts created hsg (hno s.aDeviceStates)
  rw [if_neg hcond] at hrun
  refine ⟨created, _, hsg, hrun, fun hb => ?_, fun hb => ?_, ?_, ?_, ?_, fun devs => ?_⟩
  · show (if _ then _ else _) = _
    rw [if_pos hb]
  · show (if _ then _ else _) = _
    rw [if_neg (fun h => h hb)]
  · exact (finishAddressReply_frame D s _ false).1
  · exact (finishAddressReply_frame D s _ false).2.1
  · exact (finishAddressReply_env D s _ false).2.2
  · have hrun' := processSCSIIORequest_error D alloc fuel { s with aDeviceStates := devs } ts
      created hsg (hno devs)
    rw [if_neg hcond] at hrun'
    rw [hrun', finishAddressReply_devices]
    rfl

/-- C14 as amended, evaluated: requests for target 20 on bus 0 and for target
3 on bus 1, with the scatter/gather chain of two segments in `exSGMemA`. -/
theorem C14_scsi_io_out_of_range_witness :
    ((mptDefs.LSILOGIC_DEVICES_MAX
          ≤ (mptDefs.decodeRequest (exScsiTask 20 0).GuestRequest).SCSIIO_u8TargetID)
      ∧ scsiIOChainEnds mptDefs (exDeviceWithMem exSGMemA) (exScsiTask 20 0))
    ∧ (∃ f0, ∀ fuel, f0 ≤ fuel → ∀ alloc : Nat → Bool,
        ∃ (created : LSILOGICTASKSTATE × Int) (reply : MptReplyUnion),
          lsilogicProcessSCSIIORequest mptDefs alloc fuel (exDeviceWithMem exSGMemA)
              (exScsiTask 20 0)
            = some (RTCacheInsert
                (lsilogicFinishAddressReply mptDefs (exDeviceWithMem exSGMemA) reply false)
                { created.1 with IOCReply := reply }, created.2)
          ∧ reply.SCSIIOError_u16IOCStatus
              = mptDefs.MPT_SCSI_IO_ERROR_IOCSTATUS_INVALID_TARGETID)
    ∧ (lsilogicProcessSCSIIORequest mptDefs (fun _ => true) 8 (exDeviceWithMem exSGMemA)
          (exScsiTask 20 0)).map
        (fun r => (r.1.enmState, r.1.u16IOCFaultCode,
          r.1.pTaskCache.map (fun t => t.IOCReply.SCSIIOError_u16IOCStatus)))
        = some (LSILOGICSTATE.READY, 0, [0x42])
    ∧ (lsilogicProcessSCSIIORequest mptDefs (fun _ => true) 8 (exDeviceWithMem exSGMemA)
          (exScsiTask 3 1)).map
        (fun r => (r.1.enmState, r.1.u16IOCFaultCode,
          r.1.pTaskCache.map (fun t => t.IOCReply.SCSIIOError_u16IOCStatus)))
        = some (LSILOGICSTATE.READY, 0, [0x41]) := by
  have hA : SGChain mptDefs exSGMemA 0x3000 0x3000 8 exSGChainA :=
    SGChain.nextSegment 0x3000 0x3000 8 [sgEntryAt mptDefs exSGMemA 0x4000]
      (by decide) (by decide) (by decide) (by decide)
      (SGChain.last 0x4000 0x4000 0 (by decide) (by decide))
  have e1 : scsiIOSGLStart mptDefs (exScsiTask 20 0) = 0x3000 := by decide
  have e2 : scsiIOChainOffset mptDefs (exScsiTask 20 0) = 8 := by decide
  have hchain : scsiIOChainEnds mptDefs (exDeviceWithMem exSGMemA) (exScsiTask 20 0) := by
    unfold scsiIOChainEnds
    rw [e1, e2]
    exact Or.inl ⟨_, hA⟩
  obtain ⟨f0, hf0⟩ := C14_scsi_io_out_of_range mptDefs (exDeviceWithMem exSGMemA)
    (exScsiTask 20 0) (Or.inr (by decide)) hchain
  refine ⟨⟨by decide, hchain⟩, ⟨f0, fun fuel hfuel alloc => ?_⟩, by decide, by decide⟩
  obtain ⟨created, reply, -, h1, -, h3, -⟩ := hf0 fuel hfuel alloc
  exact ⟨created, reply, h1, h3 (by decide)⟩

end LsiLogic
